import Mathlib

/-!
# The translation-layer swapchain (`libs/vkd3d/swapchain_new.c`)

A shallow embedding of `struct dxgi_vk_swap_chain` and of the code on it: the
client-side operations (`GetDesc`, `GetImage`, `GetFrameLatency`, `ChangeProperties`,
`SetFrameLatency`, `Present`, `CheckColorSpaceSupport`, `SetColorSpace`), the present
worker (`present_callback`, `present_iteration`, swapchain (re)creation and
destruction, format and present-mode selection, the latency signal) and one pass
of the waiter thread.

Conventions of the embedding.

* The C struct is a Lean structure with the same field names; the two anonymous
  sub-structs `present` and `user` become `present_state` and `user_state`.
* Machine integers are `Nat`; where the C code does arithmetic the width is
  written out (`% 2 ^ 32`, `% 2 ^ 64`). `HRESULT` and `VkResult` are `Int`.
* Fixed arrays of `DXGI_MAX_SWAP_CHAIN_BUFFERS` entries are functions on `Fin 16`;
  a pointer slot is an `Option` (`none` is `NULL`).
* A function that can hit an assertion failure, a read outside an array, a
  `NULL` dereference, a division by zero or a wait that never ends returns
  `Option`; `none` is that fault.
* Calls into collaborators outside the file (command queue, OS semaphore,
  allocator, Vulkan) are recorded in the ghost field `effects`, oldest first.
  Their results, where the code looks at them, are parameters.
* The threads are put side by side in `system_step`: a step is one client call (or
  one half of `Present`, which can block in its middle), one whole present
  callback, one pass of the waiter thread, or one completion event.
-/

namespace Vkd3d

/-! ## Constants of the headers -/

abbrev HRESULT := Int
abbrev VkResult := Int

def S_OK : HRESULT := 0
def E_INVALIDARG : HRESULT := 0x80070057 - 2 ^ 32
def E_OUTOFMEMORY : HRESULT := 0x8007000E - 2 ^ 32
def DXGI_ERROR_INVALID_CALL : HRESULT := 0x887A0001 - 2 ^ 32
def DXGI_STATUS_OCCLUDED : HRESULT := 0x087A0001

/-- The `FAILED` test of an `HRESULT`: the sign bit is set. -/
def FAILED (hr : HRESULT) : Bool := decide (hr < 0)

abbrev DXGI_MAX_SWAP_CHAIN_BUFFERS : Nat := 16

def DXGI_PRESENT_TEST : Nat := 1
def DXGI_SWAP_CHAIN_FLAG_FRAME_LATENCY_WAITABLE_OBJECT : Nat := 64
def DXGI_SWAP_CHAIN_COLOR_SPACE_SUPPORT_FLAG_PRESENT : Nat := 1

def DXGI_COLOR_SPACE_RGB_FULL_G22_NONE_P709 : Nat := 0
def DXGI_COLOR_SPACE_RGB_FULL_G10_NONE_P709 : Nat := 1
def DXGI_COLOR_SPACE_RGB_FULL_G2084_NONE_P2020 : Nat := 12

def VK_COLOR_SPACE_SRGB_NONLINEAR_KHR : Nat := 0
def VK_COLOR_SPACE_EXTENDED_SRGB_LINEAR_EXT : Nat := 1000104002
def VK_COLOR_SPACE_HDR10_ST2084_EXT : Nat := 1000104008

def VK_NULL_HANDLE : Nat := 0

def VK_SUCCESS : VkResult := 0
def VK_SUBOPTIMAL_KHR : VkResult := 1000001003
def VK_ERROR_OUT_OF_DATE_KHR : VkResult := -1000001004
def VK_ERROR_SURFACE_LOST_KHR : VkResult := -1000000000

def VK_PRESENT_MODE_IMMEDIATE_KHR : Nat := 0
def VK_PRESENT_MODE_MAILBOX_KHR : Nat := 1
def VK_PRESENT_MODE_FIFO_KHR : Nat := 2

def VK_FORMAT_UNDEFINED : Nat := 0
def VK_FORMAT_R8G8B8A8_UNORM : Nat := 37
def VK_FORMAT_B8G8R8A8_UNORM : Nat := 44
def VK_FORMAT_A8B8G8R8_UNORM_PACK32 : Nat := 51

def VK_SHARING_MODE_EXCLUSIVE : Nat := 0
def VK_IMAGE_USAGE_COLOR_ATTACHMENT_BIT : Nat := 16
def VK_COMPOSITE_ALPHA_OPAQUE_BIT_KHR : Nat := 1
def VK_SURFACE_TRANSFORM_IDENTITY_BIT_KHR : Nat := 1
def VK_TRUE : Nat := 1

def UINT32_MAX : Nat := 2 ^ 32 - 1
def DXGI_HDR_METADATA_TYPE_HDR10 : Nat := 1
def DEFAULT_FRAME_LATENCY : Nat := 3

/-! ## Data model -/

/-- The fields of `DXGI_SWAP_CHAIN_DESC1`. -/
structure DXGI_SWAP_CHAIN_DESC1 where
  Width : Nat
  Height : Nat
  Format : Nat
  Stereo : Nat
  SampleCount : Nat
  SampleQuality : Nat
  BufferUsage : Nat
  BufferCount : Nat
  Scaling : Nat
  SwapEffect : Nat
  AlphaMode : Nat
  Flags : Nat
deriving DecidableEq, Repr, Inhabited

/-- The fields of `DXGI_VK_HDR_METADATA` (its `HDR10` member flattened). -/
structure DXGI_VK_HDR_METADATA where
  Type_ : Nat
  RedPrimary : Nat × Nat
  GreenPrimary : Nat × Nat
  BluePrimary : Nat × Nat
  WhitePoint : Nat × Nat
  MaxMasteringLuminance : Nat
  MinMasteringLuminance : Nat
  MaxContentLightLevel : Nat
  MaxFrameAverageLightLevel : Nat
deriving DecidableEq, Repr, Inhabited

/-- The parts of `struct d3d12_resource` this file reads: the public `refcount`,
the private `internal_refcount`, `desc.Format`, `format->vk_format` and
`res.vk_image`. -/
structure d3d12_resource where
  refcount : Nat
  internal_refcount : Nat
  desc_Format : Nat
  vk_format : Nat
  vk_image : Nat
deriving DecidableEq, Repr, Inhabited

structure dxgi_vk_swap_chain_present_request where
  user_index : Nat
  dxgi_format : Nat
  dxgi_color_space_type : Nat
  dxgi_hdr_metadata : DXGI_VK_HDR_METADATA
  swap_interval : Nat
  modifies_hdr_metadata : Bool
deriving DecidableEq, Repr, Inhabited

structure VkExtent2D where
  width : Nat
  height : Nat
deriving DecidableEq, Repr, Inhabited

structure VkSurfaceCapabilitiesKHR where
  minImageCount : Nat
  maxImageCount : Nat
  currentExtent : VkExtent2D
  minImageExtent : VkExtent2D
  maxImageExtent : VkExtent2D
deriving DecidableEq, Repr, Inhabited

structure VkSurfaceFormatKHR where
  format : Nat
  colorSpace : Nat
deriving DecidableEq, Repr, Inhabited

/-- The worker-side sub-struct `present` (handles are `Nat`, `0` the null handle). -/
structure present_state where
  blit_count : Nat
  frame_latency_count : Nat
  present_id : Nat
  present_id_valid : Bool
  present_count : Nat
  vk_swapchain : Nat
  backbuffer_width : Nat
  backbuffer_height : Nat
  backbuffer_count : Nat
  backbuffer_format : Nat
  is_occlusion_state : Nat
  force_swapchain_recreation : Bool
  is_surface_lost : Bool
deriving DecidableEq, Repr, Inhabited

/-- The client-side sub-struct `user`. -/
structure user_state where
  backbuffers : Fin DXGI_MAX_SWAP_CHAIN_BUFFERS → Option d3d12_resource
  vk_image_views : Fin DXGI_MAX_SWAP_CHAIN_BUFFERS → Nat
  blit_count : Nat
  present_count : Nat
  index : Nat
  dxgi_color_space_type : Nat
  dxgi_hdr_metadata : DXGI_VK_HDR_METADATA
  modifies_hdr_metadata : Bool

/-- The fields of `VkSwapchainCreateInfoKHR` that `recreate_swapchain_in_present_task`
sets (the others are zeroed by `memset`). -/
structure VkSwapchainCreateInfoKHR where
  imageArrayLayers : Nat
  imageColorSpace : Nat
  imageFormat : Nat
  imageSharingMode : Nat
  imageUsage : Nat
  compositeAlpha : Nat
  preTransform : Nat
  presentMode : Nat
  clipped : Nat
  minImageCount : Nat
  imageExtent : VkExtent2D
deriving DecidableEq, Repr, Inhabited

/-- Calls into collaborators, as recorded in `effects`. The worker also records the
entry into `present_iteration` (with its `retry_counter`) and into
`recreate_swapchain_in_present_task` (with the swapchain handle it finds), and the
releases made by the waiter thread and by a completed latency-fence event. -/
inductive Effect where
  | enqueue_present_callback
  | wait_frame_latency_event
  | release_semaphore (count : Nat)
  | wait_blit_semaphore (value : Nat)
  | destroy_image_view (view : Nat)
  | create_committed (slot : Nat)
  | create_image_view (slot : Nat)
  | resource_decref (r : d3d12_resource)
  | query_interface (r : d3d12_resource)
  | present_iteration (retry_counter : Nat)
  | recreate_swapchain (vk_swapchain : Nat)
  | queue_wait_idle
  | drain_waiter
  | waiter_release (present_id : Nat)
  | destroy_swapchain (vk_swapchain : Nat)
  | get_surface_capabilities
  | create_swapchain (info : VkSwapchainCreateInfoKHR) (vr : VkResult)
  | acquire_next_image (vr : VkResult)
  | wait_acquire_fence
  | submit_blit (vr : VkResult)
  | queue_present (present_id : Option Nat) (vr : VkResult)
  | set_hdr_metadata
  | signal_blit_semaphore (value : Nat)
  | push_present_id (present_id : Nat)
  | signal_inline (value : Nat)
  | set_event_on_completion (value : Nat) (hr : HRESULT)
  | latency_event_release
deriving DecidableEq, Repr

structure dxgi_vk_swap_chain where
  desc : DXGI_SWAP_CHAIN_DESC1
  frame_latency : Nat
  present : present_state
  request : dxgi_vk_swap_chain_present_request
  request_ring : Fin DXGI_MAX_SWAP_CHAIN_BUFFERS → dxgi_vk_swap_chain_present_request
  user : user_state
  formats : List VkSurfaceFormatKHR
  wait_queue : List Nat
  wait_thread_active : Bool
  effects : List Effect

/-- Number of worker callbacks handed to `d3d12_command_queue_enqueue_callback`. -/
def enqueued_callbacks (l : List Effect) : Nat :=
  l.count Effect.enqueue_present_callback

/-- Units requested from `ReleaseSemaphore` on the latency semaphore, summed. -/
def released_units : List Effect → Nat
  | [] => 0
  | Effect.release_semaphore n :: l => n + released_units l
  | _ :: l => released_units l

/-- Reading `chain->user.backbuffers[i]` and following the pointer: `none` when `i`
is outside the array or the slot is `NULL`. -/
def user_backbuffer (chain : dxgi_vk_swap_chain) (i : Nat) : Option d3d12_resource :=
  if h : i < DXGI_MAX_SWAP_CHAIN_BUFFERS then chain.user.backbuffers ⟨i, h⟩ else none

/-- The ring slot `count % ARRAY_SIZE(chain->request_ring)`. -/
def ring_slot (count : Nat) : Fin DXGI_MAX_SWAP_CHAIN_BUFFERS :=
  ⟨count % DXGI_MAX_SWAP_CHAIN_BUFFERS, Nat.mod_lt _ (by decide)⟩

/-! ## Getters -/

def dxgi_vk_swap_chain_GetDesc (chain : dxgi_vk_swap_chain) : HRESULT × DXGI_SWAP_CHAIN_DESC1 :=
  (S_OK, chain.desc)

def dxgi_vk_swap_chain_GetImageIndex (chain : dxgi_vk_swap_chain) : Nat :=
  chain.user.index

def dxgi_vk_swap_chain_GetFrameLatency (chain : dxgi_vk_swap_chain) : Nat :=
  chain.frame_latency

/-! ## Present -/

def dxgi_vk_swap_chain_present_task_is_idle (chain : dxgi_vk_swap_chain) : Bool :=
  let presented_count := chain.present.present_count
  presented_count == chain.user.present_count

/-- The test on the surface capabilities returned by
`vkGetPhysicalDeviceSurfaceCapabilitiesKHR`, which is the parameter. -/
def dxgi_vk_swap_chain_is_occluded (surface_caps : VkSurfaceCapabilitiesKHR) : Bool :=
  surface_caps.maxImageExtent.width == 0 || surface_caps.maxImageExtent.height == 0

def dxgi_vk_swap_chain_present_is_occluded (chain : dxgi_vk_swap_chain)
    (surface_caps : VkSurfaceCapabilitiesKHR) : Bool × dxgi_vk_swap_chain :=
  if dxgi_vk_swap_chain_present_task_is_idle chain then
    let chain1 := { chain with present := { chain.present with
      is_occlusion_state := if dxgi_vk_swap_chain_is_occluded surface_caps then 1 else 0 } }
    (chain1.present.is_occlusion_state != 0, chain1)
  else
    (chain.present.is_occlusion_state != 0, chain)

/-- `Present`. `surface_caps` is what the surface reports if it is queried during
the call. The blocking `WaitForSingleObject` on the latency semaphore is recorded
as an effect; the call is taken to resume after it. -/
def dxgi_vk_swap_chain_Present (chain : dxgi_vk_swap_chain)
    (surface_caps : VkSurfaceCapabilitiesKHR) (SyncInterval PresentFlags : Nat) :
    Option (HRESULT × dxgi_vk_swap_chain) :=
  let (occluded, chain) := dxgi_vk_swap_chain_present_is_occluded chain surface_caps
  if occluded then some (DXGI_STATUS_OCCLUDED, chain)
  else if PresentFlags &&& DXGI_PRESENT_TEST ≠ 0 then some (S_OK, chain)
  else if ¬ (chain.user.index < chain.desc.BufferCount) then none
  else
    let present_count := (chain.user.present_count + 1) % 2 ^ 32
    match user_backbuffer chain chain.user.index with
    | none => none
    | some backbuffer =>
      let request : dxgi_vk_swap_chain_present_request :=
        { swap_interval := SyncInterval
          dxgi_format := backbuffer.desc_Format
          user_index := chain.user.index
          dxgi_color_space_type := chain.user.dxgi_color_space_type
          dxgi_hdr_metadata := chain.user.dxgi_hdr_metadata
          modifies_hdr_metadata := chain.user.modifies_hdr_metadata }
      let waits : List Effect :=
        if chain.desc.Flags &&& DXGI_SWAP_CHAIN_FLAG_FRAME_LATENCY_WAITABLE_OBJECT = 0
        then [Effect.wait_frame_latency_event] else []
      some (S_OK,
        { chain with
          request_ring := Function.update chain.request_ring (ring_slot present_count) request
          user := { chain.user with
            present_count := present_count
            modifies_hdr_metadata := false
            blit_count := (chain.user.blit_count + 1) % 2 ^ 64
            index := ((chain.user.index + 1) % 2 ^ 32) % chain.desc.BufferCount }
          effects := chain.effects ++ Effect.enqueue_present_callback :: waits })

/-! ## GetImage -/

/-- `GetImage`. `QueryInterface` stands for `ID3D12Resource2_QueryInterface`, which is
outside the file: from the resource it is called on, the `riid` and the present
content of `*object` it gives the result code, the new content of `*object` and
the resource with its reference counts as the call leaves them. -/
def dxgi_vk_swap_chain_GetImage
    (QueryInterface : d3d12_resource → Nat → Option Nat → HRESULT × Option Nat × d3d12_resource)
    (chain : dxgi_vk_swap_chain) (BufferId : Nat) (riid : Nat) (object : Option Nat) :
    Option (HRESULT × Option Nat × dxgi_vk_swap_chain) :=
  if BufferId ≥ chain.desc.BufferCount then some (E_INVALIDARG, object, chain)
  else if h : BufferId < DXGI_MAX_SWAP_CHAIN_BUFFERS then
    match chain.user.backbuffers ⟨BufferId, h⟩ with
    | none => none
    | some resource =>
      let (hr, object, resource1) := QueryInterface resource riid object
      some (hr, object,
        { chain with
          user := { chain.user with
            backbuffers := Function.update chain.user.backbuffers ⟨BufferId, h⟩ (some resource1) }
          effects := chain.effects ++ [Effect.query_interface resource] })
  else none

/-! ## ChangeProperties -/

/-- Results of the two fallible calls of the allocation loop, per slot:
`d3d12_resource_create_committed` (through `allocate_user_buffer`) and
`vkCreateImageView`. The resource or view of a failed call is not looked at. -/
structure alloc_env where
  create_committed : Fin DXGI_MAX_SWAP_CHAIN_BUFFERS → HRESULT × d3d12_resource
  create_image_view : Fin DXGI_MAX_SWAP_CHAIN_BUFFERS → VkResult × Nat

/-- Modelled from the spec: `vkd3d_resource_incref` is not in the file; it takes one
private reference (section 9: two independent reference counts per back buffer). -/
def vkd3d_resource_incref (r : d3d12_resource) : d3d12_resource :=
  { r with internal_refcount := r.internal_refcount + 1 }

/-- Modelled from the spec: `ID3D12Resource2_Release` is not in the file; it drops one
public reference (section 9: two independent reference counts per back buffer). -/
def ID3D12Resource2_Release (r : d3d12_resource) : d3d12_resource :=
  { r with refcount := r.refcount - 1 }

/-- The loop `for (i = 0; i < chain->desc.BufferCount; i++)` of
`reallocate_user_buffers`, over the slots still to do. The first component is
`some hr` when the loop left through `goto err` with `hr`. -/
def reallocate_allocate_loop (env : alloc_env) :
    List (Fin DXGI_MAX_SWAP_CHAIN_BUFFERS) → user_state → List Effect →
    Option HRESULT × user_state × List Effect
  | [], user, effects => (none, user, effects)
  | i :: rest, user, effects =>
    let (hr, resource) := env.create_committed i
    let effects := effects ++ [Effect.create_committed i.val]
    if FAILED hr then (some hr, user, effects)
    else
      let resource := ID3D12Resource2_Release (vkd3d_resource_incref resource)
      let user := { user with backbuffers := Function.update user.backbuffers i (some resource) }
      let (vr, view) := env.create_image_view i
      let effects := effects ++ [Effect.create_image_view i.val]
      if vr < 0 then (some E_OUTOFMEMORY, user, effects)
      else
        reallocate_allocate_loop env rest
          { user with vk_image_views := Function.update user.vk_image_views i view } effects

/-- The `vkd3d_resource_decref` calls of a loop over all slots that skips `NULL`. -/
def decref_all (slots : Fin DXGI_MAX_SWAP_CHAIN_BUFFERS → Option d3d12_resource) : List Effect :=
  (List.finRange DXGI_MAX_SWAP_CHAIN_BUFFERS).filterMap
    (fun i => (slots i).map Effect.resource_decref)

def dxgi_vk_swap_chain_reallocate_user_buffers (chain : dxgi_vk_swap_chain) (env : alloc_env) :
    HRESULT × dxgi_vk_swap_chain :=
  if chain.desc.BufferCount > DXGI_MAX_SWAP_CHAIN_BUFFERS then (E_INVALIDARG, chain)
  else
    let old_resources := chain.user.backbuffers
    let destroyed := (List.finRange DXGI_MAX_SWAP_CHAIN_BUFFERS).map
      (fun i => Effect.destroy_image_view (chain.user.vk_image_views i))
    let user0 := { chain.user with
      backbuffers := fun _ => none
      vk_image_views := fun _ => VK_NULL_HANDLE }
    match reallocate_allocate_loop env
        ((List.finRange DXGI_MAX_SWAP_CHAIN_BUFFERS).filter
          (fun i => decide (i.val < chain.desc.BufferCount)))
        user0 (chain.effects ++ destroyed) with
    | (none, user1, effects1) =>
      (S_OK, { chain with user := user1, effects := effects1 ++ decref_all old_resources })
    | (some hr, user1, effects1) =>
      (hr, { chain with
        user := { user1 with backbuffers := old_resources }
        effects := effects1 ++ decref_all user1.backbuffers })

/-- The loop of `ChangeProperties` over the public reference counts, from slot `i`
with `n` slots to go: `some true` when a slot with a non-zero `refcount` is found,
`none` when the read leaves the array or follows a `NULL` pointer. -/
def public_refs_outstanding (backbuffers : Fin DXGI_MAX_SWAP_CHAIN_BUFFERS → Option d3d12_resource) :
    Nat → Nat → Option Bool
  | 0, _ => some false
  | n + 1, i =>
    if h : i < DXGI_MAX_SWAP_CHAIN_BUFFERS then
      match backbuffers ⟨i, h⟩ with
      | none => none
      | some r => if r.refcount ≠ 0 then some true else public_refs_outstanding backbuffers n (i + 1)
    else none

def dxgi_vk_swap_chain_drain_user_images (chain : dxgi_vk_swap_chain) : dxgi_vk_swap_chain :=
  { chain with effects := chain.effects ++ [Effect.wait_blit_semaphore chain.user.blit_count] }

def dxgi_vk_swap_chain_ChangeProperties (chain : dxgi_vk_swap_chain)
    (pDesc : DXGI_SWAP_CHAIN_DESC1) (env : alloc_env) : Option (HRESULT × dxgi_vk_swap_chain) :=
  let old_desc := chain.desc
  match public_refs_outstanding chain.user.backbuffers chain.desc.BufferCount 0 with
  | none => none
  | some true => some (DXGI_ERROR_INVALID_CALL, chain)
  | some false =>
    let chain := { chain with desc := pDesc }
    if old_desc.Width = chain.desc.Width ∧
        old_desc.Height = chain.desc.Height ∧
        old_desc.BufferCount = chain.desc.BufferCount ∧
        old_desc.Format = chain.desc.Format ∧
        old_desc.Flags = chain.desc.Flags then
      some (S_OK, chain)
    else
      let chain := dxgi_vk_swap_chain_drain_user_images chain
      let (hr, chain) := dxgi_vk_swap_chain_reallocate_user_buffers chain env
      if FAILED hr then some (hr, { chain with desc := old_desc })
      else if chain.user.index ≥ chain.desc.BufferCount then
        some (S_OK, { chain with user := { chain.user with index := 0 } })
      else some (S_OK, chain)

/-! ## Frame latency -/

def dxgi_vk_swap_chain_SetFrameLatency (chain : dxgi_vk_swap_chain) (MaxLatency : Nat) :
    HRESULT × dxgi_vk_swap_chain :=
  if MaxLatency = 0 ∨ MaxLatency > DXGI_MAX_SWAP_CHAIN_BUFFERS then
    (DXGI_ERROR_INVALID_CALL, chain)
  else if chain.desc.Flags &&& DXGI_SWAP_CHAIN_FLAG_FRAME_LATENCY_WAITABLE_OBJECT = 0 then
    (DXGI_ERROR_INVALID_CALL, chain)
  else
    let effects :=
      if MaxLatency > chain.frame_latency then
        chain.effects ++ [Effect.release_semaphore (MaxLatency - chain.frame_latency)]
      else chain.effects
    (S_OK, { chain with frame_latency := MaxLatency, effects := effects })

/-! ## Color space -/

def convert_color_space (dxgi_color_space : Nat) : Nat :=
  if dxgi_color_space = DXGI_COLOR_SPACE_RGB_FULL_G22_NONE_P709 then
    VK_COLOR_SPACE_SRGB_NONLINEAR_KHR
  else if dxgi_color_space = DXGI_COLOR_SPACE_RGB_FULL_G2084_NONE_P2020 then
    VK_COLOR_SPACE_HDR10_ST2084_EXT
  else if dxgi_color_space = DXGI_COLOR_SPACE_RGB_FULL_G10_NONE_P709 then
    VK_COLOR_SPACE_EXTENDED_SRGB_LINEAR_EXT
  else VK_COLOR_SPACE_SRGB_NONLINEAR_KHR

/-- The scan of `supports_color_space` over `properties.formats[0 .. format_count)`. -/
def supports_color_space_scan (vk_color_space : Nat) : List VkSurfaceFormatKHR → Bool
  | [] => false
  | f :: rest => if f.colorSpace = vk_color_space then true
    else supports_color_space_scan vk_color_space rest

def dxgi_vk_swap_chain_supports_color_space (chain : dxgi_vk_swap_chain) (ColorSpace : Nat) : Bool :=
  let vk_color_space := convert_color_space ColorSpace
  supports_color_space_scan vk_color_space chain.formats

def dxgi_vk_swap_chain_CheckColorSpaceSupport (chain : dxgi_vk_swap_chain) (ColorSpace : Nat) : Nat :=
  let support_flags := 0
  if dxgi_vk_swap_chain_supports_color_space chain ColorSpace then
    support_flags ||| DXGI_SWAP_CHAIN_COLOR_SPACE_SUPPORT_FLAG_PRESENT
  else support_flags

def dxgi_vk_swap_chain_SetColorSpace (chain : dxgi_vk_swap_chain) (ColorSpace : Nat) :
    HRESULT × dxgi_vk_swap_chain :=
  if ¬ dxgi_vk_swap_chain_supports_color_space chain ColorSpace then (E_INVALIDARG, chain)
  else
    (S_OK, { chain with user := { chain.user with
      dxgi_color_space_type := ColorSpace
      modifies_hdr_metadata := true } })

def dxgi_vk_swap_chain_SetHDRMetaData (chain : dxgi_vk_swap_chain)
    (pMetaData : DXGI_VK_HDR_METADATA) : HRESULT × dxgi_vk_swap_chain :=
  (S_OK, { chain with user := { chain.user with
    dxgi_hdr_metadata := pMetaData
    modifies_hdr_metadata := true } })

/-! ## Worker: environment -/

/-- The parts of `struct d3d12_device` the worker reads: whether `VK_EXT_hdr_metadata`
is present, and the format table behind `vkd3d_get_format(...)->vk_format`. -/
structure d3d12_device where
  EXT_hdr_metadata : Bool
  vkd3d_get_format : Nat → Nat

/-- What the GPU and the window system answer during one invocation of
`present_iteration` (each of these calls is made at most once per invocation,
the present-mode query at most twice): the surface capabilities, the two
present-mode lists, the result and handle of `vkCreateSwapchainKHR`, the number
of swapchain images, the result and image index of `vkAcquireNextImageKHR`,
whether the per-image objects of `submit_blit` could be created and waited for,
the result of its `vkQueueSubmit`, and the result of `vkQueuePresentKHR`
together with `pResults[0]`. -/
structure present_env where
  surface_caps : VkSurfaceCapabilitiesKHR
  present_modes : List Nat
  present_modes_again : List Nat
  create_swapchain : VkResult × Nat
  swapchain_image_count : Nat
  acquire_next_image : VkResult × Nat
  blit_objects_ready : Bool
  blit_submit : VkResult
  queue_present : VkResult × VkResult

/-! ## Worker: format, present mode and create info -/

def dxgi_vk_swap_chain_accept_format (format : VkSurfaceFormatKHR) (vk_format : Nat) : Bool :=
  if vk_format = VK_FORMAT_UNDEFINED then
    if format.format = VK_FORMAT_R8G8B8A8_UNORM then true
    else if format.format = VK_FORMAT_B8G8R8A8_UNORM then true
    else if format.format = VK_FORMAT_A8B8G8R8_UNORM_PACK32 then true
    else false
  else decide (format.format = vk_format)

/-- The loop of `find_surface_format` over `properties.formats[0 .. format_count)`. -/
def find_surface_format_scan (vk_format color_space : Nat) :
    List VkSurfaceFormatKHR → Option VkSurfaceFormatKHR
  | [] => none
  | f :: rest =>
    if dxgi_vk_swap_chain_accept_format f vk_format ∧ f.colorSpace = color_space then some f
    else find_surface_format_scan vk_format color_space rest

/-- `find_surface_format`: `some f` for `true` with `*format = f`, `none` for `false`. -/
def dxgi_vk_swap_chain_find_surface_format (chain : dxgi_vk_swap_chain)
    (vk_format color_space : Nat) : Option VkSurfaceFormatKHR :=
  find_surface_format_scan vk_format color_space chain.formats

/-- `select_format`: `some f` for `true` with `*format = f`, `none` for `false`. -/
def dxgi_vk_swap_chain_select_format (device : d3d12_device) (chain : dxgi_vk_swap_chain) :
    Option VkSurfaceFormatKHR :=
  let vk_format := device.vkd3d_get_format chain.request.dxgi_format
  let vk_color_space := convert_color_space chain.request.dxgi_color_space_type
  match dxgi_vk_swap_chain_find_surface_format chain vk_format vk_color_space with
  | some f => some f
  | none =>
    if vk_color_space = VK_COLOR_SPACE_SRGB_NONLINEAR_KHR then
      dxgi_vk_swap_chain_find_surface_format chain VK_FORMAT_UNDEFINED vk_color_space
    else none

/-- The loop of `check_present_mode_support` over the modes the surface reports. -/
def dxgi_vk_swap_chain_check_present_mode_support (supported_modes : List Nat)
    (present_mode : Nat) : Bool :=
  match supported_modes with
  | [] => false
  | m :: rest =>
    if m = present_mode then true
    else dxgi_vk_swap_chain_check_present_mode_support rest present_mode

/-- Lines 1003 to 1013 of `recreate_swapchain_in_present_task`: the local `present_mode`
at the end of the support check, `none` when the function returns there. -/
def recreate_select_present_mode (env : present_env) (swap_interval : Nat) : Option Nat :=
  let present_mode :=
    if swap_interval > 0 then VK_PRESENT_MODE_FIFO_KHR else VK_PRESENT_MODE_IMMEDIATE_KHR
  if ¬ dxgi_vk_swap_chain_check_present_mode_support env.present_modes present_mode then
    if present_mode = VK_PRESENT_MODE_IMMEDIATE_KHR ∧
        dxgi_vk_swap_chain_check_present_mode_support env.present_modes_again
          VK_PRESENT_MODE_MAILBOX_KHR then
      some VK_PRESENT_MODE_MAILBOX_KHR
    else none
  else some present_mode

/-- Lines 1015 to 1036 of `recreate_swapchain_in_present_task`: the create info handed to
`vkCreateSwapchainKHR`. The local `present_mode` is not read by these lines. -/
def recreate_swapchain_create_info (surface_caps : VkSurfaceCapabilitiesKHR)
    (surface_format : VkSurfaceFormatKHR) (_present_mode : Nat) : VkSwapchainCreateInfoKHR :=
  { imageArrayLayers := 1
    imageColorSpace := surface_format.colorSpace
    imageFormat := surface_format.format
    imageSharingMode := VK_SHARING_MODE_EXCLUSIVE
    imageUsage := VK_IMAGE_USAGE_COLOR_ATTACHMENT_BIT
    compositeAlpha := VK_COMPOSITE_ALPHA_OPAQUE_BIT_KHR
    preTransform := VK_SURFACE_TRANSFORM_IDENTITY_BIT_KHR
    presentMode := VK_PRESENT_MODE_FIFO_KHR
    clipped := VK_TRUE
    minImageCount := max 3 surface_caps.minImageCount
    imageExtent :=
      { width := min (max surface_caps.currentExtent.width surface_caps.minImageExtent.width)
          surface_caps.maxImageExtent.width
        height := min (max surface_caps.currentExtent.height surface_caps.minImageExtent.height)
          surface_caps.maxImageExtent.height } }

/-! ## Worker: swapchain destruction and creation -/

/-- The passes of the waiter thread over the queue `ids`: one `vkWaitForPresentKHR` and
one `ReleaseSemaphore(1)` per id, in order; `none` when it meets the sentinel 0,
at which it exits without emptying the queue. -/
def waiter_drains : List Nat → Option (List Effect)
  | [] => some []
  | id :: rest =>
    if id = 0 then none
    else
      match waiter_drains rest with
      | none => none
      | some released => some (Effect.waiter_release id :: released)

/-- `drain_waiter` returns when the waiter thread has emptied the queue; the passes the
waiter makes meanwhile are recorded here. `none`: the wait never ends. -/
def dxgi_vk_swap_chain_drain_waiter (chain : dxgi_vk_swap_chain) : Option dxgi_vk_swap_chain :=
  if chain.wait_thread_active then
    match waiter_drains chain.wait_queue with
    | none => none
    | some released =>
      some { chain with
        wait_queue := []
        effects := chain.effects ++ Effect.drain_waiter :: released }
  else some chain

def dxgi_vk_swap_chain_destroy_swapchain_in_present_task (chain : dxgi_vk_swap_chain) :
    Option dxgi_vk_swap_chain :=
  if chain.present.vk_swapchain = VK_NULL_HANDLE then some chain
  else
    match dxgi_vk_swap_chain_drain_waiter
        { chain with effects := chain.effects ++ [Effect.queue_wait_idle] } with
    | none => none
    | some chain1 =>
      some { chain1 with
        present := { chain1.present with
          vk_swapchain := VK_NULL_HANDLE
          backbuffer_width := 0
          backbuffer_height := 0
          backbuffer_format := VK_FORMAT_UNDEFINED
          backbuffer_count := 0
          force_swapchain_recreation := false
          present_id_valid := false
          present_id := 0 }
        effects := chain1.effects ++ [Effect.destroy_swapchain chain.present.vk_swapchain] }

def dxgi_vk_swap_chain_set_hdr_metadata (device : d3d12_device) (chain : dxgi_vk_swap_chain) :
    dxgi_vk_swap_chain :=
  if ¬ device.EXT_hdr_metadata ∨ chain.present.vk_swapchain = VK_NULL_HANDLE ∨
      chain.request.dxgi_hdr_metadata.Type_ ≠ DXGI_HDR_METADATA_TYPE_HDR10 then chain
  else { chain with effects := chain.effects ++ [Effect.set_hdr_metadata] }

def dxgi_vk_swap_chain_recreate_swapchain_in_present_task (device : d3d12_device)
    (env : present_env) (chain : dxgi_vk_swap_chain) : Option dxgi_vk_swap_chain :=
  match dxgi_vk_swap_chain_destroy_swapchain_in_present_task
      { chain with effects := chain.effects ++
          [Effect.recreate_swapchain chain.present.vk_swapchain] } with
  | none => none
  | some chain =>
    if chain.present.is_surface_lost then some chain
    else
      let surface_caps := env.surface_caps
      let new_occlusion_state : Bool :=
        surface_caps.maxImageExtent.width == 0 || surface_caps.maxImageExtent.height == 0
      let chain := { chain with
        present := { chain.present with
          is_occlusion_state := if new_occlusion_state then 1 else 0 }
        effects := chain.effects ++ [Effect.get_surface_capabilities] }
      if new_occlusion_state then some chain
      else if surface_caps.currentExtent.width = UINT32_MAX ∨
          surface_caps.currentExtent.height = UINT32_MAX then some chain
      else
        match dxgi_vk_swap_chain_select_format device chain with
        | none => some chain
        | some surface_format =>
          match recreate_select_present_mode env chain.request.swap_interval with
          | none => some chain
          | some present_mode =>
            let swapchain_create_info :=
              recreate_swapchain_create_info surface_caps surface_format present_mode
            let vr := env.create_swapchain.1
            let chain := { chain with
              effects := chain.effects ++ [Effect.create_swapchain swapchain_create_info vr] }
            if vr < 0 then
              some { chain with present := { chain.present with vk_swapchain := VK_NULL_HANDLE } }
            else
              some (dxgi_vk_swap_chain_set_hdr_metadata device
                { chain with present := { chain.present with
                    vk_swapchain := env.create_swapchain.2
                    backbuffer_count :=
                      min env.swapchain_image_count DXGI_MAX_SWAP_CHAIN_BUFFERS
                    backbuffer_width := swapchain_create_info.imageExtent.width
                    backbuffer_height := swapchain_create_info.imageExtent.height
                    backbuffer_format := swapchain_create_info.imageFormat } })

def request_needs_swapchain_recreation (request last_request : dxgi_vk_swap_chain_present_request) :
    Bool :=
  request.dxgi_color_space_type != last_request.dxgi_color_space_type ||
  request.dxgi_format != last_request.dxgi_format ||
  (request.swap_interval != 0) != (last_request.swap_interval != 0)

def dxgi_vk_swap_chain_present_signal_blit_semaphore (chain : dxgi_vk_swap_chain) :
    dxgi_vk_swap_chain :=
  let blit_count := (chain.present.blit_count + 1) % 2 ^ 64
  { chain with
    present := { chain.present with blit_count := blit_count }
    effects := chain.effects ++ [Effect.signal_blit_semaphore blit_count] }

/-! ## Worker: one present iteration -/

/-- `submit_blit`: `none` when `record_render_pass` follows a `NULL` back buffer pointer
(or reads outside `user.backbuffers`), else whether the blit was submitted. The
per-image semaphore, command buffer and fence are GPU objects; their creation and
the fence wait are the outcome `blit_objects_ready` of the environment. -/
def dxgi_vk_swap_chain_submit_blit (env : present_env) (chain : dxgi_vk_swap_chain) :
    Option (Bool × dxgi_vk_swap_chain) :=
  if ¬ env.blit_objects_ready then some (false, chain)
  else
    match user_backbuffer chain chain.request.user_index with
    | none => none
    | some _ =>
      some (decide (env.blit_submit = VK_SUCCESS),
        { chain with effects := chain.effects ++ [Effect.submit_blit env.blit_submit] })

def dxgi_vk_swap_chain_present_recreate_swapchain_if_required (device : d3d12_device)
    (env : present_env) (chain : dxgi_vk_swap_chain) : Option dxgi_vk_swap_chain :=
  if chain.present.vk_swapchain = VK_NULL_HANDLE ∨ chain.present.force_swapchain_recreation then
    dxgi_vk_swap_chain_recreate_swapchain_in_present_task device env chain
  else some chain

/-- The lines after `vkAcquireNextImageKHR` and after `vkQueuePresentKHR` that react to
the result `vr`, up to the recursive call: set `force_swapchain_recreation`, and
destroy the swapchain on an error. -/
def present_iteration_handle_result (vr : VkResult) (chain : dxgi_vk_swap_chain) :
    Option dxgi_vk_swap_chain :=
  let chain :=
    if vr = VK_SUBOPTIMAL_KHR ∨ vr < 0 then
      { chain with present := { chain.present with force_swapchain_recreation := true } }
    else chain
  if vr < 0 then dxgi_vk_swap_chain_destroy_swapchain_in_present_task chain
  else some chain

/-- Lines 1355 to 1365 of `present_iteration`: `vkAcquireNextImageKHR`, the wait on the
acquire fence, and the reaction to the result `vr`, which is returned. -/
def present_iteration_acquire (env : present_env) (chain : dxgi_vk_swap_chain) :
    Option (VkResult × dxgi_vk_swap_chain) :=
  let vr := env.acquire_next_image.1
  let waited : List Effect := if vr ≥ 0 then [Effect.wait_acquire_fence] else []
  match present_iteration_handle_result vr
      { chain with effects := chain.effects ++ Effect.acquire_next_image vr :: waited } with
  | none => none
  | some chain => some (vr, chain)

/-- Lines 1384 to 1422 of `present_iteration`: the present ID is attached when the waiter
thread is active and no ID is valid yet, `vkQueuePresentKHR` is called, `vr` takes
`pResults[0]` when the call itself succeeded, `present_id_valid` is set, and the
reaction to `vr`, which is returned. The effect records the attached ID, if any,
and this `vr`. -/
def present_iteration_queue_present (env : present_env) (chain : dxgi_vk_swap_chain) :
    Option (VkResult × dxgi_vk_swap_chain) :=
  let attach : Bool := chain.wait_thread_active && !chain.present.present_id_valid
  let present_id :=
    if attach then (chain.present.present_id + 1) % 2 ^ 64 else chain.present.present_id
  let vr :=
    if env.queue_present.1 = VK_SUCCESS ∧ env.queue_present.2 ≠ VK_SUCCESS then
      env.queue_present.2
    else env.queue_present.1
  let present_id_valid : Bool :=
    if attach ∧ vr ≥ 0 ∧ chain.request.swap_interval ≥ 1 then true
    else chain.present.present_id_valid
  match present_iteration_handle_result vr
      { chain with
        present := { chain.present with
          present_id := present_id
          present_id_valid := present_id_valid }
        effects := chain.effects ++
          [Effect.queue_present (if attach then some present_id else none) vr] } with
  | none => none
  | some chain => some (vr, chain)

/-- `is_surface_lost = true`, the reaction to `VK_ERROR_SURFACE_LOST_KHR`. -/
def present_iteration_surface_lost (chain : dxgi_vk_swap_chain) : dxgi_vk_swap_chain :=
  { chain with present := { chain.present with is_surface_lost := true } }

/-- `present_iteration`. `gpu r` is what the GPU answers during the invocation with
`retry_counter = r`. `none`: the invocation does not return (see `submit_blit`
and `drain_waiter`). -/
def dxgi_vk_swap_chain_present_iteration (device : d3d12_device) (gpu : Nat → present_env)
    (chain : dxgi_vk_swap_chain) (retry_counter : Nat) : Option dxgi_vk_swap_chain :=
  match dxgi_vk_swap_chain_present_recreate_swapchain_if_required device (gpu retry_counter)
      { chain with effects := chain.effects ++ [Effect.present_iteration retry_counter] } with
  | none => none
  | some chain =>
    if chain.present.vk_swapchain = VK_NULL_HANDLE then some chain
    else
      match present_iteration_acquire (gpu retry_counter) chain with
      | none => none
      | some (vr, chain) =>
        if vr = VK_ERROR_OUT_OF_DATE_KHR then
          if h : retry_counter < 3 then
            dxgi_vk_swap_chain_present_iteration device gpu chain (retry_counter + 1)
          else some chain
        else if vr = VK_ERROR_SURFACE_LOST_KHR then some (present_iteration_surface_lost chain)
        else if vr < 0 then some chain
        else
          match dxgi_vk_swap_chain_submit_blit (gpu retry_counter) chain with
          | none => none
          | some (false, chain) => some chain
          | some (true, chain) =>
            match present_iteration_queue_present (gpu retry_counter) chain with
            | none => none
            | some (vr, chain) =>
              if vr = VK_ERROR_OUT_OF_DATE_KHR then
                if h : retry_counter < 3 then
                  dxgi_vk_swap_chain_present_iteration device gpu chain (retry_counter + 1)
                else some chain
              else if vr = VK_ERROR_SURFACE_LOST_KHR then
                some (present_iteration_surface_lost chain)
              else some chain
termination_by 3 - retry_counter
decreasing_by all_goals omega

/-- One invocation of `present_iteration` without its recursive call: the state where
the invocation returns or calls itself, and whether it is at a recursive call
(`vr == VK_ERROR_OUT_OF_DATE_KHR` after the acquire or after the present). -/
def present_iteration_level (device : d3d12_device) (env : present_env)
    (chain : dxgi_vk_swap_chain) (retry_counter : Nat) : Option (dxgi_vk_swap_chain × Bool) :=
  match dxgi_vk_swap_chain_present_recreate_swapchain_if_required device env
      { chain with effects := chain.effects ++ [Effect.present_iteration retry_counter] } with
  | none => none
  | some chain =>
    if chain.present.vk_swapchain = VK_NULL_HANDLE then some (chain, false)
    else
      match present_iteration_acquire env chain with
      | none => none
      | some (vr, chain) =>
        if vr = VK_ERROR_OUT_OF_DATE_KHR then some (chain, true)
        else if vr = VK_ERROR_SURFACE_LOST_KHR then
          some (present_iteration_surface_lost chain, false)
        else if vr < 0 then some (chain, false)
        else
          match dxgi_vk_swap_chain_submit_blit env chain with
          | none => none
          | some (false, chain) => some (chain, false)
          | some (true, chain) =>
            match present_iteration_queue_present env chain with
            | none => none
            | some (vr, chain) =>
              if vr = VK_ERROR_OUT_OF_DATE_KHR then some (chain, true)
              else if vr = VK_ERROR_SURFACE_LOST_KHR then
                some (present_iteration_surface_lost chain, false)
              else some (chain, false)

/-! ## Worker: latency signal and present callback -/

def dxgi_vk_swap_chain_push_present_id (chain : dxgi_vk_swap_chain) (present_id : Nat) :
    dxgi_vk_swap_chain :=
  { chain with
    wait_queue := chain.wait_queue ++ [present_id]
    effects := chain.effects ++ [Effect.push_present_id present_id] }

/-- `signal_waitable_handle`. `set_event_hr` is the result of
`d3d12_fence_set_event_on_completion`. -/
def dxgi_vk_swap_chain_signal_waitable_handle (set_event_hr : HRESULT)
    (chain : dxgi_vk_swap_chain) : dxgi_vk_swap_chain :=
  if chain.present.present_id_valid then
    dxgi_vk_swap_chain_push_present_id chain chain.present.present_id
  else
    let frame_latency_count := (chain.present.frame_latency_count + 1) % 2 ^ 64
    let released : List Effect :=
      if FAILED set_event_hr then [Effect.release_semaphore 1] else []
    { chain with
      present := { chain.present with frame_latency_count := frame_latency_count }
      effects := chain.effects ++
        Effect.signal_inline frame_latency_count ::
        Effect.set_event_on_completion frame_latency_count set_event_hr :: released }

/-- The loop `for (i = 0; i < present_count; i++) present_iteration(chain, 0)` of the
callback, from pass `i` with `n` passes to go; `gpu i` is the environment of
pass `i`. -/
def present_callback_loop (device : d3d12_device) (gpu : Nat → Nat → present_env) :
    Nat → Nat → dxgi_vk_swap_chain → Option dxgi_vk_swap_chain
  | 0, _, chain => some chain
  | n + 1, i, chain =>
    match dxgi_vk_swap_chain_present_iteration device (gpu i) chain 0 with
    | none => none
    | some chain => present_callback_loop device gpu n (i + 1) chain

def dxgi_vk_swap_chain_present_callback (device : d3d12_device) (gpu : Nat → Nat → present_env)
    (set_event_hr : HRESULT) (chain : dxgi_vk_swap_chain) : Option dxgi_vk_swap_chain :=
  let next_present_count := (chain.present.present_count + 1) % 2 ^ 32
  let next_request := chain.request_ring (ring_slot next_present_count)
  let chain :=
    if request_needs_swapchain_recreation next_request chain.request then
      { chain with present := { chain.present with force_swapchain_recreation := true } }
    else chain
  let chain := { chain with request := next_request }
  let chain :=
    if chain.request.modifies_hdr_metadata then dxgi_vk_swap_chain_set_hdr_metadata device chain
    else chain
  let chain := { chain with present := { chain.present with present_id_valid := false } }
  let present_count := max 1 chain.request.swap_interval
  match present_callback_loop device gpu present_count 0 chain with
  | none => none
  | some chain =>
    let chain := dxgi_vk_swap_chain_present_signal_blit_semaphore chain
    let chain := dxgi_vk_swap_chain_signal_waitable_handle set_event_hr chain
    some { chain with present := { chain.present with present_count := next_present_count } }

/-- One pass of the loop of `wait_worker` on a queue whose head is a present ID: the
wait for that present, one `ReleaseSemaphore(1)`, and the removal of the head.
`none`: the queue is empty (the thread sleeps) or its head is the sentinel 0
(the thread exits). -/
def dxgi_vk_swap_chain_wait_worker (chain : dxgi_vk_swap_chain) : Option dxgi_vk_swap_chain :=
  match chain.wait_queue with
  | [] => none
  | next_wait_id :: rest =>
    if next_wait_id = 0 then none
    else
      some { chain with
        wait_queue := rest
        effects := chain.effects ++ [Effect.waiter_release next_wait_id] }

/-- `init_sync_objects`, the frame latency it stores: it is also the initial count of
the latency semaphore, whose maximum is `DXGI_MAX_SWAP_CHAIN_BUFFERS`. -/
def init_frame_latency (desc : DXGI_SWAP_CHAIN_DESC1) : Nat :=
  if desc.Flags &&& DXGI_SWAP_CHAIN_FLAG_FRAME_LATENCY_WAITABLE_OBJECT ≠ 0 then 1
  else DEFAULT_FRAME_LATENCY - 1

/-! ## Worker: what a list of effects contains -/

/-- The effects a present iteration can record. -/
def is_iteration_effect : Effect → Bool
  | .present_iteration _ => true
  | .recreate_swapchain _ => true
  | .queue_wait_idle => true
  | .drain_waiter => true
  | .waiter_release _ => true
  | .destroy_swapchain _ => true
  | .get_surface_capabilities => true
  | .create_swapchain _ _ => true
  | .acquire_next_image _ => true
  | .wait_acquire_fence => true
  | .submit_blit _ => true
  | .queue_present _ _ => true
  | .set_hdr_metadata => true
  | _ => false

/-- Number of units the waiter thread released. -/
def waiter_releases (l : List Effect) : Nat :=
  l.countP (fun e => match e with | .waiter_release _ => true | _ => false)

/-- Number of `vkAcquireNextImageKHR` calls. -/
def acquire_attempts (l : List Effect) : Nat :=
  l.countP (fun e => match e with | .acquire_next_image _ => true | _ => false)

/-- The `retry_counter` values of the invocations of `present_iteration`, in order. -/
def iteration_levels (l : List Effect) : List Nat :=
  l.filterMap (fun e => match e with | .present_iteration r => some r | _ => none)

/-- The values of the blit-timeline signals submitted, in order. -/
def blit_signals (l : List Effect) : List Nat :=
  l.filterMap (fun e => match e with | .signal_blit_semaphore v => some v | _ => none)

/-- The present IDs pushed onto the waiter queue, in order. -/
def pushed_present_ids (l : List Effect) : List Nat :=
  l.filterMap (fun e => match e with | .push_present_id v => some v | _ => none)

/-- Number of completion events registered on the latency fence (the calls of
`d3d12_fence_set_event_on_completion` that did not fail). -/
def registered_latency_events (l : List Effect) : Nat :=
  l.countP (fun e => match e with | .set_event_on_completion _ hr => !FAILED hr | _ => false)

/-- The create infos handed to `vkCreateSwapchainKHR`, in order. -/
def created_swapchains (l : List Effect) : List VkSwapchainCreateInfoKHR :=
  l.filterMap (fun e => match e with | .create_swapchain info _ => some info | _ => none)

/-- Every invocation of `present_iteration` recorded in `l` is directly followed by a
recreate attempt that finds no swapchain (`VK_NULL_HANDLE`). -/
def retries_begin_with_recreate : List Effect → Bool
  | Effect.present_iteration _ :: Effect.recreate_swapchain h :: rest =>
    decide (h = VK_NULL_HANDLE) && retries_begin_with_recreate rest
  | Effect.present_iteration _ :: _ => false
  | _ :: rest => retries_begin_with_recreate rest
  | [] => true

/-- What a step of the worker inside a present callback keeps, with `new` the effects
it records: the client-owned state, the descriptor, the request and the ring, the
counters signalled at the end of the callback; and every ID that left the waiter
queue was released by the waiter thread. -/
structure WorkerFrame (c c1 : dxgi_vk_swap_chain) (new : List Effect) : Prop where
  effects : c1.effects = c.effects ++ new
  iteration_effects : new.all is_iteration_effect = true
  user : c1.user = c.user
  desc : c1.desc = c.desc
  frame_latency : c1.frame_latency = c.frame_latency
  request : c1.request = c.request
  request_ring : c1.request_ring = c.request_ring
  formats : c1.formats = c.formats
  wait_thread_active : c1.wait_thread_active = c.wait_thread_active
  blit_count : c1.present.blit_count = c.present.blit_count
  present_count : c1.present.present_count = c.present.present_count
  frame_latency_count : c1.present.frame_latency_count = c.present.frame_latency_count
  wait_queue : waiter_releases new + c1.wait_queue.length = c.wait_queue.length
  wait_queue_mem : ∀ id, id ∈ c1.wait_queue → id ∈ c.wait_queue

/-- The waiter thread, when active, can empty the queue: no sentinel is queued. -/
def waiter_can_drain (c : dxgi_vk_swap_chain) : Prop :=
  c.wait_thread_active = true → ∀ id, id ∈ c.wait_queue → id ≠ 0

/-! ## Example states -/

def DXGI_FORMAT_R8G8B8A8_UNORM : Nat := 28

/-- The descriptor `{1920, 1080, RGBA8_UNORM, 2, 0}` of the first scenario. -/
def example_desc : DXGI_SWAP_CHAIN_DESC1 :=
  { Width := 1920, Height := 1080, Format := DXGI_FORMAT_R8G8B8A8_UNORM, Stereo := 0,
    SampleCount := 1, SampleQuality := 0, BufferUsage := 0, BufferCount := 2,
    Scaling := 0, SwapEffect := 0, AlphaMode := 0, Flags := 0 }

/-- A back buffer as `reallocate_user_buffers` leaves it: no public reference. -/
def example_buffer (vk_image : Nat) : d3d12_resource :=
  { refcount := 0, internal_refcount := 1, desc_Format := DXGI_FORMAT_R8G8B8A8_UNORM,
    vk_format := 37, vk_image := vk_image }

/-- A freshly created swapchain for `example_desc`: two back buffers, nothing
presented yet, an sRGB surface format cached. -/
def example_chain : dxgi_vk_swap_chain :=
  { desc := example_desc
    frame_latency := 2
    present := default
    request := default
    request_ring := fun _ => default
    user :=
      { backbuffers := fun i => if i.val < 2 then some (example_buffer (100 + i.val)) else none
        vk_image_views := fun i => if i.val < 2 then 200 + i.val else VK_NULL_HANDLE
        blit_count := 0
        present_count := 0
        index := 0
        dxgi_color_space_type := DXGI_COLOR_SPACE_RGB_FULL_G22_NONE_P709
        dxgi_hdr_metadata := default
        modifies_hdr_metadata := false }
    formats := [{ format := 44, colorSpace := VK_COLOR_SPACE_SRGB_NONLINEAR_KHR }]
    wait_queue := []
    wait_thread_active := false
    effects := [] }

/-- A surface of 1920 by 1080, not minimised. -/
def example_caps : VkSurfaceCapabilitiesKHR :=
  { minImageCount := 2, maxImageCount := 8,
    currentExtent := { width := 1920, height := 1080 },
    minImageExtent := { width := 1920, height := 1080 },
    maxImageExtent := { width := 1920, height := 1080 } }

/-- A minimised window: the surface reports a maximum extent of 0 by 0. -/
def minimised_caps : VkSurfaceCapabilitiesKHR :=
  { minImageCount := 2, maxImageCount := 8,
    currentExtent := { width := 0, height := 0 },
    minImageExtent := { width := 0, height := 0 },
    maxImageExtent := { width := 0, height := 0 } }

/-- The example swapchain after the client took a public reference on back buffer 1
(as `GetImage(1)` hands out). -/
def example_chain_referenced : dxgi_vk_swap_chain :=
  { example_chain with
    user := { example_chain.user with
      backbuffers := fun i =>
        if i.val = 0 then some (example_buffer 100)
        else if i.val = 1 then some { example_buffer 101 with refcount := 1 }
        else none } }

/-- A descriptor asking for three buffers of 1280 by 720. -/
def example_desc_resized : DXGI_SWAP_CHAIN_DESC1 :=
  { example_desc with Width := 1280, Height := 720, BufferCount := 3 }

/-- The stored descriptor with another scaling mode only. -/
def example_desc_rescaled : DXGI_SWAP_CHAIN_DESC1 :=
  { example_desc with Scaling := 1 }

/-- An allocator and a device on which every call succeeds. -/
def example_env : alloc_env :=
  { create_committed := fun i =>
      (S_OK, { refcount := 1, internal_refcount := 0,
               desc_Format := DXGI_FORMAT_R8G8B8A8_UNORM, vk_format := 37,
               vk_image := 300 + i.val })
    create_image_view := fun i => (0, 400 + i.val) }

/-- An allocator that runs out of memory on the second buffer. -/
def failing_env : alloc_env :=
  { example_env with
    create_committed := fun i =>
      if i.val = 1 then (E_OUTOFMEMORY, default) else example_env.create_committed i }

/-- A `QueryInterface` that knows every `riid`: it takes a public reference and
stores the image handle of the resource in `*object`. -/
def example_QueryInterface (r : d3d12_resource) (_riid : Nat) (_object : Option Nat) :
    HRESULT × Option Nat × d3d12_resource :=
  (S_OK, some r.vk_image, { r with refcount := r.refcount + 1 })

/-- The example swapchain created with the latency-waitable flag: latency 1. -/
def example_waitable_chain : dxgi_vk_swap_chain :=
  { example_chain with
    desc := { example_desc with Flags := DXGI_SWAP_CHAIN_FLAG_FRAME_LATENCY_WAITABLE_OBJECT }
    frame_latency := 1 }

/-- A device whose format table answers `VK_FORMAT_UNDEFINED` for every format, and
one that answers `VK_FORMAT_R8G8B8A8_UNORM`. -/
def undefined_format_device : d3d12_device :=
  { EXT_hdr_metadata := false, vkd3d_get_format := fun _ => VK_FORMAT_UNDEFINED }

def example_device : d3d12_device :=
  { EXT_hdr_metadata := false, vkd3d_get_format := fun _ => VK_FORMAT_R8G8B8A8_UNORM }

/-- The example swapchain on a surface whose only cached pair is
`{R8G8B8A8_UNORM, HDR10 ST2084}`, with a current request in the HDR10 color space. -/
def hdr_pair_chain : dxgi_vk_swap_chain :=
  { example_chain with
    formats := [{ format := VK_FORMAT_R8G8B8A8_UNORM, colorSpace := VK_COLOR_SPACE_HDR10_ST2084_EXT }]
    request := { (default : dxgi_vk_swap_chain_present_request) with
      dxgi_color_space_type := DXGI_COLOR_SPACE_RGB_FULL_G2084_NONE_P2020 } }

/-- A visible surface that supports FIFO and IMMEDIATE, on which every GPU call
succeeds: swapchain 500 with three images, image 0 acquired. -/
def example_present_env : present_env :=
  { surface_caps := example_caps
    present_modes := [VK_PRESENT_MODE_FIFO_KHR, VK_PRESENT_MODE_IMMEDIATE_KHR]
    present_modes_again := [VK_PRESENT_MODE_FIFO_KHR, VK_PRESENT_MODE_IMMEDIATE_KHR]
    create_swapchain := (VK_SUCCESS, 500)
    swapchain_image_count := 3
    acquire_next_image := (VK_SUCCESS, 0)
    blit_objects_ready := true
    blit_submit := VK_SUCCESS
    queue_present := (VK_SUCCESS, VK_SUCCESS) }

/-! ## Runs of Present -/

/-- `EnqueuingPresents k chain chain1`: `chain1` is reached from `chain` by `k` calls of
Present that each enqueued a request. Between two calls the worker may have
changed the state, except the client-owned `user` and `desc`. -/
inductive EnqueuingPresents : Nat → dxgi_vk_swap_chain → dxgi_vk_swap_chain → Prop
  | zero (chain : dxgi_vk_swap_chain) : EnqueuingPresents 0 chain chain
  | step {k : Nat} {chain mid mid1 chain1 : dxgi_vk_swap_chain}
      (caps : VkSurfaceCapabilitiesKHR) (SyncInterval PresentFlags : Nat) (hr : HRESULT) :
      EnqueuingPresents k chain mid →
      mid1.user = mid.user → mid1.desc = mid.desc →
      dxgi_vk_swap_chain_Present mid1 caps SyncInterval PresentFlags = some (hr, chain1) →
      enqueued_callbacks chain1.effects = enqueued_callbacks mid1.effects + 1 →
      EnqueuingPresents (k + 1) chain chain1

/-! ## Worker: what a level, an iteration and a recreation record -/

/-- What one level of `present_iteration` records and keeps. -/
def LevelSpec (c c1 : dxgi_vk_swap_chain) (retry_counter : Nat) (retry : Bool) : Prop :=
  ∃ new rest, WorkerFrame c c1 new ∧ new = Effect.present_iteration retry_counter :: rest ∧
    acquire_attempts rest ≤ 1 ∧ iteration_levels rest = [] ∧
    (c.present.vk_swapchain = VK_NULL_HANDLE →
      ∃ rest1, rest = Effect.recreate_swapchain VK_NULL_HANDLE :: rest1) ∧
    (retry = true → c1.present.vk_swapchain = VK_NULL_HANDLE)

/-- What one run of `present_iteration` at `retry_counter` records and keeps: the
invocations recorded are at `retry_counter`, `retry_counter + 1`, ..., `k` of them,
none beyond level 3 when the run starts at level 3 or below; at most one acquire
per invocation; every invocation after the first starts with a recreate attempt
that finds no swapchain. -/
def IterationSpec (c c1 : dxgi_vk_swap_chain) (retry_counter : Nat) : Prop :=
  ∃ new rest k, WorkerFrame c c1 new ∧ new = Effect.present_iteration retry_counter :: rest ∧
    iteration_levels new = List.range' retry_counter k ∧ 1 ≤ k ∧
    (retry_counter ≤ 3 → retry_counter + k ≤ 4) ∧ (3 < retry_counter → k = 1) ∧
    acquire_attempts new ≤ k ∧
    retries_begin_with_recreate rest = true ∧
    (c.present.vk_swapchain = VK_NULL_HANDLE →
      ∃ rest1, rest = Effect.recreate_swapchain VK_NULL_HANDLE :: rest1)

/-- The create info with which `recreate_swapchain_in_present_task`, called on `chain`,
reaches `vkCreateSwapchainKHR`; `none` when it returns before the call. -/
def recreate_reaches_create (device : d3d12_device) (env : present_env)
    (chain : dxgi_vk_swap_chain) : Option VkSwapchainCreateInfoKHR :=
  if chain.present.is_surface_lost then none
  else if env.surface_caps.maxImageExtent.width == 0 ||
      env.surface_caps.maxImageExtent.height == 0 then none
  else if env.surface_caps.currentExtent.width = UINT32_MAX ∨
      env.surface_caps.currentExtent.height = UINT32_MAX then none
  else
    match dxgi_vk_swap_chain_select_format device chain with
    | none => none
    | some surface_format =>
      match recreate_select_present_mode env chain.request.swap_interval with
      | none => none
      | some present_mode =>
        some (recreate_swapchain_create_info env.surface_caps surface_format present_mode)

/-! ## More example states -/

/-- A surface whose current extent of 4000 by 100 lies outside its extent limits, 640 by
480 to 1920 by 1080, and that asks for two images at least. -/
def clamping_caps : VkSurfaceCapabilitiesKHR :=
  { minImageCount := 2, maxImageCount := 8,
    currentExtent := { width := 4000, height := 100 },
    minImageExtent := { width := 640, height := 480 },
    maxImageExtent := { width := 1920, height := 1080 } }

/-- The example GPU on the surface of `clamping_caps`. -/
def clamping_present_env : present_env :=
  { example_present_env with surface_caps := clamping_caps }

/-- The example GPU when the swapchain is out of date at every acquire. -/
def out_of_date_env : present_env :=
  { example_present_env with acquire_next_image := (VK_ERROR_OUT_OF_DATE_KHR, 0) }

/-! ## Worker: the present callback in three parts -/

/-- Lines 1466 to 1476 of `present_callback`: the state in which its loop starts. -/
def present_callback_begin (device : d3d12_device) (chain : dxgi_vk_swap_chain) :
    dxgi_vk_swap_chain :=
  let next_present_count := (chain.present.present_count + 1) % 2 ^ 32
  let next_request := chain.request_ring (ring_slot next_present_count)
  let chain :=
    if request_needs_swapchain_recreation next_request chain.request then
      { chain with present := { chain.present with force_swapchain_recreation := true } }
    else chain
  let chain := { chain with request := next_request }
  let chain :=
    if chain.request.modifies_hdr_metadata then dxgi_vk_swap_chain_set_hdr_metadata device chain
    else chain
  { chain with present := { chain.present with present_id_valid := false } }

/-- Lines 1488 to 1496 of `present_callback`: the two signals and the store of
`next_present_count`, from the state `chain` in which its loop ends. -/
def present_callback_end (set_event_hr : HRESULT) (next_present_count : Nat)
    (chain : dxgi_vk_swap_chain) : dxgi_vk_swap_chain :=
  let chain := dxgi_vk_swap_chain_present_signal_blit_semaphore chain
  let chain := dxgi_vk_swap_chain_signal_waitable_handle set_event_hr chain
  { chain with present := { chain.present with present_count := next_present_count } }

/-- The effects `signal_waitable_handle` records, from the state it starts in. -/
def latency_signal_effects (set_event_hr : HRESULT) (chain : dxgi_vk_swap_chain) : List Effect :=
  if chain.present.present_id_valid then [Effect.push_present_id chain.present.present_id]
  else
    Effect.signal_inline ((chain.present.frame_latency_count + 1) % 2 ^ 64) ::
    Effect.set_event_on_completion ((chain.present.frame_latency_count + 1) % 2 ^ 64)
      set_event_hr ::
    (if FAILED set_event_hr then [Effect.release_semaphore 1] else [])

/-- A valid present ID is not the sentinel 0, and the present ID counter is at most `B`. -/
def present_id_bound (c : dxgi_vk_swap_chain) (B : Nat) : Prop :=
  (c.present.present_id_valid = true → c.present.present_id ≠ 0) ∧ c.present.present_id ≤ B

/-! ## The client, the worker and the waiter side by side -/

/-- Lines 606 to 634 of `Present`: the call up to the test of the latency-waitable flag.
`some (some hr, chain)`: the call has returned `hr` (occluded, or the TEST flag);
`some (none, chain)`: the request is stamped and the callback enqueued. -/
def dxgi_vk_swap_chain_Present_until_wait (chain : dxgi_vk_swap_chain)
    (surface_caps : VkSurfaceCapabilitiesKHR) (SyncInterval PresentFlags : Nat) :
    Option (Option HRESULT × dxgi_vk_swap_chain) :=
  let (occluded, chain) := dxgi_vk_swap_chain_present_is_occluded chain surface_caps
  if occluded then some (some DXGI_STATUS_OCCLUDED, chain)
  else if PresentFlags &&& DXGI_PRESENT_TEST ≠ 0 then some (some S_OK, chain)
  else if ¬ (chain.user.index < chain.desc.BufferCount) then none
  else
    let present_count := (chain.user.present_count + 1) % 2 ^ 32
    match user_backbuffer chain chain.user.index with
    | none => none
    | some backbuffer =>
      let request : dxgi_vk_swap_chain_present_request :=
        { swap_interval := SyncInterval
          dxgi_format := backbuffer.desc_Format
          user_index := chain.user.index
          dxgi_color_space_type := chain.user.dxgi_color_space_type
          dxgi_hdr_metadata := chain.user.dxgi_hdr_metadata
          modifies_hdr_metadata := chain.user.modifies_hdr_metadata }
      some (none,
        { chain with
          request_ring := Function.update chain.request_ring (ring_slot present_count) request
          user := { chain.user with
            present_count := present_count
            modifies_hdr_metadata := false
            blit_count := (chain.user.blit_count + 1) % 2 ^ 64 }
          effects := chain.effects ++ [Effect.enqueue_present_callback] })

/-- Lines 636 to 639 of `Present`: the wait on the latency semaphore when the
latency-waitable flag is unset (recorded as an effect; the wait is over when the
semaphore has given a unit), the advance of `user.index`, and `return S_OK`. -/
def dxgi_vk_swap_chain_Present_after_wait (chain : dxgi_vk_swap_chain) :
    HRESULT × dxgi_vk_swap_chain :=
  let waits : List Effect :=
    if chain.desc.Flags &&& DXGI_SWAP_CHAIN_FLAG_FRAME_LATENCY_WAITABLE_OBJECT = 0
    then [Effect.wait_frame_latency_event] else []
  (S_OK,
    { chain with
      user := { chain.user with
        index := ((chain.user.index + 1) % 2 ^ 32) % chain.desc.BufferCount }
      effects := chain.effects ++ waits })

/-- One `ReleaseSemaphore(frame_latency_event, n, NULL)` on a semaphore created with the
maximum count `DXGI_MAX_SWAP_CHAIN_BUFFERS`: the call fails and leaves the count
when the count would pass the maximum. -/
def release_units (semaphore n : Nat) : Nat :=
  if semaphore + n ≤ DXGI_MAX_SWAP_CHAIN_BUFFERS then semaphore + n else semaphore

/-- The count after `k` calls `ReleaseSemaphore(frame_latency_event, 1, NULL)`. -/
def release_each (semaphore : Nat) : Nat → Nat
  | 0 => semaphore
  | k + 1 => release_each (release_units semaphore 1) k

/-- The swapchain together with what lives outside `struct dxgi_vk_swap_chain`: the
count of the latency semaphore, the completion events registered on the latency
fence that have not fired yet, and whether the client thread is inside `Present`
between the enqueue and the return. `stamped` and `copied` are history: the
requests stamped by the enqueuing calls of `Present`, and the requests the
callbacks copied into `chain->request`, both in order. -/
structure swapchain_system where
  chain : dxgi_vk_swap_chain
  semaphore : Nat
  pending_events : Nat
  in_present : Bool
  stamped : List dxgi_vk_swap_chain_present_request
  copied : List dxgi_vk_swap_chain_present_request

/-- The effects `chain1` has recorded since `chain`. -/
def effects_since (chain chain1 : dxgi_vk_swap_chain) : List Effect :=
  chain1.effects.drop chain.effects.length

/-- One step of the client thread, of the worker (a whole present callback), of the
waiter thread (one pass), or of the latency fence (one registered event fires).
The client is one thread: it makes no other call while it is inside `Present`.
A callback runs only when one is enqueued and not yet run. The runs are cut down
to those in which an enqueuing `Present` starts only while fewer than 16 requests
are outstanding, a bound that `Present` does not test itself, and in which no step
falls inside a callback. `thread_step` below has neither restriction, and every
run of `system_step` is a run of it. -/
inductive system_step (device : d3d12_device) : swapchain_system → swapchain_system → Prop
  | present_returns (s : swapchain_system) (surface_caps : VkSurfaceCapabilitiesKHR)
      (SyncInterval PresentFlags : Nat) (hr : HRESULT) (chain1 : dxgi_vk_swap_chain) :
      s.in_present = false →
      dxgi_vk_swap_chain_Present_until_wait s.chain surface_caps SyncInterval PresentFlags =
        some (some hr, chain1) →
      system_step device s { s with chain := chain1 }
  | present_enqueues (s : swapchain_system) (surface_caps : VkSurfaceCapabilitiesKHR)
      (SyncInterval PresentFlags : Nat) (chain1 : dxgi_vk_swap_chain) :
      s.in_present = false →
      s.stamped.length < s.copied.length + DXGI_MAX_SWAP_CHAIN_BUFFERS →
      dxgi_vk_swap_chain_Present_until_wait s.chain surface_caps SyncInterval PresentFlags =
        some (none, chain1) →
      system_step device s
        { s with
          chain := chain1
          in_present := true
          stamped := s.stamped ++ [chain1.request_ring (ring_slot chain1.user.present_count)] }
  | present_resumes (s : swapchain_system) :
      s.in_present = true →
      (s.chain.desc.Flags &&& DXGI_SWAP_CHAIN_FLAG_FRAME_LATENCY_WAITABLE_OBJECT = 0 →
        0 < s.semaphore) →
      system_step device s
        { s with
          chain := (dxgi_vk_swap_chain_Present_after_wait s.chain).2
          in_present := false
          semaphore :=
            if s.chain.desc.Flags &&& DXGI_SWAP_CHAIN_FLAG_FRAME_LATENCY_WAITABLE_OBJECT = 0
            then s.semaphore - 1 else s.semaphore }
  | wait_latency_handle (s : swapchain_system) :
      s.in_present = false → 0 < s.semaphore →
      system_step device s { s with semaphore := s.semaphore - 1 }
  | set_frame_latency (s : swapchain_system) (MaxLatency : Nat) :
      s.in_present = false →
      system_step device s
        { s with
          chain := (dxgi_vk_swap_chain_SetFrameLatency s.chain MaxLatency).2
          semaphore := release_units s.semaphore (released_units
            (effects_since s.chain (dxgi_vk_swap_chain_SetFrameLatency s.chain MaxLatency).2)) }
  | set_color_space (s : swapchain_system) (ColorSpace : Nat) :
      s.in_present = false →
      system_step device s
        { s with chain := (dxgi_vk_swap_chain_SetColorSpace s.chain ColorSpace).2 }
  | set_hdr_metadata (s : swapchain_system) (pMetaData : DXGI_VK_HDR_METADATA) :
      s.in_present = false →
      system_step device s
        { s with chain := (dxgi_vk_swap_chain_SetHDRMetaData s.chain pMetaData).2 }
  | present_callback (s : swapchain_system) (gpu : Nat → Nat → present_env)
      (set_event_hr : HRESULT) (chain1 : dxgi_vk_swap_chain) :
      s.copied.length < s.stamped.length →
      dxgi_vk_swap_chain_present_callback device gpu set_event_hr s.chain = some chain1 →
      system_step device s
        { s with
          chain := chain1
          copied := s.copied ++ [chain1.request]
          semaphore := release_each s.semaphore
            (released_units (effects_since s.chain chain1) +
              waiter_releases (effects_since s.chain chain1))
          pending_events := s.pending_events +
            registered_latency_events (effects_since s.chain chain1) }
  | wait_worker (s : swapchain_system) (chain1 : dxgi_vk_swap_chain) :
      s.chain.wait_thread_active = true →
      dxgi_vk_swap_chain_wait_worker s.chain = some chain1 →
      system_step device s
        { s with chain := chain1, semaphore := release_each s.semaphore 1 }
  | latency_event (s : swapchain_system) :
      0 < s.pending_events →
      system_step device s
        { s with
          pending_events := s.pending_events - 1
          semaphore := release_each s.semaphore 1 }

/-- A swapchain as `dxgi_vk_swap_chain_init` leaves it: nothing submitted, nothing
processed, the latency and the semaphore count of `init_sync_objects`, an empty
waiter queue, no event registered. -/
def system_initial (s : swapchain_system) : Prop :=
  s.chain.user.present_count = 0 ∧ s.chain.present.present_count = 0 ∧
  s.chain.frame_latency = init_frame_latency s.chain.desc ∧
  s.semaphore = s.chain.frame_latency ∧ s.pending_events = 0 ∧ s.chain.wait_queue = [] ∧
  s.in_present = false ∧ s.stamped = [] ∧ s.copied = []

/-- The states a swapchain reaches from the state `s0`. -/
inductive system_reachable (device : d3d12_device) (s0 : swapchain_system) :
    swapchain_system → Prop
  | start : system_reachable device s0 s0
  | step (s s1 : swapchain_system) :
      system_reachable device s0 s → system_step device s s1 → system_reachable device s0 s1

/-- The counters and the ring against the history: the two 32-bit counters are the
numbers of requests stamped and copied, modulo 2^32; no more requests are copied
than stamped and at most 16 are outstanding; the copied requests are the first of
the stamped ones, in order; and the ring holds every outstanding request at the
slot of its number. -/
structure ring_invariant (s : swapchain_system) : Prop where
  user_count : s.chain.user.present_count = s.stamped.length % 2 ^ 32
  present_count : s.chain.present.present_count = s.copied.length % 2 ^ 32
  copied_le : s.copied.length ≤ s.stamped.length
  stamped_le : s.stamped.length ≤ s.copied.length + DXGI_MAX_SWAP_CHAIN_BUFFERS
  copied_eq : s.copied = s.stamped.take s.copied.length
  ring : ∀ k, s.copied.length ≤ k → k < s.stamped.length →
    s.stamped[k]? = some (s.chain.request_ring (ring_slot ((k + 1) % 2 ^ 32)))

/-- The example swapchain right after its creation: latency 2, two units in the
semaphore. -/
def example_system : swapchain_system :=
  { chain := example_chain, semaphore := 2, pending_events := 0, in_present := false
    stamped := [], copied := [] }

/-- The example swapchain created with the latency-waitable flag, right after its
creation: latency 1, one unit in the semaphore. -/
def example_waitable_system : swapchain_system :=
  { chain := example_waitable_chain, semaphore := 1, pending_events := 0, in_present := false
    stamped := [], copied := [] }

/-! ## Runs of the example swapchains -/

/-- The first half of `Present(1, 0)` on the example surface: the state with the request
stamped and the callback enqueued (`chain` itself when the call does not enqueue). -/
def example_enqueue (chain : dxgi_vk_swap_chain) : dxgi_vk_swap_chain :=
  match dxgi_vk_swap_chain_Present_until_wait chain example_caps 1 0 with
  | some (none, chain1) => chain1
  | _ => chain

/-- The example swapchain inside its third `Present(1, 0)`, no callback having run. -/
def example_chain_third_present : dxgi_vk_swap_chain :=
  example_enqueue (dxgi_vk_swap_chain_Present_after_wait
    (example_enqueue (dxgi_vk_swap_chain_Present_after_wait
      (example_enqueue example_chain)).2)).2

/-- A state between two rounds of the example swapchain created with the
latency-waitable flag: `n` requests stamped, `n` copied, the client outside
`Present`. -/
def steady (n : Nat) (s : swapchain_system) : Prop :=
  s.in_present = false ∧ s.stamped.length = n ∧ s.copied.length = n ∧
  s.chain.desc = example_waitable_chain.desc ∧
  s.chain.user.backbuffers = example_chain.user.backbuffers ∧
  s.chain.user.index < 2 ∧ s.chain.wait_thread_active = false

/-- What the first half of `Present` keeps. -/
structure PresentKeeps (chain chain1 : dxgi_vk_swap_chain) : Prop where
  present_count : chain1.present.present_count = chain.present.present_count
  wait_queue : chain1.wait_queue = chain.wait_queue
  frame_latency : chain1.frame_latency = chain.frame_latency
  wait_thread_active : chain1.wait_thread_active = chain.wait_thread_active
  desc : chain1.desc = chain.desc
  backbuffers : chain1.user.backbuffers = chain.user.backbuffers
  index : chain1.user.index = chain.user.index

/-! ## Worker: destruction, the occlusion state and the latency fence -/

/-- The effects a call of `destroy_swapchain_in_present_task` records on `chain` when
it returns: none without a swapchain; else `vkQueueWaitIdle`, then, with the waiter
thread active, the wait of `drain_waiter` during which the waiter releases every
queued ID, then `vkDestroySwapchainKHR`. -/
def destroy_swapchain_effects (chain : dxgi_vk_swap_chain) : List Effect :=
  if chain.present.vk_swapchain = VK_NULL_HANDLE then []
  else
    Effect.queue_wait_idle ::
      ((if chain.wait_thread_active then
          Effect.drain_waiter :: chain.wait_queue.map Effect.waiter_release
        else []) ++
        [Effect.destroy_swapchain chain.present.vk_swapchain])

/-- The initial value `init_sync_objects` hands to `ID3D12Device9_CreateFence` for the
latency fence. The counter `present.frame_latency_count` is not written there: it
keeps the 0 of `vkd3d_calloc`. -/
def frame_latency_fence_initial_value : Nat := DXGI_MAX_SWAP_CHAIN_BUFFERS

/-- The example swapchain after its surface was lost: no GPU swapchain, and the
occlusion state at `occlusion`, as the last query left it. -/
def example_lost_chain (occlusion : Nat) : dxgi_vk_swap_chain :=
  { example_chain with
    present := { example_chain.present with
      is_surface_lost := true
      is_occlusion_state := occlusion } }

/-- The example GPU on a minimised window. -/
def minimised_present_env : present_env :=
  { example_present_env with surface_caps := minimised_caps }

/-- The stored descriptor of the example swapchain with `BufferCount = 0`. -/
def example_desc_no_buffers : DXGI_SWAP_CHAIN_DESC1 :=
  { example_desc with BufferCount := 0 }

/-! ## Worker: what the recorded effects say of the present ID and of a lost surface -/

/-- The results of the `vkAcquireNextImageKHR` and `vkQueuePresentKHR` calls, in order
(for a present, the result after `pResults[0]` was taken into account). -/
def gpu_results (l : List Effect) : List VkResult :=
  l.filterMap (fun e =>
    match e with
    | .acquire_next_image vr => some vr
    | .queue_present _ vr => some vr
    | _ => none)

/-- Number of `vkQueuePresentKHR` calls. -/
def present_attempts (l : List Effect) : Nat :=
  l.countP (fun e => match e with | .queue_present _ _ => true | _ => false)

/-- Whether the effect is a call that creates a swapchain, acquires an image, submits a
blit or presents. -/
def is_gpu_work : Effect → Bool
  | .create_swapchain _ _ => true
  | .acquire_next_image _ => true
  | .submit_blit _ => true
  | .queue_present _ _ => true
  | _ => false

/-- `present_id_valid` after the effect `e`, for a request with `swap_interval`: false
after a swapchain destruction; true after a present that carried a present ID and
returned a non-negative result, when `swap_interval >= 1`; else as before. -/
def present_id_valid_step (swap_interval : Nat) (valid : Bool) : Effect → Bool
  | .destroy_swapchain _ => false
  | .queue_present (some _) vr => valid || (decide (0 ≤ vr) && decide (1 ≤ swap_interval))
  | _ => valid

/-- `present_id_valid` after the effects `l`, in order. -/
def present_id_valid_replay (swap_interval : Nat) (valid : Bool) (l : List Effect) : Bool :=
  l.foldl (present_id_valid_step swap_interval) valid

/-- The present ID counter after the effect `e`, from the counter `p`: 0 after a
swapchain destruction; the attached ID after a present that carries one, which
has to be `p + 1`; and a call of `vkCreateSwapchainKHR` has to find the counter
at 0. `none` when one of the two conditions fails. -/
def present_ids_step : Option Nat → Effect → Option Nat
  | none, _ => none
  | some _, .destroy_swapchain _ => some 0
  | some p, .create_swapchain _ _ => if p = 0 then some p else none
  | some p, .queue_present (some id) _ => if id = p + 1 then some id else none
  | some p, _ => some p

/-- The present ID counter after the effects `l`, from the counter `p`: `some` when the
IDs attached on every swapchain are 1, 2, 3, ... in this order. -/
def present_ids_scan (p : Nat) (l : List Effect) : Option Nat :=
  l.foldl present_ids_step (some p)

/-- Effects that leave the present ID counter and `present_id_valid` alone. -/
def is_present_id_neutral : Effect → Bool
  | .destroy_swapchain _ => false
  | .create_swapchain _ _ => false
  | .queue_present _ _ => false
  | .acquire_next_image _ => false
  | _ => true

/-- What a step of the worker inside a present iteration keeps and what its effects
`new` say: the request and the waiter flag are kept; `present_id_valid` and the
present ID counter are those replayed over `new`; a lost surface stays lost, and
is lost only after a `VK_ERROR_SURFACE_LOST_KHR`; a lost surface has no swapchain;
without swapchain the present ID counter is 0. -/
structure WorkerTrace (c c1 : dxgi_vk_swap_chain) (new : List Effect) : Prop where
  effects : c1.effects = c.effects ++ new
  request : c1.request = c.request
  wait_thread_active : c1.wait_thread_active = c.wait_thread_active
  valid : c1.present.present_id_valid =
    present_id_valid_replay c.request.swap_interval c.present.present_id_valid new
  lost_mono : c.present.is_surface_lost = true → c1.present.is_surface_lost = true
  lost_only : c1.present.is_surface_lost = true →
    c.present.is_surface_lost = true ∨ VK_ERROR_SURFACE_LOST_KHR ∈ gpu_results new
  lost_destroyed :
    (c.present.is_surface_lost = true → c.present.vk_swapchain = VK_NULL_HANDLE) →
    c1.present.is_surface_lost = true → c1.present.vk_swapchain = VK_NULL_HANDLE
  no_id :
    (c.present.vk_swapchain = VK_NULL_HANDLE → c.present.present_id = 0) →
    c1.present.vk_swapchain = VK_NULL_HANDLE → c1.present.present_id = 0
  ids :
    (c.present.vk_swapchain = VK_NULL_HANDLE → c.present.present_id = 0) →
    c.present.present_id + present_attempts new < 2 ^ 64 →
    present_ids_scan c.present.present_id new = some c1.present.present_id
  id_le : c1.present.present_id ≤ c.present.present_id + present_attempts new

/-- Effects that leave `present_id_valid` alone and the present ID counter too, when it
is 0: the neutral ones and the calls of `vkCreateSwapchainKHR`. -/
def is_create_or_neutral : Effect → Bool
  | .create_swapchain _ _ => true
  | e => is_present_id_neutral e

/-- The example swapchain with a GPU swapchain 500, the waiter thread active and the
present ID 1 queued for it. -/
def example_waiting_chain : dxgi_vk_swap_chain :=
  { example_chain with
    present := { example_chain.present with vk_swapchain := 500, present_id := 1 }
    wait_thread_active := true
    wait_queue := [1] }

/-- What a level, an iteration or a loop of iterations records, beyond `WorkerTrace`:
at most one present per level entered, and after a `VK_ERROR_SURFACE_LOST_KHR`
the surface is marked lost and no swapchain is left. -/
structure IterationTrace (c c1 : dxgi_vk_swap_chain) (new : List Effect) : Prop where
  trace : WorkerTrace c c1 new
  presents : present_attempts new ≤ (iteration_levels new).length
  lost_if : VK_ERROR_SURFACE_LOST_KHR ∈ gpu_results new →
    c1.present.is_surface_lost = true ∧ c1.present.vk_swapchain = VK_NULL_HANDLE

/-! ## The present callback on a lost surface and the choice of the latency path -/

/-- The effects of `n` present iterations on a lost surface without swapchain: each
enters `present_iteration` and makes a recreate attempt that ends at the lost
check. -/
def quiet_iterations : Nat → List Effect
  | 0 => []
  | n + 1 =>
    Effect.present_iteration 0 :: Effect.recreate_swapchain VK_NULL_HANDLE :: quiet_iterations n

/-- For a request with `swap_interval`, the iterations that recorded `iter` committed a
present ID: `swap_interval >= 1`, and one of the presents carried a present ID and
returned a non-negative result, with no swapchain destruction after it. -/
def present_id_committed (swap_interval : Nat) (iter : List Effect) : Prop :=
  1 ≤ swap_interval ∧
  ∃ l1 id vr l2, iter = l1 ++ Effect.queue_present (some id) vr :: l2 ∧ 0 ≤ vr ∧
    ∀ h, Effect.destroy_swapchain h ∉ l2

/-- The state in which one level of `present_iteration` on `chain` returns or calls
itself (`chain` itself when the level does not return). -/
def level_state (device : d3d12_device) (env : present_env) (chain : dxgi_vk_swap_chain)
    (retry_counter : Nat) : dxgi_vk_swap_chain :=
  match present_iteration_level device env chain retry_counter with
  | some (chain1, _) => chain1
  | none => chain

/-- A request of `Present(2, 0)` on back buffer 0 of the example swapchain. -/
def example_double_request : dxgi_vk_swap_chain_present_request :=
  { (default : dxgi_vk_swap_chain_present_request) with
    swap_interval := 2
    dxgi_format := DXGI_FORMAT_R8G8B8A8_UNORM }

/-- The example swapchain with the waiter thread active and the GPU swapchain 500,
after `Present(2, 0)` stamped its request into ring slot 1; the request before it
was of the same kind; the callback has not run. -/
def example_double_chain : dxgi_vk_swap_chain :=
  { example_chain with
    wait_thread_active := true
    request := example_double_request
    request_ring := Function.update example_chain.request_ring (ring_slot 1) example_double_request
    present := { example_chain.present with
      vk_swapchain := 500
      backbuffer_width := 1920
      backbuffer_height := 1080
      backbuffer_count := 3
      backbuffer_format := VK_FORMAT_B8G8R8A8_UNORM }
    user := { example_chain.user with present_count := 1, blit_count := 1, index := 1 } }

/-- The example GPU when the surface is lost at the acquire. -/
def lost_at_acquire_env : present_env :=
  { example_present_env with acquire_next_image := (VK_ERROR_SURFACE_LOST_KHR, 0) }

/-- Every call succeeds during the first iteration of the callback; from the second
iteration on the surface is lost at the acquire. -/
def example_double_gpu (i : Nat) (_retry_counter : Nat) : present_env :=
  if i = 0 then example_present_env else lost_at_acquire_env

/-- The example states after the first and after the second iteration of the callback
for `example_double_request`. -/
def example_double_first : dxgi_vk_swap_chain :=
  level_state example_device example_present_env
    (present_callback_begin example_device example_double_chain) 0

def example_double_second : dxgi_vk_swap_chain :=
  level_state example_device lost_at_acquire_env example_double_first 0

/-- The example swapchain after `Present(2, 0)` stamped ring slot 1 and `Present(0, 0)`
stamped ring slot 2; no callback has run. -/
def example_two_requests_chain : dxgi_vk_swap_chain :=
  { example_chain with
    request_ring :=
      Function.update
        (Function.update example_chain.request_ring (ring_slot 1) example_double_request)
        (ring_slot 2) { example_double_request with swap_interval := 0, user_index := 1 }
    user := { example_chain.user with present_count := 2, blit_count := 2, index := 0 } }

/-! ## The threads of a swapchain, line by line -/

/-- Where the worker thread is in `present_callback`: outside it; past the copy of the
ring slot into `chain->request` (line 1471, with the lines up to 1476); past the
loop of present iterations (line 1485); past `signal_waitable_handle` (line 1493)
and before the store of `present.present_count` (line 1496). -/
inductive worker_phase where
  | idle
  | copied
  | presented
  | signalled
  deriving DecidableEq

/-- Lines 1488 to 1493 of `present_callback`: the signal of the blit timeline, then
`signal_waitable_handle`, which pushes the present ID to the waiter queue, or
signals the latency fence and registers the completion event, releasing the
latency semaphore itself when that fails. -/
def present_callback_signals (set_event_hr : HRESULT) (chain : dxgi_vk_swap_chain) :
    dxgi_vk_swap_chain :=
  dxgi_vk_swap_chain_signal_waitable_handle set_event_hr
    (dxgi_vk_swap_chain_present_signal_blit_semaphore chain)

/-- Line 1496 of `present_callback`: the store of `next_present_count`, which line 1466
computed as `present.present_count + 1`; only the worker writes
`present.present_count`, so it is still one less than `next_present_count`. -/
def present_callback_store (chain : dxgi_vk_swap_chain) : dxgi_vk_swap_chain :=
  { chain with present := { chain.present with
      present_count := (chain.present.present_count + 1) % 2 ^ 32 } }

/-- The swapchain with its threads: `swapchain_system` together with the place of the
worker inside the callback it runs. `copied` holds the requests the callbacks
copied into `chain->request` at their start, the running callback included. -/
structure swapchain_threads where
  chain : dxgi_vk_swap_chain
  semaphore : Nat
  pending_events : Nat
  in_present : Bool
  worker : worker_phase
  stamped : List dxgi_vk_swap_chain_present_request
  copied : List dxgi_vk_swap_chain_present_request

/-- Whether the running callback is still to store `present.present_count` (1 or 0). -/
def unstored : worker_phase → Nat
  | .idle => 0
  | _ => 1

/-- Whether the running callback is still to pass `signal_waitable_handle` (1 or 0). -/
def unsignalled : worker_phase → Nat
  | .copied => 1
  | .presented => 1
  | _ => 0

/-- The number of callbacks that have stored `present.present_count`. -/
def callbacks_stored (s : swapchain_threads) : Nat :=
  s.copied.length - unstored s.worker

/-- The number of callbacks that have passed `signal_waitable_handle`. -/
def callbacks_signalled (s : swapchain_threads) : Nat :=
  s.copied.length - unsignalled s.worker

/-- The state after a part of the callback that took the swapchain to `chain1` and
the worker to `phase`: the units the part released with `ReleaseSemaphore` and the
units the waiter thread released meanwhile are in the semaphore, and the
completion events the part registered are pending. -/
def worker_moves (s : swapchain_threads) (chain1 : dxgi_vk_swap_chain) (phase : worker_phase) :
    swapchain_threads :=
  { s with
    chain := chain1
    worker := phase
    semaphore := release_each s.semaphore
      (released_units (effects_since s.chain chain1) +
        waiter_releases (effects_since s.chain chain1))
    pending_events := s.pending_events +
      registered_latency_events (effects_since s.chain chain1) }

/-- One step of one thread. The client thread makes one call at a time: `Present` in
two steps, up to the test of the latency-waitable flag (line 636) and from there,
where it takes a unit of the latency semaphore when the flag is unset and can go
on only when there is one; a wait on the handle of `GetFrameLatencyEvent`;
`SetFrameLatency`; `SetColorSpace`; `SetHDRMetaData`; `GetImage`; `ChangeProperties`.
No step of the client depends on the number of outstanding requests: `Present` has
no such test. The worker runs a callback, when one is enqueued and not yet
started, in four steps: the copy of the ring slot (lines 1466 to 1476), the
present iterations (lines 1478 to 1485), the two signals (lines 1488 to 1493),
the store of `present.present_count` (line 1496); the steps of the other threads
fall between them in any order. The waiter thread makes one pass, and the latency
fence fires one registered event. `ChangeProperties` is offered in every state
outside `Present`; its wait for the blit timeline, which is recorded as an effect,
can only delay it. -/
inductive thread_step (device : d3d12_device) : swapchain_threads → swapchain_threads → Prop
  | present_returns (s : swapchain_threads) (surface_caps : VkSurfaceCapabilitiesKHR)
      (SyncInterval PresentFlags : Nat) (hr : HRESULT) (chain1 : dxgi_vk_swap_chain) :
      s.in_present = false →
      dxgi_vk_swap_chain_Present_until_wait s.chain surface_caps SyncInterval PresentFlags =
        some (some hr, chain1) →
      thread_step device s { s with chain := chain1 }
  | present_enqueues (s : swapchain_threads) (surface_caps : VkSurfaceCapabilitiesKHR)
      (SyncInterval PresentFlags : Nat) (chain1 : dxgi_vk_swap_chain) :
      s.in_present = false →
      dxgi_vk_swap_chain_Present_until_wait s.chain surface_caps SyncInterval PresentFlags =
        some (none, chain1) →
      thread_step device s
        { s with
          chain := chain1
          in_present := true
          stamped := s.stamped ++ [chain1.request_ring (ring_slot chain1.user.present_count)] }
  | present_resumes (s : swapchain_threads) :
      s.in_present = true →
      (s.chain.desc.Flags &&& DXGI_SWAP_CHAIN_FLAG_FRAME_LATENCY_WAITABLE_OBJECT = 0 →
        0 < s.semaphore) →
      thread_step device s
        { s with
          chain := (dxgi_vk_swap_chain_Present_after_wait s.chain).2
          in_present := false
          semaphore :=
            if s.chain.desc.Flags &&& DXGI_SWAP_CHAIN_FLAG_FRAME_LATENCY_WAITABLE_OBJECT = 0
            then s.semaphore - 1 else s.semaphore }
  | wait_latency_handle (s : swapchain_threads) :
      s.in_present = false → 0 < s.semaphore →
      thread_step device s { s with semaphore := s.semaphore - 1 }
  | set_frame_latency (s : swapchain_threads) (MaxLatency : Nat) :
      s.in_present = false →
      thread_step device s
        { s with
          chain := (dxgi_vk_swap_chain_SetFrameLatency s.chain MaxLatency).2
          semaphore := release_units s.semaphore (released_units
            (effects_since s.chain (dxgi_vk_swap_chain_SetFrameLatency s.chain MaxLatency).2)) }
  | set_color_space (s : swapchain_threads) (ColorSpace : Nat) :
      s.in_present = false →
      thread_step device s
        { s with chain := (dxgi_vk_swap_chain_SetColorSpace s.chain ColorSpace).2 }
  | set_hdr_metadata (s : swapchain_threads) (pMetaData : DXGI_VK_HDR_METADATA) :
      s.in_present = false →
      thread_step device s
        { s with chain := (dxgi_vk_swap_chain_SetHDRMetaData s.chain pMetaData).2 }
  | get_image (s : swapchain_threads)
      (QueryInterface : d3d12_resource → Nat → Option Nat → HRESULT × Option Nat × d3d12_resource)
      (BufferId riid : Nat) (object object1 : Option Nat) (hr : HRESULT)
      (chain1 : dxgi_vk_swap_chain) :
      s.in_present = false →
      dxgi_vk_swap_chain_GetImage QueryInterface s.chain BufferId riid object =
        some (hr, object1, chain1) →
      thread_step device s { s with chain := chain1 }
  | change_properties (s : swapchain_threads) (pDesc : DXGI_SWAP_CHAIN_DESC1) (env : alloc_env)
      (hr : HRESULT) (chain1 : dxgi_vk_swap_chain) :
      s.in_present = false →
      dxgi_vk_swap_chain_ChangeProperties s.chain pDesc env = some (hr, chain1) →
      thread_step device s { s with chain := chain1 }
  | callback_copies (s : swapchain_threads) :
      s.worker = worker_phase.idle →
      s.copied.length < s.stamped.length →
      thread_step device s
        { s with
          chain := present_callback_begin device s.chain
          worker := worker_phase.copied
          copied := s.copied ++ [(present_callback_begin device s.chain).request] }
  | callback_presents (s : swapchain_threads) (gpu : Nat → Nat → present_env)
      (chain1 : dxgi_vk_swap_chain) :
      s.worker = worker_phase.copied →
      present_callback_loop device gpu (max 1 s.chain.request.swap_interval) 0 s.chain =
        some chain1 →
      thread_step device s (worker_moves s chain1 worker_phase.presented)
  | callback_signals (s : swapchain_threads) (set_event_hr : HRESULT) :
      s.worker = worker_phase.presented →
      thread_step device s
        (worker_moves s (present_callback_signals set_event_hr s.chain) worker_phase.signalled)
  | callback_stores (s : swapchain_threads) :
      s.worker = worker_phase.signalled →
      thread_step device s
        { s with chain := present_callback_store s.chain, worker := worker_phase.idle }
  | wait_worker (s : swapchain_threads) (chain1 : dxgi_vk_swap_chain) :
      s.chain.wait_thread_active = true →
      dxgi_vk_swap_chain_wait_worker s.chain = some chain1 →
      thread_step device s
        { s with chain := chain1, semaphore := release_each s.semaphore 1 }
  | latency_event (s : swapchain_threads) :
      0 < s.pending_events →
      thread_step device s
        { s with
          pending_events := s.pending_events - 1
          semaphore := release_each s.semaphore 1 }

/-- A swapchain as `dxgi_vk_swap_chain_init` leaves it: nothing submitted, nothing
processed, the latency and the semaphore count of `init_sync_objects`, an empty
waiter queue, no event registered, the worker outside the callback. -/
def threads_initial (s : swapchain_threads) : Prop :=
  s.chain.user.present_count = 0 ∧ s.chain.present.present_count = 0 ∧
  s.chain.frame_latency = init_frame_latency s.chain.desc ∧
  s.semaphore = s.chain.frame_latency ∧ s.pending_events = 0 ∧ s.chain.wait_queue = [] ∧
  s.in_present = false ∧ s.worker = worker_phase.idle ∧ s.stamped = [] ∧ s.copied = []

/-- The states the threads reach from the state `s0`. -/
inductive threads_reachable (device : d3d12_device) (s0 : swapchain_threads) :
    swapchain_threads → Prop
  | start : threads_reachable device s0 s0
  | step (s s1 : swapchain_threads) :
      threads_reachable device s0 s → thread_step device s s1 → threads_reachable device s0 s1

/-- The latency-waitable flag is unset in the descriptor: `Present` takes a unit of the
latency semaphore before it returns. -/
def latency_gated (s : swapchain_threads) : Prop :=
  s.chain.desc.Flags &&& DXGI_SWAP_CHAIN_FLAG_FRAME_LATENCY_WAITABLE_OBJECT = 0

/-- The states the threads reach from `s0` with the latency-waitable flag unset in
`s0` and after every step: no `ChangeProperties` on the way has set the flag. -/
inductive gated_reachable (device : d3d12_device) (s0 : swapchain_threads) :
    swapchain_threads → Prop
  | start : latency_gated s0 → gated_reachable device s0 s0
  | step (s s1 : swapchain_threads) :
      gated_reachable device s0 s → thread_step device s s1 → latency_gated s1 →
      gated_reachable device s0 s1

/-- The counters against the history, in every state: the two 32-bit counters are the
numbers of requests stamped and of callbacks that stored, modulo 2^32; no more
requests are copied than stamped; the running callback has copied its request;
and the frame latency is between 1 and 16. -/
structure counter_invariant (s : swapchain_threads) : Prop where
  user_count : s.chain.user.present_count = s.stamped.length % 2 ^ 32
  present_count : s.chain.present.present_count = callbacks_stored s % 2 ^ 32
  copied_le : s.copied.length ≤ s.stamped.length
  running : unstored s.worker ≤ s.copied.length
  latency_pos : 1 ≤ s.chain.frame_latency
  latency_le : s.chain.frame_latency ≤ DXGI_MAX_SWAP_CHAIN_BUFFERS

/-- The units of the latency semaphore and the ring while the latency-waitable flag
has been unset since the creation: the frame latency is the initial one; the
units in the semaphore, those an event or the waiter thread will still release,
and the requests whose callback has not passed `signal_waitable_handle` are
together at most `frame_latency`, plus one while the client is inside `Present`;
the copied requests are the first of the stamped ones, in order; and the ring
holds every request that is not copied yet at the slot of its number. -/
structure gate_invariant (s : swapchain_threads) : Prop where
  flags : s.chain.desc.Flags &&& DXGI_SWAP_CHAIN_FLAG_FRAME_LATENCY_WAITABLE_OBJECT = 0
  frame_latency : s.chain.frame_latency = DEFAULT_FRAME_LATENCY - 1
  units : s.semaphore + s.pending_events + s.chain.wait_queue.length + s.stamped.length ≤
    s.chain.frame_latency + (if s.in_present then 1 else 0) + callbacks_signalled s
  copied_eq : s.copied = s.stamped.take s.copied.length
  ring : ∀ k, s.copied.length ≤ k → k < s.stamped.length →
    s.stamped[k]? = some (s.chain.request_ring (ring_slot ((k + 1) % 2 ^ 32)))

/-- A state of `swapchain_system` as a state of the threads: the worker is outside the
callback. -/
def system_threads (s : swapchain_system) : swapchain_threads :=
  { chain := s.chain, semaphore := s.semaphore, pending_events := s.pending_events
    in_present := s.in_present, worker := worker_phase.idle
    stamped := s.stamped, copied := s.copied }

/-- What a call of the client other than `Present` and `SetFrameLatency` keeps. -/
structure ClientKeeps (chain chain1 : dxgi_vk_swap_chain) : Prop where
  present_count : chain1.user.present_count = chain.user.present_count
  present : chain1.present = chain.present
  request_ring : chain1.request_ring = chain.request_ring
  wait_queue : chain1.wait_queue = chain.wait_queue
  frame_latency : chain1.frame_latency = chain.frame_latency

/-! ## Runs of the threads of the example swapchains -/

/-- The example swapchain with its threads right after its creation: latency 2, two
units in the semaphore, the worker outside the callback. -/
def example_threads : swapchain_threads :=
  system_threads example_system

/-- The example swapchain created with the latency-waitable flag, with its threads,
right after its creation: latency 1, one unit in the semaphore. -/
def example_waitable_threads : swapchain_threads :=
  system_threads example_waitable_system

/-- The example swapchain inside its third `Present(1, 0)`, the first callback having
copied its request; then after the present iteration of that callback, on the
example GPU; then after its two signals, the completion event registered. -/
def example_copied_chain : dxgi_vk_swap_chain :=
  present_callback_begin example_device example_chain_third_present

def example_presented_chain : dxgi_vk_swap_chain :=
  level_state example_device example_present_env example_copied_chain 0

def example_signalled_chain : dxgi_vk_swap_chain :=
  present_callback_signals S_OK example_presented_chain

/-- A state in which `Present(_, 0)` on the example surface enqueues: the client is
outside `Present`, no callback has started, the occlusion state is 0, and the two
back buffers of the descriptor exist. -/
def ready_to_present (s : swapchain_threads) : Prop :=
  s.in_present = false ∧ s.worker = worker_phase.idle ∧ s.copied = [] ∧
  s.chain.present.present_count = 0 ∧ s.chain.present.is_occlusion_state = 0 ∧
  s.chain.desc.BufferCount = 2 ∧ s.chain.user.index < 2 ∧
  (∀ i, i < 2 → (user_backbuffer s.chain i).isSome = true)

/-- The chain `ChangeProperties` leaves on the example allocator (`chain` itself when
the call faults). -/
def example_change (chain : dxgi_vk_swap_chain) (pDesc : DXGI_SWAP_CHAIN_DESC1) :
    dxgi_vk_swap_chain :=
  match dxgi_vk_swap_chain_ChangeProperties chain pDesc example_env with
  | some (_, chain1) => chain1
  | none => chain

/-- The example swapchain created with the latency-waitable flag after
`SetFrameLatency(16)`; and after `ChangeProperties` to `example_desc`, whose flags
are 0, has followed. -/
def example_raised_chain : dxgi_vk_swap_chain :=
  (dxgi_vk_swap_chain_SetFrameLatency example_waitable_chain 16).2

def example_cleared_chain : dxgi_vk_swap_chain :=
  example_change example_raised_chain example_desc

theorem present_is_occluded_user (chain : dxgi_vk_swap_chain) (caps : VkSurfaceCapabilitiesKHR) :
    (dxgi_vk_swap_chain_present_is_occluded chain caps).2.user = chain.user := by
  unfold dxgi_vk_swap_chain_present_is_occluded
  split <;> rfl

theorem present_is_occluded_desc (chain : dxgi_vk_swap_chain) (caps : VkSurfaceCapabilitiesKHR) :
    (dxgi_vk_swap_chain_present_is_occluded chain caps).2.desc = chain.desc := by
  unfold dxgi_vk_swap_chain_present_is_occluded
  split <;> rfl

theorem present_is_occluded_ring (chain : dxgi_vk_swap_chain) (caps : VkSurfaceCapabilitiesKHR) :
    (dxgi_vk_swap_chain_present_is_occluded chain caps).2.request_ring = chain.request_ring := by
  unfold dxgi_vk_swap_chain_present_is_occluded
  split <;> rfl

theorem present_is_occluded_effects (chain : dxgi_vk_swap_chain) (caps : VkSurfaceCapabilitiesKHR) :
    (dxgi_vk_swap_chain_present_is_occluded chain caps).2.effects = chain.effects := by
  unfold dxgi_vk_swap_chain_present_is_occluded
  split <;> rfl

theorem present_is_occluded_backbuffer (chain : dxgi_vk_swap_chain) (caps : VkSurfaceCapabilitiesKHR)
    (i : Nat) :
    user_backbuffer (dxgi_vk_swap_chain_present_is_occluded chain caps).2 i = user_backbuffer chain i := by
  unfold user_backbuffer
  rw [present_is_occluded_user]

/-- Unfolding of `Present` along its four exits. -/
theorem Present_unfold (chain : dxgi_vk_swap_chain) (caps : VkSurfaceCapabilitiesKHR)
    (SyncInterval PresentFlags : Nat) :
    dxgi_vk_swap_chain_Present chain caps SyncInterval PresentFlags =
      if (dxgi_vk_swap_chain_present_is_occluded chain caps).1 then
        some (DXGI_STATUS_OCCLUDED, (dxgi_vk_swap_chain_present_is_occluded chain caps).2)
      else if PresentFlags &&& DXGI_PRESENT_TEST ≠ 0 then
        some (S_OK, (dxgi_vk_swap_chain_present_is_occluded chain caps).2)
      else if ¬ (chain.user.index < chain.desc.BufferCount) then none
      else
        match user_backbuffer chain chain.user.index with
        | none => none
        | some backbuffer =>
          some (S_OK,
            { (dxgi_vk_swap_chain_present_is_occluded chain caps).2 with
              request_ring := Function.update chain.request_ring
                (ring_slot ((chain.user.present_count + 1) % 2 ^ 32))
                { swap_interval := SyncInterval
                  dxgi_format := backbuffer.desc_Format
                  user_index := chain.user.index
                  dxgi_color_space_type := chain.user.dxgi_color_space_type
                  dxgi_hdr_metadata := chain.user.dxgi_hdr_metadata
                  modifies_hdr_metadata := chain.user.modifies_hdr_metadata }
              user := { chain.user with
                present_count := (chain.user.present_count + 1) % 2 ^ 32
                modifies_hdr_metadata := false
                blit_count := (chain.user.blit_count + 1) % 2 ^ 64
                index := ((chain.user.index + 1) % 2 ^ 32) % chain.desc.BufferCount }
              effects := chain.effects ++ Effect.enqueue_present_callback ::
                (if chain.desc.Flags &&& DXGI_SWAP_CHAIN_FLAG_FRAME_LATENCY_WAITABLE_OBJECT = 0
                 then [Effect.wait_frame_latency_event] else []) }) := by
  unfold dxgi_vk_swap_chain_Present
  simp only [present_is_occluded_backbuffer, present_is_occluded_user, present_is_occluded_desc,
    present_is_occluded_ring, present_is_occluded_effects]

/-! ## Lemmas on Present -/

theorem enqueued_callbacks_append (l m : List Effect) :
    enqueued_callbacks (l ++ m) = enqueued_callbacks l + enqueued_callbacks m := by
  simp [enqueued_callbacks]

theorem user_backbuffer_lt (chain : dxgi_vk_swap_chain) (i : Nat) (r : d3d12_resource)
    (h : user_backbuffer chain i = some r) : i < 16 := by
  unfold user_backbuffer at h
  by_contra hlt
  rw [dif_neg hlt] at h
  exact Option.noConfusion h

theorem Present_enqueued_inv (chain : dxgi_vk_swap_chain) (caps : VkSurfaceCapabilitiesKHR)
    (SyncInterval PresentFlags : Nat) (hr : HRESULT) (chain1 : dxgi_vk_swap_chain)
    (hP : dxgi_vk_swap_chain_Present chain caps SyncInterval PresentFlags = some (hr, chain1))
    (henq : enqueued_callbacks chain1.effects = enqueued_callbacks chain.effects + 1) :
    hr = S_OK ∧
    (dxgi_vk_swap_chain_present_is_occluded chain caps).1 = false ∧
    PresentFlags &&& DXGI_PRESENT_TEST = 0 ∧
    chain.user.index < chain.desc.BufferCount ∧
    chain1.user.index = (chain.user.index + 1) % chain.desc.BufferCount ∧
    chain1.desc = chain.desc ∧
    chain1.user.backbuffers = chain.user.backbuffers := by
  rw [Present_unfold] at hP
  split at hP
  · simp only [Option.some.injEq, Prod.mk.injEq] at hP
    rw [← hP.2, present_is_occluded_effects] at henq
    omega
  · rename_i hocc
    split at hP
    · simp only [Option.some.injEq, Prod.mk.injEq] at hP
      rw [← hP.2, present_is_occluded_effects] at henq
      omega
    · rename_i htest
      split at hP
      · exact Option.noConfusion hP
      · rename_i hassert
        split at hP
        · exact Option.noConfusion hP
        · rename_i r hbuf
          have h16 := user_backbuffer_lt chain _ r hbuf
          simp only [Option.some.injEq, Prod.mk.injEq] at hP
          obtain ⟨h1, h2⟩ := hP
          subst h2
          refine ⟨h1.symm, by simpa using hocc, by simpa using htest, by simpa using hassert, ?_,
            present_is_occluded_desc chain caps, rfl⟩
          show ((chain.user.index + 1) % 2 ^ 32) % chain.desc.BufferCount = _
          rw [Nat.mod_eq_of_lt (by omega : chain.user.index + 1 < 2 ^ 32)]


theorem Present_enqueue_eq (chain : dxgi_vk_swap_chain) (caps : VkSurfaceCapabilitiesKHR)
    (SyncInterval PresentFlags : Nat) (r : d3d12_resource)
    (hocc : (dxgi_vk_swap_chain_present_is_occluded chain caps).1 = false)
    (htest : PresentFlags &&& DXGI_PRESENT_TEST = 0)
    (hassert : chain.user.index < chain.desc.BufferCount)
    (hbuf : user_backbuffer chain chain.user.index = some r) :
    dxgi_vk_swap_chain_Present chain caps SyncInterval PresentFlags =
      some (S_OK,
        { (dxgi_vk_swap_chain_present_is_occluded chain caps).2 with
          request_ring := Function.update chain.request_ring
            (ring_slot ((chain.user.present_count + 1) % 2 ^ 32))
            { swap_interval := SyncInterval
              dxgi_format := r.desc_Format
              user_index := chain.user.index
              dxgi_color_space_type := chain.user.dxgi_color_space_type
              dxgi_hdr_metadata := chain.user.dxgi_hdr_metadata
              modifies_hdr_metadata := chain.user.modifies_hdr_metadata }
          user := { chain.user with
            present_count := (chain.user.present_count + 1) % 2 ^ 32
            modifies_hdr_metadata := false
            blit_count := (chain.user.blit_count + 1) % 2 ^ 64
            index := ((chain.user.index + 1) % 2 ^ 32) % chain.desc.BufferCount }
          effects := chain.effects ++ Effect.enqueue_present_callback ::
            (if chain.desc.Flags &&& DXGI_SWAP_CHAIN_FLAG_FRAME_LATENCY_WAITABLE_OBJECT = 0
             then [Effect.wait_frame_latency_event] else []) }) := by
  rw [Present_unfold, hocc, hbuf]
  simp only [Bool.false_eq_true, if_false, htest, ne_eq, not_true_eq_false, hassert]

theorem enqueued_callbacks_enqueue (l : List Effect) (b : Prop) [Decidable b] :
    enqueued_callbacks (l ++ Effect.enqueue_present_callback ::
      (if b then [Effect.wait_frame_latency_event] else [])) = enqueued_callbacks l + 1 := by
  rw [enqueued_callbacks_append]
  by_cases hb : b <;> simp [hb, enqueued_callbacks]

/-- A Present that got past both short circuits and returned has passed its
assertion and found its back buffer. -/
theorem Present_returned_inv (chain : dxgi_vk_swap_chain) (caps : VkSurfaceCapabilitiesKHR)
    (SyncInterval PresentFlags : Nat) (hr : HRESULT) (chain1 : dxgi_vk_swap_chain)
    (hocc : (dxgi_vk_swap_chain_present_is_occluded chain caps).1 = false)
    (htest : PresentFlags &&& DXGI_PRESENT_TEST = 0)
    (hP : dxgi_vk_swap_chain_Present chain caps SyncInterval PresentFlags = some (hr, chain1)) :
    chain.user.index < chain.desc.BufferCount ∧
    ∃ r, user_backbuffer chain chain.user.index = some r := by
  rw [Present_unfold, hocc] at hP
  simp only [Bool.false_eq_true, if_false, htest, ne_eq, not_true_eq_false] at hP
  split at hP
  · exact Option.noConfusion hP
  · rename_i hassert
    split at hP
    · exact Option.noConfusion hP
    · rename_i r hbuf
      exact ⟨by simpa using hassert, r, hbuf⟩

/-! ## C1: the effect of an enqueuing Present -/

/-- C1. In a state where the occlusion check of Present answers "not occluded", for a
call without the TEST flag. Every such call that returns, returns `S_OK`, and
with `r` the back buffer at the old `user.index`: `user.present_count` has gone up
by one modulo 2^32; the ring slot at the new `user.present_count` modulo 16 holds
`user_index` = the old `user.index`, `dxgi_format` = the format of `r`, the client
color space and HDR metadata, `modifies_hdr_metadata` = the old dirty flag and
`swap_interval = SyncInterval`; every other ring slot is as before; the dirty flag
is cleared; `user.blit_count` has gone up by one (as a 64-bit counter); exactly
one worker callback is enqueued. The call returns whenever its assertion
`user.index < BufferCount` holds and the back buffer at `user.index` exists. -/
theorem Present_stamps_one_request (chain : dxgi_vk_swap_chain) (caps : VkSurfaceCapabilitiesKHR)
    (SyncInterval PresentFlags : Nat)
    (hocc : (dxgi_vk_swap_chain_present_is_occluded chain caps).1 = false)
    (htest : PresentFlags &&& DXGI_PRESENT_TEST = 0) :
    (∀ hr chain1,
      dxgi_vk_swap_chain_Present chain caps SyncInterval PresentFlags = some (hr, chain1) →
      hr = S_OK ∧
      chain1.user.present_count = (chain.user.present_count + 1) % 2 ^ 32 ∧
      (∃ r, user_backbuffer chain chain.user.index = some r ∧
        chain1.request_ring (ring_slot chain1.user.present_count) =
          { user_index := chain.user.index
            dxgi_format := r.desc_Format
            dxgi_color_space_type := chain.user.dxgi_color_space_type
            dxgi_hdr_metadata := chain.user.dxgi_hdr_metadata
            swap_interval := SyncInterval
            modifies_hdr_metadata := chain.user.modifies_hdr_metadata }) ∧
      (∀ j : Fin DXGI_MAX_SWAP_CHAIN_BUFFERS, j ≠ ring_slot chain1.user.present_count →
        chain1.request_ring j = chain.request_ring j) ∧
      chain1.user.modifies_hdr_metadata = false ∧
      chain1.user.blit_count = (chain.user.blit_count + 1) % 2 ^ 64 ∧
      (chain.user.blit_count + 1 < 2 ^ 64 → chain1.user.blit_count = chain.user.blit_count + 1) ∧
      enqueued_callbacks chain1.effects = enqueued_callbacks chain.effects + 1) ∧
    (chain.user.index < chain.desc.BufferCount →
      (user_backbuffer chain chain.user.index).isSome = true →
      ∃ chain1, dxgi_vk_swap_chain_Present chain caps SyncInterval PresentFlags =
        some (S_OK, chain1)) := by
  constructor
  · intro hr chain1 hP
    obtain ⟨hassert, r, hbuf⟩ := Present_returned_inv _ _ _ _ _ _ hocc htest hP
    rw [Present_enqueue_eq chain caps SyncInterval PresentFlags r hocc htest hassert hbuf] at hP
    simp only [Option.some.injEq, Prod.mk.injEq] at hP
    obtain ⟨h1, h2⟩ := hP
    subst h2
    refine ⟨h1.symm, rfl, ⟨r, hbuf, ?_⟩, ?_, rfl, rfl, ?_, ?_⟩
    · exact Function.update_same _ _ _
    · intro j hj
      exact Function.update_noteq hj _ _
    · intro h
      exact Nat.mod_eq_of_lt h
    · exact enqueued_callbacks_enqueue _ _
  · intro hassert hbuf
    obtain ⟨r, hr⟩ := Option.isSome_iff_exists.mp hbuf
    exact ⟨_, Present_enqueue_eq chain caps SyncInterval PresentFlags r hocc htest hassert hr⟩

/-- Witness of C1: the first `Present(1, 0)` of the two-buffer example swapchain
returns `S_OK`, with `user.present_count = 1`, `user.blit_count = 1` and one
callback enqueued. -/
theorem Present_stamps_one_request_witness :
    (dxgi_vk_swap_chain_present_is_occluded example_chain example_caps).1 = false ∧
    0 &&& DXGI_PRESENT_TEST = 0 ∧
    ∃ chain1, dxgi_vk_swap_chain_Present example_chain example_caps 1 0 = some (S_OK, chain1) ∧
      chain1.user.present_count = (0 + 1) % 2 ^ 32 ∧
      chain1.user.modifies_hdr_metadata = false ∧
      chain1.user.blit_count = (0 + 1) % 2 ^ 64 ∧
      enqueued_callbacks chain1.effects = enqueued_callbacks example_chain.effects + 1 :=
  have h := Present_stamps_one_request example_chain example_caps 1 0 (by decide) (by decide)
  ⟨by decide, by decide,
    (h.2 (by decide) (by decide)).elim fun chain1 hP =>
      ⟨chain1, hP, (h.1 S_OK chain1 hP).2.1, (h.1 S_OK chain1 hP).2.2.2.2.1,
        (h.1 S_OK chain1 hP).2.2.2.2.2.1, (h.1 S_OK chain1 hP).2.2.2.2.2.2.2⟩⟩

/-! ## Lemmas on runs of Present -/

theorem user_backbuffer_congr (c1 c2 : dxgi_vk_swap_chain)
    (h : c1.user.backbuffers = c2.user.backbuffers) (i : Nat) :
    user_backbuffer c1 i = user_backbuffer c2 i := by
  unfold user_backbuffer
  rw [h]

/-- When the surface is not minimised and the last observation was "not occluded",
the occlusion check of Present answers "not occluded" and keeps that observation. -/
theorem present_is_occluded_false (chain : dxgi_vk_swap_chain) (caps : VkSurfaceCapabilitiesKHR)
    (hcaps : dxgi_vk_swap_chain_is_occluded caps = false)
    (hstate : chain.present.is_occlusion_state = 0) :
    (dxgi_vk_swap_chain_present_is_occluded chain caps).1 = false ∧
    (dxgi_vk_swap_chain_present_is_occluded chain caps).2.present.is_occlusion_state = 0 := by
  unfold dxgi_vk_swap_chain_present_is_occluded
  split
  · simp [hcaps]
  · simp [hstate]

/-- The user index after `k` enqueuing Presents. -/
theorem EnqueuingPresents_index {k : Nat} {chain chain2 : dxgi_vk_swap_chain}
    (hrun : EnqueuingPresents k chain chain2) :
    chain2.user.index % chain.desc.BufferCount = (chain.user.index + k) % chain.desc.BufferCount ∧
    chain2.desc = chain.desc ∧ chain2.user.backbuffers = chain.user.backbuffers ∧
    (chain.user.index < chain.desc.BufferCount → chain2.user.index < chain.desc.BufferCount) := by
  induction hrun with
  | zero c => exact ⟨rfl, rfl, rfl, fun h => h⟩
  | step caps sync flags hr hprev huser hdesc hP henq ih =>
    obtain ⟨_, _, _, hlt, hidx, hd, hb⟩ := Present_enqueued_inv _ _ _ _ _ _ hP henq
    rw [huser, hdesc, ih.2.1] at hidx
    rw [hdesc, ih.2.1] at hd
    rw [huser, ih.2.2.1] at hb
    rw [huser, hdesc, ih.2.1] at hlt
    refine ⟨?_, hd, hb, fun _ => ?_⟩
    · rw [hidx, Nat.mod_mod, Nat.add_mod, ih.1, ← Nat.add_mod, Nat.add_assoc]
    · rw [hidx]
      exact Nat.mod_lt _ (by omega)

/-- A run of `k` enqueuing Presents exists whenever the first `BufferCount` back
buffers exist, the index is in range and no occlusion is observed. -/
theorem EnqueuingPresents_exists (chain : dxgi_vk_swap_chain) (caps : VkSurfaceCapabilitiesKHR)
    (hslots : ∀ i, i < chain.desc.BufferCount → (user_backbuffer chain i).isSome = true)
    (hidx : chain.user.index < chain.desc.BufferCount)
    (hcaps : dxgi_vk_swap_chain_is_occluded caps = false)
    (hstate : chain.present.is_occlusion_state = 0) (k : Nat) :
    ∃ chain2, EnqueuingPresents k chain chain2 ∧ chain2.present.is_occlusion_state = 0 ∧
      chain2.user.backbuffers = chain.user.backbuffers ∧ chain2.desc = chain.desc ∧
      chain2.user.index < chain2.desc.BufferCount := by
  induction k with
  | zero => exact ⟨chain, EnqueuingPresents.zero chain, hstate, rfl, rfl, hidx⟩
  | succ k ih =>
    obtain ⟨mid, hrun, hst, hbb, hd, hi⟩ := ih
    obtain ⟨r, hr⟩ := Option.isSome_iff_exists.mp (hslots mid.user.index (by rw [← hd]; exact hi))
    rw [← user_backbuffer_congr mid chain hbb] at hr
    have hocc := present_is_occluded_false mid caps hcaps hst
    have hP := Present_enqueue_eq mid caps 1 0 r hocc.1 (by decide) hi hr
    refine ⟨_, EnqueuingPresents.step caps 1 0 S_OK hrun rfl rfl hP ?_, hocc.2, hbb, ?_, ?_⟩
    · exact enqueued_callbacks_enqueue _ _
    · exact (present_is_occluded_desc mid caps).trans hd
    · show ((mid.user.index + 1) % 2 ^ 32) % mid.desc.BufferCount <
        (dxgi_vk_swap_chain_present_is_occluded mid caps).2.desc.BufferCount
      rw [present_is_occluded_desc]
      exact Nat.mod_lt _ (by omega)


theorem add_mod_ne_self (b i k : Nat) (hi : i < b) (hk0 : 0 < k) (hk : k < b) :
    (i + k) % b ≠ i := by
  by_cases h : i + k < b
  · rw [Nat.mod_eq_of_lt h]
    omega
  · rw [Nat.mod_eq_sub_mod (by omega : i + k ≥ b), Nat.mod_eq_of_lt (by omega : i + k - b < b)]
    omega

/-! ## C2: the user index cycles through the back buffers -/

/-- C2. In a state with `BufferCount >= 1` and `user.index < BufferCount`: a Present
that enqueues a request returns `S_OK` and sets `user.index` to
`(user.index + 1) mod BufferCount`, which is below `BufferCount`; after `k` such
Presents the index is `(user.index + k) mod BufferCount`, so it is back at its
starting value after `BufferCount` of them and not before; such a run exists when
the back buffers exist and no occlusion is observed; and with `BufferCount = 2`
and `user.index = 0`, `Present(1, 0)` on a surface that is not occluded returns
`S_OK` and leaves `user.index = 1`. -/
theorem Present_cycles_user_index (chain : dxgi_vk_swap_chain)
    (hcount : 1 ≤ chain.desc.BufferCount)
    (hidx : chain.user.index < chain.desc.BufferCount) :
    (∀ caps SyncInterval PresentFlags hr chain1,
      dxgi_vk_swap_chain_Present chain caps SyncInterval PresentFlags = some (hr, chain1) →
      enqueued_callbacks chain1.effects = enqueued_callbacks chain.effects + 1 →
      hr = S_OK ∧
      chain1.user.index = (chain.user.index + 1) % chain.desc.BufferCount ∧
      chain1.user.index < chain1.desc.BufferCount) ∧
    (∀ k chain2, EnqueuingPresents k chain chain2 →
      chain2.user.index = (chain.user.index + k) % chain.desc.BufferCount ∧
      chain2.user.index < chain2.desc.BufferCount) ∧
    (∀ chain2, EnqueuingPresents chain.desc.BufferCount chain chain2 →
      chain2.user.index = chain.user.index) ∧
    (∀ k chain2, 0 < k → k < chain.desc.BufferCount → EnqueuingPresents k chain chain2 →
      chain2.user.index ≠ chain.user.index) ∧
    (∀ caps, (∀ i, i < chain.desc.BufferCount → (user_backbuffer chain i).isSome = true) →
      dxgi_vk_swap_chain_is_occluded caps = false → chain.present.is_occlusion_state = 0 →
      ∃ chain2, EnqueuingPresents chain.desc.BufferCount chain chain2) ∧
    (chain.desc.BufferCount = 2 → chain.user.index = 0 → ∀ caps r,
      (dxgi_vk_swap_chain_present_is_occluded chain caps).1 = false →
      user_backbuffer chain 0 = some r →
      ∃ chain1, dxgi_vk_swap_chain_Present chain caps 1 0 = some (S_OK, chain1) ∧
        chain1.user.index = 1) := by
  have hrun : ∀ k chain2, EnqueuingPresents k chain chain2 →
      chain2.user.index = (chain.user.index + k) % chain.desc.BufferCount ∧
      chain2.user.index < chain2.desc.BufferCount := by
    intro k chain2 h
    obtain ⟨h1, h2, _, h4⟩ := EnqueuingPresents_index h
    have hlt := h4 hidx
    rw [Nat.mod_eq_of_lt hlt] at h1
    exact ⟨h1, by rw [h2]; exact hlt⟩
  refine ⟨?_, hrun, ?_, ?_, ?_, ?_⟩
  · intro caps sync flags hr chain1 hP henq
    obtain ⟨h1, _, _, _, h5, h6, _⟩ := Present_enqueued_inv _ _ _ _ _ _ hP henq
    refine ⟨h1, h5, ?_⟩
    rw [h5, h6]
    exact Nat.mod_lt _ (by omega)
  · intro chain2 h
    rw [(hrun _ _ h).1, Nat.add_mod_right, Nat.mod_eq_of_lt hidx]
  · intro k chain2 hk0 hk h
    rw [(hrun _ _ h).1]
    exact add_mod_ne_self _ _ _ hidx hk0 hk
  · intro caps hslots hcaps hstate
    obtain ⟨chain2, h, _⟩ := EnqueuingPresents_exists chain caps hslots hidx hcaps hstate
      chain.desc.BufferCount
    exact ⟨chain2, h⟩
  · intro hb hi caps r hocc hbuf
    rw [← hi] at hbuf
    refine ⟨_, Present_enqueue_eq chain caps 1 0 r hocc (by decide) hidx hbuf, ?_⟩
    show ((chain.user.index + 1) % 2 ^ 32) % chain.desc.BufferCount = 1
    rw [hb, hi]
    rfl

/-- Witness of C2: the two-buffer example swapchain, whose index is 0. -/
theorem Present_cycles_user_index_witness :
    1 ≤ example_chain.desc.BufferCount ∧
    example_chain.user.index < example_chain.desc.BufferCount ∧
    (∃ chain1, dxgi_vk_swap_chain_Present example_chain example_caps 1 0 = some (S_OK, chain1) ∧
      chain1.user.index = 1) ∧
    (∃ chain2, EnqueuingPresents 2 example_chain chain2 ∧ chain2.user.index = 0) :=
  have hall := Present_cycles_user_index example_chain (by decide) (by decide)
  have hrun := hall.2.2.2.2.1 example_caps (by decide) (by decide) (by decide)
  ⟨by decide, by decide,
    hall.2.2.2.2.2 rfl rfl example_caps (example_buffer 100) (by decide) (by decide),
    hrun.elim fun chain2 h => ⟨chain2, h, hall.2.2.1 chain2 h⟩⟩


/-! ## C3: the two short circuits of Present -/

/-- C3. Present first runs the occlusion check: when it answers "occluded" the call
returns `DXGI_STATUS_OCCLUDED` whatever the flags; when it answers "not occluded"
and the TEST flag is set the call returns `S_OK`; in both cases
`user.present_count`, `user.blit_count`, `user.index`, the HDR dirty flag, every
ring slot and the list of effects are as before, so no callback is enqueued.
A call that returns has enqueued a callback if and only if the check answered
"not occluded" and TEST was not set, and under the asserted precondition such a
call does return. -/
theorem Present_short_circuits (chain : dxgi_vk_swap_chain) (caps : VkSurfaceCapabilitiesKHR)
    (SyncInterval PresentFlags : Nat) :
    ((dxgi_vk_swap_chain_present_is_occluded chain caps).1 = true →
      ∃ chain1, dxgi_vk_swap_chain_Present chain caps SyncInterval PresentFlags =
          some (DXGI_STATUS_OCCLUDED, chain1) ∧
        chain1.user.present_count = chain.user.present_count ∧
        chain1.user.blit_count = chain.user.blit_count ∧
        chain1.user.index = chain.user.index ∧
        chain1.user.modifies_hdr_metadata = chain.user.modifies_hdr_metadata ∧
        (∀ j, chain1.request_ring j = chain.request_ring j) ∧
        chain1.effects = chain.effects ∧
        enqueued_callbacks chain1.effects = enqueued_callbacks chain.effects) ∧
    ((dxgi_vk_swap_chain_present_is_occluded chain caps).1 = false →
      PresentFlags &&& DXGI_PRESENT_TEST ≠ 0 →
      ∃ chain1, dxgi_vk_swap_chain_Present chain caps SyncInterval PresentFlags =
          some (S_OK, chain1) ∧
        chain1.user.present_count = chain.user.present_count ∧
        chain1.user.blit_count = chain.user.blit_count ∧
        chain1.user.index = chain.user.index ∧
        chain1.user.modifies_hdr_metadata = chain.user.modifies_hdr_metadata ∧
        (∀ j, chain1.request_ring j = chain.request_ring j) ∧
        chain1.effects = chain.effects ∧
        enqueued_callbacks chain1.effects = enqueued_callbacks chain.effects) ∧
    (∀ hr chain1,
      dxgi_vk_swap_chain_Present chain caps SyncInterval PresentFlags = some (hr, chain1) →
      (enqueued_callbacks chain1.effects = enqueued_callbacks chain.effects + 1 ↔
        ((dxgi_vk_swap_chain_present_is_occluded chain caps).1 = false ∧
          PresentFlags &&& DXGI_PRESENT_TEST = 0))) ∧
    (chain.user.index < chain.desc.BufferCount →
      (user_backbuffer chain chain.user.index).isSome = true →
      (dxgi_vk_swap_chain_present_is_occluded chain caps).1 = false →
      PresentFlags &&& DXGI_PRESENT_TEST = 0 →
      ∃ chain1, dxgi_vk_swap_chain_Present chain caps SyncInterval PresentFlags =
          some (S_OK, chain1) ∧
        enqueued_callbacks chain1.effects = enqueued_callbacks chain.effects + 1) := by
  refine ⟨?_, ?_, ?_, ?_⟩
  · intro hocc
    refine ⟨(dxgi_vk_swap_chain_present_is_occluded chain caps).2, ?_, ?_⟩
    · rw [Present_unfold, hocc]
      rfl
    · simp only [present_is_occluded_user, present_is_occluded_ring, present_is_occluded_effects,
        implies_true, and_self]
  · intro hocc htest
    refine ⟨(dxgi_vk_swap_chain_present_is_occluded chain caps).2, ?_, ?_⟩
    · rw [Present_unfold, hocc]
      simp only [Bool.false_eq_true, if_false, htest, ne_eq, not_false_eq_true, if_true]
    · simp only [present_is_occluded_user, present_is_occluded_ring, present_is_occluded_effects,
        implies_true, and_self]
  · intro hr chain1 hP
    constructor
    · intro henq
      obtain ⟨_, h2, h3, _⟩ := Present_enqueued_inv _ _ _ _ _ _ hP henq
      exact ⟨h2, h3⟩
    · rintro ⟨hocc, htest⟩
      rw [Present_unfold, hocc] at hP
      simp only [Bool.false_eq_true, if_false, htest, ne_eq, not_true_eq_false] at hP
      split at hP
      · exact Option.noConfusion hP
      · split at hP
        · exact Option.noConfusion hP
        · simp only [Option.some.injEq, Prod.mk.injEq] at hP
          rw [← hP.2]
          exact enqueued_callbacks_enqueue _ _
  · intro hassert hbuf hocc htest
    obtain ⟨r, hr⟩ := Option.isSome_iff_exists.mp hbuf
    exact ⟨_, Present_enqueue_eq chain caps SyncInterval PresentFlags r hocc htest hassert hr,
      enqueued_callbacks_enqueue _ _⟩

/-- Witness of C3: `Present(1, 0)` on a minimised window, and a TEST Present on a
visible one. -/
theorem Present_short_circuits_witness :
    (dxgi_vk_swap_chain_present_is_occluded example_chain minimised_caps).1 = true ∧
    (∃ chain1, dxgi_vk_swap_chain_Present example_chain minimised_caps 1 0 =
        some (DXGI_STATUS_OCCLUDED, chain1) ∧
      chain1.user.blit_count = example_chain.user.blit_count ∧
      enqueued_callbacks chain1.effects = enqueued_callbacks example_chain.effects) ∧
    (dxgi_vk_swap_chain_present_is_occluded example_chain example_caps).1 = false ∧
    1 &&& DXGI_PRESENT_TEST ≠ 0 ∧
    (∃ chain1, dxgi_vk_swap_chain_Present example_chain example_caps 1 1 = some (S_OK, chain1) ∧
      enqueued_callbacks chain1.effects = enqueued_callbacks example_chain.effects) :=
  ⟨by decide,
    ((Present_short_circuits example_chain minimised_caps 1 0).1 (by decide)).elim
      fun chain1 h => ⟨chain1, h.1, h.2.2.1, h.2.2.2.2.2.2.2⟩,
    by decide, by decide,
    ((Present_short_circuits example_chain example_caps 1 1).2.1 (by decide) (by decide)).elim
      fun chain1 h => ⟨chain1, h.1, h.2.2.2.2.2.2.2⟩⟩


/-! ## Lemmas on the scan of the public reference counts -/

theorem user_backbuffer_some (chain : dxgi_vk_swap_chain) (i : Nat) (r : d3d12_resource)
    (h : user_backbuffer chain i = some r) :
    ∃ hlt : i < DXGI_MAX_SWAP_CHAIN_BUFFERS, chain.user.backbuffers ⟨i, hlt⟩ = some r := by
  have hlt : i < DXGI_MAX_SWAP_CHAIN_BUFFERS := user_backbuffer_lt chain i r h
  refine ⟨hlt, ?_⟩
  unfold user_backbuffer at h
  rw [dif_pos hlt] at h
  exact h

theorem public_refs_outstanding_step (chain : dxgi_vk_swap_chain) (n i : Nat) (r : d3d12_resource)
    (h : user_backbuffer chain i = some r) :
    public_refs_outstanding chain.user.backbuffers (n + 1) i =
      if r.refcount ≠ 0 then some true
      else public_refs_outstanding chain.user.backbuffers n (i + 1) := by
  obtain ⟨hlt, hb⟩ := user_backbuffer_some chain i r h
  rw [public_refs_outstanding, dif_pos hlt, hb]

/-- The scan answers `some true` when it meets a referenced buffer and every slot
before that one holds a buffer. -/
theorem public_refs_outstanding_found (chain : dxgi_vk_swap_chain) (i : Nat) (r : d3d12_resource)
    (hbuf : user_backbuffer chain i = some r) (href : r.refcount ≠ 0) :
    ∀ n start, start ≤ i → i < start + n →
      (∀ j, start ≤ j → j < i → (user_backbuffer chain j).isSome = true) →
      public_refs_outstanding chain.user.backbuffers n start = some true := by
  intro n
  induction n with
  | zero => intro start h1 h2; omega
  | succ n ih =>
    intro start h1 h2 hprev
    by_cases heq : start = i
    · subst heq
      rw [public_refs_outstanding_step chain n start r hbuf, if_pos href]
    · obtain ⟨r0, hr0⟩ := Option.isSome_iff_exists.mp (hprev start (Nat.le_refl _) (by omega))
      rw [public_refs_outstanding_step chain n start r0 hr0]
      split
      · rfl
      · exact ih (start + 1) (by omega) (by omega) (fun j hj1 hj2 => hprev j (by omega) hj2)

/-- The scan answers `some false` when every scanned slot holds a buffer without
public reference. -/
theorem public_refs_outstanding_clear (chain : dxgi_vk_swap_chain) :
    ∀ n start,
      (∀ j, start ≤ j → j < start + n → ∃ r, user_backbuffer chain j = some r ∧ r.refcount = 0) →
      public_refs_outstanding chain.user.backbuffers n start = some false := by
  intro n
  induction n with
  | zero => intro start _; rfl
  | succ n ih =>
    intro start h
    obtain ⟨r0, hr0, hz⟩ := h start (Nat.le_refl _) (by omega)
    rw [public_refs_outstanding_step chain n start r0 hr0, if_neg (by simpa using hz)]
    exact ih (start + 1) (fun j hj1 hj2 => h j (by omega) (by omega))

/-- The scan does not fault when every scanned slot holds a buffer. -/
theorem public_refs_outstanding_total (chain : dxgi_vk_swap_chain) :
    ∀ n start,
      (∀ j, start ≤ j → j < start + n → (user_backbuffer chain j).isSome = true) →
      ∃ b, public_refs_outstanding chain.user.backbuffers n start = some b := by
  intro n
  induction n with
  | zero => intro start _; exact ⟨false, rfl⟩
  | succ n ih =>
    intro start h
    obtain ⟨r0, hr0⟩ := Option.isSome_iff_exists.mp (h start (Nat.le_refl _) (by omega))
    rw [public_refs_outstanding_step chain n start r0 hr0]
    split
    · exact ⟨true, rfl⟩
    · exact ih (start + 1) (fun j hj1 hj2 => h j (by omega) (by omega))

/-- When the scan answers `some false`, every scanned slot holds a buffer without
public reference. -/
theorem public_refs_outstanding_false_inv (chain : dxgi_vk_swap_chain) :
    ∀ n start, public_refs_outstanding chain.user.backbuffers n start = some false →
      ∀ j, start ≤ j → j < start + n →
        ∃ r, user_backbuffer chain j = some r ∧ r.refcount = 0 := by
  intro n
  induction n with
  | zero => intro start _ j h1 h2; omega
  | succ n ih =>
    intro start h j h1 h2
    rw [public_refs_outstanding] at h
    split at h
    · rename_i hlt
      split at h
      · exact Option.noConfusion h
      · rename_i r0 hr0
        split at h
        · exact absurd h (by decide)
        · rename_i hz
          by_cases heq : j = start
          · subst heq
            refine ⟨r0, ?_, by simpa using hz⟩
            unfold user_backbuffer
            rw [dif_pos hlt]
            exact hr0
          · exact ih (start + 1) h j (by omega) (by omega)
    · exact Option.noConfusion h

/-! ## C4: ChangeProperties with an outstanding public reference -/

/-- C4. For every descriptor `d`: when back buffer `i`, one of the first `BufferCount`,
has a non-zero public refcount, every `ChangeProperties(d)` that returns, returns
`DXGI_ERROR_INVALID_CALL` with the state of before the call: the same descriptor,
back buffers, views and `user.index`, and no further effect, so no drain and no
reallocation. The call does return, with that result, whenever the slots before
`i` hold buffers. -/
theorem ChangeProperties_rejects_referenced (chain : dxgi_vk_swap_chain)
    (d : DXGI_SWAP_CHAIN_DESC1) (env : alloc_env) (i : Nat) (r : d3d12_resource)
    (hi : i < chain.desc.BufferCount)
    (hbuf : user_backbuffer chain i = some r) (href : r.refcount ≠ 0) :
    (∀ hr chain1, dxgi_vk_swap_chain_ChangeProperties chain d env = some (hr, chain1) →
      hr = DXGI_ERROR_INVALID_CALL ∧
      chain1 = chain ∧
      dxgi_vk_swap_chain_GetDesc chain1 = dxgi_vk_swap_chain_GetDesc chain ∧
      chain1.user.backbuffers = chain.user.backbuffers ∧
      chain1.user.vk_image_views = chain.user.vk_image_views ∧
      chain1.user.index = chain.user.index ∧
      chain1.effects = chain.effects) ∧
    ((∀ j, j < i → (user_backbuffer chain j).isSome = true) →
      dxgi_vk_swap_chain_ChangeProperties chain d env =
        some (DXGI_ERROR_INVALID_CALL, chain)) := by
  constructor
  · intro hr chain1 h
    unfold dxgi_vk_swap_chain_ChangeProperties at h
    split at h
    · exact Option.noConfusion h
    · simp only [Option.some.injEq, Prod.mk.injEq] at h
      obtain ⟨h1, h2⟩ := h
      subst h1 h2
      exact ⟨rfl, rfl, rfl, rfl, rfl, rfl, rfl⟩
    · rename_i hscan
      obtain ⟨r0, hr0, hz⟩ := public_refs_outstanding_false_inv chain _ _ hscan i
        (Nat.zero_le _) (by omega)
      rw [hbuf] at hr0
      simp only [Option.some.injEq] at hr0
      subst hr0
      exact absurd hz href
  · intro hprev
    have hscan := public_refs_outstanding_found chain i r hbuf href chain.desc.BufferCount 0
      (Nat.zero_le _) (by omega) (fun j _ hj => hprev j hj)
    unfold dxgi_vk_swap_chain_ChangeProperties
    simp only [hscan]

/-- Witness of C4: the client still holds back buffer 1 of the example swapchain. -/
theorem ChangeProperties_rejects_referenced_witness :
    1 < example_chain_referenced.desc.BufferCount ∧
    user_backbuffer example_chain_referenced 1 = some { example_buffer 101 with refcount := 1 } ∧
    ({ example_buffer 101 with refcount := 1 } : d3d12_resource).refcount ≠ 0 ∧
    dxgi_vk_swap_chain_ChangeProperties example_chain_referenced example_desc_resized example_env =
      some (DXGI_ERROR_INVALID_CALL, example_chain_referenced) :=
  ⟨by decide, by decide, by decide,
    (ChangeProperties_rejects_referenced example_chain_referenced example_desc_resized example_env
      1 { example_buffer 101 with refcount := 1 } (by decide) (by decide) (by decide)).2
      (by decide)⟩

/-! ## C5: ChangeProperties followed by GetDesc -/

theorem reallocate_user_buffers_desc (chain : dxgi_vk_swap_chain) (env : alloc_env) :
    (dxgi_vk_swap_chain_reallocate_user_buffers chain env).2.desc = chain.desc := by
  unfold dxgi_vk_swap_chain_reallocate_user_buffers
  split
  · rfl
  · dsimp only
    split <;> rfl

/-- C5. For every state, descriptor `d` and behaviour of the allocator: when
`ChangeProperties(d)` returns a success code, `GetDesc` afterwards returns `d`,
every field of it; when it returns a failure code, whatever the reason, `GetDesc`
afterwards returns the descriptor stored before the call. The call does return
whenever the first `BufferCount` slots hold buffers. -/
theorem ChangeProperties_then_GetDesc (chain : dxgi_vk_swap_chain)
    (d : DXGI_SWAP_CHAIN_DESC1) (env : alloc_env) :
    (∀ hr chain1, dxgi_vk_swap_chain_ChangeProperties chain d env = some (hr, chain1) →
      (FAILED hr = false → dxgi_vk_swap_chain_GetDesc chain1 = (S_OK, d)) ∧
      (FAILED hr = true → dxgi_vk_swap_chain_GetDesc chain1 = (S_OK, chain.desc))) ∧
    ((∀ j, j < chain.desc.BufferCount → (user_backbuffer chain j).isSome = true) →
      ∃ hr chain1, dxgi_vk_swap_chain_ChangeProperties chain d env = some (hr, chain1)) := by
  constructor
  · intro hr chain1 h
    unfold dxgi_vk_swap_chain_ChangeProperties at h
    split at h
    · exact Option.noConfusion h
    · simp only [Option.some.injEq, Prod.mk.injEq] at h
      obtain ⟨h1, h2⟩ := h
      subst h1 h2
      exact ⟨fun hf => absurd hf (by decide), fun _ => rfl⟩
    · simp only at h
      split at h
      · simp only [Option.some.injEq, Prod.mk.injEq] at h
        obtain ⟨h1, h2⟩ := h
        subst h1 h2
        exact ⟨fun _ => rfl, fun hf => absurd hf (by decide)⟩
      · split at h
        · rename_i hfail
          simp only [Option.some.injEq, Prod.mk.injEq] at h
          obtain ⟨h1, h2⟩ := h
          subst h1 h2
          exact ⟨fun hf => absurd hfail (by rw [hf]; decide), fun _ => rfl⟩
        · split at h
          · simp only [Option.some.injEq, Prod.mk.injEq] at h
            obtain ⟨h1, h2⟩ := h
            subst h1 h2
            refine ⟨fun _ => ?_, fun hf => absurd hf (by decide)⟩
            unfold dxgi_vk_swap_chain_GetDesc
            simp only [reallocate_user_buffers_desc]
            rfl
          · simp only [Option.some.injEq, Prod.mk.injEq] at h
            obtain ⟨h1, h2⟩ := h
            subst h1 h2
            refine ⟨fun _ => ?_, fun hf => absurd hf (by decide)⟩
            unfold dxgi_vk_swap_chain_GetDesc
            simp only [reallocate_user_buffers_desc]
            rfl
  · intro hslots
    obtain ⟨b, hb⟩ := public_refs_outstanding_total chain chain.desc.BufferCount 0
      (fun j _ hj => hslots j (by omega))
    unfold dxgi_vk_swap_chain_ChangeProperties
    rw [hb]
    cases b
    · simp only
      split
      · exact ⟨_, _, rfl⟩
      · split
        · exact ⟨_, _, rfl⟩
        · split
          · exact ⟨_, _, rfl⟩
          · exact ⟨_, _, rfl⟩
    · exact ⟨_, _, rfl⟩


/-- Witness of C5: resizing the example swapchain to three buffers, once with an
allocator that succeeds and once with one that fails on the second buffer. -/
theorem ChangeProperties_then_GetDesc_witness :
    (∃ hr chain1,
      dxgi_vk_swap_chain_ChangeProperties example_chain example_desc_resized example_env =
        some (hr, chain1) ∧
      FAILED hr = false ∧ dxgi_vk_swap_chain_GetDesc chain1 = (S_OK, example_desc_resized)) ∧
    (∃ hr chain1,
      dxgi_vk_swap_chain_ChangeProperties example_chain example_desc_resized failing_env =
        some (hr, chain1) ∧
      FAILED hr = true ∧ dxgi_vk_swap_chain_GetDesc chain1 = (S_OK, example_chain.desc)) :=
  have hok : (dxgi_vk_swap_chain_ChangeProperties example_chain example_desc_resized
      example_env).map (fun p => FAILED p.1) = some false := by decide
  have hfail : (dxgi_vk_swap_chain_ChangeProperties example_chain example_desc_resized
      failing_env).map (fun p => FAILED p.1) = some true := by decide
  ⟨(Option.map_eq_some'.mp hok).elim fun p hp =>
      ⟨p.1, p.2, hp.1, hp.2,
        ((ChangeProperties_then_GetDesc example_chain example_desc_resized example_env).1
          p.1 p.2 hp.1).1 hp.2⟩,
    (Option.map_eq_some'.mp hfail).elim fun p hp =>
      ⟨p.1, p.2, hp.1, hp.2,
        ((ChangeProperties_then_GetDesc example_chain example_desc_resized failing_env).1
          p.1 p.2 hp.1).2 hp.2⟩⟩

/-! ## C6: ChangeProperties with unchanged geometry -/

/-- C6. When each of the first `BufferCount` back buffers has public refcount zero
and `d` has the Width, Height, BufferCount, Format and Flags of the stored
descriptor, `ChangeProperties(d)` returns `S_OK` and changes nothing but the
stored descriptor: the effect list is as before (no wait on the blit timeline,
no allocation, no view destroyed or created) and every back buffer, every image
view and `user.index` are as before. -/
theorem ChangeProperties_same_geometry (chain : dxgi_vk_swap_chain)
    (d : DXGI_SWAP_CHAIN_DESC1) (env : alloc_env)
    (hrefs : ∀ j, j < chain.desc.BufferCount →
      ∃ r, user_backbuffer chain j = some r ∧ r.refcount = 0)
    (hWidth : d.Width = chain.desc.Width) (hHeight : d.Height = chain.desc.Height)
    (hCount : d.BufferCount = chain.desc.BufferCount) (hFormat : d.Format = chain.desc.Format)
    (hFlags : d.Flags = chain.desc.Flags) :
    ∃ chain1, dxgi_vk_swap_chain_ChangeProperties chain d env = some (S_OK, chain1) ∧
      chain1 = { chain with desc := d } ∧
      chain1.effects = chain.effects ∧
      (∀ j, chain1.user.backbuffers j = chain.user.backbuffers j) ∧
      (∀ j, chain1.user.vk_image_views j = chain.user.vk_image_views j) ∧
      chain1.user.index = chain.user.index := by
  have hscan := public_refs_outstanding_clear chain chain.desc.BufferCount 0
    (fun j _ hj => hrefs j (by omega))
  refine ⟨{ chain with desc := d }, ?_, rfl, rfl, fun _ => rfl, fun _ => rfl, rfl⟩
  unfold dxgi_vk_swap_chain_ChangeProperties
  simp only [hscan, hWidth, hHeight, hCount, hFormat, hFlags, and_self, if_true]

/-- Witness of C6: the example swapchain and its descriptor with another scaling. -/
theorem ChangeProperties_same_geometry_witness :
    (∀ j, j < example_chain.desc.BufferCount →
      ∃ r, user_backbuffer example_chain j = some r ∧ r.refcount = 0) ∧
    example_desc_rescaled.Width = example_chain.desc.Width ∧
    example_desc_rescaled.Height = example_chain.desc.Height ∧
    example_desc_rescaled.BufferCount = example_chain.desc.BufferCount ∧
    example_desc_rescaled.Format = example_chain.desc.Format ∧
    example_desc_rescaled.Flags = example_chain.desc.Flags ∧
    ∃ chain1, dxgi_vk_swap_chain_ChangeProperties example_chain example_desc_rescaled
        example_env = some (S_OK, chain1) ∧
      chain1 = { example_chain with desc := example_desc_rescaled } ∧
      chain1.effects = example_chain.effects ∧
      (∀ j, chain1.user.backbuffers j = example_chain.user.backbuffers j) ∧
      (∀ j, chain1.user.vk_image_views j = example_chain.user.vk_image_views j) ∧
      chain1.user.index = example_chain.user.index :=
  have hrefs : ∀ j, j < example_chain.desc.BufferCount →
      ∃ r, user_backbuffer example_chain j = some r ∧ r.refcount = 0 := fun j hj =>
    match j, hj with
    | 0, _ => ⟨example_buffer 100, rfl, rfl⟩
    | 1, _ => ⟨example_buffer 101, rfl, rfl⟩
    | n + 2, h => absurd h (by show ¬ n + 2 < 2; omega)
  ⟨hrefs, rfl, rfl, rfl, rfl, rfl,
    ChangeProperties_same_geometry example_chain example_desc_rescaled example_env hrefs
      rfl rfl rfl rfl rfl⟩

/-! ## C7: GetImage -/

/-- C7. For every buffer index `i`: when `i >= BufferCount`, `GetImage(i)` returns
`E_INVALIDARG`, leaves `*object` as it was and changes no state; when
`i < BufferCount` and slot `i` holds the buffer `r`, the one `QueryInterface` call
is made on `r`, the result code and `*object` are what that call answers, slot `i`
holds `r` as that call leaves it and every other slot is untouched. -/
theorem GetImage_hands_out_slot
    (QueryInterface : d3d12_resource → Nat → Option Nat → HRESULT × Option Nat × d3d12_resource)
    (chain : dxgi_vk_swap_chain) (i riid : Nat) (object : Option Nat) :
    (i ≥ chain.desc.BufferCount →
      dxgi_vk_swap_chain_GetImage QueryInterface chain i riid object =
        some (E_INVALIDARG, object, chain)) ∧
    (∀ r, i < chain.desc.BufferCount → user_backbuffer chain i = some r →
      ∃ chain1, dxgi_vk_swap_chain_GetImage QueryInterface chain i riid object =
          some ((QueryInterface r riid object).1, (QueryInterface r riid object).2.1, chain1) ∧
        user_backbuffer chain1 i = some (QueryInterface r riid object).2.2 ∧
        (∀ j, j ≠ i → user_backbuffer chain1 j = user_backbuffer chain j) ∧
        chain1.effects = chain.effects ++ [Effect.query_interface r]) := by
  constructor
  · intro hge
    unfold dxgi_vk_swap_chain_GetImage
    rw [if_pos hge]
  · intro r hlt hbuf
    obtain ⟨h16, hb⟩ := user_backbuffer_some chain i r hbuf
    refine ⟨{ chain with
      user := { chain.user with
        backbuffers := Function.update chain.user.backbuffers ⟨i, h16⟩
          (some (QueryInterface r riid object).2.2) }
      effects := chain.effects ++ [Effect.query_interface r] }, ?_, ?_, ?_, ?_⟩
    · unfold dxgi_vk_swap_chain_GetImage
      rw [if_neg (by omega), dif_pos h16]
      simp only [hb]
    · unfold user_backbuffer
      rw [dif_pos h16]
      exact Function.update_same _ _ _
    · intro j hj
      unfold user_backbuffer
      by_cases hj16 : j < DXGI_MAX_SWAP_CHAIN_BUFFERS
      · rw [dif_pos hj16, dif_pos hj16]
        exact Function.update_noteq (fun h => hj (congrArg Fin.val h)) _ _
      · rw [dif_neg hj16, dif_neg hj16]
    · rfl

/-- Witness of C7: `GetImage(1)` and `GetImage(2)` on the two-buffer example. -/
theorem GetImage_hands_out_slot_witness :
    2 ≥ example_chain.desc.BufferCount ∧
    dxgi_vk_swap_chain_GetImage example_QueryInterface example_chain 2 0 none =
      some (E_INVALIDARG, none, example_chain) ∧
    1 < example_chain.desc.BufferCount ∧
    user_backbuffer example_chain 1 = some (example_buffer 101) ∧
    (∃ chain1, dxgi_vk_swap_chain_GetImage example_QueryInterface example_chain 1 0 none =
        some (S_OK, some 101, chain1) ∧
      user_backbuffer chain1 1 = some { example_buffer 101 with refcount := 1 } ∧
      user_backbuffer chain1 0 = user_backbuffer example_chain 0) :=
  ⟨by decide,
    (GetImage_hands_out_slot example_QueryInterface example_chain 2 0 none).1 (by decide),
    by decide, by decide,
    ((GetImage_hands_out_slot example_QueryInterface example_chain 1 0 none).2
      (example_buffer 101) (by decide) (by decide)).elim
      fun chain1 h => ⟨chain1, h.1, h.2.1, h.2.2.1 0 (by decide)⟩⟩


/-! ## C8 and C9: SetFrameLatency -/

theorem released_units_append (l m : List Effect) :
    released_units (l ++ m) = released_units l + released_units m := by
  induction l with
  | nil => simp [released_units]
  | cons e l ih =>
    cases e <;> simp [released_units, ih, Nat.add_assoc]

theorem FAILED_INVALID_CALL : FAILED DXGI_ERROR_INVALID_CALL = true := by decide

theorem FAILED_S_OK : FAILED S_OK = false := by decide

theorem INVALID_CALL_ne_S_OK : DXGI_ERROR_INVALID_CALL ≠ S_OK := by decide

theorem SetFrameLatency_rejected (chain : dxgi_vk_swap_chain) (n : Nat)
    (h : n = 0 ∨ n > DXGI_MAX_SWAP_CHAIN_BUFFERS ∨
      chain.desc.Flags &&& DXGI_SWAP_CHAIN_FLAG_FRAME_LATENCY_WAITABLE_OBJECT = 0) :
    dxgi_vk_swap_chain_SetFrameLatency chain n = (DXGI_ERROR_INVALID_CALL, chain) := by
  unfold dxgi_vk_swap_chain_SetFrameLatency
  by_cases h1 : n = 0 ∨ n > DXGI_MAX_SWAP_CHAIN_BUFFERS
  · rw [if_pos h1]
  · rw [if_neg h1, if_pos]
    rcases h with h | h | h
    · exact absurd (Or.inl h) h1
    · exact absurd (Or.inr h) h1
    · exact h

theorem SetFrameLatency_accepted (chain : dxgi_vk_swap_chain) (n : Nat)
    (h : ¬ (n = 0 ∨ n > DXGI_MAX_SWAP_CHAIN_BUFFERS ∨
      chain.desc.Flags &&& DXGI_SWAP_CHAIN_FLAG_FRAME_LATENCY_WAITABLE_OBJECT = 0)) :
    dxgi_vk_swap_chain_SetFrameLatency chain n =
      (S_OK, { chain with
        frame_latency := n
        effects :=
          if n > chain.frame_latency then
            chain.effects ++ [Effect.release_semaphore (n - chain.frame_latency)]
          else chain.effects }) := by
  unfold dxgi_vk_swap_chain_SetFrameLatency
  rw [if_neg (fun h1 => h (h1.elim Or.inl (fun h2 => Or.inr (Or.inl h2)))),
    if_neg (fun h2 => h (Or.inr (Or.inr h2)))]

/-- C8. `SetFrameLatency(n)` returns `DXGI_ERROR_INVALID_CALL` if and only if `n = 0`,
or `n > 16`, or the latency-waitable flag of the descriptor is unset; that is its
only failure code, and otherwise it returns `S_OK`. Whenever it fails the state is
the state before the call: the stored frame latency is unchanged and no unit of
the latency semaphore is released. -/
theorem SetFrameLatency_fails_iff (chain : dxgi_vk_swap_chain) (n : Nat) :
    ((dxgi_vk_swap_chain_SetFrameLatency chain n).1 = DXGI_ERROR_INVALID_CALL ↔
      (n = 0 ∨ n > DXGI_MAX_SWAP_CHAIN_BUFFERS ∨
        chain.desc.Flags &&& DXGI_SWAP_CHAIN_FLAG_FRAME_LATENCY_WAITABLE_OBJECT = 0)) ∧
    (FAILED (dxgi_vk_swap_chain_SetFrameLatency chain n).1 = true ↔
      (dxgi_vk_swap_chain_SetFrameLatency chain n).1 = DXGI_ERROR_INVALID_CALL) ∧
    (FAILED (dxgi_vk_swap_chain_SetFrameLatency chain n).1 = false ↔
      (dxgi_vk_swap_chain_SetFrameLatency chain n).1 = S_OK) ∧
    (FAILED (dxgi_vk_swap_chain_SetFrameLatency chain n).1 = true →
      (dxgi_vk_swap_chain_SetFrameLatency chain n).2 = chain ∧
      dxgi_vk_swap_chain_GetFrameLatency (dxgi_vk_swap_chain_SetFrameLatency chain n).2 =
        dxgi_vk_swap_chain_GetFrameLatency chain ∧
      (dxgi_vk_swap_chain_SetFrameLatency chain n).2.effects = chain.effects ∧
      released_units (dxgi_vk_swap_chain_SetFrameLatency chain n).2.effects =
        released_units chain.effects) := by
  by_cases hc : n = 0 ∨ n > DXGI_MAX_SWAP_CHAIN_BUFFERS ∨
      chain.desc.Flags &&& DXGI_SWAP_CHAIN_FLAG_FRAME_LATENCY_WAITABLE_OBJECT = 0
  · rw [SetFrameLatency_rejected chain n hc]
    dsimp only
    exact ⟨⟨fun _ => hc, fun _ => rfl⟩, ⟨fun _ => rfl, fun _ => FAILED_INVALID_CALL⟩,
      ⟨fun h => absurd FAILED_INVALID_CALL (by rw [h]; decide),
        fun h => absurd h INVALID_CALL_ne_S_OK⟩,
      fun _ => ⟨rfl, rfl, rfl, rfl⟩⟩
  · rw [SetFrameLatency_accepted chain n hc]
    dsimp only
    exact ⟨⟨fun h => absurd h.symm INVALID_CALL_ne_S_OK, fun h => absurd h hc⟩,
      ⟨fun h => absurd h (by rw [FAILED_S_OK]; decide),
        fun h => absurd h.symm INVALID_CALL_ne_S_OK⟩,
      ⟨fun _ => rfl, fun _ => FAILED_S_OK⟩,
      fun h => absurd h (by rw [FAILED_S_OK]; decide)⟩

/-- Witness of C8: latency 0, latency 17 and a swapchain without the waitable flag
are rejected; latency 4 on a waitable swapchain is not. -/
theorem SetFrameLatency_fails_iff_witness :
    (dxgi_vk_swap_chain_SetFrameLatency example_waitable_chain 0).1 = DXGI_ERROR_INVALID_CALL ∧
    (dxgi_vk_swap_chain_SetFrameLatency example_waitable_chain 17).1 = DXGI_ERROR_INVALID_CALL ∧
    (dxgi_vk_swap_chain_SetFrameLatency example_chain 4).1 = DXGI_ERROR_INVALID_CALL ∧
    (dxgi_vk_swap_chain_SetFrameLatency example_chain 4).2 = example_chain ∧
    ¬ (dxgi_vk_swap_chain_SetFrameLatency example_waitable_chain 4).1 = DXGI_ERROR_INVALID_CALL :=
  ⟨(SetFrameLatency_fails_iff example_waitable_chain 0).1.mpr (Or.inl rfl),
    (SetFrameLatency_fails_iff example_waitable_chain 17).1.mpr (Or.inr (Or.inl (by decide))),
    (SetFrameLatency_fails_iff example_chain 4).1.mpr (Or.inr (Or.inr (by decide))),
    ((SetFrameLatency_fails_iff example_chain 4).2.2.2
      ((SetFrameLatency_fails_iff example_chain 4).2.1.mpr
        ((SetFrameLatency_fails_iff example_chain 4).1.mpr (Or.inr (Or.inr (by decide)))))).1,
    fun h => absurd ((SetFrameLatency_fails_iff example_waitable_chain 4).1.mp h) (by decide)⟩

/-- C9. On a swapchain with the latency-waitable flag, with current latency `c`, for
every `n` with `1 <= n <= 16`: `SetFrameLatency(n)` returns `S_OK`; when `n > c` it
makes one `ReleaseSemaphore` call for `n - c` units and, when `n <= c`, none, so
the units released by the call are `n - c` (truncated at zero); afterwards
`GetFrameLatency` returns `n`. -/
theorem SetFrameLatency_releases_difference (chain : dxgi_vk_swap_chain) (n : Nat)
    (hwaitable : chain.desc.Flags &&& DXGI_SWAP_CHAIN_FLAG_FRAME_LATENCY_WAITABLE_OBJECT ≠ 0)
    (hlow : 1 ≤ n) (hhigh : n ≤ DXGI_MAX_SWAP_CHAIN_BUFFERS) :
    (dxgi_vk_swap_chain_SetFrameLatency chain n).1 = S_OK ∧
    (n > chain.frame_latency →
      (dxgi_vk_swap_chain_SetFrameLatency chain n).2.effects =
        chain.effects ++ [Effect.release_semaphore (n - chain.frame_latency)]) ∧
    (n ≤ chain.frame_latency →
      (dxgi_vk_swap_chain_SetFrameLatency chain n).2.effects = chain.effects) ∧
    released_units (dxgi_vk_swap_chain_SetFrameLatency chain n).2.effects =
      released_units chain.effects + (n - chain.frame_latency) ∧
    dxgi_vk_swap_chain_GetFrameLatency (dxgi_vk_swap_chain_SetFrameLatency chain n).2 = n := by
  have h1 : ¬ (n = 0 ∨ n > DXGI_MAX_SWAP_CHAIN_BUFFERS) := by omega
  unfold dxgi_vk_swap_chain_SetFrameLatency
  rw [if_neg h1, if_neg hwaitable]
  refine ⟨rfl, fun h => ?_, fun h => ?_, ?_, rfl⟩
  · show (if n > chain.frame_latency then _ else _) = _
    rw [if_pos h]
  · show (if n > chain.frame_latency then _ else _) = _
    rw [if_neg (by omega)]
  · show released_units (if n > chain.frame_latency then _ else _) = _
    by_cases h : n > chain.frame_latency
    · rw [if_pos h, released_units_append]
      rfl
    · rw [if_neg h]
      omega

/-- Witness of C9: `SetFrameLatency(4)` on a waitable swapchain of latency 1 releases
three units. -/
theorem SetFrameLatency_releases_difference_witness :
    example_waitable_chain.desc.Flags &&&
      DXGI_SWAP_CHAIN_FLAG_FRAME_LATENCY_WAITABLE_OBJECT ≠ 0 ∧
    1 ≤ 4 ∧ 4 ≤ DXGI_MAX_SWAP_CHAIN_BUFFERS ∧
    example_waitable_chain.frame_latency = 1 ∧
    (dxgi_vk_swap_chain_SetFrameLatency example_waitable_chain 4).1 = S_OK ∧
    released_units (dxgi_vk_swap_chain_SetFrameLatency example_waitable_chain 4).2.effects =
      released_units example_waitable_chain.effects + 3 ∧
    dxgi_vk_swap_chain_GetFrameLatency
      (dxgi_vk_swap_chain_SetFrameLatency example_waitable_chain 4).2 = 4 :=
  have h := SetFrameLatency_releases_difference example_waitable_chain 4
    (by decide) (by decide) (by decide)
  ⟨by decide, by decide, by decide, rfl, h.1, h.2.2.2.1, h.2.2.2.2⟩


/-! ## C10: SetColorSpace and CheckColorSpaceSupport -/

/-- The scan finds a color space exactly when a cached pair has it. -/
theorem supports_color_space_scan_iff (vk_color_space : Nat) (formats : List VkSurfaceFormatKHR) :
    supports_color_space_scan vk_color_space formats = true ↔
      ∃ f, f ∈ formats ∧ f.colorSpace = vk_color_space := by
  induction formats with
  | nil => simp [supports_color_space_scan]
  | cons f rest ih =>
    unfold supports_color_space_scan
    by_cases h : f.colorSpace = vk_color_space
    · rw [if_pos h]
      exact ⟨fun _ => ⟨f, List.mem_cons_self _ _, h⟩, fun _ => rfl⟩
    · rw [if_neg h, ih]
      constructor
      · rintro ⟨g, hg, hc⟩
        exact ⟨g, List.mem_cons_of_mem _ hg, hc⟩
      · rintro ⟨g, hg, hc⟩
        rcases List.mem_cons.mp hg with heq | hmem
        · subst heq
          exact absurd hc h
        · exact ⟨g, hmem, hc⟩

theorem CheckColorSpaceSupport_eq_zero_iff (chain : dxgi_vk_swap_chain) (cs : Nat) :
    dxgi_vk_swap_chain_CheckColorSpaceSupport chain cs = 0 ↔
      dxgi_vk_swap_chain_supports_color_space chain cs = false := by
  unfold dxgi_vk_swap_chain_CheckColorSpaceSupport
  cases h : dxgi_vk_swap_chain_supports_color_space chain cs
  · simp
  · simp [DXGI_SWAP_CHAIN_COLOR_SPACE_SUPPORT_FLAG_PRESENT]

theorem E_INVALIDARG_ne_S_OK : E_INVALIDARG ≠ S_OK := by decide

/-- C10. For every color space `cs`: `SetColorSpace(cs)` returns `E_INVALIDARG` exactly
when `CheckColorSpaceSupport(cs)` returns 0, which is exactly when no cached
surface pair has the Vulkan color space `convert_color_space cs`; in that case the
state, so the client color space and the HDR dirty flag, is unchanged. Otherwise
it returns `S_OK`, records `cs` as the client color space and sets the dirty flag,
and `CheckColorSpaceSupport(cs)` is the PRESENT support bit. In both cases the
swapchain descriptor is unchanged. -/
theorem SetColorSpace_iff_supported (chain : dxgi_vk_swap_chain) (cs : Nat) :
    ((dxgi_vk_swap_chain_SetColorSpace chain cs).1 = E_INVALIDARG ↔
      dxgi_vk_swap_chain_CheckColorSpaceSupport chain cs = 0) ∧
    (dxgi_vk_swap_chain_CheckColorSpaceSupport chain cs = 0 ↔
      ∀ f, f ∈ chain.formats → f.colorSpace ≠ convert_color_space cs) ∧
    (dxgi_vk_swap_chain_CheckColorSpaceSupport chain cs = 0 →
      (dxgi_vk_swap_chain_SetColorSpace chain cs).2 = chain ∧
      (dxgi_vk_swap_chain_SetColorSpace chain cs).2.user.dxgi_color_space_type =
        chain.user.dxgi_color_space_type ∧
      (dxgi_vk_swap_chain_SetColorSpace chain cs).2.user.modifies_hdr_metadata =
        chain.user.modifies_hdr_metadata) ∧
    (dxgi_vk_swap_chain_CheckColorSpaceSupport chain cs ≠ 0 →
      dxgi_vk_swap_chain_CheckColorSpaceSupport chain cs =
        DXGI_SWAP_CHAIN_COLOR_SPACE_SUPPORT_FLAG_PRESENT ∧
      (dxgi_vk_swap_chain_SetColorSpace chain cs).1 = S_OK ∧
      (dxgi_vk_swap_chain_SetColorSpace chain cs).2.user.dxgi_color_space_type = cs ∧
      (dxgi_vk_swap_chain_SetColorSpace chain cs).2.user.modifies_hdr_metadata = true) ∧
    (dxgi_vk_swap_chain_GetDesc (dxgi_vk_swap_chain_SetColorSpace chain cs).2 =
      dxgi_vk_swap_chain_GetDesc chain) := by
  have hscan : dxgi_vk_swap_chain_supports_color_space chain cs = false ↔
      ∀ f, f ∈ chain.formats → f.colorSpace ≠ convert_color_space cs := by
    unfold dxgi_vk_swap_chain_supports_color_space
    rw [← Bool.not_eq_true, supports_color_space_scan_iff]
    constructor
    · intro h f hf hc
      exact h ⟨f, hf, hc⟩
    · rintro h ⟨f, hf, hc⟩
      exact h f hf hc
  cases hs : dxgi_vk_swap_chain_supports_color_space chain cs
  · have hset : dxgi_vk_swap_chain_SetColorSpace chain cs = (E_INVALIDARG, chain) := by
      unfold dxgi_vk_swap_chain_SetColorSpace
      simp [hs]
    have hzero : dxgi_vk_swap_chain_CheckColorSpaceSupport chain cs = 0 :=
      (CheckColorSpaceSupport_eq_zero_iff chain cs).mpr hs
    rw [hset]
    exact ⟨⟨fun _ => hzero, fun _ => rfl⟩, ⟨fun _ => hscan.mp hs, fun _ => hzero⟩,
      fun _ => ⟨rfl, rfl, rfl⟩, fun h => absurd hzero h, rfl⟩
  · have hset : dxgi_vk_swap_chain_SetColorSpace chain cs =
        (S_OK, { chain with user := { chain.user with
          dxgi_color_space_type := cs
          modifies_hdr_metadata := true } }) := by
      unfold dxgi_vk_swap_chain_SetColorSpace
      simp [hs]
    have hcheck : dxgi_vk_swap_chain_CheckColorSpaceSupport chain cs =
        DXGI_SWAP_CHAIN_COLOR_SPACE_SUPPORT_FLAG_PRESENT := by
      unfold dxgi_vk_swap_chain_CheckColorSpaceSupport
      simp [hs]
    have hnz : dxgi_vk_swap_chain_CheckColorSpaceSupport chain cs ≠ 0 := by
      rw [hcheck]
      decide
    have hnot : ¬ ∀ f, f ∈ chain.formats → f.colorSpace ≠ convert_color_space cs := fun h =>
      absurd (hscan.mpr h) (by rw [hs]; decide)
    rw [hset]
    exact ⟨⟨fun h => absurd h.symm E_INVALIDARG_ne_S_OK, fun h => absurd h hnz⟩,
      ⟨fun h => absurd h hnz, fun h => absurd h hnot⟩,
      fun h => absurd h hnz, fun _ => ⟨hcheck, rfl, rfl, rfl⟩, rfl⟩

/-- Witness of C10: on the example swapchain, whose surface offers sRGB only, the
HDR10 color space is refused and the sRGB one accepted. -/
theorem SetColorSpace_iff_supported_witness :
    dxgi_vk_swap_chain_CheckColorSpaceSupport example_chain
      DXGI_COLOR_SPACE_RGB_FULL_G2084_NONE_P2020 = 0 ∧
    (dxgi_vk_swap_chain_SetColorSpace example_chain
      DXGI_COLOR_SPACE_RGB_FULL_G2084_NONE_P2020).1 = E_INVALIDARG ∧
    (dxgi_vk_swap_chain_SetColorSpace example_chain
      DXGI_COLOR_SPACE_RGB_FULL_G2084_NONE_P2020).2 = example_chain ∧
    dxgi_vk_swap_chain_CheckColorSpaceSupport example_chain
      DXGI_COLOR_SPACE_RGB_FULL_G22_NONE_P709 ≠ 0 ∧
    (dxgi_vk_swap_chain_SetColorSpace example_chain
      DXGI_COLOR_SPACE_RGB_FULL_G22_NONE_P709).1 = S_OK ∧
    (dxgi_vk_swap_chain_SetColorSpace example_chain
      DXGI_COLOR_SPACE_RGB_FULL_G22_NONE_P709).2.user.modifies_hdr_metadata = true :=
  have hdr := SetColorSpace_iff_supported example_chain DXGI_COLOR_SPACE_RGB_FULL_G2084_NONE_P2020
  have sdr := SetColorSpace_iff_supported example_chain DXGI_COLOR_SPACE_RGB_FULL_G22_NONE_P709
  ⟨by decide, hdr.1.mpr (by decide), (hdr.2.2.1 (by decide)).1, by decide,
    (sdr.2.2.2.1 (by decide)).2.1, (sdr.2.2.2.1 (by decide)).2.2.2⟩


/-! ## Lemmas on format selection -/

/-- The three 8-bit formats `accept_format` takes for `VK_FORMAT_UNDEFINED`. -/
theorem accept_format_undefined (f : VkSurfaceFormatKHR) :
    dxgi_vk_swap_chain_accept_format f VK_FORMAT_UNDEFINED = true ↔
      (f.format = VK_FORMAT_R8G8B8A8_UNORM ∨ f.format = VK_FORMAT_B8G8R8A8_UNORM ∨
        f.format = VK_FORMAT_A8B8G8R8_UNORM_PACK32) := by
  unfold dxgi_vk_swap_chain_accept_format
  rw [if_pos rfl]
  by_cases h1 : f.format = VK_FORMAT_R8G8B8A8_UNORM
  · simp [h1]
  · by_cases h2 : f.format = VK_FORMAT_B8G8R8A8_UNORM
    · simp [h2]
    · by_cases h3 : f.format = VK_FORMAT_A8B8G8R8_UNORM_PACK32
      · simp [h3]
      · simp [h1, h2, h3]

theorem accept_format_defined (f : VkSurfaceFormatKHR) (vk_format : Nat)
    (h : vk_format ≠ VK_FORMAT_UNDEFINED) :
    dxgi_vk_swap_chain_accept_format f vk_format = true ↔ f.format = vk_format := by
  unfold dxgi_vk_swap_chain_accept_format
  rw [if_neg h]
  simp

/-- The scan of `find_surface_format` returns the first accepted pair of the list. -/
theorem find_surface_format_scan_eq_find (vk_format color_space : Nat)
    (formats : List VkSurfaceFormatKHR) :
    find_surface_format_scan vk_format color_space formats =
      formats.find? (fun f => dxgi_vk_swap_chain_accept_format f vk_format &&
        decide (f.colorSpace = color_space)) := by
  induction formats with
  | nil => rfl
  | cons f rest ih =>
    unfold find_surface_format_scan
    by_cases h : dxgi_vk_swap_chain_accept_format f vk_format = true ∧ f.colorSpace = color_space
    · rw [if_pos h, List.find?_cons_of_pos]
      simp [h.1, h.2]
    · rw [if_neg h, ih, List.find?_cons_of_neg]
      simpa using h

/-- For a defined format the scan returns the first pair equal to the request. -/
theorem find_surface_format_scan_defined (vk_format color_space : Nat)
    (h : vk_format ≠ VK_FORMAT_UNDEFINED) (formats : List VkSurfaceFormatKHR) :
    find_surface_format_scan vk_format color_space formats =
      formats.find? (fun f => decide (f.format = vk_format ∧ f.colorSpace = color_space)) := by
  rw [find_surface_format_scan_eq_find]
  congr 1
  funext f
  have := accept_format_defined f vk_format h
  by_cases hf : f.format = vk_format
  · simp [this.mpr hf, hf]
  · have hno : dxgi_vk_swap_chain_accept_format f vk_format = false := by
      cases hacc : dxgi_vk_swap_chain_accept_format f vk_format
      · rfl
      · exact absurd (this.mp hacc) hf
    simp [hno, hf]

/-- For `VK_FORMAT_UNDEFINED` the scan returns the first pair with the color space and
one of the three 8-bit formats. -/
theorem find_surface_format_scan_undefined (color_space : Nat)
    (formats : List VkSurfaceFormatKHR) :
    find_surface_format_scan VK_FORMAT_UNDEFINED color_space formats =
      formats.find? (fun f => decide ((f.format = VK_FORMAT_R8G8B8A8_UNORM ∨
        f.format = VK_FORMAT_B8G8R8A8_UNORM ∨ f.format = VK_FORMAT_A8B8G8R8_UNORM_PACK32) ∧
        f.colorSpace = color_space)) := by
  rw [find_surface_format_scan_eq_find]
  congr 1
  funext f
  have := accept_format_undefined f
  by_cases hf : (f.format = VK_FORMAT_R8G8B8A8_UNORM ∨ f.format = VK_FORMAT_B8G8R8A8_UNORM ∨
      f.format = VK_FORMAT_A8B8G8R8_UNORM_PACK32)
  · simp [this.mpr hf, hf]
  · have hno : dxgi_vk_swap_chain_accept_format f VK_FORMAT_UNDEFINED = false := by
      cases hacc : dxgi_vk_swap_chain_accept_format f VK_FORMAT_UNDEFINED
      · rfl
      · exact absurd (this.mp hacc) hf
    simp [hno, hf]


/-! ## Lemmas on the present iteration -/

/-- `present_iteration` is one level followed, at a recursive call below the retry
bound, by the iteration at `retry_counter + 1`. -/
theorem present_iteration_eq (device : d3d12_device) (gpu : Nat → present_env)
    (chain : dxgi_vk_swap_chain) (retry_counter : Nat) :
    dxgi_vk_swap_chain_present_iteration device gpu chain retry_counter =
      match present_iteration_level device (gpu retry_counter) chain retry_counter with
      | none => none
      | some (chain1, false) => some chain1
      | some (chain1, true) =>
        if retry_counter < 3 then
          dxgi_vk_swap_chain_present_iteration device gpu chain1 (retry_counter + 1)
        else some chain1 := by
  rw [dxgi_vk_swap_chain_present_iteration]
  unfold present_iteration_level
  cases dxgi_vk_swap_chain_present_recreate_swapchain_if_required device (gpu retry_counter)
      { chain with effects := chain.effects ++ [Effect.present_iteration retry_counter] } with
  | none => rfl
  | some c1 =>
    dsimp only
    by_cases h2 : c1.present.vk_swapchain = VK_NULL_HANDLE
    · simp only [h2, if_true]
    · simp only [h2, if_false]
      cases present_iteration_acquire (gpu retry_counter) c1 with
      | none => rfl
      | some p =>
        obtain ⟨vr, c2⟩ := p
        dsimp only
        by_cases h4 : vr = VK_ERROR_OUT_OF_DATE_KHR
        · simp only [h4, if_true]
          by_cases h5 : retry_counter < 3
          · simp only [h5, dite_true, if_true]
          · simp only [h5, dite_false, if_false]
        · simp only [h4, if_false]
          by_cases h6 : vr = VK_ERROR_SURFACE_LOST_KHR
          · simp only [h6, if_true]
          · simp only [h6, if_false]
            by_cases h7 : vr < 0
            · simp only [h7, if_true]
            · simp only [h7, if_false]
              cases dxgi_vk_swap_chain_submit_blit (gpu retry_counter) c2 with
              | none => rfl
              | some q =>
                obtain ⟨ok, c3⟩ := q
                cases ok
                · rfl
                · dsimp only
                  cases present_iteration_queue_present (gpu retry_counter) c3 with
                  | none => rfl
                  | some p2 =>
                    obtain ⟨vr2, c4⟩ := p2
                    dsimp only
                    by_cases h8 : vr2 = VK_ERROR_OUT_OF_DATE_KHR
                    · simp only [h8, if_true]
                      by_cases h5 : retry_counter < 3
                      · simp only [h5, dite_true, if_true]
                      · simp only [h5, dite_false, if_false]
                    · simp only [h8, if_false]
                      by_cases h9 : vr2 = VK_ERROR_SURFACE_LOST_KHR
                      · simp only [h9, if_true]
                      · simp only [h9, if_false]


/-! ## Lemmas on lists of effects -/

theorem waiter_releases_append (l m : List Effect) :
    waiter_releases (l ++ m) = waiter_releases l + waiter_releases m := by
  simp [waiter_releases]

theorem acquire_attempts_append (l m : List Effect) :
    acquire_attempts (l ++ m) = acquire_attempts l + acquire_attempts m := by
  simp [acquire_attempts]

theorem iteration_levels_append (l m : List Effect) :
    iteration_levels (l ++ m) = iteration_levels l ++ iteration_levels m := by
  simp [iteration_levels]

theorem blit_signals_append (l m : List Effect) :
    blit_signals (l ++ m) = blit_signals l ++ blit_signals m := by
  simp [blit_signals]

theorem pushed_present_ids_append (l m : List Effect) :
    pushed_present_ids (l ++ m) = pushed_present_ids l ++ pushed_present_ids m := by
  simp [pushed_present_ids]

theorem registered_latency_events_append (l m : List Effect) :
    registered_latency_events (l ++ m) =
      registered_latency_events l + registered_latency_events m := by
  simp [registered_latency_events]

theorem created_swapchains_append (l m : List Effect) :
    created_swapchains (l ++ m) = created_swapchains l ++ created_swapchains m := by
  simp [created_swapchains]

theorem enqueued_callbacks_cons_ne (e : Effect) (l : List Effect)
    (h : e ≠ Effect.enqueue_present_callback) :
    enqueued_callbacks (e :: l) = enqueued_callbacks l := by
  unfold enqueued_callbacks
  exact List.count_cons_of_ne (Ne.symm h) l

/-- A present iteration records no blit signal. -/
theorem iteration_effects_blit_signals (l : List Effect)
    (h : l.all is_iteration_effect = true) : blit_signals l = [] := by
  induction l with
  | nil => rfl
  | cons e l ih =>
    rw [List.all_cons, Bool.and_eq_true] at h
    have ih1 := ih h.2
    have he := h.1
    unfold blit_signals at ih1 ⊢
    cases e <;> first
      | (simpa [List.filterMap_cons] using ih1)
      | (simp [is_iteration_effect] at he)

/-- A present iteration pushes no present ID. -/
theorem iteration_effects_pushed (l : List Effect)
    (h : l.all is_iteration_effect = true) : pushed_present_ids l = [] := by
  induction l with
  | nil => rfl
  | cons e l ih =>
    rw [List.all_cons, Bool.and_eq_true] at h
    have ih1 := ih h.2
    have he := h.1
    unfold pushed_present_ids at ih1 ⊢
    cases e <;> first
      | (simpa [List.filterMap_cons] using ih1)
      | (simp [is_iteration_effect] at he)

/-- A present iteration registers no latency event. -/
theorem iteration_effects_registered (l : List Effect)
    (h : l.all is_iteration_effect = true) : registered_latency_events l = 0 := by
  induction l with
  | nil => rfl
  | cons e l ih =>
    rw [List.all_cons, Bool.and_eq_true] at h
    have ih1 := ih h.2
    have he := h.1
    unfold registered_latency_events at ih1 ⊢
    cases e <;> first
      | (simpa [List.countP_cons] using ih1)
      | (simp [is_iteration_effect] at he)

/-- A present iteration makes no `ReleaseSemaphore` call of its own. -/
theorem iteration_effects_released (l : List Effect)
    (h : l.all is_iteration_effect = true) : released_units l = 0 := by
  induction l with
  | nil => rfl
  | cons e l ih =>
    rw [List.all_cons, Bool.and_eq_true] at h
    have ih1 := ih h.2
    have he := h.1
    cases e <;> first
      | (simpa [released_units] using ih1)
      | (simp [is_iteration_effect] at he)

/-- A present iteration enqueues no callback. -/
theorem iteration_effects_enqueued (l : List Effect)
    (h : l.all is_iteration_effect = true) : enqueued_callbacks l = 0 := by
  induction l with
  | nil => rfl
  | cons e l ih =>
    rw [List.all_cons, Bool.and_eq_true] at h
    have ih1 := ih h.2
    have he := h.1
    rw [enqueued_callbacks_cons_ne e l
      (fun heq => absurd he (by rw [heq]; simp [is_iteration_effect]))]
    exact ih1


/-! ## Lemmas on what the worker keeps -/

theorem WorkerFrame.refl (c : dxgi_vk_swap_chain) : WorkerFrame c c [] :=
  { effects := (List.append_nil _).symm
    iteration_effects := rfl
    user := rfl, desc := rfl, frame_latency := rfl, request := rfl, request_ring := rfl
    formats := rfl, wait_thread_active := rfl, blit_count := rfl, present_count := rfl
    frame_latency_count := rfl
    wait_queue := by simp [waiter_releases]
    wait_queue_mem := fun _ h => h }

theorem WorkerFrame.trans {c c1 c2 : dxgi_vk_swap_chain} {n1 n2 : List Effect}
    (h1 : WorkerFrame c c1 n1) (h2 : WorkerFrame c1 c2 n2) : WorkerFrame c c2 (n1 ++ n2) :=
  { effects := by rw [h2.effects, h1.effects, List.append_assoc]
    iteration_effects := by
      rw [List.all_append, h1.iteration_effects, h2.iteration_effects]
      rfl
    user := h2.user.trans h1.user
    desc := h2.desc.trans h1.desc
    frame_latency := h2.frame_latency.trans h1.frame_latency
    request := h2.request.trans h1.request
    request_ring := h2.request_ring.trans h1.request_ring
    formats := h2.formats.trans h1.formats
    wait_thread_active := h2.wait_thread_active.trans h1.wait_thread_active
    blit_count := h2.blit_count.trans h1.blit_count
    present_count := h2.present_count.trans h1.present_count
    frame_latency_count := h2.frame_latency_count.trans h1.frame_latency_count
    wait_queue := by
      have a := h1.wait_queue
      have b := h2.wait_queue
      rw [waiter_releases_append]
      omega
    wait_queue_mem := fun id h => h1.wait_queue_mem id (h2.wait_queue_mem id h) }

/-- Recording effects of an iteration that are no waiter release keeps the frame. -/
theorem WorkerFrame.record (c : dxgi_vk_swap_chain) (new : List Effect)
    (h : new.all is_iteration_effect = true) (hw : waiter_releases new = 0) :
    WorkerFrame c { c with effects := c.effects ++ new } new :=
  { effects := rfl
    iteration_effects := h
    user := rfl, desc := rfl, frame_latency := rfl, request := rfl, request_ring := rfl
    formats := rfl, wait_thread_active := rfl, blit_count := rfl, present_count := rfl
    frame_latency_count := rfl
    wait_queue := by
      show waiter_releases new + c.wait_queue.length = c.wait_queue.length
      omega
    wait_queue_mem := fun _ h => h }

/-- Changing fields of `present` other than the three counters keeps the frame. -/
theorem WorkerFrame.present (c : dxgi_vk_swap_chain) (p : present_state)
    (h1 : p.blit_count = c.present.blit_count) (h2 : p.present_count = c.present.present_count)
    (h3 : p.frame_latency_count = c.present.frame_latency_count) :
    WorkerFrame c { c with present := p } [] :=
  { effects := (List.append_nil _).symm
    iteration_effects := rfl
    user := rfl, desc := rfl, frame_latency := rfl, request := rfl, request_ring := rfl
    formats := rfl, wait_thread_active := rfl, blit_count := h1, present_count := h2
    frame_latency_count := h3
    wait_queue := by simp [waiter_releases]
    wait_queue_mem := fun _ h => h }

/-- The waiter empties a queue without sentinel, releasing one unit per ID. -/
theorem waiter_drains_eq (q : List Nat) (h : ∀ id, id ∈ q → id ≠ 0) :
    waiter_drains q = some (q.map Effect.waiter_release) := by
  induction q with
  | nil => rfl
  | cons id rest ih =>
    unfold waiter_drains
    rw [if_neg (h id (List.mem_cons_self _ _)),
      ih (fun x hx => h x (List.mem_cons_of_mem _ hx))]
    rfl

theorem waiter_drains_some (q : List Nat) (released : List Effect)
    (h : waiter_drains q = some released) :
    released = q.map Effect.waiter_release ∧ ∀ id, id ∈ q → id ≠ 0 := by
  induction q generalizing released with
  | nil =>
    unfold waiter_drains at h
    simp only [Option.some.injEq] at h
    exact ⟨h.symm, fun _ hx => absurd hx (List.not_mem_nil _)⟩
  | cons id rest ih =>
    unfold waiter_drains at h
    split at h
    · exact Option.noConfusion h
    · rename_i hid
      split at h
      · exact Option.noConfusion h
      · rename_i r hr
        simp only [Option.some.injEq] at h
        obtain ⟨h1, h2⟩ := ih r hr
        refine ⟨by rw [← h, h1]; rfl, ?_⟩
        intro x hx
        rcases List.mem_cons.mp hx with hx | hx
        · rw [hx]; exact hid
        · exact h2 x hx

theorem waiter_release_map (q : List Nat) :
    (q.map Effect.waiter_release).all is_iteration_effect = true ∧
    waiter_releases (q.map Effect.waiter_release) = q.length ∧
    acquire_attempts (q.map Effect.waiter_release) = 0 ∧
    iteration_levels (q.map Effect.waiter_release) = [] ∧
    created_swapchains (q.map Effect.waiter_release) = [] := by
  induction q with
  | nil => exact ⟨rfl, rfl, rfl, rfl, rfl⟩
  | cons id rest ih =>
    obtain ⟨h1, h2, h3, h4, h5⟩ := ih
    refine ⟨?_, ?_, ?_, ?_, ?_⟩
    · rw [List.map_cons, List.all_cons, h1]; rfl
    · unfold waiter_releases at h2 ⊢
      rw [List.map_cons, List.countP_cons, h2]; rfl
    · unfold acquire_attempts at h3 ⊢
      rw [List.map_cons, List.countP_cons, h3]; rfl
    · unfold iteration_levels at h4 ⊢
      rw [List.map_cons, List.filterMap_cons, h4]
    · unfold created_swapchains at h5 ⊢
      rw [List.map_cons, List.filterMap_cons, h5]


theorem waiter_can_drain_frame {c c1 : dxgi_vk_swap_chain} {new : List Effect}
    (h : WorkerFrame c c1 new) (hd : waiter_can_drain c) : waiter_can_drain c1 := by
  intro ha id hid
  exact hd (h.wait_thread_active ▸ ha) id (h.wait_queue_mem id hid)

/-! ## Lemmas on swapchain destruction and creation -/

theorem drain_waiter_spec (c c1 : dxgi_vk_swap_chain)
    (h : dxgi_vk_swap_chain_drain_waiter c = some c1) :
    ∃ new, WorkerFrame c c1 new ∧ acquire_attempts new = 0 ∧ iteration_levels new = [] ∧
      created_swapchains new = [] ∧ c1.present = c.present := by
  unfold dxgi_vk_swap_chain_drain_waiter at h
  split at h
  · split at h
    · exact Option.noConfusion h
    · rename_i released hrel
      simp only [Option.some.injEq] at h
      subst h
      obtain ⟨hr, _⟩ := waiter_drains_some _ _ hrel
      obtain ⟨m1, m2, m3, m4, m5⟩ := waiter_release_map c.wait_queue
      refine ⟨Effect.drain_waiter :: released, ?_, ?_, ?_, ?_, rfl⟩
      · exact
          { effects := rfl
            iteration_effects := by rw [List.all_cons, hr, m1]; rfl
            user := rfl, desc := rfl, frame_latency := rfl, request := rfl, request_ring := rfl
            formats := rfl, wait_thread_active := rfl, blit_count := rfl, present_count := rfl
            frame_latency_count := rfl
            wait_queue := by
              show waiter_releases (Effect.drain_waiter :: released) + 0 = c.wait_queue.length
              rw [hr]
              unfold waiter_releases at m2 ⊢
              rw [List.countP_cons, m2]
              rfl
            wait_queue_mem := fun _ hx => absurd hx (List.not_mem_nil _) }
      · rw [hr]
        unfold acquire_attempts at m3 ⊢
        rw [List.countP_cons, m3]
        rfl
      · rw [hr]
        unfold iteration_levels at m4 ⊢
        rw [List.filterMap_cons, m4]
      · rw [hr]
        unfold created_swapchains at m5 ⊢
        rw [List.filterMap_cons, m5]
  · simp only [Option.some.injEq] at h
    subst h
    exact ⟨[], WorkerFrame.refl c, rfl, rfl, rfl, rfl⟩

theorem drain_waiter_total (c : dxgi_vk_swap_chain) (h : waiter_can_drain c) :
    ∃ c1, dxgi_vk_swap_chain_drain_waiter c = some c1 := by
  unfold dxgi_vk_swap_chain_drain_waiter
  by_cases ha : c.wait_thread_active = true
  · rw [if_pos ha, waiter_drains_eq _ (h ha)]
    exact ⟨_, rfl⟩
  · rw [if_neg ha]
    exact ⟨_, rfl⟩

theorem destroy_swapchain_spec (c c1 : dxgi_vk_swap_chain)
    (h : dxgi_vk_swap_chain_destroy_swapchain_in_present_task c = some c1) :
    ∃ new, WorkerFrame c c1 new ∧ acquire_attempts new = 0 ∧ iteration_levels new = [] ∧
      created_swapchains new = [] ∧ c1.present.vk_swapchain = VK_NULL_HANDLE ∧
      c1.present.is_surface_lost = c.present.is_surface_lost ∧
      c1.present.is_occlusion_state = c.present.is_occlusion_state := by
  unfold dxgi_vk_swap_chain_destroy_swapchain_in_present_task at h
  split at h
  · rename_i hnull
    simp only [Option.some.injEq] at h
    subst h
    exact ⟨[], WorkerFrame.refl c, rfl, rfl, rfl, hnull, rfl, rfl⟩
  · split at h
    · exact Option.noConfusion h
    · rename_i c2 hdrain
      simp only [Option.some.injEq] at h
      subst h
      obtain ⟨n2, f2, a2, l2, s2, p2⟩ := drain_waiter_spec _ _ hdrain
      have f1 := WorkerFrame.record c [Effect.queue_wait_idle] rfl rfl
      have f12 := f1.trans f2
      have f3 : WorkerFrame c2 { c2 with
          present := { c2.present with
            vk_swapchain := VK_NULL_HANDLE
            backbuffer_width := 0
            backbuffer_height := 0
            backbuffer_format := VK_FORMAT_UNDEFINED
            backbuffer_count := 0
            force_swapchain_recreation := false
            present_id_valid := false
            present_id := 0 } } [] := WorkerFrame.present c2 _ rfl rfl rfl
      have f4 := WorkerFrame.record { c2 with
          present := { c2.present with
            vk_swapchain := VK_NULL_HANDLE
            backbuffer_width := 0
            backbuffer_height := 0
            backbuffer_format := VK_FORMAT_UNDEFINED
            backbuffer_count := 0
            force_swapchain_recreation := false
            present_id_valid := false
            present_id := 0 } } [Effect.destroy_swapchain c.present.vk_swapchain] rfl rfl
      refine ⟨_, (f12.trans f3).trans f4, ?_, ?_, ?_, rfl, ?_, ?_⟩
      · simp only [acquire_attempts_append, a2]
        rfl
      · simp only [iteration_levels_append, l2]
        rfl
      · simp only [created_swapchains_append, s2]
        rfl
      · show c2.present.is_surface_lost = c.present.is_surface_lost
        rw [p2]
      · show c2.present.is_occlusion_state = c.present.is_occlusion_state
        rw [p2]

theorem destroy_swapchain_total (c : dxgi_vk_swap_chain) (h : waiter_can_drain c) :
    ∃ c1, dxgi_vk_swap_chain_destroy_swapchain_in_present_task c = some c1 := by
  unfold dxgi_vk_swap_chain_destroy_swapchain_in_present_task
  split
  · exact ⟨_, rfl⟩
  · obtain ⟨c2, h2⟩ := drain_waiter_total
      { c with effects := c.effects ++ [Effect.queue_wait_idle] } h
    rw [h2]
    exact ⟨_, rfl⟩

theorem set_hdr_metadata_spec (device : d3d12_device) (c : dxgi_vk_swap_chain) :
    ∃ new, WorkerFrame c (dxgi_vk_swap_chain_set_hdr_metadata device c) new ∧
      acquire_attempts new = 0 ∧ iteration_levels new = [] ∧ created_swapchains new = [] ∧
      (dxgi_vk_swap_chain_set_hdr_metadata device c).present = c.present ∧
      (dxgi_vk_swap_chain_set_hdr_metadata device c).wait_queue = c.wait_queue := by
  unfold dxgi_vk_swap_chain_set_hdr_metadata
  split
  · exact ⟨[], WorkerFrame.refl c, rfl, rfl, rfl, rfl, rfl⟩
  · exact ⟨_, WorkerFrame.record c [Effect.set_hdr_metadata] rfl rfl, rfl, rfl, rfl, rfl, rfl⟩

/-- A frame extended by a change of `present` that keeps the three counters and by
further effects of an iteration that are no waiter release. -/
theorem WorkerFrame.extend {c c2 : dxgi_vk_swap_chain} {n : List Effect}
    (f : WorkerFrame c c2 n) (p : present_state) (extra : List Effect)
    (h1 : p.blit_count = c2.present.blit_count)
    (h2 : p.present_count = c2.present.present_count)
    (h3 : p.frame_latency_count = c2.present.frame_latency_count)
    (he : extra.all is_iteration_effect = true) (hw : waiter_releases extra = 0) :
    WorkerFrame c { c2 with present := p, effects := c2.effects ++ extra } (n ++ extra) :=
  f.trans ((WorkerFrame.present c2 p h1 h2 h3).trans
    (WorkerFrame.record { c2 with present := p } extra he hw))

/-- A frame that starts after a change of `present` keeping the three counters and
after further effects of an iteration, seen from before them. -/
theorem WorkerFrame.after_update {c c2 : dxgi_vk_swap_chain} {p : present_state}
    {extra n2 : List Effect}
    (f2 : WorkerFrame { c with present := p, effects := c.effects ++ extra } c2 n2)
    (h1 : p.blit_count = c.present.blit_count)
    (h2 : p.present_count = c.present.present_count)
    (h3 : p.frame_latency_count = c.present.frame_latency_count)
    (he : extra.all is_iteration_effect = true) (hw : waiter_releases extra = 0) :
    WorkerFrame c c2 (extra ++ n2) :=
  (((WorkerFrame.refl c).extend p extra h1 h2 h3 he hw).trans f2 : WorkerFrame c c2 _)

theorem set_hdr_metadata_after (device : d3d12_device) {c : dxgi_vk_swap_chain}
    (c2 : dxgi_vk_swap_chain) {n : List Effect} {e : Effect}
    (f : WorkerFrame c c2 n) (hhead : ∃ rest, n = e :: rest)
    (ha : acquire_attempts n = 0) (hl : iteration_levels n = []) :
    ∃ new, WorkerFrame c (dxgi_vk_swap_chain_set_hdr_metadata device c2) new ∧
      (∃ rest, new = e :: rest) ∧ acquire_attempts new = 0 ∧ iteration_levels new = [] := by
  obtain ⟨n5, f5, a5, l5, _, _, _⟩ := set_hdr_metadata_spec device c2
  obtain ⟨rest, hrest⟩ := hhead
  refine ⟨_, f.trans f5, ⟨rest ++ n5, by rw [hrest]; rfl⟩, ?_, ?_⟩
  · rw [acquire_attempts_append, ha, a5]
  · rw [iteration_levels_append, hl, l5]
    rfl

theorem recreate_swapchain_spec (device : d3d12_device) (env : present_env)
    (c c1 : dxgi_vk_swap_chain)
    (h : dxgi_vk_swap_chain_recreate_swapchain_in_present_task device env c = some c1) :
    ∃ new, WorkerFrame c c1 new ∧
      (∃ rest, new = Effect.recreate_swapchain c.present.vk_swapchain :: rest) ∧
      acquire_attempts new = 0 ∧ iteration_levels new = [] := by
  unfold dxgi_vk_swap_chain_recreate_swapchain_in_present_task at h
  have f0 := WorkerFrame.record c [Effect.recreate_swapchain c.present.vk_swapchain] rfl rfl
  split at h
  · exact Option.noConfusion h
  · rename_i c2 hdestroy
    obtain ⟨n2, f2, a2, l2, _, _, _, _⟩ := destroy_swapchain_spec _ _ hdestroy
    have f02 := f0.trans f2
    split at h
    · simp only [Option.some.injEq] at h
      subst h
      exact ⟨_, f02, ⟨_, rfl⟩, by simp only [acquire_attempts_append, a2]; rfl,
        by simp only [iteration_levels_append, l2]; rfl⟩
    · dsimp only at h
      split at h
      · simp only [Option.some.injEq] at h
        subst h
        exact ⟨_, f02.extend _ [Effect.get_surface_capabilities] rfl rfl rfl rfl rfl, ⟨_, rfl⟩,
          by simp only [acquire_attempts_append, a2]; rfl,
          by simp only [iteration_levels_append, l2]; rfl⟩
      · split at h
        · simp only [Option.some.injEq] at h
          subst h
          exact ⟨_, f02.extend _ [Effect.get_surface_capabilities] rfl rfl rfl rfl rfl, ⟨_, rfl⟩,
            by simp only [acquire_attempts_append, a2]; rfl,
            by simp only [iteration_levels_append, l2]; rfl⟩
        · split at h
          · simp only [Option.some.injEq] at h
            subst h
            exact ⟨_, f02.extend _ [Effect.get_surface_capabilities] rfl rfl rfl rfl rfl, ⟨_, rfl⟩,
              by simp only [acquire_attempts_append, a2]; rfl,
              by simp only [iteration_levels_append, l2]; rfl⟩
          · split at h
            · simp only [Option.some.injEq] at h
              subst h
              exact ⟨_, f02.extend _ [Effect.get_surface_capabilities] rfl rfl rfl rfl rfl,
                ⟨_, rfl⟩,
                by simp only [acquire_attempts_append, a2]; rfl,
                by simp only [iteration_levels_append, l2]; rfl⟩
            · have f03 := f02.extend c2.present [Effect.get_surface_capabilities]
                rfl rfl rfl rfl rfl
              split at h
              · simp only [Option.some.injEq] at h
                subst h
                exact ⟨_, f03.extend _ [Effect.create_swapchain _ _] rfl rfl rfl rfl rfl,
                  ⟨_, rfl⟩,
                  by simp only [acquire_attempts_append, a2]; rfl,
                  by simp only [iteration_levels_append, l2]; rfl⟩
              · simp only [Option.some.injEq] at h
                subst h
                exact set_hdr_metadata_after device _
                  (f03.extend _ [Effect.create_swapchain _ _] rfl rfl rfl rfl rfl) ⟨_, rfl⟩
                  (by simp only [acquire_attempts_append, a2]; rfl)
                  (by simp only [iteration_levels_append, l2]; rfl)

theorem recreate_swapchain_total (device : d3d12_device) (env : present_env)
    (c : dxgi_vk_swap_chain) (h : waiter_can_drain c) :
    ∃ c1, dxgi_vk_swap_chain_recreate_swapchain_in_present_task device env c = some c1 := by
  unfold dxgi_vk_swap_chain_recreate_swapchain_in_present_task
  obtain ⟨c2, h2⟩ := destroy_swapchain_total
    { c with effects := c.effects ++ [Effect.recreate_swapchain c.present.vk_swapchain] } h
  rw [h2]
  dsimp only
  split
  · exact ⟨_, rfl⟩
  · split
    · exact ⟨_, rfl⟩
    · split
      · exact ⟨_, rfl⟩
      · split
        · exact ⟨_, rfl⟩
        · split
          · exact ⟨_, rfl⟩
          · split
            · exact ⟨_, rfl⟩
            · exact ⟨_, rfl⟩

theorem recreate_if_required_spec (device : d3d12_device) (env : present_env)
    (c c1 : dxgi_vk_swap_chain)
    (h : dxgi_vk_swap_chain_present_recreate_swapchain_if_required device env c = some c1) :
    ∃ new, WorkerFrame c c1 new ∧
      (c.present.vk_swapchain = VK_NULL_HANDLE →
        ∃ rest, new = Effect.recreate_swapchain VK_NULL_HANDLE :: rest) ∧
      acquire_attempts new = 0 ∧ iteration_levels new = [] := by
  unfold dxgi_vk_swap_chain_present_recreate_swapchain_if_required at h
  split at h
  · obtain ⟨new, f, ⟨rest, hrest⟩, a, l⟩ := recreate_swapchain_spec device env c c1 h
    exact ⟨new, f, fun hnull => ⟨rest, by rw [hrest, hnull]⟩, a, l⟩
  · rename_i hno
    simp only [Option.some.injEq] at h
    subst h
    exact ⟨[], WorkerFrame.refl c, fun hnull => absurd (Or.inl hnull) hno, rfl, rfl⟩

theorem recreate_if_required_total (device : d3d12_device) (env : present_env)
    (c : dxgi_vk_swap_chain) (h : waiter_can_drain c) :
    ∃ c1, dxgi_vk_swap_chain_present_recreate_swapchain_if_required device env c = some c1 := by
  unfold dxgi_vk_swap_chain_present_recreate_swapchain_if_required
  split
  · exact recreate_swapchain_total device env c h
  · exact ⟨_, rfl⟩

theorem handle_result_spec (vr : VkResult) (c c1 : dxgi_vk_swap_chain)
    (h : present_iteration_handle_result vr c = some c1) :
    ∃ new, WorkerFrame c c1 new ∧ acquire_attempts new = 0 ∧ iteration_levels new = [] ∧
      (vr < 0 → c1.present.vk_swapchain = VK_NULL_HANDLE) := by
  unfold present_iteration_handle_result at h
  dsimp only at h
  split at h
  · rename_i hneg
    obtain ⟨n2, f2, a2, l2, _, hnull, _, _⟩ := destroy_swapchain_spec _ _ h
    have f1 : WorkerFrame c
        (if vr = VK_SUBOPTIMAL_KHR ∨ vr < 0 then
          { c with present := { c.present with force_swapchain_recreation := true } }
        else c) [] := by
      split
      · exact WorkerFrame.present c _ rfl rfl rfl
      · exact WorkerFrame.refl c
    exact ⟨_, f1.trans f2, by simpa using a2, by simpa using l2, fun _ => hnull⟩
  · rename_i hpos
    simp only [Option.some.injEq] at h
    subst h
    refine ⟨[], ?_, rfl, rfl, fun hneg => absurd hneg hpos⟩
    split
    · exact WorkerFrame.present c _ rfl rfl rfl
    · exact WorkerFrame.refl c

theorem handle_result_total (vr : VkResult) (c : dxgi_vk_swap_chain) (h : waiter_can_drain c) :
    ∃ c1, present_iteration_handle_result vr c = some c1 := by
  unfold present_iteration_handle_result
  dsimp only
  split
  · apply destroy_swapchain_total
    split
    · exact h
    · exact h
  · exact ⟨_, rfl⟩

theorem present_iteration_acquire_spec (env : present_env) (c c1 : dxgi_vk_swap_chain)
    (vr : VkResult) (h : present_iteration_acquire env c = some (vr, c1)) :
    ∃ new, WorkerFrame c c1 new ∧ acquire_attempts new = 1 ∧ iteration_levels new = [] ∧
      (vr < 0 → c1.present.vk_swapchain = VK_NULL_HANDLE) := by
  unfold present_iteration_acquire at h
  dsimp only at h
  split at h
  · exact Option.noConfusion h
  · rename_i c2 h2
    simp only [Option.some.injEq, Prod.mk.injEq] at h
    obtain ⟨hvr, hc⟩ := h
    subst hvr hc
    obtain ⟨n2, f2, a2, l2, hnull⟩ := handle_result_spec _ _ _ h2
    have f1 := WorkerFrame.record c
      (Effect.acquire_next_image env.acquire_next_image.1 ::
        (if env.acquire_next_image.1 ≥ 0 then [Effect.wait_acquire_fence] else []))
      (by split <;> rfl) (by split <;> rfl)
    refine ⟨_, f1.trans f2, ?_, ?_, hnull⟩
    · rw [acquire_attempts_append, a2]
      split <;> rfl
    · rw [iteration_levels_append, l2]
      split <;> rfl

theorem present_iteration_acquire_total (env : present_env) (c : dxgi_vk_swap_chain)
    (h : waiter_can_drain c) : ∃ p, present_iteration_acquire env c = some p := by
  unfold present_iteration_acquire
  dsimp only
  obtain ⟨c2, h2⟩ := handle_result_total env.acquire_next_image.1
    { c with effects := c.effects ++ Effect.acquire_next_image env.acquire_next_image.1 ::
      (if env.acquire_next_image.1 ≥ 0 then [Effect.wait_acquire_fence] else []) } h
  rw [h2]
  exact ⟨_, rfl⟩

theorem submit_blit_spec (env : present_env) (c c1 : dxgi_vk_swap_chain) (ok : Bool)
    (h : dxgi_vk_swap_chain_submit_blit env c = some (ok, c1)) :
    ∃ new, WorkerFrame c c1 new ∧ acquire_attempts new = 0 ∧ iteration_levels new = [] ∧
      c1.present = c.present := by
  unfold dxgi_vk_swap_chain_submit_blit at h
  split at h
  · simp only [Option.some.injEq, Prod.mk.injEq] at h
    obtain ⟨_, hc⟩ := h
    subst hc
    exact ⟨[], WorkerFrame.refl c, rfl, rfl, rfl⟩
  · split at h
    · exact Option.noConfusion h
    · simp only [Option.some.injEq, Prod.mk.injEq] at h
      obtain ⟨_, hc⟩ := h
      subst hc
      exact ⟨_, WorkerFrame.record c [Effect.submit_blit env.blit_submit] rfl rfl, rfl, rfl, rfl⟩

theorem submit_blit_total (env : present_env) (c : dxgi_vk_swap_chain)
    (h : (user_backbuffer c c.request.user_index).isSome = true) :
    ∃ p, dxgi_vk_swap_chain_submit_blit env c = some p := by
  unfold dxgi_vk_swap_chain_submit_blit
  split
  · exact ⟨_, rfl⟩
  · obtain ⟨r, hr⟩ := Option.isSome_iff_exists.mp h
    rw [hr]
    exact ⟨_, rfl⟩

theorem present_iteration_queue_present_spec (env : present_env) (c c1 : dxgi_vk_swap_chain)
    (vr : VkResult) (h : present_iteration_queue_present env c = some (vr, c1)) :
    ∃ new, WorkerFrame c c1 new ∧ acquire_attempts new = 0 ∧ iteration_levels new = [] ∧
      (vr < 0 → c1.present.vk_swapchain = VK_NULL_HANDLE) := by
  unfold present_iteration_queue_present at h
  dsimp only at h
  split at h
  · exact Option.noConfusion h
  · rename_i c2 h2
    simp only [Option.some.injEq, Prod.mk.injEq] at h
    obtain ⟨hvr, hc⟩ := h
    subst hvr hc
    obtain ⟨n2, f2, a2, l2, hnull⟩ := handle_result_spec _ _ _ h2
    refine ⟨_, WorkerFrame.after_update f2 rfl rfl rfl rfl rfl, ?_, ?_, hnull⟩
    · rw [acquire_attempts_append, a2]
      rfl
    · rw [iteration_levels_append, l2]
      rfl

theorem present_iteration_queue_present_total (env : present_env) (c : dxgi_vk_swap_chain)
    (h : waiter_can_drain c) : ∃ p, present_iteration_queue_present env c = some p := by
  unfold present_iteration_queue_present
  dsimp only
  obtain ⟨c2, h2⟩ := handle_result_total
    (if env.queue_present.1 = VK_SUCCESS ∧ env.queue_present.2 ≠ VK_SUCCESS then
      env.queue_present.2 else env.queue_present.1)
    { c with
      present := { c.present with
        present_id :=
          if (c.wait_thread_active && !c.present.present_id_valid) = true then
            (c.present.present_id + 1) % 2 ^ 64 else c.present.present_id
        present_id_valid :=
          if (c.wait_thread_active && !c.present.present_id_valid) = true ∧
              (if env.queue_present.1 = VK_SUCCESS ∧ env.queue_present.2 ≠ VK_SUCCESS then
                env.queue_present.2 else env.queue_present.1) ≥ 0 ∧
              c.request.swap_interval ≥ 1 then true
          else c.present.present_id_valid }
      effects := c.effects ++
        [Effect.queue_present
          (if (c.wait_thread_active && !c.present.present_id_valid) = true then
            some (if (c.wait_thread_active && !c.present.present_id_valid) = true then
              (c.present.present_id + 1) % 2 ^ 64 else c.present.present_id)
          else none)
          (if env.queue_present.1 = VK_SUCCESS ∧ env.queue_present.2 ≠ VK_SUCCESS then
            env.queue_present.2 else env.queue_present.1)] } h
  rw [h2]
  exact ⟨_, rfl⟩

theorem surface_lost_frame (c : dxgi_vk_swap_chain) :
    WorkerFrame c (present_iteration_surface_lost c) [] :=
  WorkerFrame.present c _ rfl rfl rfl

theorem level_exit {c c1 : dxgi_vk_swap_chain} {retry_counter : Nat} {retry : Bool}
    {n1 n2 : List Effect}
    (f : WorkerFrame c c1 ([Effect.present_iteration retry_counter] ++ n1 ++ n2))
    (a1 : acquire_attempts n1 = 0) (l1 : iteration_levels n1 = [])
    (hhead : c.present.vk_swapchain = VK_NULL_HANDLE →
      ∃ rest, n1 = Effect.recreate_swapchain VK_NULL_HANDLE :: rest)
    (a2 : acquire_attempts n2 ≤ 1) (l2 : iteration_levels n2 = [])
    (hretry : retry = true → c1.present.vk_swapchain = VK_NULL_HANDLE) :
    LevelSpec c c1 retry_counter retry := by
  refine ⟨_, n1 ++ n2, f, by simp, ?_, ?_, ?_, hretry⟩
  · rw [acquire_attempts_append, a1]
    omega
  · rw [iteration_levels_append, l1, l2]
    rfl
  · intro hnull
    obtain ⟨rest, hrest⟩ := hhead hnull
    exact ⟨rest ++ n2, by rw [hrest]; rfl⟩

theorem present_iteration_level_spec (device : d3d12_device) (env : present_env)
    (c c1 : dxgi_vk_swap_chain) (retry_counter : Nat) (retry : Bool)
    (h : present_iteration_level device env c retry_counter = some (c1, retry)) :
    LevelSpec c c1 retry_counter retry := by
  unfold present_iteration_level at h
  split at h
  · exact Option.noConfusion h
  · rename_i c2 h2
    obtain ⟨n1, f1, hhead, a1, l1⟩ := recreate_if_required_spec _ _ _ _ h2
    have f01 : WorkerFrame c c2 ([Effect.present_iteration retry_counter] ++ n1) :=
      WorkerFrame.after_update f1 rfl rfl rfl rfl rfl
    split at h
    · simp only [Option.some.injEq, Prod.mk.injEq] at h
      obtain ⟨hc, hr⟩ := h
      subst hc hr
      have f := f01.trans (WorkerFrame.refl c2)
      exact level_exit f a1 l1 hhead (by decide) rfl (fun hf => absurd hf (by decide))
    · split at h
      · exact Option.noConfusion h
      · rename_i vr c3 h3
        obtain ⟨na, fa, aa, la, hnull_a⟩ := present_iteration_acquire_spec _ _ _ _ h3
        have f03 := f01.trans fa
        split at h
        · rename_i hood
          simp only [Option.some.injEq, Prod.mk.injEq] at h
          obtain ⟨hc, hr⟩ := h
          subst hc hr
          exact level_exit f03 a1 l1 hhead (by omega) la
            (fun _ => hnull_a (by rw [hood]; decide))
        · split at h
          · simp only [Option.some.injEq, Prod.mk.injEq] at h
            obtain ⟨hc, hr⟩ := h
            subst hc hr
            have f := f03.trans (surface_lost_frame c3)
            rw [List.append_assoc] at f
            exact level_exit f a1 l1 hhead (by simp [acquire_attempts_append, aa])
              (by simp [iteration_levels_append, la]) (fun hf => absurd hf (by decide))
          · split at h
            · simp only [Option.some.injEq, Prod.mk.injEq] at h
              obtain ⟨hc, hr⟩ := h
              subst hc hr
              exact level_exit f03 a1 l1 hhead (by omega) la (fun hf => absurd hf (by decide))
            · split at h
              · exact Option.noConfusion h
              · rename_i c4 h4
                obtain ⟨nb, fb, ab, lb, _⟩ := submit_blit_spec _ _ _ _ h4
                simp only [Option.some.injEq, Prod.mk.injEq] at h
                obtain ⟨hc, hr⟩ := h
                subst hc hr
                have f := f03.trans fb
                rw [List.append_assoc] at f
                exact level_exit f a1 l1 hhead (by simp [acquire_attempts_append, aa, ab])
                  (by simp [iteration_levels_append, la, lb]) (fun hf => absurd hf (by decide))
              · rename_i c4 h4
                obtain ⟨nb, fb, ab, lb, _⟩ := submit_blit_spec _ _ _ _ h4
                split at h
                · exact Option.noConfusion h
                · rename_i vr2 c5 h5
                  obtain ⟨nq, fq, aq, lq, hnull_q⟩ :=
                    present_iteration_queue_present_spec _ _ _ _ h5
                  have f05 := (f03.trans fb).trans fq
                  rw [List.append_assoc, List.append_assoc] at f05
                  split at h
                  · rename_i hood
                    simp only [Option.some.injEq, Prod.mk.injEq] at h
                    obtain ⟨hc, hr⟩ := h
                    subst hc hr
                    exact level_exit f05 a1 l1 hhead
                      (by simp [acquire_attempts_append, aa, ab, aq])
                      (by simp [iteration_levels_append, la, lb, lq])
                      (fun _ => hnull_q (by rw [hood]; decide))
                  · split at h
                    · simp only [Option.some.injEq, Prod.mk.injEq] at h
                      obtain ⟨hc, hr⟩ := h
                      subst hc hr
                      have f := f05.trans (surface_lost_frame c5)
                      rw [List.append_assoc] at f
                      exact level_exit f a1 l1 hhead
                        (by simp [acquire_attempts_append, aa, ab, aq])
                        (by simp [iteration_levels_append, la, lb, lq])
                        (fun hf => absurd hf (by decide))
                    · simp only [Option.some.injEq, Prod.mk.injEq] at h
                      obtain ⟨hc, hr⟩ := h
                      subst hc hr
                      exact level_exit f05 a1 l1 hhead
                        (by simp [acquire_attempts_append, aa, ab, aq])
                        (by simp [iteration_levels_append, la, lb, lq])
                        (fun hf => absurd hf (by decide))

/-! ## Lemmas on the retries of a present iteration -/

theorem retries_begin_with_recreate_skip (e : Effect) (l : List Effect)
    (h : iteration_levels [e] = []) :
    retries_begin_with_recreate (e :: l) = retries_begin_with_recreate l := by
  cases e <;> first
    | rfl
    | (simp [iteration_levels] at h)

theorem retries_begin_with_recreate_append (l m : List Effect) (h : iteration_levels l = []) :
    retries_begin_with_recreate (l ++ m) = retries_begin_with_recreate m := by
  induction l with
  | nil => rfl
  | cons e l ih =>
    have he : iteration_levels [e] = [] := by
      unfold iteration_levels at h ⊢
      rw [List.filterMap_cons] at h
      rw [List.filterMap_cons]
      split at h
      · rfl
      · exact absurd h (List.cons_ne_nil _ _)
    have hl : iteration_levels l = [] := by
      have : iteration_levels (e :: l) = iteration_levels [e] ++ iteration_levels l :=
        iteration_levels_append [e] l
      rw [this, he] at h
      exact h
    rw [List.cons_append, retries_begin_with_recreate_skip e _ he]
    exact ih hl

theorem retries_begin_with_recreate_of_no_level (l : List Effect) (h : iteration_levels l = []) :
    retries_begin_with_recreate l = true := by
  have := retries_begin_with_recreate_append l [] h
  rw [List.append_nil] at this
  rw [this]
  rfl

/-! ## Lemmas on the present iteration as a whole -/

theorem backbuffer_frame {c c1 : dxgi_vk_swap_chain} {new : List Effect}
    (f : WorkerFrame c c1 new) :
    user_backbuffer c1 c1.request.user_index = user_backbuffer c c.request.user_index := by
  rw [f.request]
  exact user_backbuffer_congr c1 c (by rw [f.user]) _

theorem present_iteration_level_total (device : d3d12_device) (env : present_env)
    (c : dxgi_vk_swap_chain) (retry_counter : Nat) (hd : waiter_can_drain c)
    (hb : (user_backbuffer c c.request.user_index).isSome = true) :
    ∃ p, present_iteration_level device env c retry_counter = some p := by
  unfold present_iteration_level
  obtain ⟨c2, h2⟩ := recreate_if_required_total device env
    { c with effects := c.effects ++ [Effect.present_iteration retry_counter] } hd
  rw [h2]
  dsimp only
  obtain ⟨n1, f1, _, _, _⟩ := recreate_if_required_spec _ _ _ _ h2
  have f01 : WorkerFrame c c2 ([Effect.present_iteration retry_counter] ++ n1) :=
    WorkerFrame.after_update f1 rfl rfl rfl rfl rfl
  split
  · exact ⟨_, rfl⟩
  · obtain ⟨p, h3⟩ := present_iteration_acquire_total env c2 (waiter_can_drain_frame f01 hd)
    obtain ⟨vr, c3⟩ := p
    rw [h3]
    dsimp only
    obtain ⟨na, fa, _, _, _⟩ := present_iteration_acquire_spec _ _ _ _ h3
    have f03 := f01.trans fa
    split
    · exact ⟨_, rfl⟩
    · split
      · exact ⟨_, rfl⟩
      · split
        · exact ⟨_, rfl⟩
        · obtain ⟨q, h4⟩ := submit_blit_total env c3 (by rw [backbuffer_frame f03]; exact hb)
          obtain ⟨ok, c4⟩ := q
          rw [h4]
          obtain ⟨nb, fb, _, _, _⟩ := submit_blit_spec _ _ _ _ h4
          cases ok
          · exact ⟨_, rfl⟩
          · dsimp only
            obtain ⟨p5, h5⟩ := present_iteration_queue_present_total env c4
              (waiter_can_drain_frame (f03.trans fb) hd)
            obtain ⟨vr2, c5⟩ := p5
            rw [h5]
            dsimp only
            split
            · exact ⟨_, rfl⟩
            · split
              · exact ⟨_, rfl⟩
              · exact ⟨_, rfl⟩

theorem present_iteration_spec (device : d3d12_device) (gpu : Nat → present_env) :
    ∀ n r c c1, 3 - r = n →
      dxgi_vk_swap_chain_present_iteration device gpu c r = some c1 → IterationSpec c c1 r := by
  intro n
  induction n with
  | zero =>
    intro r c c1 hn h
    rw [present_iteration_eq] at h
    split at h
    · exact Option.noConfusion h
    · rename_i c2 hlevel
      simp only [Option.some.injEq] at h
      subst h
      obtain ⟨new, rest, f, hnew, ha, hl, hhead, _⟩ := present_iteration_level_spec _ _ _ _ _ _ hlevel
      refine ⟨new, rest, 1, f, hnew, ?_, le_refl _, fun _ => by omega, fun _ => rfl, ?_,
        retries_begin_with_recreate_of_no_level rest hl, hhead⟩
      · rw [hnew]
        show iteration_levels ([Effect.present_iteration r] ++ rest) = _
        rw [iteration_levels_append, hl]
        rfl
      · rw [hnew]
        show acquire_attempts ([Effect.present_iteration r] ++ rest) ≤ 1
        rw [acquire_attempts_append]
        have : acquire_attempts [Effect.present_iteration r] = 0 := rfl
        omega
    · rename_i c2 hlevel
      rw [if_neg (by omega)] at h
      simp only [Option.some.injEq] at h
      subst h
      obtain ⟨new, rest, f, hnew, ha, hl, hhead, _⟩ := present_iteration_level_spec _ _ _ _ _ _ hlevel
      refine ⟨new, rest, 1, f, hnew, ?_, le_refl _, fun _ => by omega, fun _ => rfl, ?_,
        retries_begin_with_recreate_of_no_level rest hl, hhead⟩
      · rw [hnew]
        show iteration_levels ([Effect.present_iteration r] ++ rest) = _
        rw [iteration_levels_append, hl]
        rfl
      · rw [hnew]
        show acquire_attempts ([Effect.present_iteration r] ++ rest) ≤ 1
        rw [acquire_attempts_append]
        have : acquire_attempts [Effect.present_iteration r] = 0 := rfl
        omega
  | succ n ih =>
    intro r c c1 hn h
    rw [present_iteration_eq] at h
    split at h
    · exact Option.noConfusion h
    · rename_i c2 hlevel
      simp only [Option.some.injEq] at h
      subst h
      obtain ⟨new, rest, f, hnew, ha, hl, hhead, _⟩ := present_iteration_level_spec _ _ _ _ _ _ hlevel
      refine ⟨new, rest, 1, f, hnew, ?_, le_refl _, fun _ => by omega, fun _ => rfl, ?_,
        retries_begin_with_recreate_of_no_level rest hl, hhead⟩
      · rw [hnew]
        show iteration_levels ([Effect.present_iteration r] ++ rest) = _
        rw [iteration_levels_append, hl]
        rfl
      · rw [hnew]
        show acquire_attempts ([Effect.present_iteration r] ++ rest) ≤ 1
        rw [acquire_attempts_append]
        have : acquire_attempts [Effect.present_iteration r] = 0 := rfl
        omega
    · rename_i c2 hlevel
      rw [if_pos (by omega)] at h
      obtain ⟨new, rest, f, hnew, ha, hl, hhead, hnull⟩ :=
        present_iteration_level_spec _ _ _ _ _ _ hlevel
      obtain ⟨new2, rest2, k, f2, hnew2, hl2, hk, hle, _, ha2, hr2, hhead2⟩ :=
        ih (r + 1) c2 c1 (by omega) h
      obtain ⟨rest3, hrest3⟩ := hhead2 (hnull rfl)
      have hlnew : iteration_levels new = [r] := by
        rw [hnew]
        show iteration_levels ([Effect.present_iteration r] ++ rest) = _
        rw [iteration_levels_append, hl]
        rfl
      have hanew : acquire_attempts new ≤ 1 := by
        rw [hnew]
        show acquire_attempts ([Effect.present_iteration r] ++ rest) ≤ 1
        rw [acquire_attempts_append]
        have : acquire_attempts [Effect.present_iteration r] = 0 := rfl
        omega
      refine ⟨new ++ new2, rest ++ new2, k + 1, f.trans f2, by rw [hnew]; rfl, ?_, by omega,
        fun _ => by omega, fun h3 => by omega, ?_, ?_, ?_⟩
      · rw [iteration_levels_append, hlnew, hl2]
        rw [List.range'_succ]
        rfl
      · rw [acquire_attempts_append]
        omega
      · rw [retries_begin_with_recreate_append rest new2 hl, hnew2, hrest3]
        rw [hrest3] at hr2
        have hskip := retries_begin_with_recreate_skip
          (Effect.recreate_swapchain VK_NULL_HANDLE) rest3 rfl
        rw [hskip] at hr2
        show (decide (VK_NULL_HANDLE = VK_NULL_HANDLE) && retries_begin_with_recreate rest3) = true
        rw [hr2]
        rfl
      · intro h0
        obtain ⟨rest1, hrest1⟩ := hhead h0
        exact ⟨rest1 ++ new2, by rw [hrest1]; rfl⟩

theorem present_iteration_total (device : d3d12_device) (gpu : Nat → present_env) :
    ∀ n r c, 3 - r = n → waiter_can_drain c →
      (user_backbuffer c c.request.user_index).isSome = true →
      ∃ c1, dxgi_vk_swap_chain_present_iteration device gpu c r = some c1 := by
  intro n
  induction n with
  | zero =>
    intro r c hn hd hb
    rw [present_iteration_eq]
    obtain ⟨p, hp⟩ := present_iteration_level_total device (gpu r) c r hd hb
    obtain ⟨c2, retry⟩ := p
    rw [hp]
    cases retry
    · exact ⟨_, rfl⟩
    · dsimp only
      rw [if_neg (by omega)]
      exact ⟨_, rfl⟩
  | succ n ih =>
    intro r c hn hd hb
    rw [present_iteration_eq]
    obtain ⟨p, hp⟩ := present_iteration_level_total device (gpu r) c r hd hb
    obtain ⟨c2, retry⟩ := p
    rw [hp]
    cases retry
    · exact ⟨_, rfl⟩
    · dsimp only
      rw [if_pos (by omega)]
      obtain ⟨new, rest, f, _⟩ := present_iteration_level_spec _ _ _ _ _ _ hp
      exact ih (r + 1) c2 (by omega) (waiter_can_drain_frame f hd)
        (by rw [backbuffer_frame f]; exact hb)

/-! ## Lemmas on the call of vkCreateSwapchainKHR -/

theorem select_format_congr (device : d3d12_device) (a b : dxgi_vk_swap_chain)
    (hr : a.request = b.request) (hf : a.formats = b.formats) :
    dxgi_vk_swap_chain_select_format device a = dxgi_vk_swap_chain_select_format device b := by
  unfold dxgi_vk_swap_chain_select_format dxgi_vk_swap_chain_find_surface_format
  rw [hr, hf]

theorem created_after_hdr (device : d3d12_device) (c2 : dxgi_vk_swap_chain)
    (base n : List Effect) (l : List VkSwapchainCreateInfoKHR)
    (he : c2.effects = base ++ n) (hs : created_swapchains n = l) :
    ∃ new, (dxgi_vk_swap_chain_set_hdr_metadata device c2).effects = base ++ new ∧
      created_swapchains new = l := by
  obtain ⟨n5, f5, _, _, s5, _, _⟩ := set_hdr_metadata_spec device c2
  refine ⟨n ++ n5, by rw [f5.effects, he, List.append_assoc], ?_⟩
  rw [created_swapchains_append, hs, s5, List.append_nil]

theorem recreate_swapchain_created (device : d3d12_device) (env : present_env)
    (c c1 : dxgi_vk_swap_chain)
    (h : dxgi_vk_swap_chain_recreate_swapchain_in_present_task device env c = some c1) :
    ∃ new, c1.effects = c.effects ++ new ∧
      created_swapchains new = (recreate_reaches_create device env c).toList := by
  unfold dxgi_vk_swap_chain_recreate_swapchain_in_present_task at h
  split at h
  · exact Option.noConfusion h
  · rename_i c2 hdestroy
    obtain ⟨n2, f2, _, _, s2, _, hlost, _⟩ := destroy_swapchain_spec _ _ hdestroy
    have e2 : c2.effects = c.effects ++ (Effect.recreate_swapchain c.present.vk_swapchain :: n2) := by
      rw [f2.effects]
      simp
    have hl : c2.present.is_surface_lost = c.present.is_surface_lost := hlost
    have hreq : c2.request = c.request := f2.request
    have hfmt : c2.formats = c.formats := f2.formats
    have s3 : created_swapchains (Effect.recreate_swapchain c.present.vk_swapchain :: n2) = [] := by
      show created_swapchains ([Effect.recreate_swapchain c.present.vk_swapchain] ++ n2) = []
      rw [created_swapchains_append, s2]
      rfl
    unfold recreate_reaches_create
    rw [← hl]
    split at h
    · rename_i hc
      simp only [Option.some.injEq] at h
      subst h
      rw [if_pos hc]
      exact ⟨_, e2, s3⟩
    · rename_i hc
      rw [if_neg hc]
      dsimp only at h
      split at h
      · rename_i hocc
        simp only [Option.some.injEq] at h
        subst h
        rw [if_pos hocc]
        refine ⟨Effect.recreate_swapchain c.present.vk_swapchain :: n2 ++
          [Effect.get_surface_capabilities], ?_, ?_⟩
        · show c2.effects ++ _ = _
          rw [e2]
          simp
        · rw [created_swapchains_append, s3]
          rfl
      · rename_i hocc
        rw [if_neg hocc]
        split at h
        · rename_i hext
          simp only [Option.some.injEq] at h
          subst h
          rw [if_pos hext]
          refine ⟨Effect.recreate_swapchain c.present.vk_swapchain :: n2 ++
            [Effect.get_surface_capabilities], ?_, ?_⟩
          · show c2.effects ++ _ = _
            rw [e2]
            simp
          · rw [created_swapchains_append, s3]
            rfl
        · rename_i hext
          rw [if_neg hext]
          rw [← select_format_congr device _ c hreq hfmt, ← hreq]
          split at h
          · rename_i hsel
            simp only [Option.some.injEq] at h
            subst h
            rw [(select_format_congr device c2 _ rfl rfl).trans hsel]
            refine ⟨Effect.recreate_swapchain c.present.vk_swapchain :: n2 ++
              [Effect.get_surface_capabilities], ?_, ?_⟩
            · show c2.effects ++ _ = _
              rw [e2]
              simp
            · rw [created_swapchains_append, s3]
              rfl
          · rename_i surface_format hsel
            rw [(select_format_congr device c2 _ rfl rfl).trans hsel]
            dsimp only
            split at h
            · rename_i hmode
              simp only [Option.some.injEq] at h
              subst h
              have hmode2 : recreate_select_present_mode env c2.request.swap_interval = none :=
                hmode
              try rw [hmode2]
              refine ⟨Effect.recreate_swapchain c.present.vk_swapchain :: n2 ++
                [Effect.get_surface_capabilities], ?_, ?_⟩
              · show c2.effects ++ _ = _
                rw [e2]
                simp
              · rw [created_swapchains_append, s3]
                rfl
            · rename_i present_mode hmode
              have hmode2 :
                  recreate_select_present_mode env c2.request.swap_interval = some present_mode :=
                hmode
              try rw [hmode2]
              split at h
              · simp only [Option.some.injEq] at h
                subst h
                refine ⟨Effect.recreate_swapchain c.present.vk_swapchain :: n2 ++
                  [Effect.get_surface_capabilities] ++
                  [Effect.create_swapchain (recreate_swapchain_create_info env.surface_caps
                    surface_format present_mode) env.create_swapchain.1], ?_, ?_⟩
                · show c2.effects ++ _ ++ _ = _
                  rw [e2]
                  simp
                · rw [created_swapchains_append, created_swapchains_append, s3]
                  rfl
              · simp only [Option.some.injEq] at h
                subst h
                refine created_after_hdr device _ _
                  (Effect.recreate_swapchain c.present.vk_swapchain :: n2 ++
                    [Effect.get_surface_capabilities] ++
                    [Effect.create_swapchain (recreate_swapchain_create_info env.surface_caps
                      surface_format present_mode) env.create_swapchain.1]) _ ?_ ?_
                · show c2.effects ++ _ ++ _ = _
                  rw [e2]
                  simp
                · rw [created_swapchains_append, created_swapchains_append, s3]
                  rfl

/-! ## C16: the format ladder -/

/-- C16. The cached list is what `vkGetPhysicalDeviceSurfaceFormatsKHR` returned for the
surface; no pair of it has the format `VK_FORMAT_UNDEFINED` (`hlist`, which is
needed for a request of `VK_FORMAT_UNDEFINED` only). Then, for every request: if
the list has a pair with the requested format and color space, `select_format`
succeeds with the first such pair; otherwise, for the sRGB-nonlinear color space,
it returns the first pair in list order with that color space and one of
`R8G8B8A8_UNORM`, `B8G8R8A8_UNORM`, `A8B8G8R8_UNORM_PACK32`, and fails when there is
none. The result is the same on every chain with the same cached list and
request. -/
theorem select_format_ladder (device : d3d12_device) (chain : dxgi_vk_swap_chain)
    (hlist : device.vkd3d_get_format chain.request.dxgi_format = VK_FORMAT_UNDEFINED →
      ∀ f, f ∈ chain.formats → f.format ≠ VK_FORMAT_UNDEFINED) :
    ((∃ f, f ∈ chain.formats ∧
        f.format = device.vkd3d_get_format chain.request.dxgi_format ∧
        f.colorSpace = convert_color_space chain.request.dxgi_color_space_type) →
      (dxgi_vk_swap_chain_select_format device chain).isSome = true ∧
      dxgi_vk_swap_chain_select_format device chain =
        chain.formats.find? (fun f => decide
          (f.format = device.vkd3d_get_format chain.request.dxgi_format ∧
            f.colorSpace = convert_color_space chain.request.dxgi_color_space_type))) ∧
    ((¬ ∃ f, f ∈ chain.formats ∧
        f.format = device.vkd3d_get_format chain.request.dxgi_format ∧
        f.colorSpace = convert_color_space chain.request.dxgi_color_space_type) →
      convert_color_space chain.request.dxgi_color_space_type =
          VK_COLOR_SPACE_SRGB_NONLINEAR_KHR →
      dxgi_vk_swap_chain_select_format device chain =
        chain.formats.find? (fun f => decide
          ((f.format = VK_FORMAT_R8G8B8A8_UNORM ∨ f.format = VK_FORMAT_B8G8R8A8_UNORM ∨
              f.format = VK_FORMAT_A8B8G8R8_UNORM_PACK32) ∧
            f.colorSpace = VK_COLOR_SPACE_SRGB_NONLINEAR_KHR))) ∧
    (∀ chain2 : dxgi_vk_swap_chain, chain2.formats = chain.formats →
      chain2.request = chain.request →
      dxgi_vk_swap_chain_select_format device chain2 =
        dxgi_vk_swap_chain_select_format device chain) := by
  refine ⟨?_, ?_, fun chain2 hf hr => select_format_congr device chain2 chain hr hf⟩
  · intro hex
    by_cases hdef : device.vkd3d_get_format chain.request.dxgi_format = VK_FORMAT_UNDEFINED
    · obtain ⟨f, hf, h1, _⟩ := hex
      exact absurd (h1.trans hdef) (hlist hdef f hf)
    · have hsome : (chain.formats.find? (fun f => decide
          (f.format = device.vkd3d_get_format chain.request.dxgi_format ∧
            f.colorSpace = convert_color_space chain.request.dxgi_color_space_type))).isSome
          = true := by
        rw [List.find?_isSome]
        obtain ⟨f, hf, h1, h2⟩ := hex
        exact ⟨f, hf, by simp [h1, h2]⟩
      obtain ⟨g, hg⟩ := Option.isSome_iff_exists.mp hsome
      have hsel : dxgi_vk_swap_chain_select_format device chain = some g := by
        unfold dxgi_vk_swap_chain_select_format dxgi_vk_swap_chain_find_surface_format
        dsimp only
        rw [find_surface_format_scan_defined _ _ hdef, hg]
      rw [hsel, hg]
      exact ⟨rfl, rfl⟩
  · intro hno hs
    by_cases hdef : device.vkd3d_get_format chain.request.dxgi_format = VK_FORMAT_UNDEFINED
    · unfold dxgi_vk_swap_chain_select_format dxgi_vk_swap_chain_find_surface_format
      dsimp only
      rw [hdef, hs, find_surface_format_scan_undefined]
      cases List.find? (fun f => decide
          ((f.format = VK_FORMAT_R8G8B8A8_UNORM ∨ f.format = VK_FORMAT_B8G8R8A8_UNORM ∨
              f.format = VK_FORMAT_A8B8G8R8_UNORM_PACK32) ∧
            f.colorSpace = VK_COLOR_SPACE_SRGB_NONLINEAR_KHR)) chain.formats with
      | none => rfl
      | some g => rfl
    · have hnone : chain.formats.find? (fun f => decide
          (f.format = device.vkd3d_get_format chain.request.dxgi_format ∧
            f.colorSpace = convert_color_space chain.request.dxgi_color_space_type)) = none := by
        rw [List.find?_eq_none]
        intro f hf hdec
        exact hno ⟨f, hf, of_decide_eq_true hdec⟩
      unfold dxgi_vk_swap_chain_select_format dxgi_vk_swap_chain_find_surface_format
      dsimp only
      rw [find_surface_format_scan_defined _ _ hdef, hnone]
      dsimp only
      rw [if_pos hs, find_surface_format_scan_undefined, hs]

/-- Witness of C16: on the example surface, whose only pair is `{B8G8R8A8_UNORM, sRGB}`, a
request of `VK_FORMAT_UNDEFINED` in sRGB (through `undefined_format_device`) finds
no equal pair and is given that pair. -/
theorem select_format_ladder_witness :
    undefined_format_device.vkd3d_get_format example_chain.request.dxgi_format =
      VK_FORMAT_UNDEFINED ∧
    (∀ f, f ∈ example_chain.formats → f.format ≠ VK_FORMAT_UNDEFINED) ∧
    dxgi_vk_swap_chain_select_format undefined_format_device example_chain =
      some { format := VK_FORMAT_B8G8R8A8_UNORM, colorSpace := VK_COLOR_SPACE_SRGB_NONLINEAR_KHR } :=
  ⟨by decide, by decide,
    ((select_format_ladder undefined_format_device example_chain (fun _ => by decide)).2.1
      (by decide) (by decide)).trans (by decide)⟩

/-! ## C17: no fallback outside sRGB -/

/-- C17, as stated, fails for `VK_FORMAT_UNDEFINED`: the request of `hdr_pair_chain` is in
the HDR10 color space, no cached pair has the requested format
(`VK_FORMAT_UNDEFINED`, through `undefined_format_device`) and that color space,
and `select_format` succeeds with `{R8G8B8A8_UNORM, HDR10}`, with which the worker
then creates a swapchain. -/
theorem select_format_undefined_hdr_succeeds :
    convert_color_space hdr_pair_chain.request.dxgi_color_space_type ≠
      VK_COLOR_SPACE_SRGB_NONLINEAR_KHR ∧
    (∀ f, f ∈ hdr_pair_chain.formats →
      ¬ (f.format = undefined_format_device.vkd3d_get_format hdr_pair_chain.request.dxgi_format ∧
        f.colorSpace = convert_color_space hdr_pair_chain.request.dxgi_color_space_type)) ∧
    dxgi_vk_swap_chain_select_format undefined_format_device hdr_pair_chain =
      some { format := VK_FORMAT_R8G8B8A8_UNORM, colorSpace := VK_COLOR_SPACE_HDR10_ST2084_EXT } ∧
    (recreate_reaches_create undefined_format_device example_present_env hdr_pair_chain).map
      (fun info => info.imageFormat) = some VK_FORMAT_R8G8B8A8_UNORM := by
  decide

/-- C17, amended. For a request whose color space is not sRGB-nonlinear and whose Vulkan
format is not `VK_FORMAT_UNDEFINED`: if no cached pair has both the requested
format and the requested color space, `select_format` refuses, and a swapchain
(re)creation that returns has not called `vkCreateSwapchainKHR`. -/
theorem select_format_refuses_mismatched (device : d3d12_device) (chain : dxgi_vk_swap_chain)
    (hcs : convert_color_space chain.request.dxgi_color_space_type ≠
      VK_COLOR_SPACE_SRGB_NONLINEAR_KHR)
    (hdef : device.vkd3d_get_format chain.request.dxgi_format ≠ VK_FORMAT_UNDEFINED)
    (hno : ∀ f, f ∈ chain.formats →
      ¬ (f.format = device.vkd3d_get_format chain.request.dxgi_format ∧
        f.colorSpace = convert_color_space chain.request.dxgi_color_space_type)) :
    dxgi_vk_swap_chain_select_format device chain = none ∧
    ∀ env chain1,
      dxgi_vk_swap_chain_recreate_swapchain_in_present_task device env chain = some chain1 →
      ∃ new, chain1.effects = chain.effects ++ new ∧ created_swapchains new = [] := by
  have hnone : chain.formats.find? (fun f => decide
      (f.format = device.vkd3d_get_format chain.request.dxgi_format ∧
        f.colorSpace = convert_color_space chain.request.dxgi_color_space_type)) = none := by
    rw [List.find?_eq_none]
    intro f hf hdec
    exact hno f hf (of_decide_eq_true hdec)
  have hsel : dxgi_vk_swap_chain_select_format device chain = none := by
    unfold dxgi_vk_swap_chain_select_format dxgi_vk_swap_chain_find_surface_format
    dsimp only
    rw [find_surface_format_scan_defined _ _ hdef, hnone]
    dsimp only
    rw [if_neg hcs]
  refine ⟨hsel, ?_⟩
  intro env chain1 h
  obtain ⟨new, he, hc⟩ := recreate_swapchain_created device env chain chain1 h
  refine ⟨new, he, ?_⟩
  rw [hc]
  unfold recreate_reaches_create
  rw [hsel]
  split
  · rfl
  · split
    · rfl
    · split
      · rfl
      · rfl

/-- Witness of C17: a request for `R8G8B8A8_UNORM` in HDR10 on the example surface, which
caches `{B8G8R8A8_UNORM, sRGB}` only, is refused. -/
theorem select_format_refuses_mismatched_witness :
    dxgi_vk_swap_chain_select_format example_device
      { example_chain with request := hdr_pair_chain.request } = none :=
  (select_format_refuses_mismatched example_device
    { example_chain with request := hdr_pair_chain.request }
    (by decide) (by decide) (by decide)).1

/-! ## C18: the present mode of the create info -/

/-- Every create info built by `recreate_swapchain_in_present_task` asks for FIFO,
whatever present mode was selected. -/
theorem create_info_present_mode (surface_caps : VkSurfaceCapabilitiesKHR)
    (surface_format : VkSurfaceFormatKHR) (present_mode : Nat) :
    (recreate_swapchain_create_info surface_caps surface_format present_mode).presentMode =
      VK_PRESENT_MODE_FIFO_KHR :=
  rfl

/-- C18. The code at the failing input: the request of the example swapchain has
`swap_interval = 0` and the surface of `example_present_env` supports IMMEDIATE, so
the present mode selected is IMMEDIATE; the (re)creation returns, calls
`vkCreateSwapchainKHR` once, and the create info it passes has
`presentMode = VK_PRESENT_MODE_FIFO_KHR`. -/
theorem recreate_passes_fifo_when_immediate_selected :
    example_chain.request.swap_interval = 0 ∧
    recreate_select_present_mode example_present_env example_chain.request.swap_interval =
      some VK_PRESENT_MODE_IMMEDIATE_KHR ∧
    ∃ chain1 new,
      dxgi_vk_swap_chain_recreate_swapchain_in_present_task example_device example_present_env
        example_chain = some chain1 ∧
      chain1.effects = example_chain.effects ++ new ∧
      (created_swapchains new).map (fun info => info.presentMode) =
        [VK_PRESENT_MODE_FIFO_KHR] := by
  refine ⟨by decide, by decide, ?_⟩
  obtain ⟨chain1, h⟩ := recreate_swapchain_total example_device example_present_env
    example_chain (fun ha => absurd ha (by decide))
  obtain ⟨new, he, hc⟩ := recreate_swapchain_created _ _ _ _ h
  refine ⟨chain1, new, h, he, ?_⟩
  rw [hc]
  decide

/-! ## C19: image count and extent of the create info -/

/-- C19. Whenever a swapchain (re)creation that returns has called `vkCreateSwapchainKHR`,
the create info it passed has `minImageCount` = the larger of 3 and the surface's
`minImageCount` (so at least 3 and at least the surface's minimum), and, in each
dimension where `minImageExtent <= maxImageExtent`, an extent within
`[minImageExtent, maxImageExtent]` that is the current extent when that lies
within the limits, the minimum when it lies below and the maximum when it lies
above. -/
theorem recreate_requests_count_and_extent (device : d3d12_device) (env : present_env)
    (chain chain1 : dxgi_vk_swap_chain)
    (h : dxgi_vk_swap_chain_recreate_swapchain_in_present_task device env chain = some chain1) :
    ∃ new, chain1.effects = chain.effects ++ new ∧
      ∀ info, info ∈ created_swapchains new →
        info.minImageCount = max 3 env.surface_caps.minImageCount ∧
        3 ≤ info.minImageCount ∧ env.surface_caps.minImageCount ≤ info.minImageCount ∧
        (env.surface_caps.minImageExtent.width ≤ env.surface_caps.maxImageExtent.width →
          env.surface_caps.minImageExtent.width ≤ info.imageExtent.width ∧
          info.imageExtent.width ≤ env.surface_caps.maxImageExtent.width ∧
          (env.surface_caps.minImageExtent.width ≤ env.surface_caps.currentExtent.width →
            env.surface_caps.currentExtent.width ≤ env.surface_caps.maxImageExtent.width →
            info.imageExtent.width = env.surface_caps.currentExtent.width) ∧
          (env.surface_caps.currentExtent.width < env.surface_caps.minImageExtent.width →
            info.imageExtent.width = env.surface_caps.minImageExtent.width) ∧
          (env.surface_caps.maxImageExtent.width < env.surface_caps.currentExtent.width →
            info.imageExtent.width = env.surface_caps.maxImageExtent.width)) ∧
        (env.surface_caps.minImageExtent.height ≤ env.surface_caps.maxImageExtent.height →
          env.surface_caps.minImageExtent.height ≤ info.imageExtent.height ∧
          info.imageExtent.height ≤ env.surface_caps.maxImageExtent.height ∧
          (env.surface_caps.minImageExtent.height ≤ env.surface_caps.currentExtent.height →
            env.surface_caps.currentExtent.height ≤ env.surface_caps.maxImageExtent.height →
            info.imageExtent.height = env.surface_caps.currentExtent.height) ∧
          (env.surface_caps.currentExtent.height < env.surface_caps.minImageExtent.height →
            info.imageExtent.height = env.surface_caps.minImageExtent.height) ∧
          (env.surface_caps.maxImageExtent.height < env.surface_caps.currentExtent.height →
            info.imageExtent.height = env.surface_caps.maxImageExtent.height)) := by
  obtain ⟨new, he, hc⟩ := recreate_swapchain_created device env chain chain1 h
  refine ⟨new, he, ?_⟩
  intro info hinfo
  rw [hc] at hinfo
  have hmem : recreate_reaches_create device env chain = some info := by
    cases hr : recreate_reaches_create device env chain with
    | none =>
      rw [hr] at hinfo
      exact absurd hinfo (List.not_mem_nil _)
    | some i =>
      rw [hr] at hinfo
      rw [List.mem_singleton.mp hinfo]
  have hform : ∃ f m, info = recreate_swapchain_create_info env.surface_caps f m := by
    unfold recreate_reaches_create at hmem
    split at hmem
    · exact Option.noConfusion hmem
    · split at hmem
      · exact Option.noConfusion hmem
      · split at hmem
        · exact Option.noConfusion hmem
        · split at hmem
          · exact Option.noConfusion hmem
          · split at hmem
            · exact Option.noConfusion hmem
            · simp only [Option.some.injEq] at hmem
              exact ⟨_, _, hmem.symm⟩
  obtain ⟨f, m, hinfo2⟩ := hform
  subst hinfo2
  unfold recreate_swapchain_create_info
  dsimp only
  refine ⟨rfl, le_max_left _ _, le_max_right _ _, ?_, ?_⟩
  · intro hle
    refine ⟨?_, min_le_right _ _, ?_, ?_, ?_⟩
    · exact le_min (le_max_right _ _) hle
    · intro h1 h2
      rw [max_eq_left h1, min_eq_left h2]
    · intro h1
      rw [max_eq_right (Nat.le_of_lt h1), min_eq_left hle]
    · intro h1
      exact min_eq_right (le_trans (Nat.le_of_lt h1) (le_max_left _ _))
  · intro hle
    refine ⟨?_, min_le_right _ _, ?_, ?_, ?_⟩
    · exact le_min (le_max_right _ _) hle
    · intro h1 h2
      rw [max_eq_left h1, min_eq_left h2]
    · intro h1
      rw [max_eq_right (Nat.le_of_lt h1), min_eq_left hle]
    · intro h1
      exact min_eq_right (le_trans (Nat.le_of_lt h1) (le_max_left _ _))

/-- Witness of C19: on the surface of `clamping_caps` (two images at least, current extent
4000 by 100, limits 640 by 480 to 1920 by 1080) the (re)creation of the example
swapchain returns and asks for 3 images of 1920 by 480. -/
theorem recreate_requests_count_and_extent_witness :
    ∃ chain1 new,
      dxgi_vk_swap_chain_recreate_swapchain_in_present_task example_device clamping_present_env
        example_chain = some chain1 ∧
      chain1.effects = example_chain.effects ++ new ∧
      (created_swapchains new).map
        (fun info => (info.minImageCount, info.imageExtent.width, info.imageExtent.height)) =
        [(3, 1920, 480)] ∧
      ∀ info, info ∈ created_swapchains new →
        info.minImageCount = max 3 clamping_present_env.surface_caps.minImageCount := by
  obtain ⟨chain1, h⟩ := recreate_swapchain_total example_device clamping_present_env
    example_chain (fun ha => absurd ha (by decide))
  obtain ⟨new, he, hc⟩ := recreate_swapchain_created _ _ _ _ h
  obtain ⟨new2, he2, hall⟩ :=
    recreate_requests_count_and_extent example_device clamping_present_env example_chain chain1 h
  have hnew : new2 = new := List.append_cancel_left (he2.symm.trans he)
  subst hnew
  exact ⟨chain1, new2, h, he, by rw [hc]; decide, fun info hi => (hall info hi).1⟩

/-! ## C20: termination and the retry bound of a present iteration -/

/-- C20. For every sequence `gpu` of GPU answers (one per level), the top-level present
iteration returns, in a state where the waiter thread can empty its queue and the
back buffer of the current request exists. Every run that returns has entered
`present_iteration` at the levels `0, 1, ..., k - 1` in this order, with
`1 <= k <= 4`: at most 3 retries, each one level above the one before and none
started at level 3; it has made at most `k`, so at most 4, acquire attempts; and
every retry begins with one recreate attempt that finds no swapchain. -/
theorem present_iteration_terminates_within_three_retries (device : d3d12_device)
    (gpu : Nat → present_env) (chain : dxgi_vk_swap_chain) :
    (waiter_can_drain chain →
      (user_backbuffer chain chain.request.user_index).isSome = true →
      ∃ chain1, dxgi_vk_swap_chain_present_iteration device gpu chain 0 = some chain1) ∧
    (∀ chain1, dxgi_vk_swap_chain_present_iteration device gpu chain 0 = some chain1 →
      ∃ rest k, chain1.effects = chain.effects ++ Effect.present_iteration 0 :: rest ∧
        iteration_levels (Effect.present_iteration 0 :: rest) = List.range k ∧
        1 ≤ k ∧ k ≤ 4 ∧
        acquire_attempts (Effect.present_iteration 0 :: rest) ≤ k ∧
        acquire_attempts (Effect.present_iteration 0 :: rest) ≤ 4 ∧
        (∀ r, r ∈ iteration_levels rest → 1 ≤ r ∧ r ≤ 3) ∧
        retries_begin_with_recreate rest = true) := by
  constructor
  · intro hd hb
    exact present_iteration_total device gpu 3 0 chain rfl hd hb
  · intro chain1 h
    obtain ⟨new, rest, k, f, hnew, hl, hk, hle, _, ha, hr, _⟩ :=
      present_iteration_spec device gpu 3 0 chain chain1 rfl h
    subst hnew
    have hk4 : k ≤ 4 := by
      have := hle (by omega)
      omega
    refine ⟨rest, k, f.effects, ?_, hk, hk4, ha, le_trans ha hk4, ?_, hr⟩
    · rw [hl, List.range_eq_range']
    · intro r hmem
      have hcons : iteration_levels (Effect.present_iteration 0 :: rest) =
          0 :: iteration_levels rest := rfl
      rw [hcons] at hl
      obtain ⟨k1, hk1⟩ : ∃ k1, k = k1 + 1 := ⟨k - 1, by omega⟩
      subst hk1
      rw [List.range'_succ] at hl
      have htail : iteration_levels rest = List.range' 1 k1 := (List.cons.inj hl).2
      rw [htail, List.mem_range'_1] at hmem
      omega

/-- Witness of C20: on a surface that is out of date at every acquire, the top-level
iteration of the example swapchain returns after at most 4 acquire attempts. -/
theorem present_iteration_terminates_within_three_retries_witness :
    ∃ chain1 rest,
      dxgi_vk_swap_chain_present_iteration example_device (fun _ => out_of_date_env)
        example_chain 0 = some chain1 ∧
      chain1.effects = example_chain.effects ++ Effect.present_iteration 0 :: rest ∧
      acquire_attempts (Effect.present_iteration 0 :: rest) ≤ 4 ∧
      retries_begin_with_recreate rest = true :=
  have h := present_iteration_terminates_within_three_retries example_device
    (fun _ => out_of_date_env) example_chain
  (h.1 (fun ha => absurd ha (by decide)) (by decide)).elim fun chain1 h1 =>
    (h.2 chain1 h1).elim fun rest h2 =>
      h2.elim fun _ h3 => ⟨chain1, rest, h1, h3.1, h3.2.2.2.2.2.1, h3.2.2.2.2.2.2.2⟩

/-! ## Lemmas on the present callback -/

theorem present_callback_eq (device : d3d12_device) (gpu : Nat → Nat → present_env)
    (set_event_hr : HRESULT) (chain : dxgi_vk_swap_chain) :
    dxgi_vk_swap_chain_present_callback device gpu set_event_hr chain =
      (present_callback_loop device gpu
        (max 1 (present_callback_begin device chain).request.swap_interval) 0
        (present_callback_begin device chain)).map
        (present_callback_end set_event_hr ((chain.present.present_count + 1) % 2 ^ 32)) := by
  unfold dxgi_vk_swap_chain_present_callback
  show (match present_callback_loop device gpu
      (max 1 (present_callback_begin device chain).request.swap_interval) 0
      (present_callback_begin device chain) with
    | none => none
    | some c => some (present_callback_end set_event_hr
        ((chain.present.present_count + 1) % 2 ^ 32) c)) = _
  cases present_callback_loop device gpu
    (max 1 (present_callback_begin device chain).request.swap_interval) 0
    (present_callback_begin device chain) <;> rfl

theorem present_callback_loop_spec (device : d3d12_device) (gpu : Nat → Nat → present_env) :
    ∀ n i c c1, present_callback_loop device gpu n i c = some c1 →
      ∃ new, WorkerFrame c c1 new ∧ (iteration_levels new).count 0 = n := by
  intro n
  induction n with
  | zero =>
    intro i c c1 h
    unfold present_callback_loop at h
    simp only [Option.some.injEq] at h
    subst h
    exact ⟨[], WorkerFrame.refl c, rfl⟩
  | succ n ih =>
    intro i c c1 h
    unfold present_callback_loop at h
    split at h
    · exact Option.noConfusion h
    · rename_i c2 h2
      obtain ⟨new, rest, k, f, hnew, hl, hk, _, _, _, _, _⟩ :=
        present_iteration_spec device (gpu i) 3 0 c c2 rfl h2
      obtain ⟨new2, f2, hc2⟩ := ih (i + 1) c2 c1 h
      refine ⟨new ++ new2, f.trans f2, ?_⟩
      rw [iteration_levels_append, List.count_append, hc2, hl]
      obtain ⟨k1, hk1⟩ : ∃ k1, k = k1 + 1 := ⟨k - 1, by omega⟩
      subst hk1
      rw [List.range'_succ, List.count_cons_self]
      have : List.count 0 (List.range' (0 + 1) k1) = 0 := by
        rw [List.count_eq_zero]
        intro hmem
        rw [List.mem_range'_1] at hmem
        omega
      omega

theorem present_callback_loop_total (device : d3d12_device) (gpu : Nat → Nat → present_env) :
    ∀ n i c, waiter_can_drain c → (user_backbuffer c c.request.user_index).isSome = true →
      ∃ c1, present_callback_loop device gpu n i c = some c1 := by
  intro n
  induction n with
  | zero =>
    intro i c _ _
    exact ⟨c, rfl⟩
  | succ n ih =>
    intro i c hd hb
    unfold present_callback_loop
    obtain ⟨c2, h2⟩ := present_iteration_total device (gpu i) 3 0 c rfl hd hb
    rw [h2]
    obtain ⟨new, rest, k, f, _⟩ := present_iteration_spec device (gpu i) 3 0 c c2 rfl h2
    exact ih (i + 1) c2 (waiter_can_drain_frame f hd) (by rw [backbuffer_frame f]; exact hb)

/-- What the start of the callback changes: the current request, the recreation flag,
`present_id_valid`, and at most one `set_hdr_metadata` effect. -/
theorem present_callback_begin_spec (device : d3d12_device) (c : dxgi_vk_swap_chain) :
    ∃ pre, (present_callback_begin device c).effects = c.effects ++ pre ∧
      pre.all is_iteration_effect = true ∧ iteration_levels pre = [] ∧
      (present_callback_begin device c).request =
        c.request_ring (ring_slot ((c.present.present_count + 1) % 2 ^ 32)) ∧
      (present_callback_begin device c).user = c.user ∧
      (present_callback_begin device c).wait_queue = c.wait_queue ∧
      (present_callback_begin device c).wait_thread_active = c.wait_thread_active ∧
      (present_callback_begin device c).present.blit_count = c.present.blit_count ∧
      (present_callback_begin device c).present.present_count = c.present.present_count ∧
      (present_callback_begin device c).present.frame_latency_count =
        c.present.frame_latency_count ∧
      (present_callback_begin device c).present.present_id = c.present.present_id ∧
      (present_callback_begin device c).present.present_id_valid = false := by
  unfold present_callback_begin
  dsimp only
  split
  · obtain ⟨n5, f5, _, l5, _, p5, q5⟩ := set_hdr_metadata_spec device
      { (if request_needs_swapchain_recreation
            (c.request_ring (ring_slot ((c.present.present_count + 1) % 2 ^ 32)))
            c.request = true then
          { c with present := { c.present with force_swapchain_recreation := true } }
        else c) with
        request := c.request_ring (ring_slot ((c.present.present_count + 1) % 2 ^ 32)) }
    refine ⟨n5, ?_, f5.iteration_effects, l5, f5.request, ?_, ?_, ?_, ?_, ?_, ?_, ?_, rfl⟩
    · rw [f5.effects]
      split <;> rfl
    · rw [f5.user]
      split <;> rfl
    · rw [q5]
      split <;> rfl
    · rw [f5.wait_thread_active]
      split <;> rfl
    · rw [f5.blit_count]
      split <;> rfl
    · rw [f5.present_count]
      split <;> rfl
    · rw [f5.frame_latency_count]
      split <;> rfl
    · show (dxgi_vk_swap_chain_set_hdr_metadata device _).present.present_id = _
      rw [p5]
      split <;> rfl
  · refine ⟨[], ?_, rfl, rfl, rfl, ?_, ?_, ?_, ?_, ?_, ?_, ?_, rfl⟩
    · rw [List.append_nil]
      split <;> rfl
    all_goals (split <;> rfl)

/-- What the end of the callback records and changes. -/
theorem present_callback_end_spec (set_event_hr : HRESULT) (next : Nat)
    (c : dxgi_vk_swap_chain) :
    (present_callback_end set_event_hr next c).effects =
      c.effects ++ Effect.signal_blit_semaphore ((c.present.blit_count + 1) % 2 ^ 64) ::
        latency_signal_effects set_event_hr c ∧
    (present_callback_end set_event_hr next c).present.blit_count =
      (c.present.blit_count + 1) % 2 ^ 64 ∧
    (present_callback_end set_event_hr next c).present.present_count = next ∧
    (present_callback_end set_event_hr next c).user = c.user ∧
    (present_callback_end set_event_hr next c).request = c.request ∧
    (present_callback_end set_event_hr next c).wait_queue =
      c.wait_queue ++ pushed_present_ids (latency_signal_effects set_event_hr c) := by
  unfold present_callback_end dxgi_vk_swap_chain_signal_waitable_handle
    dxgi_vk_swap_chain_present_signal_blit_semaphore latency_signal_effects
    dxgi_vk_swap_chain_push_present_id
  dsimp only
  cases hv : c.present.present_id_valid <;> cases hf : FAILED set_event_hr <;>
    simp [pushed_present_ids]

/-! ## Lemmas on the present ID -/

theorem present_id_bound_congr {c c1 : dxgi_vk_swap_chain} {B : Nat}
    (h : present_id_bound c B) (h1 : c1.present.present_id = c.present.present_id)
    (h2 : c1.present.present_id_valid = c.present.present_id_valid) :
    present_id_bound c1 B := by
  unfold present_id_bound at h ⊢
  rw [h1, h2]
  exact h

theorem present_id_bound_mono {c : dxgi_vk_swap_chain} {B B1 : Nat}
    (h : present_id_bound c B) (hle : B ≤ B1) : present_id_bound c B1 :=
  ⟨h.1, le_trans h.2 hle⟩

theorem drain_waiter_present (c c1 : dxgi_vk_swap_chain)
    (h : dxgi_vk_swap_chain_drain_waiter c = some c1) : c1.present = c.present := by
  obtain ⟨_, _, _, _, _, p⟩ := drain_waiter_spec c c1 h
  exact p

theorem destroy_swapchain_id (c c1 : dxgi_vk_swap_chain) (B : Nat)
    (hJ : present_id_bound c B)
    (h : dxgi_vk_swap_chain_destroy_swapchain_in_present_task c = some c1) :
    present_id_bound c1 B := by
  unfold dxgi_vk_swap_chain_destroy_swapchain_in_present_task at h
  split at h
  · simp only [Option.some.injEq] at h
    subst h
    exact hJ
  · split at h
    · exact Option.noConfusion h
    · simp only [Option.some.injEq] at h
      subst h
      exact ⟨fun hv => Bool.noConfusion hv, Nat.zero_le _⟩

theorem recreate_swapchain_id (device : d3d12_device) (env : present_env)
    (c c1 : dxgi_vk_swap_chain) (B : Nat) (hJ : present_id_bound c B)
    (h : dxgi_vk_swap_chain_recreate_swapchain_in_present_task device env c = some c1) :
    present_id_bound c1 B := by
  unfold dxgi_vk_swap_chain_recreate_swapchain_in_present_task at h
  split at h
  · exact Option.noConfusion h
  · rename_i c2 hdestroy
    have hJ2 : present_id_bound c2 B := by
      refine destroy_swapchain_id _ c2 B ?_ hdestroy
      exact present_id_bound_congr hJ rfl rfl
    split at h
    · simp only [Option.some.injEq] at h
      subst h
      exact hJ2
    · dsimp only at h
      split at h
      · simp only [Option.some.injEq] at h
        subst h
        exact present_id_bound_congr hJ2 rfl rfl
      · split at h
        · simp only [Option.some.injEq] at h
          subst h
          exact present_id_bound_congr hJ2 rfl rfl
        · split at h
          · simp only [Option.some.injEq] at h
            subst h
            exact present_id_bound_congr hJ2 rfl rfl
          · split at h
            · simp only [Option.some.injEq] at h
              subst h
              exact present_id_bound_congr hJ2 rfl rfl
            · split at h
              · simp only [Option.some.injEq] at h
                subst h
                exact present_id_bound_congr hJ2 rfl rfl
              · simp only [Option.some.injEq] at h
                subst h
                obtain ⟨_, _, _, _, _, p5, _⟩ := set_hdr_metadata_spec device _
                exact present_id_bound_congr hJ2 (by rw [p5]) (by rw [p5])

theorem recreate_if_required_id (device : d3d12_device) (env : present_env)
    (c c1 : dxgi_vk_swap_chain) (B : Nat) (hJ : present_id_bound c B)
    (h : dxgi_vk_swap_chain_present_recreate_swapchain_if_required device env c = some c1) :
    present_id_bound c1 B := by
  unfold dxgi_vk_swap_chain_present_recreate_swapchain_if_required at h
  split at h
  · exact recreate_swapchain_id device env c c1 B hJ h
  · simp only [Option.some.injEq] at h
    subst h
    exact hJ

theorem handle_result_id (vr : VkResult) (c c1 : dxgi_vk_swap_chain) (B : Nat)
    (hJ : present_id_bound c B) (h : present_iteration_handle_result vr c = some c1) :
    present_id_bound c1 B := by
  unfold present_iteration_handle_result at h
  dsimp only at h
  have hJ1 : present_id_bound
      (if vr = VK_SUBOPTIMAL_KHR ∨ vr < 0 then
        { c with present := { c.present with force_swapchain_recreation := true } }
      else c) B := by
    split
    · exact present_id_bound_congr hJ rfl rfl
    · exact hJ
  split at h
  · exact destroy_swapchain_id _ c1 B hJ1 h
  · simp only [Option.some.injEq] at h
    subst h
    exact hJ1

theorem present_iteration_acquire_id (env : present_env) (c c1 : dxgi_vk_swap_chain)
    (vr : VkResult) (B : Nat) (hJ : present_id_bound c B)
    (h : present_iteration_acquire env c = some (vr, c1)) : present_id_bound c1 B := by
  unfold present_iteration_acquire at h
  dsimp only at h
  split at h
  · exact Option.noConfusion h
  · rename_i c2 h2
    simp only [Option.some.injEq, Prod.mk.injEq] at h
    obtain ⟨_, hc⟩ := h
    subst hc
    refine handle_result_id _ _ _ B ?_ h2
    exact present_id_bound_congr hJ rfl rfl

theorem present_iteration_queue_present_id (env : present_env) (c c1 : dxgi_vk_swap_chain)
    (vr : VkResult) (B : Nat) (hJ : present_id_bound c B) (hB : B + 1 < 2 ^ 64)
    (h : present_iteration_queue_present env c = some (vr, c1)) :
    present_id_bound c1 (B + 1) := by
  unfold present_iteration_queue_present at h
  dsimp only at h
  split at h
  · exact Option.noConfusion h
  · rename_i c2 h2
    simp only [Option.some.injEq, Prod.mk.injEq] at h
    obtain ⟨_, hc⟩ := h
    subst hc
    refine handle_result_id _ _ _ (B + 1) ?_ h2
    obtain ⟨hv, hle⟩ := hJ
    unfold present_id_bound
    dsimp only
    cases hatt : (c.wait_thread_active && !c.present.present_id_valid)
    · rw [if_neg (fun h => Bool.noConfusion h.1), if_neg (fun h => Bool.noConfusion h)]
      exact ⟨hv, by omega⟩
    · have hmod : (c.present.present_id + 1) % 2 ^ 64 = c.present.present_id + 1 :=
        Nat.mod_eq_of_lt (by omega)
      rw [if_pos rfl, hmod]
      exact ⟨fun _ => by omega, by omega⟩

theorem present_iteration_level_id (device : d3d12_device) (env : present_env)
    (c c1 : dxgi_vk_swap_chain) (retry_counter : Nat) (retry : Bool) (B : Nat)
    (hJ : present_id_bound c B) (hB : B + 1 < 2 ^ 64)
    (h : present_iteration_level device env c retry_counter = some (c1, retry)) :
    present_id_bound c1 (B + 1) := by
  unfold present_iteration_level at h
  split at h
  · exact Option.noConfusion h
  · rename_i c2 h2
    have hJ2 : present_id_bound c2 B := by
      refine recreate_if_required_id device env _ c2 B ?_ h2
      exact present_id_bound_congr hJ rfl rfl
    split at h
    · simp only [Option.some.injEq, Prod.mk.injEq] at h
      obtain ⟨hc, _⟩ := h
      subst hc
      exact present_id_bound_mono hJ2 (Nat.le_succ B)
    · split at h
      · exact Option.noConfusion h
      · rename_i vr c3 h3
        have hJ3 : present_id_bound c3 B := present_iteration_acquire_id env c2 c3 vr B hJ2 h3
        split at h
        · simp only [Option.some.injEq, Prod.mk.injEq] at h
          obtain ⟨hc, _⟩ := h
          subst hc
          exact present_id_bound_mono hJ3 (Nat.le_succ B)
        · split at h
          · simp only [Option.some.injEq, Prod.mk.injEq] at h
            obtain ⟨hc, _⟩ := h
            subst hc
            exact present_id_bound_mono (present_id_bound_congr hJ3 rfl rfl) (Nat.le_succ B)
          · split at h
            · simp only [Option.some.injEq, Prod.mk.injEq] at h
              obtain ⟨hc, _⟩ := h
              subst hc
              exact present_id_bound_mono hJ3 (Nat.le_succ B)
            · split at h
              · exact Option.noConfusion h
              · rename_i c4 h4
                obtain ⟨_, _, _, _, p4⟩ := submit_blit_spec env c3 c4 false h4
                simp only [Option.some.injEq, Prod.mk.injEq] at h
                obtain ⟨hc, _⟩ := h
                subst hc
                exact present_id_bound_mono
                  (present_id_bound_congr hJ3 (by rw [p4]) (by rw [p4])) (Nat.le_succ B)
              · rename_i c4 h4
                obtain ⟨_, _, _, _, p4⟩ := submit_blit_spec env c3 c4 true h4
                have hJ4 : present_id_bound c4 B :=
                  present_id_bound_congr hJ3 (by rw [p4]) (by rw [p4])
                split at h
                · exact Option.noConfusion h
                · rename_i vr2 c5 h5
                  have hJ5 := present_iteration_queue_present_id env c4 c5 vr2 B hJ4 hB h5
                  split at h
                  · simp only [Option.some.injEq, Prod.mk.injEq] at h
                    obtain ⟨hc, _⟩ := h
                    subst hc
                    exact hJ5
                  · split at h
                    · simp only [Option.some.injEq, Prod.mk.injEq] at h
                      obtain ⟨hc, _⟩ := h
                      subst hc
                      exact present_id_bound_congr hJ5 rfl rfl
                    · simp only [Option.some.injEq, Prod.mk.injEq] at h
                      obtain ⟨hc, _⟩ := h
                      subst hc
                      exact hJ5

theorem present_iteration_id (device : d3d12_device) (gpu : Nat → present_env) :
    ∀ n r c c1 B, 3 - r = n → present_id_bound c B → B + (n + 1) < 2 ^ 64 →
      dxgi_vk_swap_chain_present_iteration device gpu c r = some c1 →
      present_id_bound c1 (B + (n + 1)) := by
  intro n
  induction n with
  | zero =>
    intro r c c1 B hn hJ hB h
    rw [present_iteration_eq] at h
    split at h
    · exact Option.noConfusion h
    · rename_i c2 hlevel
      simp only [Option.some.injEq] at h
      subst h
      exact present_iteration_level_id device (gpu r) c _ r false B hJ (by omega) hlevel
    · rename_i c2 hlevel
      rw [if_neg (by omega)] at h
      simp only [Option.some.injEq] at h
      subst h
      exact present_iteration_level_id device (gpu r) c _ r true B hJ (by omega) hlevel
  | succ n ih =>
    intro r c c1 B hn hJ hB h
    rw [present_iteration_eq] at h
    split at h
    · exact Option.noConfusion h
    · rename_i c2 hlevel
      simp only [Option.some.injEq] at h
      subst h
      exact present_id_bound_mono
        (present_iteration_level_id device (gpu r) c _ r false B hJ (by omega) hlevel)
        (by omega)
    · rename_i c2 hlevel
      rw [if_pos (by omega)] at h
      have hJ2 := present_iteration_level_id device (gpu r) c c2 r true B hJ (by omega) hlevel
      have := ih (r + 1) c2 c1 (B + 1) (by omega) hJ2 (by omega) h
      exact present_id_bound_mono this (by omega)

theorem present_callback_loop_id (device : d3d12_device) (gpu : Nat → Nat → present_env) :
    ∀ n i c c1 B, present_id_bound c B → B + 4 * n < 2 ^ 64 →
      present_callback_loop device gpu n i c = some c1 → present_id_bound c1 (B + 4 * n) := by
  intro n
  induction n with
  | zero =>
    intro i c c1 B hJ _ h
    unfold present_callback_loop at h
    simp only [Option.some.injEq] at h
    subst h
    exact hJ
  | succ n ih =>
    intro i c c1 B hJ hB h
    unfold present_callback_loop at h
    split at h
    · exact Option.noConfusion h
    · rename_i c2 h2
      have hJ2 := present_iteration_id device (gpu i) 3 0 c c2 B rfl hJ (by omega) h2
      have := ih (i + 1) c2 c1 (B + (3 + 1)) hJ2 (by omega) h
      exact present_id_bound_mono this (by omega)

/-! ## Lemmas on one run of the present callback -/

theorem latency_signal_effects_blit (set_event_hr : HRESULT) (c : dxgi_vk_swap_chain) :
    blit_signals (latency_signal_effects set_event_hr c) = [] := by
  unfold latency_signal_effects
  cases c.present.present_id_valid <;> cases FAILED set_event_hr <;> rfl

/-- The three ways of `signal_waitable_handle`: one push of the valid present ID, or one
registered completion event, or one unit released after a failed registration. -/
theorem latency_signal_effects_cases (set_event_hr : HRESULT) (c : dxgi_vk_swap_chain) :
    (c.present.present_id_valid = true ∧
      pushed_present_ids (latency_signal_effects set_event_hr c) = [c.present.present_id] ∧
      registered_latency_events (latency_signal_effects set_event_hr c) = 0 ∧
      released_units (latency_signal_effects set_event_hr c) = 0) ∨
    (c.present.present_id_valid = false ∧ FAILED set_event_hr = false ∧
      pushed_present_ids (latency_signal_effects set_event_hr c) = [] ∧
      registered_latency_events (latency_signal_effects set_event_hr c) = 1 ∧
      released_units (latency_signal_effects set_event_hr c) = 0) ∨
    (c.present.present_id_valid = false ∧ FAILED set_event_hr = true ∧
      pushed_present_ids (latency_signal_effects set_event_hr c) = [] ∧
      registered_latency_events (latency_signal_effects set_event_hr c) = 0 ∧
      released_units (latency_signal_effects set_event_hr c) = 1) := by
  unfold latency_signal_effects
  cases hv : c.present.present_id_valid
  · cases hf : FAILED set_event_hr
    · refine Or.inr (Or.inl ⟨rfl, rfl, rfl, ?_, rfl⟩)
      simp [registered_latency_events, hf]
    · refine Or.inr (Or.inr ⟨rfl, rfl, rfl, ?_, rfl⟩)
      simp [registered_latency_events, hf]
  · exact Or.inl ⟨rfl, rfl, rfl, rfl⟩

/-- One run of the callback, split at the end of its loop: the state `c2` there differs
from the start by the effects `iter` of the iterations, keeps the counters that
the two signals advance, and holds the request of the next ring slot. -/
theorem present_callback_spec (device : d3d12_device) (gpu : Nat → Nat → present_env)
    (set_event_hr : HRESULT) (c c1 : dxgi_vk_swap_chain)
    (h : dxgi_vk_swap_chain_present_callback device gpu set_event_hr c = some c1) :
    ∃ iter c2,
      c1 = present_callback_end set_event_hr ((c.present.present_count + 1) % 2 ^ 32) c2 ∧
      c2.effects = c.effects ++ iter ∧ iter.all is_iteration_effect = true ∧
      (iteration_levels iter).count 0 =
        max 1 (c.request_ring (ring_slot ((c.present.present_count + 1) % 2 ^ 32))).swap_interval ∧
      c2.present.blit_count = c.present.blit_count ∧
      c2.present.frame_latency_count = c.present.frame_latency_count ∧
      c2.user = c.user ∧
      c2.request = c.request_ring (ring_slot ((c.present.present_count + 1) % 2 ^ 32)) ∧
      (c.present.present_id + 4 * max 1 (c.request_ring
          (ring_slot ((c.present.present_count + 1) % 2 ^ 32))).swap_interval < 2 ^ 64 →
        c2.present.present_id_valid = true → c2.present.present_id ≠ 0) := by
  rw [present_callback_eq] at h
  obtain ⟨pre, e0, i0, l0, r0, u0, _, _, b0, _, fl0, id0, v0⟩ := present_callback_begin_spec device c
  cases hloop : present_callback_loop device gpu
      (max 1 (present_callback_begin device c).request.swap_interval) 0
      (present_callback_begin device c) with
  | none =>
    rw [hloop] at h
    exact Option.noConfusion h
  | some c2 =>
    rw [hloop] at h
    simp only [Option.map_some', Option.some.injEq] at h
    obtain ⟨new, f, hcount⟩ := present_callback_loop_spec device gpu _ _ _ _ hloop
    refine ⟨pre ++ new, c2, h.symm, ?_, ?_, ?_, ?_, ?_, ?_, ?_, ?_⟩
    · rw [f.effects, e0, List.append_assoc]
    · rw [List.all_append, i0, f.iteration_effects]
      rfl
    · rw [iteration_levels_append, l0, List.nil_append, hcount, r0]
    · rw [f.blit_count, b0]
    · rw [f.frame_latency_count, fl0]
    · rw [f.user, u0]
    · rw [f.request, r0]
    · intro hB
      have hJ0 : present_id_bound (present_callback_begin device c) c.present.present_id :=
        ⟨fun hv => by rw [v0] at hv; exact Bool.noConfusion hv, le_of_eq id0⟩
      rw [← r0] at hB
      exact (present_callback_loop_id device gpu _ _ _ c2 _ hJ0 hB hloop).1

theorem present_callback_total (device : d3d12_device) (gpu : Nat → Nat → present_env)
    (set_event_hr : HRESULT) (c : dxgi_vk_swap_chain) (hd : waiter_can_drain c)
    (hb : (user_backbuffer c (c.request_ring
      (ring_slot ((c.present.present_count + 1) % 2 ^ 32))).user_index).isSome = true) :
    ∃ c1, dxgi_vk_swap_chain_present_callback device gpu set_event_hr c = some c1 := by
  rw [present_callback_eq]
  obtain ⟨pre, _, _, _, r0, u0, q0, a0, _⟩ := present_callback_begin_spec device c
  obtain ⟨c2, h2⟩ := present_callback_loop_total device gpu
    (max 1 (present_callback_begin device c).request.swap_interval) 0
    (present_callback_begin device c)
    (by
      intro ha id hid
      rw [a0] at ha
      rw [q0] at hid
      exact hd ha id hid)
    (by
      rw [r0, user_backbuffer_congr _ c (by rw [u0])]
      exact hb)
  rw [h2]
  exact ⟨_, rfl⟩

/-! ## C11: the blit timeline and the published present count -/

/-- C11. For every answer `gpu` of the GPU calls and every result of the event
registration: every run of the present callback that returns has raised
`present.blit_count` by one (as a 64-bit counter), has recorded exactly one signal
of the blit timeline, which carries the new `present.blit_count`, and leaves
`present.present_count` at its old value plus one (as a 32-bit counter). The run
returns whenever the waiter thread can empty its queue and the back buffer named
by the next request exists. -/
theorem present_callback_signals_blit_once (device : d3d12_device)
    (gpu : Nat → Nat → present_env) (set_event_hr : HRESULT) (chain : dxgi_vk_swap_chain) :
    (∀ chain1, dxgi_vk_swap_chain_present_callback device gpu set_event_hr chain = some chain1 →
      chain1.present.blit_count = (chain.present.blit_count + 1) % 2 ^ 64 ∧
      (chain.present.blit_count + 1 < 2 ^ 64 →
        chain1.present.blit_count = chain.present.blit_count + 1) ∧
      (∃ new, chain1.effects = chain.effects ++ new ∧
        blit_signals new = [chain1.present.blit_count]) ∧
      chain1.present.present_count = (chain.present.present_count + 1) % 2 ^ 32 ∧
      (chain.present.present_count + 1 < 2 ^ 32 →
        chain1.present.present_count = chain.present.present_count + 1)) ∧
    (waiter_can_drain chain →
      (user_backbuffer chain (chain.request_ring
        (ring_slot ((chain.present.present_count + 1) % 2 ^ 32))).user_index).isSome = true →
      ∃ chain1,
        dxgi_vk_swap_chain_present_callback device gpu set_event_hr chain = some chain1) := by
  constructor
  · intro chain1 h
    obtain ⟨iter, c2, hc1, he, hall, _, hb, _, _, _, _⟩ :=
      present_callback_spec device gpu set_event_hr chain chain1 h
    obtain ⟨e1, b1, p1, _, _, _⟩ := present_callback_end_spec set_event_hr
      ((chain.present.present_count + 1) % 2 ^ 32) c2
    rw [← hc1] at e1 b1 p1
    rw [hb] at b1 e1
    refine ⟨b1, fun hlt => by rw [b1, Nat.mod_eq_of_lt hlt], ?_, p1,
      fun hlt => by rw [p1, Nat.mod_eq_of_lt hlt]⟩
    refine ⟨iter ++ Effect.signal_blit_semaphore ((chain.present.blit_count + 1) % 2 ^ 64) ::
      latency_signal_effects set_event_hr c2, ?_, ?_⟩
    · rw [e1, he, List.append_assoc]
    · rw [blit_signals_append, iteration_effects_blit_signals iter hall, b1]
      show (chain.present.blit_count + 1) % 2 ^ 64 ::
        blit_signals (latency_signal_effects set_event_hr c2) = _
      rw [latency_signal_effects_blit]
  · intro hd hb
    exact present_callback_total device gpu set_event_hr chain hd hb

/-- Witness of C11: the first callback of the example swapchain, on a GPU where every
call succeeds, returns with `present.blit_count = 1` and `present.present_count = 1`. -/
theorem present_callback_signals_blit_once_witness :
    ∃ chain1,
      dxgi_vk_swap_chain_present_callback example_device (fun _ _ => example_present_env) S_OK
        example_chain = some chain1 ∧
      chain1.present.blit_count = 1 ∧ chain1.present.present_count = 1 :=
  have h := present_callback_signals_blit_once example_device (fun _ _ => example_present_env)
    S_OK example_chain
  (h.2 (fun ha => absurd ha (by decide)) (by decide)).elim fun chain1 h1 =>
    ⟨chain1, h1, (h.1 chain1 h1).1, (h.1 chain1 h1).2.2.2.1⟩

/-! ## C12: one release of the latency semaphore per callback -/

/-- C12. Every run of the present callback that returns has done exactly one of three
things, and that one once: pushed one present ID onto the waiter queue, or
registered one completion event on the latency fence, or released one unit of the
latency semaphore itself; the last only when the registration failed, the second
only when it succeeded. A pushed ID is the last entry of the waiter queue; it is
not the sentinel 0 as long as the present ID counter stays below 2^64 during the
run, and the pass of the waiter thread that finds it at the head of the queue
removes it and releases exactly one unit. The run returns whenever the waiter
thread can empty its queue and the back buffer named by the next request exists. -/
theorem present_callback_releases_one_unit (device : d3d12_device)
    (gpu : Nat → Nat → present_env) (set_event_hr : HRESULT) (chain : dxgi_vk_swap_chain) :
    (∀ chain1, dxgi_vk_swap_chain_present_callback device gpu set_event_hr chain = some chain1 →
      ∃ new, chain1.effects = chain.effects ++ new ∧
        (pushed_present_ids new).length + registered_latency_events new +
          released_units new = 1 ∧
        (released_units new = 1 → FAILED set_event_hr = true) ∧
        (registered_latency_events new = 1 → FAILED set_event_hr = false) ∧
        ∀ id, id ∈ pushed_present_ids new →
          (∃ q, chain1.wait_queue = q ++ [id]) ∧
          (chain.present.present_id + 4 * max 1 (chain.request_ring
              (ring_slot ((chain.present.present_count + 1) % 2 ^ 32))).swap_interval
              < 2 ^ 64 → id ≠ 0) ∧
          (id ≠ 0 → ∀ waiting : dxgi_vk_swap_chain, ∀ rest, waiting.wait_queue = id :: rest →
            ∃ waited, dxgi_vk_swap_chain_wait_worker waiting = some waited ∧
              waited.wait_queue = rest ∧
              waited.effects = waiting.effects ++ [Effect.waiter_release id] ∧
              waiter_releases [Effect.waiter_release id] = 1)) ∧
    (waiter_can_drain chain →
      (user_backbuffer chain (chain.request_ring
        (ring_slot ((chain.present.present_count + 1) % 2 ^ 32))).user_index).isSome = true →
      ∃ chain1,
        dxgi_vk_swap_chain_present_callback device gpu set_event_hr chain = some chain1) := by
  constructor
  · intro chain1 h
    obtain ⟨iter, c2, hc1, he, hall, _, _, _, _, _, hid⟩ :=
      present_callback_spec device gpu set_event_hr chain chain1 h
    obtain ⟨e1, _, _, _, _, q1⟩ := present_callback_end_spec set_event_hr
      ((chain.present.present_count + 1) % 2 ^ 32) c2
    rw [← hc1] at e1 q1
    have hp : pushed_present_ids (iter ++
        Effect.signal_blit_semaphore ((c2.present.blit_count + 1) % 2 ^ 64) ::
        latency_signal_effects set_event_hr c2) =
        pushed_present_ids (latency_signal_effects set_event_hr c2) := by
      rw [pushed_present_ids_append, iteration_effects_pushed iter hall]
      rfl
    have hr : registered_latency_events (iter ++
        Effect.signal_blit_semaphore ((c2.present.blit_count + 1) % 2 ^ 64) ::
        latency_signal_effects set_event_hr c2) =
        registered_latency_events (latency_signal_effects set_event_hr c2) := by
      rw [registered_latency_events_append, iteration_effects_registered iter hall, Nat.zero_add]
      rfl
    have hu : released_units (iter ++
        Effect.signal_blit_semaphore ((c2.present.blit_count + 1) % 2 ^ 64) ::
        latency_signal_effects set_event_hr c2) =
        released_units (latency_signal_effects set_event_hr c2) := by
      rw [released_units_append, iteration_effects_released iter hall, Nat.zero_add]
      rfl
    refine ⟨iter ++ Effect.signal_blit_semaphore ((c2.present.blit_count + 1) % 2 ^ 64) ::
      latency_signal_effects set_event_hr c2, by rw [e1, he, List.append_assoc], ?_⟩
    rw [hp, hr, hu]
    rcases latency_signal_effects_cases set_event_hr c2 with
      ⟨hv, h1, h2, h3⟩ | ⟨hv, hf, h1, h2, h3⟩ | ⟨hv, hf, h1, h2, h3⟩
    · rw [h1, h2, h3]
      refine ⟨rfl, fun h0 => absurd h0 (by decide), fun h0 => absurd h0 (by decide), ?_⟩
      intro id hmem
      rw [List.mem_singleton] at hmem
      subst hmem
      refine ⟨⟨c2.wait_queue, by rw [q1, h1]⟩, fun hB => hid hB hv, ?_⟩
      intro hne waiting rest hq
      refine ⟨{ waiting with
        wait_queue := rest
        effects := waiting.effects ++ [Effect.waiter_release c2.present.present_id] },
        ?_, rfl, rfl, rfl⟩
      unfold dxgi_vk_swap_chain_wait_worker
      rw [hq]
      dsimp only
      rw [if_neg hne]
    · rw [h1, h2, h3]
      exact ⟨rfl, fun h0 => absurd h0 (by decide), fun _ => hf,
        fun id hmem => absurd hmem (List.not_mem_nil _)⟩
    · rw [h1, h2, h3]
      exact ⟨rfl, fun _ => hf, fun h0 => absurd h0 (by decide),
        fun id hmem => absurd hmem (List.not_mem_nil _)⟩
  · intro hd hb
    exact present_callback_total device gpu set_event_hr chain hd hb

/-- Witness of C12: the first callback of the example swapchain, on a GPU where every
call succeeds and with a registration that fails, returns after exactly one of the
three. -/
theorem present_callback_releases_one_unit_witness :
    ∃ chain1 new,
      dxgi_vk_swap_chain_present_callback example_device (fun _ _ => example_present_env)
        E_OUTOFMEMORY example_chain = some chain1 ∧
      chain1.effects = example_chain.effects ++ new ∧
      (pushed_present_ids new).length + registered_latency_events new + released_units new = 1 :=
  have h := present_callback_releases_one_unit example_device (fun _ _ => example_present_env)
    E_OUTOFMEMORY example_chain
  (h.2 (fun ha => absurd ha (by decide)) (by decide)).elim fun chain1 h1 =>
    (h.1 chain1 h1).elim fun new h2 => ⟨chain1, new, h1, h2.1, h2.2.1⟩

/-! ## Lemmas on the two halves of Present -/

/-- `Present` is its first half followed, when the callback is enqueued, by its second. -/
theorem Present_eq_halves (chain : dxgi_vk_swap_chain) (caps : VkSurfaceCapabilitiesKHR)
    (SyncInterval PresentFlags : Nat) :
    dxgi_vk_swap_chain_Present chain caps SyncInterval PresentFlags =
      match dxgi_vk_swap_chain_Present_until_wait chain caps SyncInterval PresentFlags with
      | none => none
      | some (some hr, chain1) => some (hr, chain1)
      | some (none, chain1) => some (dxgi_vk_swap_chain_Present_after_wait chain1) := by
  unfold dxgi_vk_swap_chain_Present dxgi_vk_swap_chain_Present_until_wait
    dxgi_vk_swap_chain_Present_after_wait
  dsimp only
  split
  · rfl
  · split
    · rfl
    · split
      · rfl
      · split
        · rfl
        · simp [List.append_assoc]

theorem system_initial_example : system_initial example_system := by
  unfold system_initial
  decide

theorem system_initial_example_waitable : system_initial example_waitable_system := by
  unfold system_initial
  decide

/-- The occlusion query of `Present` changes `present.is_occlusion_state` only. -/
theorem present_is_occluded_keeps (chain : dxgi_vk_swap_chain) (caps : VkSurfaceCapabilitiesKHR) :
    (dxgi_vk_swap_chain_present_is_occluded chain caps).2.present.present_count =
      chain.present.present_count ∧
    (dxgi_vk_swap_chain_present_is_occluded chain caps).2.wait_queue = chain.wait_queue ∧
    (dxgi_vk_swap_chain_present_is_occluded chain caps).2.frame_latency = chain.frame_latency ∧
    (dxgi_vk_swap_chain_present_is_occluded chain caps).2.wait_thread_active =
      chain.wait_thread_active := by
  unfold dxgi_vk_swap_chain_present_is_occluded
  split <;> exact ⟨rfl, rfl, rfl, rfl⟩

theorem Present_until_wait_returns (chain chain1 : dxgi_vk_swap_chain)
    (caps : VkSurfaceCapabilitiesKHR) (SyncInterval PresentFlags : Nat) (hr : HRESULT)
    (h : dxgi_vk_swap_chain_Present_until_wait chain caps SyncInterval PresentFlags =
      some (some hr, chain1)) :
    PresentKeeps chain chain1 ∧ chain1.user = chain.user ∧
      chain1.request_ring = chain.request_ring := by
  unfold dxgi_vk_swap_chain_Present_until_wait at h
  dsimp only at h
  obtain ⟨k1, k2, k3, k4⟩ := present_is_occluded_keeps chain caps
  have hu := present_is_occluded_user chain caps
  have hd := present_is_occluded_desc chain caps
  have hring := present_is_occluded_ring chain caps
  split at h
  · simp only [Option.some.injEq, Prod.mk.injEq] at h
    rw [← h.2]
    exact ⟨⟨k1, k2, k3, k4, hd, by rw [hu], by rw [hu]⟩, hu, hring⟩
  · split at h
    · simp only [Option.some.injEq, Prod.mk.injEq] at h
      rw [← h.2]
      exact ⟨⟨k1, k2, k3, k4, hd, by rw [hu], by rw [hu]⟩, hu, hring⟩
    · split at h
      · exact Option.noConfusion h
      · split at h
        · exact Option.noConfusion h
        · simp only [Option.some.injEq, Prod.mk.injEq] at h
          exact Option.noConfusion h.1

theorem Present_until_wait_enqueues (chain chain1 : dxgi_vk_swap_chain)
    (caps : VkSurfaceCapabilitiesKHR) (SyncInterval PresentFlags : Nat)
    (h : dxgi_vk_swap_chain_Present_until_wait chain caps SyncInterval PresentFlags =
      some (none, chain1)) :
    PresentKeeps chain chain1 ∧
      chain1.user.present_count = (chain.user.present_count + 1) % 2 ^ 32 ∧
      (∃ request, request.user_index = chain.user.index ∧
        request.swap_interval = SyncInterval ∧
        chain1.request_ring =
          Function.update chain.request_ring (ring_slot chain1.user.present_count) request) := by
  unfold dxgi_vk_swap_chain_Present_until_wait at h
  dsimp only at h
  obtain ⟨k1, k2, k3, k4⟩ := present_is_occluded_keeps chain caps
  have hu := present_is_occluded_user chain caps
  have hd := present_is_occluded_desc chain caps
  have hring := present_is_occluded_ring chain caps
  split at h
  · simp only [Option.some.injEq, Prod.mk.injEq] at h
    exact Option.noConfusion h.1
  · split at h
    · simp only [Option.some.injEq, Prod.mk.injEq] at h
      exact Option.noConfusion h.1
    · split at h
      · exact Option.noConfusion h
      · split at h
        · exact Option.noConfusion h
        · rename_i backbuffer _
          simp only [Option.some.injEq, Prod.mk.injEq, true_and] at h
          rw [← h]
          refine ⟨⟨k1, k2, k3, k4, hd, ?_, ?_⟩, ?_,
            ⟨{ swap_interval := SyncInterval
               dxgi_format := backbuffer.desc_Format
               user_index := (dxgi_vk_swap_chain_present_is_occluded chain caps).2.user.index
               dxgi_color_space_type :=
                 (dxgi_vk_swap_chain_present_is_occluded chain caps).2.user.dxgi_color_space_type
               dxgi_hdr_metadata :=
                 (dxgi_vk_swap_chain_present_is_occluded chain caps).2.user.dxgi_hdr_metadata
               modifies_hdr_metadata :=
                 (dxgi_vk_swap_chain_present_is_occluded chain caps).2.user.modifies_hdr_metadata },
              ?_, ?_, ?_⟩⟩
          · show (dxgi_vk_swap_chain_present_is_occluded chain caps).2.user.backbuffers = _
            rw [hu]
          · show (dxgi_vk_swap_chain_present_is_occluded chain caps).2.user.index = _
            rw [hu]
          · show ((dxgi_vk_swap_chain_present_is_occluded chain caps).2.user.present_count + 1)
              % 2 ^ 32 = _
            rw [hu]
          · show (dxgi_vk_swap_chain_present_is_occluded chain caps).2.user.index = _
            rw [hu]
          · rfl
          · show Function.update (dxgi_vk_swap_chain_present_is_occluded chain caps).2.request_ring
              _ _ = _
            rw [hring]

/-- The first half of `Present` enqueues when the surface is not occluded, the TEST flag
is not given, the assertion holds and the back buffer at `user.index` exists. -/
theorem Present_until_wait_total (chain : dxgi_vk_swap_chain) (caps : VkSurfaceCapabilitiesKHR)
    (SyncInterval PresentFlags : Nat)
    (hocc : (dxgi_vk_swap_chain_present_is_occluded chain caps).1 = false)
    (htest : PresentFlags &&& DXGI_PRESENT_TEST = 0)
    (hassert : chain.user.index < chain.desc.BufferCount)
    (hbuf : (user_backbuffer chain chain.user.index).isSome = true) :
    ∃ chain1, dxgi_vk_swap_chain_Present_until_wait chain caps SyncInterval PresentFlags =
      some (none, chain1) := by
  unfold dxgi_vk_swap_chain_Present_until_wait
  dsimp only
  have hu := present_is_occluded_user chain caps
  have hd := present_is_occluded_desc chain caps
  rw [hocc, if_neg (fun h => Bool.noConfusion h), if_neg (fun h => h htest), hu, hd,
    if_neg (fun h => h hassert), present_is_occluded_backbuffer]
  obtain ⟨r, hr⟩ := Option.isSome_iff_exists.mp hbuf
  rw [hr]
  exact ⟨_, rfl⟩

/-! ## Lemmas on what one callback does to the latency units -/

theorem present_callback_begin_keeps (device : d3d12_device) (c : dxgi_vk_swap_chain) :
    (present_callback_begin device c).desc = c.desc ∧
    (present_callback_begin device c).frame_latency = c.frame_latency ∧
    (present_callback_begin device c).request_ring = c.request_ring ∧
    ((present_callback_begin device c).effects = c.effects ∨
      (present_callback_begin device c).effects = c.effects ++ [Effect.set_hdr_metadata]) := by
  unfold present_callback_begin dxgi_vk_swap_chain_set_hdr_metadata
  dsimp only
  split <;> (try split) <;> (try split) <;>
    first
    | exact ⟨rfl, rfl, rfl, Or.inl rfl⟩
    | exact ⟨rfl, rfl, rfl, Or.inr rfl⟩

theorem present_callback_end_keeps (set_event_hr : HRESULT) (next : Nat)
    (c : dxgi_vk_swap_chain) :
    (present_callback_end set_event_hr next c).desc = c.desc ∧
    (present_callback_end set_event_hr next c).frame_latency = c.frame_latency ∧
    (present_callback_end set_event_hr next c).request_ring = c.request_ring ∧
    (present_callback_end set_event_hr next c).wait_thread_active = c.wait_thread_active := by
  unfold present_callback_end dxgi_vk_swap_chain_signal_waitable_handle
    dxgi_vk_swap_chain_present_signal_blit_semaphore dxgi_vk_swap_chain_push_present_id
  dsimp only
  split <;> exact ⟨rfl, rfl, rfl, rfl⟩

theorem latency_signal_effects_waiter (set_event_hr : HRESULT) (c : dxgi_vk_swap_chain) :
    waiter_releases (latency_signal_effects set_event_hr c) = 0 := by
  unfold latency_signal_effects
  cases c.present.present_id_valid <;> cases FAILED set_event_hr <;> rfl

/-- What one run of the callback keeps and what it does to the counters, the current
request, the waiter queue and the units of the latency semaphore: of the units it
releases itself, the units the waiter thread releases meanwhile, the events it
registers and the entries of the waiter queue, there is one more than there were
entries in the waiter queue. -/
theorem present_callback_accounts (device : d3d12_device) (gpu : Nat → Nat → present_env)
    (set_event_hr : HRESULT) (c c1 : dxgi_vk_swap_chain)
    (h : dxgi_vk_swap_chain_present_callback device gpu set_event_hr c = some c1) :
    c1.user = c.user ∧ c1.desc = c.desc ∧ c1.frame_latency = c.frame_latency ∧
    c1.request_ring = c.request_ring ∧ c1.wait_thread_active = c.wait_thread_active ∧
    c1.present.present_count = (c.present.present_count + 1) % 2 ^ 32 ∧
    c1.request = c.request_ring (ring_slot ((c.present.present_count + 1) % 2 ^ 32)) ∧
    released_units (effects_since c c1) + waiter_releases (effects_since c c1) +
      registered_latency_events (effects_since c c1) + c1.wait_queue.length =
      c.wait_queue.length + 1 := by
  have h0 := h
  rw [present_callback_eq] at h
  obtain ⟨pre, e0, i0, _, r0, u0, q0, a0, _⟩ := present_callback_begin_spec device c
  obtain ⟨d0, f0, g0, hpre⟩ := present_callback_begin_keeps device c
  cases hloop : present_callback_loop device gpu
      (max 1 (present_callback_begin device c).request.swap_interval) 0
      (present_callback_begin device c) with
  | none =>
    rw [hloop] at h
    exact Option.noConfusion h
  | some c2 =>
    rw [hloop] at h
    simp only [Option.map_some', Option.some.injEq] at h
    obtain ⟨new, f, _⟩ := present_callback_loop_spec device gpu _ _ _ _ hloop
    obtain ⟨e1, _, p1, u1, r1, q1⟩ := present_callback_end_spec set_event_hr
      ((c.present.present_count + 1) % 2 ^ 32) c2
    obtain ⟨d1, f1, g1, a1⟩ := present_callback_end_keeps set_event_hr
      ((c.present.present_count + 1) % 2 ^ 32) c2
    rw [h] at e1 p1 u1 r1 q1 d1 f1 g1 a1
    have hw0 : waiter_releases pre = 0 := by
      rcases hpre with hp | hp
      · rw [hp] at e0
        have : [] = pre := List.append_cancel_left ((List.append_nil _).trans e0)
        rw [← this]
        rfl
      · rw [hp] at e0
        rw [← List.append_cancel_left e0]
        rfl
    have hsince : effects_since c c1 = pre ++ new ++
        Effect.signal_blit_semaphore ((c2.present.blit_count + 1) % 2 ^ 64) ::
          latency_signal_effects set_event_hr c2 := by
      unfold effects_since
      rw [e1, f.effects, e0, List.append_assoc, List.append_assoc, List.drop_left,
        List.append_assoc]
    have hall : (pre ++ new).all is_iteration_effect = true := by
      rw [List.all_append, i0, f.iteration_effects]
      rfl
    have hwq := f.wait_queue
    rw [q0] at hwq
    refine ⟨by rw [u1, f.user, u0], by rw [d1, f.desc, d0], by rw [f1, f.frame_latency, f0],
      by rw [g1, f.request_ring, g0], by rw [a1, f.wait_thread_active, a0], p1,
      by rw [r1, f.request, r0], ?_⟩
    rw [hsince, released_units_append, waiter_releases_append, registered_latency_events_append,
      iteration_effects_released _ hall, iteration_effects_registered _ hall,
      waiter_releases_append, hw0, q1, List.length_append]
    have h1 : released_units (Effect.signal_blit_semaphore ((c2.present.blit_count + 1) % 2 ^ 64) ::
        latency_signal_effects set_event_hr c2) =
        released_units (latency_signal_effects set_event_hr c2) := rfl
    have h2 : waiter_releases (Effect.signal_blit_semaphore ((c2.present.blit_count + 1) % 2 ^ 64) ::
        latency_signal_effects set_event_hr c2) =
        waiter_releases (latency_signal_effects set_event_hr c2) := rfl
    have h3 : registered_latency_events
        (Effect.signal_blit_semaphore ((c2.present.blit_count + 1) % 2 ^ 64) ::
        latency_signal_effects set_event_hr c2) =
        registered_latency_events (latency_signal_effects set_event_hr c2) := rfl
    rw [h1, h2, h3, latency_signal_effects_waiter]
    rcases latency_signal_effects_cases set_event_hr c2 with
      ⟨_, k1, k2, k3⟩ | ⟨_, _, k1, k2, k3⟩ | ⟨_, _, k1, k2, k3⟩ <;>
    · rw [k1, k2, k3]
      simp only [List.length_cons, List.length_nil]
      omega

theorem release_units_le (semaphore n : Nat) : release_units semaphore n ≤ semaphore + n := by
  unfold release_units
  split <;> omega

theorem release_each_le (semaphore k : Nat) : release_each semaphore k ≤ semaphore + k := by
  induction k generalizing semaphore with
  | zero => exact Nat.le_refl _
  | succ k ih =>
    unfold release_each
    have h1 := ih (release_units semaphore 1)
    have h2 := release_units_le semaphore 1
    omega

/-! ## Lemmas on the counters, the ring and the history -/

theorem ring_invariant_congr {s s1 : swapchain_system} (h : ring_invariant s)
    (hst : s1.stamped = s.stamped) (hco : s1.copied = s.copied)
    (hu : s1.chain.user.present_count = s.chain.user.present_count)
    (hp : s1.chain.present.present_count = s.chain.present.present_count)
    (hr : s1.chain.request_ring = s.chain.request_ring) : ring_invariant s1 := by
  constructor
  · rw [hu, hst]; exact h.user_count
  · rw [hp, hco]; exact h.present_count
  · rw [hst, hco]; exact h.copied_le
  · rw [hst, hco]; exact h.stamped_le
  · rw [hst, hco]; exact h.copied_eq
  · rw [hst, hco, hr]; exact h.ring

theorem ring_slot_ne (k n : Nat) (hk : k < n) (hn : n < k + 16) :
    ring_slot ((k + 1) % 2 ^ 32) ≠ ring_slot ((n + 1) % 2 ^ 32) := by
  intro h
  have h1 : ((k + 1) % 2 ^ 32) % 16 = ((n + 1) % 2 ^ 32) % 16 := congrArg Fin.val h
  rw [Nat.mod_mod_of_dvd _ (by decide : 16 ∣ 2 ^ 32),
    Nat.mod_mod_of_dvd _ (by decide : 16 ∣ 2 ^ 32)] at h1
  omega

theorem SetFrameLatency_keeps (chain : dxgi_vk_swap_chain) (n : Nat) :
    (dxgi_vk_swap_chain_SetFrameLatency chain n).2.user = chain.user ∧
    (dxgi_vk_swap_chain_SetFrameLatency chain n).2.present = chain.present ∧
    (dxgi_vk_swap_chain_SetFrameLatency chain n).2.request_ring = chain.request_ring ∧
    (dxgi_vk_swap_chain_SetFrameLatency chain n).2.wait_queue = chain.wait_queue ∧
    (dxgi_vk_swap_chain_SetFrameLatency chain n).2.desc = chain.desc ∧
    (chain.desc.Flags &&& DXGI_SWAP_CHAIN_FLAG_FRAME_LATENCY_WAITABLE_OBJECT = 0 →
      (dxgi_vk_swap_chain_SetFrameLatency chain n).2 = chain) := by
  unfold dxgi_vk_swap_chain_SetFrameLatency
  split
  · exact ⟨rfl, rfl, rfl, rfl, rfl, fun _ => rfl⟩
  · split
    · exact ⟨rfl, rfl, rfl, rfl, rfl, fun _ => rfl⟩
    · rename_i hflag
      exact ⟨rfl, rfl, rfl, rfl, rfl, fun h => absurd h hflag⟩

theorem SetColorSpace_keeps (chain : dxgi_vk_swap_chain) (cs : Nat) :
    (dxgi_vk_swap_chain_SetColorSpace chain cs).2.user.present_count = chain.user.present_count ∧
    (dxgi_vk_swap_chain_SetColorSpace chain cs).2.present = chain.present ∧
    (dxgi_vk_swap_chain_SetColorSpace chain cs).2.request_ring = chain.request_ring ∧
    (dxgi_vk_swap_chain_SetColorSpace chain cs).2.wait_queue = chain.wait_queue ∧
    (dxgi_vk_swap_chain_SetColorSpace chain cs).2.desc = chain.desc ∧
    (dxgi_vk_swap_chain_SetColorSpace chain cs).2.frame_latency = chain.frame_latency := by
  unfold dxgi_vk_swap_chain_SetColorSpace
  split <;> exact ⟨rfl, rfl, rfl, rfl, rfl, rfl⟩

theorem wait_worker_keeps (chain chain1 : dxgi_vk_swap_chain)
    (h : dxgi_vk_swap_chain_wait_worker chain = some chain1) :
    chain1.user = chain.user ∧ chain1.present = chain.present ∧
    chain1.request_ring = chain.request_ring ∧ chain1.desc = chain.desc ∧
    chain1.frame_latency = chain.frame_latency ∧
    chain1.wait_queue.length + 1 = chain.wait_queue.length := by
  unfold dxgi_vk_swap_chain_wait_worker at h
  split at h
  · exact Option.noConfusion h
  · rename_i id rest hq
    split at h
    · exact Option.noConfusion h
    · simp only [Option.some.injEq] at h
      subst h
      refine ⟨rfl, rfl, rfl, rfl, rfl, ?_⟩
      rw [hq]
      rfl

/-- Every step keeps the counters, the ring and the history in line. -/
theorem ring_invariant_step (device : d3d12_device) (s s1 : swapchain_system)
    (h : ring_invariant s) (hs : system_step device s s1) : ring_invariant s1 := by
  cases hs with
  | present_returns caps S F hr chain1 _ hP =>
    obtain ⟨k, hu, hr⟩ := Present_until_wait_returns _ _ _ _ _ _ hP
    exact ring_invariant_congr h rfl rfl (by show chain1.user.present_count = _; rw [hu])
      k.present_count hr
  | present_enqueues caps S F chain1 _ hguard hP =>
    obtain ⟨k, hu, request, _, _, hring⟩ := Present_until_wait_enqueues _ _ _ _ _ hP
    have hU : chain1.user.present_count = (s.stamped.length + 1) % 2 ^ 32 := by
      rw [hu, h.user_count]
      omega
    constructor
    · show chain1.user.present_count = (s.stamped ++ [_]).length % 2 ^ 32
      rw [List.length_append, hU]
      rfl
    · show chain1.present.present_count = _
      rw [k.present_count]
      exact h.present_count
    · show s.copied.length ≤ (s.stamped ++ [_]).length
      rw [List.length_append]
      exact Nat.le_succ_of_le h.copied_le
    · show (s.stamped ++ [_]).length ≤ _
      rw [List.length_append]
      exact hguard
    · show s.copied = (s.stamped ++ [_]).take s.copied.length
      rw [List.take_append_of_le_length h.copied_le]
      exact h.copied_eq
    · intro j hj1 hj2
      show (s.stamped ++ [chain1.request_ring (ring_slot chain1.user.present_count)])[j]? =
        some (chain1.request_ring (ring_slot ((j + 1) % 2 ^ 32)))
      have hg : s.stamped.length < s.copied.length + 16 := hguard
      have hj1' : s.copied.length ≤ j := hj1
      have hj3 : j < s.stamped.length + 1 := by
        have : (s.stamped ++ [chain1.request_ring (ring_slot chain1.user.present_count)]).length
            = s.stamped.length + 1 := by rw [List.length_append]; rfl
        rw [← this]
        exact hj2
      by_cases hlt : j < s.stamped.length
      · rw [List.getElem?_append_left hlt, h.ring j hj1 hlt, hring, hU,
          Function.update_noteq (ring_slot_ne j s.stamped.length hlt (by omega))]
      · have hje : j = s.stamped.length := by omega
        rw [List.getElem?_append_right (by omega), hje, Nat.sub_self, hU]
        rfl
  | present_resumes _ _ =>
    exact ring_invariant_congr h rfl rfl rfl rfl rfl
  | wait_latency_handle _ _ =>
    exact ring_invariant_congr h rfl rfl rfl rfl rfl
  | set_frame_latency n _ =>
    obtain ⟨hu, hp, hr, _⟩ := SetFrameLatency_keeps s.chain n
    exact ring_invariant_congr h rfl rfl
      (by show (dxgi_vk_swap_chain_SetFrameLatency s.chain n).2.user.present_count = _; rw [hu])
      (by show (dxgi_vk_swap_chain_SetFrameLatency s.chain n).2.present.present_count = _; rw [hp])
      hr
  | set_color_space cs _ =>
    obtain ⟨hu, hp, hr, _⟩ := SetColorSpace_keeps s.chain cs
    exact ring_invariant_congr h rfl rfl hu
      (by show (dxgi_vk_swap_chain_SetColorSpace s.chain cs).2.present.present_count = _; rw [hp])
      hr
  | set_hdr_metadata m _ =>
    exact ring_invariant_congr h rfl rfl rfl rfl rfl
  | present_callback gpu hr chain1 hguard hcb =>
    obtain ⟨hu, _, _, hring, _, hp, hreq, _⟩ := present_callback_accounts _ _ _ _ _ hcb
    have hP : chain1.present.present_count = (s.copied.length + 1) % 2 ^ 32 := by
      rw [hp, h.present_count]
      omega
    constructor
    · show chain1.user.present_count = _
      rw [hu]
      exact h.user_count
    · show chain1.present.present_count = (s.copied ++ [_]).length % 2 ^ 32
      rw [List.length_append, hP]
      rfl
    · show (s.copied ++ [_]).length ≤ _
      rw [List.length_append]
      exact hguard
    · show s.stamped.length ≤ (s.copied ++ [_]).length + _
      rw [List.length_append]
      have hle : s.stamped.length ≤ s.copied.length + 16 := h.stamped_le
      show s.stamped.length ≤ s.copied.length + 1 + 16
      omega
    · show s.copied ++ [chain1.request] = s.stamped.take (s.copied ++ [chain1.request]).length
      have hlen : (s.copied ++ [chain1.request]).length = s.copied.length + 1 := by
        rw [List.length_append]; rfl
      rw [hlen, List.take_succ, h.ring _ (Nat.le_refl _) hguard, hreq, ← hp, hP, ← h.copied_eq]
      rfl
    · intro j hj1 hj2
      show s.stamped[j]? = some (chain1.request_ring _)
      have hlen : (s.copied ++ [chain1.request]).length = s.copied.length + 1 := by
        rw [List.length_append]; rfl
      rw [hring]
      exact h.ring j (by
        have : (s.copied ++ [chain1.request]).length ≤ j := hj1
        omega) hj2
  | wait_worker chain1 _ hw =>
    obtain ⟨hu, hp, hr, _⟩ := wait_worker_keeps _ _ hw
    exact ring_invariant_congr h rfl rfl (by show chain1.user.present_count = _; rw [hu])
      (by show chain1.present.present_count = _; rw [hp]) hr
  | latency_event _ =>
    exact ring_invariant_congr h rfl rfl rfl rfl rfl

theorem ring_invariant_initial (s : swapchain_system) (h : system_initial s) :
    ring_invariant s := by
  obtain ⟨h1, h2, _, _, _, _, _, h8, h9⟩ := h
  constructor
  · rw [h1, h8]; rfl
  · rw [h2, h9]; rfl
  · rw [h8, h9]
  · rw [h8, h9]; exact Nat.zero_le _
  · rw [h8, h9]; rfl
  · intro k _ hk
    rw [h8] at hk
    exact absurd hk (Nat.not_lt_zero _)

theorem ring_invariant_reachable (device : d3d12_device) (s0 s : swapchain_system)
    (h0 : system_initial s0) (h : system_reachable device s0 s) : ring_invariant s := by
  induction h with
  | start => exact ring_invariant_initial s0 h0
  | step s s1 _ hs ih => exact ring_invariant_step device s s1 ih hs

/-! ## Lemmas on the units of the latency semaphore -/

theorem effects_since_self (chain : dxgi_vk_swap_chain) : effects_since chain chain = [] := by
  unfold effects_since
  exact List.drop_length _

theorem release_units_zero (semaphore : Nat) : release_units semaphore 0 = semaphore := by
  unfold release_units
  split <;> rfl

/-! ## Lemmas on runs of the example swapchains -/

/-- One round of the latency-waitable example swapchain: `Present(1, 0)` enqueues and
returns, and the callback runs. -/
theorem steady_round (n : Nat) (s : swapchain_system)
    (hr : system_reachable example_device example_waitable_system s) (hs : steady n s) :
    ∃ s1, system_reachable example_device example_waitable_system s1 ∧ steady (n + 1) s1 := by
  obtain ⟨hin, hst, hco, hdesc, hbb, hidx, hact⟩ := hs
  have hinv := ring_invariant_reachable _ _ _ system_initial_example_waitable hr
  have hidle : s.chain.present.present_count = s.chain.user.present_count := by
    rw [hinv.user_count, hinv.present_count, hst, hco]
  have hocc : (dxgi_vk_swap_chain_present_is_occluded s.chain example_caps).1 = false := by
    unfold dxgi_vk_swap_chain_present_is_occluded dxgi_vk_swap_chain_present_task_is_idle
    have hcaps : dxgi_vk_swap_chain_is_occluded example_caps = false := by decide
    simp [hidle, hcaps]
  have hcount : s.chain.desc.BufferCount = 2 := by rw [hdesc]; rfl
  have hbuf : ∀ c : dxgi_vk_swap_chain, c.user.backbuffers = example_chain.user.backbuffers →
      ∀ i, i < 2 → (user_backbuffer c i).isSome = true := by
    intro c hc i hi
    unfold user_backbuffer
    rw [dif_pos (show i < 16 by omega), hc]
    show (if i < 2 then some (example_buffer (100 + i)) else none).isSome = true
    rw [if_pos hi]
    rfl
  obtain ⟨c1, hc1⟩ := Present_until_wait_total s.chain example_caps 1 0 hocc (by decide)
    (by rw [hcount]; exact hidx) (hbuf s.chain hbb _ hidx)
  obtain ⟨k, hu, request, hri, _, hring⟩ := Present_until_wait_enqueues _ _ _ _ _ hc1
  have r1 := system_reachable.step _ _ hr
    (system_step.present_enqueues s example_caps 1 0 c1 hin
      (by rw [hst, hco]; exact Nat.lt_add_of_pos_right (by decide)) hc1)
  have hflag : c1.desc.Flags &&& DXGI_SWAP_CHAIN_FLAG_FRAME_LATENCY_WAITABLE_OBJECT ≠ 0 := by
    rw [k.desc, hdesc]
    decide
  have r2 := system_reachable.step _ _ r1
    (system_step.present_resumes _ rfl (fun h => absurd h hflag))
  have hreq : c1.request_ring (ring_slot ((c1.present.present_count + 1) % 2 ^ 32)) = request := by
    rw [k.present_count, hidle, ← hu, hring]
    exact Function.update_same _ _ _
  obtain ⟨c3, hc3⟩ := present_callback_total example_device (fun _ _ => example_present_env) S_OK
    (dxgi_vk_swap_chain_Present_after_wait c1).2
    (fun ha => by
      have : c1.wait_thread_active = true := ha
      rw [k.wait_thread_active, hact] at this
      exact Bool.noConfusion this)
    (by
      show (user_backbuffer (dxgi_vk_swap_chain_Present_after_wait c1).2
        (c1.request_ring (ring_slot ((c1.present.present_count + 1) % 2 ^ 32))).user_index).isSome
        = true
      rw [hreq, hri]
      exact hbuf _ (k.backbuffers.trans hbb) _ hidx)
  obtain ⟨hu3, hd3, _, _, ha3, _, _, _⟩ := present_callback_accounts _ _ _ _ _ hc3
  have r3 := system_reachable.step _ _ r2
    (system_step.present_callback _ (fun _ _ => example_present_env) S_OK c3
      (by
        show s.copied.length < (s.stamped ++ [_]).length
        rw [List.length_append, hst, hco]
        exact Nat.lt_succ_self n)
      hc3)
  refine ⟨_, r3, rfl, ?_, ?_, ?_, ?_, ?_, ?_⟩
  · show (s.stamped ++ [_]).length = n + 1
    rw [List.length_append, hst]
    rfl
  · show (s.copied ++ [_]).length = n + 1
    rw [List.length_append, hco]
    rfl
  · show c3.desc = _
    rw [hd3]
    show c1.desc = _
    rw [k.desc, hdesc]
  · show c3.user.backbuffers = _
    rw [hu3]
    show c1.user.backbuffers = _
    rw [k.backbuffers, hbb]
  · show c3.user.index < 2
    rw [hu3]
    show ((c1.user.index + 1) % 2 ^ 32) % c1.desc.BufferCount < 2
    rw [k.desc, hcount]
    exact Nat.mod_lt _ (by decide)
  · show c3.wait_thread_active = false
    rw [ha3]
    show c1.wait_thread_active = false
    rw [k.wait_thread_active, hact]

theorem steady_reachable (n : Nat) :
    ∃ s, system_reachable example_device example_waitable_system s ∧ steady n s := by
  induction n with
  | zero =>
    exact ⟨example_waitable_system, system_reachable.start,
      rfl, rfl, rfl, rfl, rfl, by decide, rfl⟩
  | succ n ih =>
    obtain ⟨s, hr, hs⟩ := ih
    exact steady_round n s hr hs

/-- After `n` rounds of the latency-waitable example swapchain, the first half of one
more `Present(1, 0)` leaves `n + 1` requests stamped and `n` copied. -/
theorem steady_then_enqueue (n : Nat) :
    ∃ s, system_reachable example_device example_waitable_system s ∧
      s.stamped.length = n + 1 ∧ s.copied.length = n := by
  obtain ⟨s, hr, hin, hst, hco, hdesc, hbb, hidx, hact⟩ := steady_reachable n
  have hinv := ring_invariant_reachable _ _ _ system_initial_example_waitable hr
  have hidle : s.chain.present.present_count = s.chain.user.present_count := by
    rw [hinv.user_count, hinv.present_count, hst, hco]
  have hocc : (dxgi_vk_swap_chain_present_is_occluded s.chain example_caps).1 = false := by
    unfold dxgi_vk_swap_chain_present_is_occluded dxgi_vk_swap_chain_present_task_is_idle
    have hcaps : dxgi_vk_swap_chain_is_occluded example_caps = false := by decide
    simp [hidle, hcaps]
  have hcount : s.chain.desc.BufferCount = 2 := by rw [hdesc]; rfl
  have hbuf : (user_backbuffer s.chain s.chain.user.index).isSome = true := by
    unfold user_backbuffer
    rw [dif_pos (show s.chain.user.index < 16 by omega), hbb]
    show (if s.chain.user.index < 2 then some (example_buffer (100 + s.chain.user.index))
      else none).isSome = true
    rw [if_pos hidx]
    rfl
  obtain ⟨c1, hc1⟩ := Present_until_wait_total s.chain example_caps 1 0 hocc (by decide)
    (by rw [hcount]; exact hidx) hbuf
  have r1 := system_reachable.step _ _ hr
    (system_step.present_enqueues s example_caps 1 0 c1 hin
      (by rw [hst, hco]; exact Nat.lt_add_of_pos_right (by decide)) hc1)
  refine ⟨_, r1, ?_, hco⟩
  show (s.stamped ++ [_]).length = n + 1
  rw [List.length_append, hst]
  rfl

/-! ## C15: the ring is a queue -/

/-- C15. In every state a swapchain reaches from its creation, with at most 16 requests
outstanding at any time: for every `k`, the request copied into `chain->request` by
the `k`-th callback is the request stamped by the `k`-th enqueuing `Present`. The
counters are the numbers of stamped and of copied requests modulo 2^32, without a
bound on these numbers; and the slot index `(count mod 2^32) mod 16` goes up by
one modulo 16 with the count, also from 2^32 - 1 to 0. -/
theorem request_ring_is_fifo (device : d3d12_device) (s0 s : swapchain_system)
    (h0 : system_initial s0) (h : system_reachable device s0 s) :
    s.copied.length ≤ s.stamped.length ∧
    (∀ k, k < s.copied.length → s.copied[k]? = s.stamped[k]?) ∧
    s.chain.user.present_count = s.stamped.length % 2 ^ 32 ∧
    s.chain.present.present_count = s.copied.length % 2 ^ 32 ∧
    (∀ n, (ring_slot ((n + 1) % 2 ^ 32)).val = ((ring_slot (n % 2 ^ 32)).val + 1) % 16) := by
  have hinv := ring_invariant_reachable device s0 s h0 h
  refine ⟨hinv.copied_le, ?_, hinv.user_count, hinv.present_count, ?_⟩
  · intro k hk
    have hc : s.copied[k]? = (List.take s.copied.length s.stamped)[k]? := by
      rw [← hinv.copied_eq]
    rw [hc, List.getElem?_take, if_pos hk]
  · intro n
    show ((n + 1) % 2 ^ 32) % 16 = ((n % 2 ^ 32) % 16 + 1) % 16
    omega

/-- Witness of C15: after the first round of the latency-waitable example swapchain, the
request the first callback copied is the request the first `Present` stamped. -/
theorem request_ring_is_fifo_witness :
    ∃ s, system_reachable example_device example_waitable_system s ∧
      s.copied.length = 1 ∧ s.copied[0]? = s.stamped[0]? :=
  (steady_reachable 1).elim fun s hs =>
    ⟨s, hs.1, hs.2.2.2.1,
      (request_ring_is_fifo example_device example_waitable_system s
        system_initial_example_waitable hs.1).2.1 0 (by rw [hs.2.2.2.1]; decide)⟩

/-! ## Lemmas on single steps of the worker -/

theorem set_hdr_metadata_present (device : d3d12_device) (c : dxgi_vk_swap_chain) :
    (dxgi_vk_swap_chain_set_hdr_metadata device c).present = c.present := by
  unfold dxgi_vk_swap_chain_set_hdr_metadata
  split <;> rfl

/-! ## C22: when a request forces the recreation of the swapchain -/

/-- C22. For every pair of requests `next`, `last`: `request_needs_swapchain_recreation`
answers true exactly when the two differ in color space, or in format, or in
whether `swap_interval` is zero. So two non-zero swap intervals with equal color
space and format never force a recreation, nor does a change of `user_index` or of
the HDR metadata, nor a request compared with itself. And the present callback
sets `force_swapchain_recreation` exactly on that answer for the next request of
the ring against the current one (a flag already set stays set). -/
theorem request_forces_recreation_iff (next last : dxgi_vk_swap_chain_present_request) :
    (request_needs_swapchain_recreation next last = true ↔
      next.dxgi_color_space_type ≠ last.dxgi_color_space_type ∨
      next.dxgi_format ≠ last.dxgi_format ∨
      ¬ (next.swap_interval = 0 ↔ last.swap_interval = 0)) ∧
    (next.dxgi_color_space_type = last.dxgi_color_space_type →
      next.dxgi_format = last.dxgi_format →
      next.swap_interval ≠ 0 → last.swap_interval ≠ 0 →
      request_needs_swapchain_recreation next last = false) ∧
    (∀ user_index metadata modifies,
      request_needs_swapchain_recreation
        { next with
          user_index := user_index
          dxgi_hdr_metadata := metadata
          modifies_hdr_metadata := modifies } last =
        request_needs_swapchain_recreation next last) ∧
    request_needs_swapchain_recreation next next = false ∧
    (∀ (device : d3d12_device) (chain : dxgi_vk_swap_chain),
      chain.request_ring (ring_slot ((chain.present.present_count + 1) % 2 ^ 32)) = next →
      chain.request = last →
      (present_callback_begin device chain).present.force_swapchain_recreation =
        (chain.present.force_swapchain_recreation ||
          request_needs_swapchain_recreation next last)) := by
  have hiff : ∀ a b : dxgi_vk_swap_chain_present_request,
      request_needs_swapchain_recreation a b = true ↔
      a.dxgi_color_space_type ≠ b.dxgi_color_space_type ∨
      a.dxgi_format ≠ b.dxgi_format ∨
      ¬ (a.swap_interval = 0 ↔ b.swap_interval = 0) := by
    intro a b
    unfold request_needs_swapchain_recreation
    simp only [Bool.or_eq_true, bne_iff_ne, ne_eq, Bool.or_assoc]
    constructor
    · rintro (h | h | h)
      · exact Or.inl h
      · exact Or.inr (Or.inl h)
      · refine Or.inr (Or.inr ?_)
        intro hiff
        apply h
        by_cases h0 : a.swap_interval = 0
        · have h1 := hiff.mp h0
          simp [h0, h1]
        · have h1 : ¬ b.swap_interval = 0 := fun hl => h0 (hiff.mpr hl)
          rw [bne_iff_ne.mpr h0, bne_iff_ne.mpr h1]
    · rintro (h | h | h)
      · exact Or.inl h
      · exact Or.inr (Or.inl h)
      · refine Or.inr (Or.inr ?_)
        intro heq
        apply h
        by_cases h0 : a.swap_interval = 0
        · by_cases h1 : b.swap_interval = 0
          · exact ⟨fun _ => h1, fun _ => h0⟩
          · simp [h0, h1] at heq
        · by_cases h1 : b.swap_interval = 0
          · simp [h0, h1] at heq
          · exact ⟨fun h => absurd h h0, fun h => absurd h h1⟩
  refine ⟨hiff next last, ?_, ?_, ?_, ?_⟩
  · intro hc hf hn hl
    cases hr : request_needs_swapchain_recreation next last
    · rfl
    · rcases (hiff next last).mp hr with h | h | h
      · exact absurd hc h
      · exact absurd hf h
      · exact absurd ⟨fun h0 => absurd h0 hn, fun h0 => absurd h0 hl⟩ h
  · intro user_index metadata modifies
    rfl
  · cases hr : request_needs_swapchain_recreation next next
    · rfl
    · rcases (hiff next next).mp hr with h | h | h
      · exact absurd rfl h
      · exact absurd rfl h
      · exact absurd Iff.rfl h
  · intro device chain hnext hlast
    unfold present_callback_begin
    dsimp only
    rw [hnext, hlast]
    split
    · rw [set_hdr_metadata_present]
      cases hr : request_needs_swapchain_recreation next last
      · simp
      · simp
    · cases hr : request_needs_swapchain_recreation next last
      · simp
      · simp

/-- Witness of C22: a request with swap interval 2 against one with swap interval 1,
another back buffer and other HDR metadata, same color space and format. -/
theorem request_forces_recreation_iff_witness :
    request_needs_swapchain_recreation
      { (default : dxgi_vk_swap_chain_present_request) with
        swap_interval := 2, user_index := 1, modifies_hdr_metadata := true }
      { (default : dxgi_vk_swap_chain_present_request) with swap_interval := 1 } = false :=
  (request_forces_recreation_iff
    { (default : dxgi_vk_swap_chain_present_request) with
      swap_interval := 2, user_index := 1, modifies_hdr_metadata := true }
    { (default : dxgi_vk_swap_chain_present_request) with swap_interval := 1 }).2.1
    rfl rfl (by decide) (by decide)

/-! ## C26: reallocate_user_buffers on failure -/

/-- C26. The code at the failing input: on the example swapchain (two buffers, views
200 and 201) with an allocator that fails on the second buffer,
`reallocate_user_buffers` returns `E_OUTOFMEMORY` with every back buffer pointer
as before the call, but not the image views: the old views were destroyed, slot 0
holds the view 400 made for the new buffer that the error path released, and
slot 1 holds the null handle. -/
theorem reallocate_failure_keeps_buffers_not_views :
    (dxgi_vk_swap_chain_reallocate_user_buffers example_chain failing_env).1 = E_OUTOFMEMORY ∧
    (∀ i, (dxgi_vk_swap_chain_reallocate_user_buffers example_chain failing_env).2.user.backbuffers i =
      example_chain.user.backbuffers i) ∧
    example_chain.user.vk_image_views ⟨0, by decide⟩ = 200 ∧
    example_chain.user.vk_image_views ⟨1, by decide⟩ = 201 ∧
    (dxgi_vk_swap_chain_reallocate_user_buffers example_chain failing_env).2.user.vk_image_views
      ⟨0, by decide⟩ = 400 ∧
    (dxgi_vk_swap_chain_reallocate_user_buffers example_chain failing_env).2.user.vk_image_views
      ⟨1, by decide⟩ = VK_NULL_HANDLE ∧
    Effect.destroy_image_view 200 ∈
      (dxgi_vk_swap_chain_reallocate_user_buffers example_chain failing_env).2.effects := by
  refine ⟨by decide, by decide, by decide, by decide, by decide, by decide, by decide⟩

/-! ## C28: the assertion of Present after ChangeProperties -/

/-- C28. The code at the failing input: `ChangeProperties` accepts a descriptor with
`BufferCount = 0` on the example swapchain: it returns `S_OK`, stores the
descriptor and resets `user.index` to 0. The next `Present` on a visible surface
is not occluded, reaches its assertion `user.index < desc.BufferCount` with
`0 < 0` and does not return. -/
theorem Present_assertion_fails_after_zero_buffers :
    (dxgi_vk_swap_chain_ChangeProperties example_chain example_desc_no_buffers example_env).map
      (fun p => (p.1, p.2.desc.BufferCount, p.2.user.index)) = some (S_OK, 0, 0) ∧
    ((dxgi_vk_swap_chain_ChangeProperties example_chain example_desc_no_buffers example_env).bind
      (fun p => dxgi_vk_swap_chain_Present p.2 example_caps 1 0)).isNone = true ∧
    (dxgi_vk_swap_chain_ChangeProperties example_chain example_desc_no_buffers example_env).map
      (fun p => (dxgi_vk_swap_chain_present_is_occluded p.2 example_caps).1) = some false := by
  refine ⟨by decide, by decide, by decide⟩

/-! ## C30: the values signalled on the latency fence -/

/-- C30. The code at the failing input: the latency fence is created with the initial
value 16, and the counter `present.frame_latency_count` of a fresh swapchain is 0.
So the first request on the fence path signals the value 1 and registers the
completion event for 1, a value not above the initial value of the fence; and so
for the first 16 such requests, the 16th of which signals 16. -/
theorem first_fence_signals_not_above_initial_value :
    frame_latency_fence_initial_value = 16 ∧
    example_chain.present.frame_latency_count = 0 ∧
    example_chain.present.present_id_valid = false ∧
    (dxgi_vk_swap_chain_signal_waitable_handle S_OK example_chain).effects =
      [Effect.signal_inline 1, Effect.set_event_on_completion 1 S_OK] ∧
    ¬ (frame_latency_fence_initial_value < 1) ∧
    ((dxgi_vk_swap_chain_signal_waitable_handle S_OK)^[15] example_chain).present.frame_latency_count
      = 15 ∧
    (dxgi_vk_swap_chain_signal_waitable_handle S_OK
      ((dxgi_vk_swap_chain_signal_waitable_handle S_OK)^[15] example_chain)).effects.getLast? =
      some (Effect.set_event_on_completion 16 S_OK) ∧
    ¬ (frame_latency_fence_initial_value < 16) := by
  refine ⟨rfl, rfl, rfl, by decide, by decide, by decide, by decide, by decide⟩

/-! ## Lemmas on the replay of the present ID -/

theorem gpu_results_append (l m : List Effect) :
    gpu_results (l ++ m) = gpu_results l ++ gpu_results m := by
  unfold gpu_results
  rw [List.filterMap_append]

theorem present_attempts_append (l m : List Effect) :
    present_attempts (l ++ m) = present_attempts l + present_attempts m := by
  unfold present_attempts
  rw [List.countP_append]

theorem present_id_valid_replay_append (swap_interval : Nat) (valid : Bool) (l m : List Effect) :
    present_id_valid_replay swap_interval valid (l ++ m) =
      present_id_valid_replay swap_interval (present_id_valid_replay swap_interval valid l) m := by
  unfold present_id_valid_replay
  rw [List.foldl_append]

theorem present_ids_scan_append (p q : Nat) (l m : List Effect)
    (h : present_ids_scan p l = some q) :
    present_ids_scan p (l ++ m) = present_ids_scan q m := by
  unfold present_ids_scan at h ⊢
  rw [List.foldl_append, h]

theorem present_id_neutral_valid (swap_interval : Nat) (valid : Bool) (l : List Effect)
    (h : l.all is_present_id_neutral = true) :
    present_id_valid_replay swap_interval valid l = valid := by
  unfold present_id_valid_replay
  induction l with
  | nil => rfl
  | cons e rest ih =>
    rw [List.all_cons, Bool.and_eq_true] at h
    rw [List.foldl_cons]
    have he : present_id_valid_step swap_interval valid e = valid := by
      cases e <;> first | rfl | exact absurd h.1 (by simp [is_present_id_neutral])
    rw [he]
    exact ih h.2

theorem present_id_neutral_scan (p : Nat) (l : List Effect)
    (h : l.all is_present_id_neutral = true) : present_ids_scan p l = some p := by
  unfold present_ids_scan
  induction l with
  | nil => rfl
  | cons e rest ih =>
    rw [List.all_cons, Bool.and_eq_true] at h
    rw [List.foldl_cons]
    have he : present_ids_step (some p) e = some p := by
      cases e <;> first | rfl | exact absurd h.1 (by simp [is_present_id_neutral])
    rw [he]
    exact ih h.2

theorem present_id_neutral_results (l : List Effect)
    (h : l.all is_present_id_neutral = true) :
    gpu_results l = [] ∧ present_attempts l = 0 := by
  induction l with
  | nil => exact ⟨rfl, rfl⟩
  | cons e rest ih =>
    rw [List.all_cons, Bool.and_eq_true] at h
    obtain ⟨h1, h2⟩ := ih h.2
    have he : gpu_results [e] = [] ∧ present_attempts [e] = 0 := by
      cases e <;> first | exact ⟨rfl, rfl⟩ | exact absurd h.1 (by simp [is_present_id_neutral])
    have hc : e :: rest = [e] ++ rest := rfl
    rw [hc, gpu_results_append, present_attempts_append, he.1, he.2, h1, h2]
    exact ⟨rfl, rfl⟩

theorem waiter_release_neutral (q : List Nat) :
    (q.map Effect.waiter_release).all is_present_id_neutral = true := by
  induction q with
  | nil => rfl
  | cons id rest ih =>
    rw [List.map_cons, List.all_cons, ih]
    rfl

/-! ## Lemmas on what the steps of the worker record -/

theorem WorkerTrace.nothing_recorded (c : dxgi_vk_swap_chain) : WorkerTrace c c [] :=
  { effects := (List.append_nil _).symm
    request := rfl
    wait_thread_active := rfl
    valid := rfl
    lost_mono := fun h => h
    lost_only := fun h => Or.inl h
    lost_destroyed := fun h => h
    no_id := fun h => h
    ids := fun _ _ => rfl
    id_le := Nat.le_add_right _ _ }

theorem WorkerTrace.followed_by {c c1 c2 : dxgi_vk_swap_chain} {n1 n2 : List Effect}
    (h1 : WorkerTrace c c1 n1) (h2 : WorkerTrace c1 c2 n2) : WorkerTrace c c2 (n1 ++ n2) :=
  { effects := by rw [h2.effects, h1.effects, List.append_assoc]
    request := h2.request.trans h1.request
    wait_thread_active := h2.wait_thread_active.trans h1.wait_thread_active
    valid := by
      rw [present_id_valid_replay_append, ← h1.valid, ← h1.request]
      exact h2.valid
    lost_mono := fun h => h2.lost_mono (h1.lost_mono h)
    lost_only := fun h => by
      rw [gpu_results_append, List.mem_append]
      rcases h2.lost_only h with h | h
      · rcases h1.lost_only h with h | h
        · exact Or.inl h
        · exact Or.inr (Or.inl h)
      · exact Or.inr (Or.inr h)
    lost_destroyed := fun h => h2.lost_destroyed (h1.lost_destroyed h)
    no_id := fun h => h2.no_id (h1.no_id h)
    ids := fun hJ hB => by
      rw [present_attempts_append] at hB
      have a := h1.id_le
      rw [present_ids_scan_append _ _ _ _ (h1.ids hJ (by omega))]
      exact h2.ids (h1.no_id hJ) (by omega)
    id_le := by
      have a := h1.id_le
      have b := h2.id_le
      rw [present_attempts_append]
      omega }

/-- A step that records effects neutral for the present ID and keeps the present ID,
its validity, the lost flag and the swapchain handle. -/
theorem WorkerTrace.neutral {c c1 : dxgi_vk_swap_chain} (new : List Effect)
    (he : c1.effects = c.effects ++ new) (hr : c1.request = c.request)
    (ha : c1.wait_thread_active = c.wait_thread_active)
    (hn : new.all is_present_id_neutral = true)
    (hv : c1.present.present_id_valid = c.present.present_id_valid)
    (hi : c1.present.present_id = c.present.present_id)
    (hl : c1.present.is_surface_lost = c.present.is_surface_lost)
    (hs : c1.present.vk_swapchain = c.present.vk_swapchain) : WorkerTrace c c1 new :=
  { effects := he
    request := hr
    wait_thread_active := ha
    valid := by rw [present_id_neutral_valid _ _ _ hn, hv]
    lost_mono := fun h => by rw [hl]; exact h
    lost_only := fun h => Or.inl (by rw [← hl]; exact h)
    lost_destroyed := fun h h1 => by
      rw [hs]
      exact h (by rw [← hl]; exact h1)
    no_id := fun h h1 => by
      rw [hi]
      exact h (by rw [← hs]; exact h1)
    ids := fun _ _ => by rw [present_id_neutral_scan _ _ hn, hi]
    id_le := by rw [hi]; exact Nat.le_add_right _ _ }

/-- The result of `destroy_swapchain_in_present_task`, when it returns. -/
theorem destroy_swapchain_eq (c c1 : dxgi_vk_swap_chain)
    (h : dxgi_vk_swap_chain_destroy_swapchain_in_present_task c = some c1) :
    (c.present.vk_swapchain = VK_NULL_HANDLE ∧ c1 = c) ∨
    (c.present.vk_swapchain ≠ VK_NULL_HANDLE ∧
      (c.wait_thread_active = true → ∀ id, id ∈ c.wait_queue → id ≠ 0) ∧
      c1 = { c with
        present := { c.present with
          vk_swapchain := VK_NULL_HANDLE
          backbuffer_width := 0
          backbuffer_height := 0
          backbuffer_format := VK_FORMAT_UNDEFINED
          backbuffer_count := 0
          force_swapchain_recreation := false
          present_id_valid := false
          present_id := 0 }
        wait_queue := if c.wait_thread_active then [] else c.wait_queue
        effects := c.effects ++ destroy_swapchain_effects c }) := by
  unfold dxgi_vk_swap_chain_destroy_swapchain_in_present_task at h
  split at h
  · rename_i hnull
    simp only [Option.some.injEq] at h
    exact Or.inl ⟨hnull, h.symm⟩
  · rename_i hnull
    unfold dxgi_vk_swap_chain_drain_waiter at h
    dsimp only at h
    cases hact : c.wait_thread_active
    · rw [hact] at h
      simp only [Bool.false_eq_true, if_false, Option.some.injEq] at h
      refine Or.inr ⟨hnull, fun hx => Bool.noConfusion hx, ?_⟩
      rw [← h]
      unfold destroy_swapchain_effects
      rw [if_neg hnull, hact]
      simp
    · rw [hact] at h
      simp only [if_true] at h
      cases hrel : waiter_drains c.wait_queue with
      | none =>
        rw [hrel] at h
        exact Option.noConfusion h
      | some released =>
        rw [hrel] at h
        simp only [Option.some.injEq] at h
        obtain ⟨hr, hne⟩ := waiter_drains_some _ _ hrel
        refine Or.inr ⟨hnull, fun _ => hne, ?_⟩
        rw [← h, hr]
        unfold destroy_swapchain_effects
        rw [if_neg hnull, hact]
        simp

theorem destroy_swapchain_effects_neutral (c : dxgi_vk_swap_chain)
    (h : c.present.vk_swapchain ≠ VK_NULL_HANDLE) :
    ∃ l, l.all is_present_id_neutral = true ∧
      destroy_swapchain_effects c = l ++ [Effect.destroy_swapchain c.present.vk_swapchain] := by
  unfold destroy_swapchain_effects
  rw [if_neg h]
  cases c.wait_thread_active
  · exact ⟨[Effect.queue_wait_idle], rfl, rfl⟩
  · refine ⟨Effect.queue_wait_idle :: Effect.drain_waiter ::
      c.wait_queue.map Effect.waiter_release, ?_, ?_⟩
    · rw [List.all_cons, List.all_cons, waiter_release_neutral]
      rfl
    · simp

theorem destroy_swapchain_trace (c c1 : dxgi_vk_swap_chain)
    (h : dxgi_vk_swap_chain_destroy_swapchain_in_present_task c = some c1) :
    WorkerTrace c c1 (destroy_swapchain_effects c) ∧
    c1.present.vk_swapchain = VK_NULL_HANDLE ∧
    c1.present.is_surface_lost = c.present.is_surface_lost ∧
    c1.present.is_occlusion_state = c.present.is_occlusion_state ∧
    gpu_results (destroy_swapchain_effects c) = [] ∧
    present_attempts (destroy_swapchain_effects c) = 0 := by
  rcases destroy_swapchain_eq c c1 h with ⟨hnull, heq⟩ | ⟨hnull, _, heq⟩
  · subst heq
    have he : destroy_swapchain_effects c1 = [] := by
      unfold destroy_swapchain_effects
      rw [if_pos hnull]
    rw [he]
    exact ⟨WorkerTrace.nothing_recorded c1, hnull, rfl, rfl, rfl, rfl⟩
  · obtain ⟨l, hl, hd⟩ := destroy_swapchain_effects_neutral c hnull
    obtain ⟨g, pa⟩ := present_id_neutral_results l hl
    subst heq
    refine ⟨?_, rfl, rfl, rfl, ?_, ?_⟩
    · exact
        { effects := rfl
          request := rfl
          wait_thread_active := rfl
          valid := by
            rw [hd, present_id_valid_replay_append, present_id_neutral_valid _ _ _ hl]
            rfl
          lost_mono := fun hx => hx
          lost_only := fun hx => Or.inl hx
          lost_destroyed := fun _ _ => rfl
          no_id := fun _ _ => rfl
          ids := fun _ _ => by
            rw [hd, present_ids_scan_append _ _ _ _ (present_id_neutral_scan _ _ hl)]
            rfl
          id_le := Nat.zero_le _ }
    · rw [hd, gpu_results_append, g]
      rfl
    · rw [hd, present_attempts_append, pa]
      rfl

theorem create_or_neutral_valid (swap_interval : Nat) (valid : Bool) (l : List Effect)
    (h : l.all is_create_or_neutral = true) :
    present_id_valid_replay swap_interval valid l = valid := by
  unfold present_id_valid_replay
  induction l with
  | nil => rfl
  | cons e rest ih =>
    rw [List.all_cons, Bool.and_eq_true] at h
    rw [List.foldl_cons]
    have he : present_id_valid_step swap_interval valid e = valid := by
      cases e <;> first | rfl | exact absurd h.1 (by simp [is_create_or_neutral, is_present_id_neutral])
    rw [he]
    exact ih h.2

theorem create_or_neutral_scan (l : List Effect)
    (h : l.all is_create_or_neutral = true) : present_ids_scan 0 l = some 0 := by
  unfold present_ids_scan
  induction l with
  | nil => rfl
  | cons e rest ih =>
    rw [List.all_cons, Bool.and_eq_true] at h
    rw [List.foldl_cons]
    have he : present_ids_step (some 0) e = some 0 := by
      cases e <;> first | rfl | exact absurd h.1 (by simp [is_create_or_neutral, is_present_id_neutral])
    rw [he]
    exact ih h.2

theorem create_or_neutral_results (l : List Effect)
    (h : l.all is_create_or_neutral = true) :
    gpu_results l = [] ∧ present_attempts l = 0 := by
  induction l with
  | nil => exact ⟨rfl, rfl⟩
  | cons e rest ih =>
    rw [List.all_cons, Bool.and_eq_true] at h
    obtain ⟨h1, h2⟩ := ih h.2
    have he : gpu_results [e] = [] ∧ present_attempts [e] = 0 := by
      cases e <;> first | exact ⟨rfl, rfl⟩ | exact absurd h.1 (by simp [is_create_or_neutral, is_present_id_neutral])
    have hc : e :: rest = [e] ++ rest := rfl
    rw [hc, gpu_results_append, present_attempts_append, he.1, he.2, h1, h2]
    exact ⟨rfl, rfl⟩

theorem present_id_neutral_created (l : List Effect)
    (h : l.all is_present_id_neutral = true) : created_swapchains l = [] := by
  induction l with
  | nil => rfl
  | cons e rest ih =>
    rw [List.all_cons, Bool.and_eq_true] at h
    have he : created_swapchains [e] = [] := by
      cases e <;> first | rfl | exact absurd h.1 (by simp [is_present_id_neutral])
    have hc : e :: rest = [e] ++ rest := rfl
    rw [hc, created_swapchains_append, he, ih h.2]
    rfl

theorem destroy_swapchain_effects_created (c : dxgi_vk_swap_chain) :
    created_swapchains (destroy_swapchain_effects c) = [] := by
  by_cases hnull : c.present.vk_swapchain = VK_NULL_HANDLE
  · unfold destroy_swapchain_effects
    rw [if_pos hnull]
    rfl
  · obtain ⟨l, hl, hd⟩ := destroy_swapchain_effects_neutral c hnull
    rw [hd, created_swapchains_append, present_id_neutral_created l hl]
    rfl

/-- The part of a recreate attempt after the destruction, on a surface not lost: it
records a capabilities query and at most one swapchain creation, and keeps the
present ID. -/
theorem recreate_tail {c2 c1 : dxgi_vk_swap_chain} (tail : List Effect)
    (hnull : c2.present.vk_swapchain = VK_NULL_HANDLE)
    (hlost : c2.present.is_surface_lost = false)
    (he : c1.effects = c2.effects ++ tail) (hr : c1.request = c2.request)
    (ha : c1.wait_thread_active = c2.wait_thread_active)
    (ht : tail.all is_create_or_neutral = true)
    (hv : c1.present.present_id_valid = c2.present.present_id_valid)
    (hi : c1.present.present_id = c2.present.present_id)
    (hl : c1.present.is_surface_lost = c2.present.is_surface_lost) :
    WorkerTrace c2 c1 tail ∧ gpu_results tail = [] ∧ present_attempts tail = 0 := by
  obtain ⟨g, pa⟩ := create_or_neutral_results tail ht
  refine ⟨?_, g, pa⟩
  exact
    { effects := he
      request := hr
      wait_thread_active := ha
      valid := by rw [create_or_neutral_valid _ _ _ ht, hv]
      lost_mono := fun h => by rw [hl]; exact h
      lost_only := fun h => Or.inl (by rw [← hl]; exact h)
      lost_destroyed := fun _ h1 => by
        rw [hl, hlost] at h1
        exact Bool.noConfusion h1
      no_id := fun h _ => by
        rw [hi]
        exact h hnull
      ids := fun h _ => by
        rw [hi, h hnull]
        exact create_or_neutral_scan tail ht
      id_le := by rw [hi]; exact Nat.le_add_right _ _ }

/-- A recreate attempt: what it records and leaves. -/
theorem recreate_swapchain_trace (device : d3d12_device) (env : present_env)
    (c c1 : dxgi_vk_swap_chain)
    (h : dxgi_vk_swap_chain_recreate_swapchain_in_present_task device env c = some c1) :
    ∃ new, WorkerTrace c c1 new ∧ gpu_results new = [] ∧ present_attempts new = 0 ∧
      c1.present.is_surface_lost = c.present.is_surface_lost ∧
      (c1.present.is_surface_lost = true → c1.present.vk_swapchain = VK_NULL_HANDLE) ∧
      (c.present.is_surface_lost = true →
        c1.present.is_occlusion_state = c.present.is_occlusion_state ∧
        c1.present.vk_swapchain = VK_NULL_HANDLE ∧
        new = Effect.recreate_swapchain c.present.vk_swapchain :: destroy_swapchain_effects c) ∧
      (c.present.is_surface_lost = false →
        c1.present.is_occlusion_state =
          (if dxgi_vk_swap_chain_is_occluded env.surface_caps then 1 else 0) ∧
        Effect.get_surface_capabilities ∈ new) ∧
      (dxgi_vk_swap_chain_is_occluded env.surface_caps = true →
        c1.present.vk_swapchain = VK_NULL_HANDLE ∧ created_swapchains new = []) ∧
      (∃ rest, new = Effect.recreate_swapchain c.present.vk_swapchain :: rest) := by
  unfold dxgi_vk_swap_chain_recreate_swapchain_in_present_task at h
  have t0 : WorkerTrace c
      { c with effects := c.effects ++ [Effect.recreate_swapchain c.present.vk_swapchain] }
      [Effect.recreate_swapchain c.present.vk_swapchain] :=
    WorkerTrace.neutral _ rfl rfl rfl rfl rfl rfl rfl rfl
  split at h
  · exact Option.noConfusion h
  · rename_i c2 hdestroy
    obtain ⟨t2, hnull, hlost2, hocc2, g2, pa2⟩ := destroy_swapchain_trace _ _ hdestroy
    have hde : destroy_swapchain_effects
        { c with effects := c.effects ++ [Effect.recreate_swapchain c.present.vk_swapchain] } =
        destroy_swapchain_effects c := rfl
    rw [hde] at t2 g2 pa2
    have hlost2 : c2.present.is_surface_lost = c.present.is_surface_lost := hlost2
    have hocc2 : c2.present.is_occlusion_state = c.present.is_occlusion_state := hocc2
    have t02 := t0.followed_by t2
    have g02 : gpu_results ([Effect.recreate_swapchain c.present.vk_swapchain] ++
        destroy_swapchain_effects c) = [] := by
      rw [gpu_results_append, g2]
      rfl
    have pa02 : present_attempts ([Effect.recreate_swapchain c.present.vk_swapchain] ++
        destroy_swapchain_effects c) = 0 := by
      rw [present_attempts_append, pa2]
      rfl
    have hcr02 : created_swapchains ([Effect.recreate_swapchain c.present.vk_swapchain] ++
        destroy_swapchain_effects c) = [] := by
      rw [created_swapchains_append, destroy_swapchain_effects_created]
      rfl
    -- every branch after the lost check ends in a state built from `c2` by a tail
    have finish : ∀ (cf : dxgi_vk_swap_chain) (tail : List Effect),
        c2.present.is_surface_lost = false →
        cf.effects = c2.effects ++ Effect.get_surface_capabilities :: tail →
        cf.request = c2.request → cf.wait_thread_active = c2.wait_thread_active →
        (Effect.get_surface_capabilities :: tail).all is_create_or_neutral = true →
        cf.present.present_id_valid = c2.present.present_id_valid →
        cf.present.present_id = c2.present.present_id →
        cf.present.is_surface_lost = c2.present.is_surface_lost →
        cf.present.is_occlusion_state =
          (if dxgi_vk_swap_chain_is_occluded env.surface_caps then 1 else 0) →
        (dxgi_vk_swap_chain_is_occluded env.surface_caps = true →
          cf.present.vk_swapchain = VK_NULL_HANDLE ∧ tail = []) →
        ∃ new, WorkerTrace c cf new ∧ gpu_results new = [] ∧ present_attempts new = 0 ∧
          cf.present.is_surface_lost = c.present.is_surface_lost ∧
          (cf.present.is_surface_lost = true → cf.present.vk_swapchain = VK_NULL_HANDLE) ∧
          (c.present.is_surface_lost = true →
            cf.present.is_occlusion_state = c.present.is_occlusion_state ∧
            cf.present.vk_swapchain = VK_NULL_HANDLE ∧
            new = Effect.recreate_swapchain c.present.vk_swapchain ::
              destroy_swapchain_effects c) ∧
          (c.present.is_surface_lost = false →
            cf.present.is_occlusion_state =
              (if dxgi_vk_swap_chain_is_occluded env.surface_caps then 1 else 0) ∧
            Effect.get_surface_capabilities ∈ new) ∧
          (dxgi_vk_swap_chain_is_occluded env.surface_caps = true →
            cf.present.vk_swapchain = VK_NULL_HANDLE ∧ created_swapchains new = []) ∧
          (∃ rest, new = Effect.recreate_swapchain c.present.vk_swapchain :: rest) := by
      intro cf tail hnl he hr ha ht hv hi hl hocc hoccl
      obtain ⟨t3, g3, pa3⟩ := recreate_tail (Effect.get_surface_capabilities :: tail)
        hnull hnl he hr ha ht hv hi hl
      have hcl : c.present.is_surface_lost = false := by rw [← hlost2]; exact hnl
      refine ⟨_, t02.followed_by t3, ?_, ?_, by rw [hl, hlost2], ?_, ?_, ?_, ?_, ⟨_, rfl⟩⟩
      · rw [gpu_results_append, g02, g3]
        rfl
      · rw [present_attempts_append, pa02, pa3]
      · intro hx
        rw [hl, hnl] at hx
        exact Bool.noConfusion hx
      · intro hx
        rw [hcl] at hx
        exact Bool.noConfusion hx
      · intro _
        refine ⟨hocc, ?_⟩
        simp
      · intro ho
        obtain ⟨hvk, htail⟩ := hoccl ho
        refine ⟨hvk, ?_⟩
        rw [created_swapchains_append, hcr02, htail]
        rfl
    split at h
    · rename_i hlost
      simp only [Option.some.injEq] at h
      subst h
      have hcl : c.present.is_surface_lost = true := by rw [← hlost2]; exact hlost
      refine ⟨_, t02, g02, pa02, hlost2, fun _ => hnull, fun _ => ⟨hocc2, hnull, rfl⟩, ?_, ?_,
        ⟨_, rfl⟩⟩
      · intro hx
        rw [hcl] at hx
        exact Bool.noConfusion hx
      · intro _
        exact ⟨hnull, hcr02⟩
    · rename_i hlost
      have hnl : c2.present.is_surface_lost = false := by
        cases hx : c2.present.is_surface_lost
        · rfl
        · exact absurd hx hlost
      dsimp only at h
      split at h
      · rename_i hoc
        simp only [Option.some.injEq] at h
        subst h
        have hyes : dxgi_vk_swap_chain_is_occluded env.surface_caps = true := hoc
        refine finish _ [] hnl rfl rfl rfl rfl rfl rfl rfl ?_ ?_
        · rw [hyes]
          rfl
        · intro _
          exact ⟨hnull, rfl⟩
      · rename_i hoc
        have hno : dxgi_vk_swap_chain_is_occluded env.surface_caps = false := by
          unfold dxgi_vk_swap_chain_is_occluded
          cases hx : (env.surface_caps.maxImageExtent.width == 0 ||
            env.surface_caps.maxImageExtent.height == 0)
          · rfl
          · exact absurd hx hoc
        split at h
        · simp only [Option.some.injEq] at h
          subst h
          exact finish _ [] hnl rfl rfl rfl rfl rfl rfl rfl (by rw [hno]; rfl)
            (fun hx => absurd hx (by rw [hno]; decide))
        · split at h
          · simp only [Option.some.injEq] at h
            subst h
            exact finish _ [] hnl rfl rfl rfl rfl rfl rfl rfl (by rw [hno]; rfl)
              (fun hx => absurd hx (by rw [hno]; decide))
          · split at h
            · simp only [Option.some.injEq] at h
              subst h
              exact finish _ [] hnl rfl rfl rfl rfl rfl rfl rfl (by rw [hno]; rfl)
                (fun hx => absurd hx (by rw [hno]; decide))
            · split at h
              · simp only [Option.some.injEq] at h
                subst h
                refine finish _ [Effect.create_swapchain ?info ?vr] hnl ?he rfl rfl rfl rfl rfl rfl
                  ?ho ?hx
                case he => exact List.append_assoc _ _ _
                case ho => (rw [hno]; rfl)
                case hx => exact fun hx => absurd hx (by rw [hno]; decide)
              · simp only [Option.some.injEq] at h
                subst h
                unfold dxgi_vk_swap_chain_set_hdr_metadata
                split
                · refine finish _ [Effect.create_swapchain ?info ?vr] hnl ?he rfl rfl rfl rfl
                    rfl rfl ?ho ?hx
                  case he => exact List.append_assoc _ _ _
                  case ho => (rw [hno]; rfl)
                  case hx => exact fun hx => absurd hx (by rw [hno]; decide)
                · refine finish _ [Effect.create_swapchain ?info ?vr, Effect.set_hdr_metadata]
                    hnl ?he rfl rfl rfl rfl rfl rfl ?ho ?hx
                  case he =>
                    show (_ ++ _ ++ _) ++ _ = _
                    rw [List.append_assoc, List.append_assoc]
                    rfl
                  case ho => (rw [hno]; rfl)
                  case hx => exact fun hx => absurd hx (by rw [hno]; decide)

/-! ## C27: what precedes the destruction of a swapchain -/

/-- C27. A call of `destroy_swapchain_in_present_task` that finds no swapchain returns
the state it was given, with no effect recorded. A call that finds one returns
whenever the waiter thread can empty its queue, and every such call that returns
has recorded, in this order: `vkQueueWaitIdle`; with the waiter thread active, the
wait of `drain_waiter`, over which the waiter releases every queued present ID, so
that the queue is empty; then, last, the destruction of that swapchain. Without
waiter thread the wait-idle is directly followed by the destruction. -/
theorem destroy_swapchain_waits_idle_then_drains (chain : dxgi_vk_swap_chain) :
    (chain.present.vk_swapchain = VK_NULL_HANDLE →
      dxgi_vk_swap_chain_destroy_swapchain_in_present_task chain = some chain) ∧
    (chain.present.vk_swapchain ≠ VK_NULL_HANDLE →
      (waiter_can_drain chain →
        ∃ chain1, dxgi_vk_swap_chain_destroy_swapchain_in_present_task chain = some chain1) ∧
      ∀ chain1, dxgi_vk_swap_chain_destroy_swapchain_in_present_task chain = some chain1 →
        (chain.wait_thread_active = true →
          chain1.effects = chain.effects ++ Effect.queue_wait_idle :: Effect.drain_waiter ::
            (chain.wait_queue.map Effect.waiter_release ++
              [Effect.destroy_swapchain chain.present.vk_swapchain]) ∧
          chain1.wait_queue = []) ∧
        (chain.wait_thread_active = false →
          chain1.effects = chain.effects ++
            [Effect.queue_wait_idle, Effect.destroy_swapchain chain.present.vk_swapchain] ∧
          chain1.wait_queue = chain.wait_queue) ∧
        chain1.present.vk_swapchain = VK_NULL_HANDLE) := by
  constructor
  · intro hnull
    unfold dxgi_vk_swap_chain_destroy_swapchain_in_present_task
    rw [if_pos hnull]
  · intro hnull
    refine ⟨destroy_swapchain_total chain, ?_⟩
    intro chain1 h
    rcases destroy_swapchain_eq chain chain1 h with ⟨hn, _⟩ | ⟨_, _, heq⟩
    · exact absurd hn hnull
    · subst heq
      refine ⟨?_, ?_, rfl⟩
      · intro hact
        unfold destroy_swapchain_effects
        simp [hnull, hact]
      · intro hact
        unfold destroy_swapchain_effects
        simp [hnull, hact]

/-- Witness of C27: the example swapchain with swapchain 500 and the present ID 1
queued for the active waiter thread. -/
theorem destroy_swapchain_waits_idle_then_drains_witness :
    ∃ chain1,
      dxgi_vk_swap_chain_destroy_swapchain_in_present_task example_waiting_chain = some chain1 ∧
      chain1.effects = [Effect.queue_wait_idle, Effect.drain_waiter, Effect.waiter_release 1,
        Effect.destroy_swapchain 500] ∧
      chain1.wait_queue = [] :=
  have h := (destroy_swapchain_waits_idle_then_drains example_waiting_chain).2 (by decide)
  (h.1 (fun _ id hid => by
      have h1 : id = 1 := by simpa [example_waiting_chain] using hid
      rw [h1]
      decide)).elim fun chain1 h1 =>
    ⟨chain1, h1, ((h.2 chain1 h1).1 rfl).1, ((h.2 chain1 h1).1 rfl).2⟩

/-! ## C25: the occlusion state after a recreate attempt -/

/-- C25, as stated, fails: a recreate attempt on a lost surface returns before the
capabilities query. With the window visible the example swapchain keeps the
occlusion state 1 of an earlier query; with the window minimised it keeps the
state 0. Neither attempt queries the surface. -/
theorem recreate_on_lost_surface_keeps_occlusion_state :
    (dxgi_vk_swap_chain_recreate_swapchain_in_present_task example_device example_present_env
      (example_lost_chain 1)).map
      (fun c => (c.present.is_occlusion_state, c.effects)) =
      some (1, [Effect.recreate_swapchain VK_NULL_HANDLE]) ∧
    dxgi_vk_swap_chain_is_occluded example_present_env.surface_caps = false ∧
    (dxgi_vk_swap_chain_recreate_swapchain_in_present_task example_device minimised_present_env
      (example_lost_chain 0)).map
      (fun c => (c.present.is_occlusion_state, c.effects)) =
      some (0, [Effect.recreate_swapchain VK_NULL_HANDLE]) ∧
    dxgi_vk_swap_chain_is_occluded minimised_present_env.surface_caps = true := by
  refine ⟨by decide, by decide, by decide, by decide⟩

/-- C25, amended. Every recreate attempt of the worker on a surface that is not marked
lost queries the surface and leaves `is_occlusion_state` at 1 when the maximum
image extent reported has a zero width or height, at 0 otherwise; an attempt on a
lost surface leaves `is_occlusion_state` as it was. After every attempt that
leaves the state at 1 on a surface not lost, and after every attempt on a lost
surface, no GPU swapchain exists and none was created. The attempt returns
whenever the waiter thread can empty its queue. -/
theorem recreate_refreshes_occlusion_unless_lost (device : d3d12_device) (env : present_env)
    (chain : dxgi_vk_swap_chain) :
    (waiter_can_drain chain →
      ∃ chain1,
        dxgi_vk_swap_chain_recreate_swapchain_in_present_task device env chain = some chain1) ∧
    (∀ chain1,
      dxgi_vk_swap_chain_recreate_swapchain_in_present_task device env chain = some chain1 →
      ∃ new, chain1.effects = chain.effects ++ new ∧
        (chain.present.is_surface_lost = false →
          Effect.get_surface_capabilities ∈ new ∧
          chain1.present.is_occlusion_state =
            (if env.surface_caps.maxImageExtent.width = 0 ∨
                env.surface_caps.maxImageExtent.height = 0 then 1 else 0) ∧
          (chain1.present.is_occlusion_state = 1 →
            chain1.present.vk_swapchain = VK_NULL_HANDLE ∧ created_swapchains new = [])) ∧
        (chain.present.is_surface_lost = true →
          chain1.present.is_occlusion_state = chain.present.is_occlusion_state ∧
          chain1.present.vk_swapchain = VK_NULL_HANDLE ∧ created_swapchains new = [])) := by
  refine ⟨recreate_swapchain_total device env chain, ?_⟩
  intro chain1 h
  obtain ⟨new, t, _, _, _, _, hl, hnl, hocc, _⟩ :=
    recreate_swapchain_trace device env chain chain1 h
  refine ⟨new, t.effects, ?_, ?_⟩
  · intro hlost
    obtain ⟨hs, hq⟩ := hnl hlost
    have hstate : chain1.present.is_occlusion_state =
        (if env.surface_caps.maxImageExtent.width = 0 ∨
            env.surface_caps.maxImageExtent.height = 0 then 1 else 0) := by
      rw [hs]
      unfold dxgi_vk_swap_chain_is_occluded
      by_cases hw : env.surface_caps.maxImageExtent.width = 0
      · simp [hw]
      · by_cases hh : env.surface_caps.maxImageExtent.height = 0
        · simp [hh]
        · simp [hw, hh]
    refine ⟨hq, hstate, ?_⟩
    intro h1
    apply hocc
    cases ho : dxgi_vk_swap_chain_is_occluded env.surface_caps
    · rw [hs, ho] at h1
      exact absurd h1 (by decide)
    · rfl
  · intro hlost
    obtain ⟨hs, hnull, hnew⟩ := hl hlost
    refine ⟨hs, hnull, ?_⟩
    rw [hnew]
    have hc : Effect.recreate_swapchain chain.present.vk_swapchain ::
        destroy_swapchain_effects chain =
        [Effect.recreate_swapchain chain.present.vk_swapchain] ++
        destroy_swapchain_effects chain := rfl
    rw [hc, created_swapchains_append, destroy_swapchain_effects_created]
    rfl

/-- Witness of C25, amended: on a minimised window the example swapchain, not lost,
ends a recreate attempt with the occlusion state 1 and no swapchain. -/
theorem recreate_refreshes_occlusion_unless_lost_witness :
    ∃ chain1,
      dxgi_vk_swap_chain_recreate_swapchain_in_present_task example_device
        minimised_present_env example_chain = some chain1 ∧
      chain1.present.is_occlusion_state = 1 ∧
      chain1.present.vk_swapchain = VK_NULL_HANDLE :=
  have h := recreate_refreshes_occlusion_unless_lost example_device minimised_present_env
    example_chain
  (h.1 (fun ha => absurd ha (by decide))).elim fun chain1 h1 =>
    (h.2 chain1 h1).elim fun _ h2 =>
      ⟨chain1, h1, (h2.2.1 rfl).2.1, ((h2.2.1 rfl).2.2 (h2.2.1 rfl).2.1).1⟩

/-! ## Lemmas on what a level and an iteration record -/

theorem effects_cancel {c c1 : dxgi_vk_swap_chain} {n1 n2 : List Effect}
    (h1 : c1.effects = c.effects ++ n1) (h2 : c1.effects = c.effects ++ n2) : n1 = n2 :=
  List.append_cancel_left (h1.symm.trans h2)

theorem recreate_if_required_trace (device : d3d12_device) (env : present_env)
    (c c1 : dxgi_vk_swap_chain)
    (h : dxgi_vk_swap_chain_present_recreate_swapchain_if_required device env c = some c1) :
    ∃ new, WorkerTrace c c1 new ∧ gpu_results new = [] ∧ present_attempts new = 0 ∧
      c1.present.is_surface_lost = c.present.is_surface_lost ∧
      (c.present.vk_swapchain = VK_NULL_HANDLE ∨ c.present.force_swapchain_recreation = true →
        ∃ rest, new = Effect.recreate_swapchain c.present.vk_swapchain :: rest) := by
  unfold dxgi_vk_swap_chain_present_recreate_swapchain_if_required at h
  split at h
  · obtain ⟨new, t, g, pa, hl, _, _, _, _, hhead⟩ := recreate_swapchain_trace device env c c1 h
    exact ⟨new, t, g, pa, hl, fun _ => hhead⟩
  · rename_i hno
    simp only [Option.some.injEq] at h
    subst h
    exact ⟨[], WorkerTrace.nothing_recorded c, rfl, rfl, rfl, fun hx => absurd hx hno⟩

theorem handle_result_trace (vr : VkResult) (c c1 : dxgi_vk_swap_chain)
    (h : present_iteration_handle_result vr c = some c1) :
    ∃ new, WorkerTrace c c1 new ∧ gpu_results new = [] ∧ present_attempts new = 0 ∧
      c1.present.is_surface_lost = c.present.is_surface_lost ∧
      (vr < 0 → c1.present.vk_swapchain = VK_NULL_HANDLE) ∧
      (¬ vr < 0 → c1.present.vk_swapchain = c.present.vk_swapchain) := by
  unfold present_iteration_handle_result at h
  dsimp only at h
  have t1 : WorkerTrace c
      (if vr = VK_SUBOPTIMAL_KHR ∨ vr < 0 then
        { c with present := { c.present with force_swapchain_recreation := true } }
      else c) [] := by
    split
    · exact WorkerTrace.neutral [] (List.append_nil _).symm rfl rfl rfl rfl rfl rfl rfl
    · exact WorkerTrace.nothing_recorded c
  have hl1 : (if vr = VK_SUBOPTIMAL_KHR ∨ vr < 0 then
        { c with present := { c.present with force_swapchain_recreation := true } }
      else c).present.is_surface_lost = c.present.is_surface_lost := by
    split <;> rfl
  have hs1 : (if vr = VK_SUBOPTIMAL_KHR ∨ vr < 0 then
        { c with present := { c.present with force_swapchain_recreation := true } }
      else c).present.vk_swapchain = c.present.vk_swapchain := by
    split <;> rfl
  split at h
  · rename_i hneg
    obtain ⟨t2, hnull, hlost, _, g, pa⟩ := destroy_swapchain_trace _ _ h
    refine ⟨_, t1.followed_by t2, ?_, ?_, ?_, fun _ => hnull, fun hx => absurd hneg hx⟩
    · rw [gpu_results_append, g]
      rfl
    · rw [present_attempts_append, pa]
      rfl
    · rw [hlost, hl1]
  · rename_i hpos
    simp only [Option.some.injEq] at h
    subst h
    exact ⟨[], t1, rfl, rfl, hl1, fun hx => absurd hx hpos, fun _ => hs1⟩

theorem present_iteration_acquire_trace (env : present_env) (c c1 : dxgi_vk_swap_chain)
    (vr : VkResult) (h : present_iteration_acquire env c = some (vr, c1)) :
    ∃ new, WorkerTrace c c1 new ∧ gpu_results new = [vr] ∧ present_attempts new = 0 ∧
      c1.present.is_surface_lost = c.present.is_surface_lost ∧
      (vr < 0 → c1.present.vk_swapchain = VK_NULL_HANDLE) ∧
      (¬ vr < 0 → c1.present.vk_swapchain = c.present.vk_swapchain) := by
  unfold present_iteration_acquire at h
  dsimp only at h
  split at h
  · exact Option.noConfusion h
  · rename_i c2 h2
    simp only [Option.some.injEq, Prod.mk.injEq] at h
    obtain ⟨hvr, hc⟩ := h
    subst hvr hc
    obtain ⟨n2, t2, g2, pa2, hl2, hneg, hpos⟩ := handle_result_trace _ _ _ h2
    have hcases : ∀ waited : List Effect, waited = [Effect.wait_acquire_fence] ∨ waited = [] →
        WorkerTrace c
          { c with effects := c.effects ++
            Effect.acquire_next_image env.acquire_next_image.1 :: waited }
          (Effect.acquire_next_image env.acquire_next_image.1 :: waited) ∧
        gpu_results (Effect.acquire_next_image env.acquire_next_image.1 :: waited) =
          [env.acquire_next_image.1] ∧
        present_attempts (Effect.acquire_next_image env.acquire_next_image.1 :: waited) = 0 := by
      intro waited hw
      rcases hw with hw | hw <;> subst hw <;>
      · refine ⟨?_, rfl, rfl⟩
        exact
          { effects := rfl
            request := rfl
            wait_thread_active := rfl
            valid := rfl
            lost_mono := fun hx => hx
            lost_only := fun hx => Or.inl hx
            lost_destroyed := fun hx => hx
            no_id := fun hx => hx
            ids := fun _ _ => rfl
            id_le := Nat.le_add_right _ _ }
    obtain ⟨t1, g1, pa1⟩ := hcases
      (if env.acquire_next_image.1 ≥ 0 then [Effect.wait_acquire_fence] else [])
      (by split <;> simp)
    refine ⟨_, t1.followed_by t2, ?_, ?_, hl2, hneg, hpos⟩
    · rw [gpu_results_append, g1, g2]
      rfl
    · rw [present_attempts_append, pa1, pa2]

theorem submit_blit_trace (env : present_env) (c c1 : dxgi_vk_swap_chain) (ok : Bool)
    (h : dxgi_vk_swap_chain_submit_blit env c = some (ok, c1)) :
    ∃ new, WorkerTrace c c1 new ∧ gpu_results new = [] ∧ present_attempts new = 0 ∧
      c1.present = c.present := by
  unfold dxgi_vk_swap_chain_submit_blit at h
  split at h
  · simp only [Option.some.injEq, Prod.mk.injEq] at h
    obtain ⟨_, hc⟩ := h
    subst hc
    exact ⟨[], WorkerTrace.nothing_recorded c, rfl, rfl, rfl⟩
  · split at h
    · exact Option.noConfusion h
    · simp only [Option.some.injEq, Prod.mk.injEq] at h
      obtain ⟨_, hc⟩ := h
      subst hc
      exact ⟨[Effect.submit_blit env.blit_submit],
        WorkerTrace.neutral _ rfl rfl rfl rfl rfl rfl rfl rfl, rfl, rfl, rfl⟩

theorem present_iteration_queue_present_trace (env : present_env) (c c1 : dxgi_vk_swap_chain)
    (vr : VkResult) (hvk : c.present.vk_swapchain ≠ VK_NULL_HANDLE)
    (h : present_iteration_queue_present env c = some (vr, c1)) :
    ∃ new, WorkerTrace c c1 new ∧ gpu_results new = [vr] ∧ present_attempts new = 1 ∧
      c1.present.is_surface_lost = c.present.is_surface_lost ∧
      (vr < 0 → c1.present.vk_swapchain = VK_NULL_HANDLE) := by
  unfold present_iteration_queue_present at h
  dsimp only at h
  split at h
  · exact Option.noConfusion h
  · rename_i c2 h2
    simp only [Option.some.injEq, Prod.mk.injEq] at h
    obtain ⟨hvr, hc⟩ := h
    subst hc
    obtain ⟨n2, t2, g2, pa2, hl2, hneg, _⟩ := handle_result_trace _ _ _ h2
    rw [hvr] at h2 t2 hl2 hneg
    have t1 : WorkerTrace c
        { c with
          present := { c.present with
            present_id :=
              if (c.wait_thread_active && !c.present.present_id_valid) = true then
                (c.present.present_id + 1) % 2 ^ 64
              else c.present.present_id
            present_id_valid :=
              if (c.wait_thread_active && !c.present.present_id_valid) = true ∧ vr ≥ 0 ∧
                  c.request.swap_interval ≥ 1 then true
              else c.present.present_id_valid }
          effects := c.effects ++
            [Effect.queue_present
              (if (c.wait_thread_active && !c.present.present_id_valid) = true then
                some (if (c.wait_thread_active && !c.present.present_id_valid) = true then
                  (c.present.present_id + 1) % 2 ^ 64
                else c.present.present_id)
              else none) vr] }
        [Effect.queue_present
          (if (c.wait_thread_active && !c.present.present_id_valid) = true then
            some (if (c.wait_thread_active && !c.present.present_id_valid) = true then
              (c.present.present_id + 1) % 2 ^ 64
            else c.present.present_id)
          else none) vr] := by
      cases hatt : (c.wait_thread_active && !c.present.present_id_valid)
      · simp only [Bool.false_eq_true, if_false, false_and]
        exact
          { effects := rfl
            request := rfl
            wait_thread_active := rfl
            valid := rfl
            lost_mono := fun hx => hx
            lost_only := fun hx => Or.inl hx
            lost_destroyed := fun hx => hx
            no_id := fun hx => hx
            ids := fun _ _ => rfl
            id_le := Nat.le_add_right _ _ }
      · simp only [if_true, true_and]
        have hv : c.present.present_id_valid = false := by
          cases hx : c.present.present_id_valid
          · rfl
          · rw [hx] at hatt
            simp at hatt
        exact
          { effects := rfl
            request := rfl
            wait_thread_active := rfl
            valid := by
              show (if vr ≥ 0 ∧ c.request.swap_interval ≥ 1 then true
                else c.present.present_id_valid) =
                (c.present.present_id_valid ||
                  (decide (0 ≤ vr) && decide (1 ≤ c.request.swap_interval)))
              rw [hv]
              by_cases h0 : vr ≥ 0
              · by_cases h1 : c.request.swap_interval ≥ 1
                · simp [h0, h1]
                · simp [h0, h1]
              · simp [h0]
            lost_mono := fun hx => hx
            lost_only := fun hx => Or.inl hx
            lost_destroyed := fun hx => hx
            no_id := fun _ hx => absurd hx hvk
            ids := fun _ hB => by
              have hpa : present_attempts [Effect.queue_present
                  (some ((c.present.present_id + 1) % 2 ^ 64)) vr] = 1 := rfl
              rw [hpa] at hB
              have hmod : (c.present.present_id + 1) % 2 ^ 64 = c.present.present_id + 1 :=
                Nat.mod_eq_of_lt hB
              show present_ids_scan c.present.present_id
                [Effect.queue_present (some ((c.present.present_id + 1) % 2 ^ 64)) vr] =
                some ((c.present.present_id + 1) % 2 ^ 64)
              rw [hmod]
              unfold present_ids_scan
              simp [present_ids_step]
            id_le := by
              show (c.present.present_id + 1) % 2 ^ 64 ≤ c.present.present_id + _
              have hpa : present_attempts [Effect.queue_present
                  (some ((c.present.present_id + 1) % 2 ^ 64)) vr] = 1 := rfl
              rw [hpa]
              exact Nat.mod_le _ _ }
    refine ⟨_, t1.followed_by t2, ?_, ?_, hl2, hneg⟩
    · rw [gpu_results_append, g2]
      rfl
    · rw [present_attempts_append, pa2]
      rfl

/-- Marking the surface lost after a step that reported `VK_ERROR_SURFACE_LOST_KHR` and
left no swapchain. -/
theorem WorkerTrace.mark_lost {c c1 : dxgi_vk_swap_chain} {new : List Effect}
    (t : WorkerTrace c c1 new) (hnull : c1.present.vk_swapchain = VK_NULL_HANDLE)
    (hres : VK_ERROR_SURFACE_LOST_KHR ∈ gpu_results new) :
    WorkerTrace c (present_iteration_surface_lost c1) new :=
  { effects := t.effects
    request := t.request
    wait_thread_active := t.wait_thread_active
    valid := t.valid
    lost_mono := fun _ => rfl
    lost_only := fun _ => Or.inr hres
    lost_destroyed := fun _ _ => hnull
    no_id := t.no_id
    ids := t.ids
    id_le := t.id_le }

theorem IterationTrace.and_then {c c1 c2 : dxgi_vk_swap_chain} {n1 n2 : List Effect}
    (h1 : IterationTrace c c1 n1) (h2 : IterationTrace c1 c2 n2) :
    IterationTrace c c2 (n1 ++ n2) :=
  { trace := h1.trace.followed_by h2.trace
    presents := by
      have a := h1.presents
      have b := h2.presents
      rw [present_attempts_append, iteration_levels_append, List.length_append]
      omega
    lost_if := fun h => by
      rw [gpu_results_append, List.mem_append] at h
      rcases h with h | h
      · obtain ⟨hl, hn⟩ := h1.lost_if h
        have hl2 := h2.trace.lost_mono hl
        exact ⟨hl2, h2.trace.lost_destroyed (fun _ => hn) hl2⟩
      · exact h2.lost_if h }

theorem IterationTrace.no_iteration (c : dxgi_vk_swap_chain) : IterationTrace c c [] :=
  { trace := WorkerTrace.nothing_recorded c
    presents := Nat.le_refl _
    lost_if := fun h => absurd h (List.not_mem_nil _) }

/-- One level of `present_iteration`: what it records. -/
theorem present_iteration_level_trace (device : d3d12_device) (env : present_env)
    (c c1 : dxgi_vk_swap_chain) (retry_counter : Nat) (retry : Bool)
    (h : present_iteration_level device env c retry_counter = some (c1, retry)) :
    ∃ new, IterationTrace c c1 new ∧ iteration_levels new = [retry_counter] ∧
      (c.present.vk_swapchain = VK_NULL_HANDLE ∨ c.present.force_swapchain_recreation = true →
        ∃ rest, new = Effect.present_iteration retry_counter ::
          Effect.recreate_swapchain c.present.vk_swapchain :: rest) := by
  obtain ⟨new0, rest0, f0, hnew0, _, hl0, _, _⟩ :=
    present_iteration_level_spec device env c c1 retry_counter retry h
  have hlev : ∀ new, c1.effects = c.effects ++ new → iteration_levels new = [retry_counter] := by
    intro new he
    rw [effects_cancel he f0.effects, hnew0]
    show iteration_levels ([Effect.present_iteration retry_counter] ++ rest0) = _
    rw [iteration_levels_append, hl0]
    rfl
  have finish : ∀ new, WorkerTrace c c1 new → present_attempts new ≤ 1 →
      (VK_ERROR_SURFACE_LOST_KHR ∈ gpu_results new →
        c1.present.is_surface_lost = true ∧ c1.present.vk_swapchain = VK_NULL_HANDLE) →
      (c.present.vk_swapchain = VK_NULL_HANDLE ∨ c.present.force_swapchain_recreation = true →
        ∃ rest, new = Effect.present_iteration retry_counter ::
          Effect.recreate_swapchain c.present.vk_swapchain :: rest) →
      ∃ new, IterationTrace c c1 new ∧ iteration_levels new = [retry_counter] ∧
        (c.present.vk_swapchain = VK_NULL_HANDLE ∨
            c.present.force_swapchain_recreation = true →
          ∃ rest, new = Effect.present_iteration retry_counter ::
            Effect.recreate_swapchain c.present.vk_swapchain :: rest) := by
    intro new t hpa hlost hhead
    refine ⟨new, ⟨t, ?_, hlost⟩, hlev new t.effects, hhead⟩
    rw [hlev new t.effects]
    exact hpa
  clear hlev
  unfold present_iteration_level at h
  have t0 : WorkerTrace c
      { c with effects := c.effects ++ [Effect.present_iteration retry_counter] }
      [Effect.present_iteration retry_counter] :=
    WorkerTrace.neutral _ rfl rfl rfl rfl rfl rfl rfl rfl
  split at h
  · exact Option.noConfusion h
  · rename_i c2 h2
    obtain ⟨n1, t1, g1, pa1, hl1, hhead1⟩ := recreate_if_required_trace _ _ _ _ h2
    have t01 := t0.followed_by t1
    have g01 : gpu_results ([Effect.present_iteration retry_counter] ++ n1) = [] := by
      rw [gpu_results_append, g1]
      rfl
    have pa01 : present_attempts ([Effect.present_iteration retry_counter] ++ n1) = 0 := by
      rw [present_attempts_append, pa1]
      rfl
    have hhead : ∀ tail : List Effect,
        c.present.vk_swapchain = VK_NULL_HANDLE ∨ c.present.force_swapchain_recreation = true →
        ∃ rest, [Effect.present_iteration retry_counter] ++ n1 ++ tail =
          Effect.present_iteration retry_counter ::
            Effect.recreate_swapchain c.present.vk_swapchain :: rest := by
      intro tail hx
      obtain ⟨rest, hrest⟩ := hhead1 hx
      exact ⟨rest ++ tail, by rw [hrest]; rfl⟩
    split at h
    · simp only [Option.some.injEq, Prod.mk.injEq] at h
      obtain ⟨hc, hr⟩ := h
      subst hc hr
      refine finish _ (t01.followed_by (WorkerTrace.nothing_recorded c2)) ?_ ?_ (hhead [])
      · rw [present_attempts_append, pa01]
        decide
      · intro hx
        rw [gpu_results_append, g01] at hx
        exact absurd hx (List.not_mem_nil _)
    · rename_i hvk2
      split at h
      · exact Option.noConfusion h
      · rename_i vr c3 h3
        obtain ⟨na, ta, ga, paa, hla, hnega, hposa⟩ := present_iteration_acquire_trace _ _ _ _ h3
        have t03 := t01.followed_by ta
        have g03 : gpu_results ([Effect.present_iteration retry_counter] ++ n1 ++ na) = [vr] := by
          rw [gpu_results_append, g01, ga]
          rfl
        have pa03 : present_attempts ([Effect.present_iteration retry_counter] ++ n1 ++ na) = 0 := by
          rw [present_attempts_append, pa01, paa]
        split at h
        · rename_i hood
          simp only [Option.some.injEq, Prod.mk.injEq] at h
          obtain ⟨hc, hr⟩ := h
          subst hc hr
          refine finish _ t03 (by omega) ?_ (hhead na)
          intro hx
          rw [g03, hood] at hx
          exact absurd hx (by decide)
        · split at h
          · rename_i hsl
            simp only [Option.some.injEq, Prod.mk.injEq] at h
            obtain ⟨hc, hr⟩ := h
            subst hc hr
            have hnull := hnega (by rw [hsl]; decide)
            refine finish _ (t03.mark_lost hnull (by rw [g03, hsl]; exact List.mem_singleton.mpr rfl))
              (by omega) (fun _ => ⟨rfl, hnull⟩) (hhead na)
          · rename_i hsl
            have hnotlost : VK_ERROR_SURFACE_LOST_KHR ∉ [vr] := by
              intro hx
              exact hsl (List.mem_singleton.mp hx).symm
            split at h
            · simp only [Option.some.injEq, Prod.mk.injEq] at h
              obtain ⟨hc, hr⟩ := h
              subst hc hr
              refine finish _ t03 (by omega) ?_ (hhead na)
              intro hx
              rw [g03] at hx
              exact absurd hx hnotlost
            · rename_i hnonneg
              have hvk3 : c3.present.vk_swapchain ≠ VK_NULL_HANDLE := by
                rw [hposa hnonneg]
                exact hvk2
              split at h
              · exact Option.noConfusion h
              · rename_i c4 h4
                obtain ⟨nb, tb, gb, pab, _⟩ := submit_blit_trace _ _ _ _ h4
                simp only [Option.some.injEq, Prod.mk.injEq] at h
                obtain ⟨hc, hr⟩ := h
                subst hc hr
                refine finish _ (t03.followed_by tb) ?_ ?_ ?_
                · rw [present_attempts_append, pa03, pab]
                  decide
                · intro hx
                  rw [gpu_results_append, g03, gb] at hx
                  exact absurd hx hnotlost
                · intro hx
                  obtain ⟨rest, hrest⟩ := hhead na hx
                  exact ⟨rest ++ nb, by rw [hrest]; rfl⟩
              · rename_i c4 h4
                obtain ⟨nb, tb, gb, pab, hpb⟩ := submit_blit_trace _ _ _ _ h4
                have hvk4 : c4.present.vk_swapchain ≠ VK_NULL_HANDLE := by
                  rw [hpb]
                  exact hvk3
                split at h
                · exact Option.noConfusion h
                · rename_i vr2 c5 h5
                  obtain ⟨nq, tq, gq, paq, hlq, hnegq⟩ :=
                    present_iteration_queue_present_trace _ _ _ _ hvk4 h5
                  have t05 := (t03.followed_by tb).followed_by tq
                  have g05 : gpu_results
                      ([Effect.present_iteration retry_counter] ++ n1 ++ na ++ nb ++ nq) =
                      [vr, vr2] := by
                    rw [gpu_results_append, gpu_results_append, g03, gb, gq]
                    rfl
                  have pa05 : present_attempts
                      ([Effect.present_iteration retry_counter] ++ n1 ++ na ++ nb ++ nq) = 1 := by
                    rw [present_attempts_append, present_attempts_append, pa03, pab, paq]
                  have hhead5 : c.present.vk_swapchain = VK_NULL_HANDLE ∨
                      c.present.force_swapchain_recreation = true →
                      ∃ rest, [Effect.present_iteration retry_counter] ++ n1 ++ na ++ nb ++ nq =
                        Effect.present_iteration retry_counter ::
                          Effect.recreate_swapchain c.present.vk_swapchain :: rest := by
                    intro hx
                    obtain ⟨rest, hrest⟩ := hhead na hx
                    exact ⟨rest ++ nb ++ nq, by rw [hrest]; rfl⟩
                  split at h
                  · rename_i hood
                    simp only [Option.some.injEq, Prod.mk.injEq] at h
                    obtain ⟨hc, hr⟩ := h
                    subst hc hr
                    refine finish _ t05 (by omega) ?_ hhead5
                    intro hx
                    rw [g05, hood] at hx
                    rcases List.mem_cons.mp hx with hx | hx
                    · exact absurd hx.symm hsl
                    · exact absurd hx (by decide)
                  · split at h
                    · rename_i hsl2
                      simp only [Option.some.injEq, Prod.mk.injEq] at h
                      obtain ⟨hc, hr⟩ := h
                      subst hc hr
                      have hnull := hnegq (by rw [hsl2]; decide)
                      refine finish _
                        (t05.mark_lost hnull (by rw [g05, hsl2]; simp))
                        (by omega) (fun _ => ⟨rfl, hnull⟩) hhead5
                    · rename_i hsl2
                      simp only [Option.some.injEq, Prod.mk.injEq] at h
                      obtain ⟨hc, hr⟩ := h
                      subst hc hr
                      refine finish _ t05 (by omega) ?_ hhead5
                      intro hx
                      rw [g05] at hx
                      rcases List.mem_cons.mp hx with hx | hx
                      · exact absurd hx.symm hsl
                      · exact absurd (List.mem_singleton.mp hx).symm hsl2

theorem present_iteration_trace (device : d3d12_device) (gpu : Nat → present_env) :
    ∀ n r c c1, 3 - r = n →
      dxgi_vk_swap_chain_present_iteration device gpu c r = some c1 →
      ∃ new, IterationTrace c c1 new ∧
        (c.present.vk_swapchain = VK_NULL_HANDLE ∨
            c.present.force_swapchain_recreation = true →
          ∃ rest, new = Effect.present_iteration r ::
            Effect.recreate_swapchain c.present.vk_swapchain :: rest) := by
  intro n
  induction n with
  | zero =>
    intro r c c1 hn h
    rw [present_iteration_eq] at h
    split at h
    · exact Option.noConfusion h
    · rename_i c2 hlevel
      simp only [Option.some.injEq] at h
      subst h
      obtain ⟨new, t, _, hhead⟩ := present_iteration_level_trace _ _ _ _ _ _ hlevel
      exact ⟨new, t, hhead⟩
    · rename_i c2 hlevel
      rw [if_neg (by omega)] at h
      simp only [Option.some.injEq] at h
      subst h
      obtain ⟨new, t, _, hhead⟩ := present_iteration_level_trace _ _ _ _ _ _ hlevel
      exact ⟨new, t, hhead⟩
  | succ n ih =>
    intro r c c1 hn h
    rw [present_iteration_eq] at h
    split at h
    · exact Option.noConfusion h
    · rename_i c2 hlevel
      simp only [Option.some.injEq] at h
      subst h
      obtain ⟨new, t, _, hhead⟩ := present_iteration_level_trace _ _ _ _ _ _ hlevel
      exact ⟨new, t, hhead⟩
    · rename_i c2 hlevel
      rw [if_pos (by omega)] at h
      obtain ⟨new, t, _, hhead⟩ := present_iteration_level_trace _ _ _ _ _ _ hlevel
      obtain ⟨new2, t2, _⟩ := ih (r + 1) c2 c1 (by omega) h
      refine ⟨new ++ new2, t.and_then t2, ?_⟩
      intro hx
      obtain ⟨rest, hrest⟩ := hhead hx
      exact ⟨rest ++ new2, by rw [hrest]; rfl⟩

/-- A top-level present iteration: what it records, over at most 4 levels. -/
theorem present_iteration_trace_top (device : d3d12_device) (gpu : Nat → present_env)
    (c c1 : dxgi_vk_swap_chain)
    (h : dxgi_vk_swap_chain_present_iteration device gpu c 0 = some c1) :
    ∃ new, IterationTrace c c1 new ∧ (iteration_levels new).length ≤ 4 ∧
      (iteration_levels new).count 0 = 1 ∧
      (c.present.vk_swapchain = VK_NULL_HANDLE ∨
          c.present.force_swapchain_recreation = true →
        ∃ rest, new = Effect.present_iteration 0 ::
          Effect.recreate_swapchain c.present.vk_swapchain :: rest) := by
  obtain ⟨new, t, hhead⟩ := present_iteration_trace device gpu 3 0 c c1 rfl h
  obtain ⟨new0, rest0, k, f0, _, hl0, hk, hle, _⟩ :=
    present_iteration_spec device gpu 3 0 c c1 rfl h
  have hnew : new = new0 := effects_cancel t.trace.effects f0.effects
  refine ⟨new, t, ?_, ?_, hhead⟩
  · rw [hnew, hl0, List.length_range']
    have := hle (by omega)
    omega
  · rw [hnew, hl0]
    obtain ⟨k1, hk1⟩ : ∃ k1, k = k1 + 1 := ⟨k - 1, by omega⟩
    subst hk1
    rw [List.range'_succ, List.count_cons_self]
    have : List.count 0 (List.range' (0 + 1) k1) = 0 := by
      rw [List.count_eq_zero]
      intro hmem
      rw [List.mem_range'_1] at hmem
      omega
    omega

theorem present_callback_loop_trace (device : d3d12_device) (gpu : Nat → Nat → present_env) :
    ∀ n i c c1, present_callback_loop device gpu n i c = some c1 →
      ∃ new, IterationTrace c c1 new ∧ (iteration_levels new).length ≤ 4 * n ∧
        (iteration_levels new).count 0 = n ∧
        (1 ≤ n → c.present.vk_swapchain = VK_NULL_HANDLE ∨
            c.present.force_swapchain_recreation = true →
          ∃ rest, new = Effect.present_iteration 0 ::
            Effect.recreate_swapchain c.present.vk_swapchain :: rest) := by
  intro n
  induction n with
  | zero =>
    intro i c c1 h
    unfold present_callback_loop at h
    simp only [Option.some.injEq] at h
    subst h
    exact ⟨[], IterationTrace.no_iteration c, Nat.le_refl _, rfl,
      fun hx => absurd hx (by decide)⟩
  | succ n ih =>
    intro i c c1 h
    unfold present_callback_loop at h
    split at h
    · exact Option.noConfusion h
    · rename_i c2 h2
      obtain ⟨new, t, hlen, hcount, hhead⟩ := present_iteration_trace_top device (gpu i) c c2 h2
      obtain ⟨new2, t2, hlen2, hcount2, _⟩ := ih (i + 1) c2 c1 h
      refine ⟨new ++ new2, t.and_then t2, ?_, ?_, ?_⟩
      · rw [iteration_levels_append, List.length_append]
        omega
      · rw [iteration_levels_append, List.count_append, hcount, hcount2]
        omega
      · intro _ hx
        obtain ⟨rest, hrest⟩ := hhead hx
        exact ⟨rest ++ new2, by rw [hrest]; rfl⟩

/-- The effects of the start of the callback: at most one `set_hdr_metadata`. -/
theorem present_callback_begin_effects (device : d3d12_device) (c : dxgi_vk_swap_chain) :
    ∃ pre, (present_callback_begin device c).effects = c.effects ++ pre ∧
      (pre = [] ∨ pre = [Effect.set_hdr_metadata]) ∧
      (c.present.vk_swapchain = VK_NULL_HANDLE → pre = []) ∧
      (present_callback_begin device c).present.vk_swapchain = c.present.vk_swapchain ∧
      (present_callback_begin device c).present.is_surface_lost = c.present.is_surface_lost ∧
      (present_callback_begin device c).present.force_swapchain_recreation =
        (c.present.force_swapchain_recreation ||
          request_needs_swapchain_recreation
            (c.request_ring (ring_slot ((c.present.present_count + 1) % 2 ^ 32))) c.request) := by
  unfold present_callback_begin dxgi_vk_swap_chain_set_hdr_metadata
  dsimp only
  cases hneeds : request_needs_swapchain_recreation
      (c.request_ring (ring_slot ((c.present.present_count + 1) % 2 ^ 32))) c.request <;>
  cases hmod : (c.request_ring
      (ring_slot ((c.present.present_count + 1) % 2 ^ 32))).modifies_hdr_metadata <;>
  simp only [Bool.false_eq_true, if_false, if_true, Bool.or_false, Bool.or_true]
  · refine ⟨[], ?_, Or.inl rfl, fun _ => rfl, ?_, ?_, ?_⟩ <;>
      first | rfl | trivial | exact (List.append_nil _).symm
  · split
    · refine ⟨[], ?_, Or.inl rfl, fun _ => rfl, ?_, ?_, ?_⟩ <;>
      first | rfl | trivial | exact (List.append_nil _).symm
    · rename_i hcond
      refine ⟨[Effect.set_hdr_metadata], rfl, Or.inr rfl, ?_, rfl, rfl, rfl⟩
      intro hnull
      exact absurd (Or.inr (Or.inl hnull)) hcond
  · refine ⟨[], ?_, Or.inl rfl, fun _ => rfl, ?_, ?_, ?_⟩ <;>
      first | rfl | trivial | exact (List.append_nil _).symm
  · split
    · refine ⟨[], ?_, Or.inl rfl, fun _ => rfl, ?_, ?_, ?_⟩ <;>
      first | rfl | trivial | exact (List.append_nil _).symm
    · rename_i hcond
      refine ⟨[Effect.set_hdr_metadata], rfl, Or.inr rfl, ?_, rfl, rfl, rfl⟩
      intro hnull
      exact absurd (Or.inr (Or.inl hnull)) hcond

/-- One run of the present callback, split at the start and at the end of its loop. -/
theorem present_callback_trace (device : d3d12_device) (gpu : Nat → Nat → present_env)
    (set_event_hr : HRESULT) (c c1 : dxgi_vk_swap_chain)
    (h : dxgi_vk_swap_chain_present_callback device gpu set_event_hr c = some c1) :
    ∃ iter c2,
      present_callback_loop device gpu
        (max 1 (present_callback_begin device c).request.swap_interval) 0
        (present_callback_begin device c) = some c2 ∧
      c1 = present_callback_end set_event_hr ((c.present.present_count + 1) % 2 ^ 32) c2 ∧
      IterationTrace (present_callback_begin device c) c2 iter ∧
      (iteration_levels iter).length ≤
        4 * max 1 (present_callback_begin device c).request.swap_interval ∧
      (iteration_levels iter).count 0 =
        max 1 (present_callback_begin device c).request.swap_interval ∧
      ((present_callback_begin device c).present.vk_swapchain = VK_NULL_HANDLE ∨
          (present_callback_begin device c).present.force_swapchain_recreation = true →
        ∃ rest, iter = Effect.present_iteration 0 ::
          Effect.recreate_swapchain (present_callback_begin device c).present.vk_swapchain ::
            rest) := by
  rw [present_callback_eq] at h
  cases hloop : present_callback_loop device gpu
      (max 1 (present_callback_begin device c).request.swap_interval) 0
      (present_callback_begin device c) with
  | none =>
    rw [hloop] at h
    exact Option.noConfusion h
  | some c2 =>
    rw [hloop] at h
    simp only [Option.map_some', Option.some.injEq] at h
    obtain ⟨new, t, hlen, hcount, hhead⟩ := present_callback_loop_trace device gpu _ _ _ _ hloop
    exact ⟨new, c2, rfl, h.symm, t, hlen, hcount, hhead (le_max_left _ _)⟩

/-! ## Lemmas on one run of the present callback and its trace -/

theorem present_callback_end_present (set_event_hr : HRESULT) (next : Nat)
    (c : dxgi_vk_swap_chain) :
    (present_callback_end set_event_hr next c).present.present_id = c.present.present_id ∧
    (present_callback_end set_event_hr next c).present.present_id_valid =
      c.present.present_id_valid ∧
    (present_callback_end set_event_hr next c).present.vk_swapchain = c.present.vk_swapchain ∧
    (present_callback_end set_event_hr next c).present.is_surface_lost =
      c.present.is_surface_lost := by
  unfold present_callback_end dxgi_vk_swap_chain_signal_waitable_handle
    dxgi_vk_swap_chain_present_signal_blit_semaphore dxgi_vk_swap_chain_push_present_id
  dsimp only
  split <;> exact ⟨rfl, rfl, rfl, rfl⟩

/-- One run of the present callback: the effects `pre` of its start, the effects `iter`
of its iterations, which end in the state `c2`, then the two signals. -/
theorem present_callback_run (device : d3d12_device) (gpu : Nat → Nat → present_env)
    (set_event_hr : HRESULT) (c c1 : dxgi_vk_swap_chain)
    (h : dxgi_vk_swap_chain_present_callback device gpu set_event_hr c = some c1) :
    ∃ pre iter c2,
      (present_callback_loop device gpu
          (max 1 (c.request_ring
            (ring_slot ((c.present.present_count + 1) % 2 ^ 32))).swap_interval) 0
          (present_callback_begin device c) = some c2 ∧
        c1 = present_callback_end set_event_hr ((c.present.present_count + 1) % 2 ^ 32) c2) ∧
      (pre = [] ∨ pre = [Effect.set_hdr_metadata]) ∧
      (c.present.vk_swapchain = VK_NULL_HANDLE → pre = []) ∧
      IterationTrace (present_callback_begin device c) c2 iter ∧
      iter.all is_iteration_effect = true ∧
      (iteration_levels iter).length ≤
        4 * max 1 (c.request_ring
          (ring_slot ((c.present.present_count + 1) % 2 ^ 32))).swap_interval ∧
      (iteration_levels iter).count 0 =
        max 1 (c.request_ring (ring_slot ((c.present.present_count + 1) % 2 ^ 32))).swap_interval ∧
      (c.present.vk_swapchain = VK_NULL_HANDLE ∨
          (c.present.force_swapchain_recreation ||
            request_needs_swapchain_recreation
              (c.request_ring (ring_slot ((c.present.present_count + 1) % 2 ^ 32)))
              c.request) = true →
        ∃ rest, iter = Effect.present_iteration 0 ::
          Effect.recreate_swapchain c.present.vk_swapchain :: rest) ∧
      c1.effects = c.effects ++ pre ++ iter ++
        Effect.signal_blit_semaphore ((c.present.blit_count + 1) % 2 ^ 64) ::
          latency_signal_effects set_event_hr c2 ∧
      (c1.present.present_id = c2.present.present_id ∧
        c1.present.present_id_valid = c2.present.present_id_valid ∧
        c1.present.vk_swapchain = c2.present.vk_swapchain ∧
        c1.present.is_surface_lost = c2.present.is_surface_lost) ∧
      ((present_callback_begin device c).present.present_id = c.present.present_id ∧
        (present_callback_begin device c).present.present_id_valid = false ∧
        (present_callback_begin device c).present.vk_swapchain = c.present.vk_swapchain ∧
        (present_callback_begin device c).present.is_surface_lost =
          c.present.is_surface_lost ∧
        (present_callback_begin device c).request =
          c.request_ring (ring_slot ((c.present.present_count + 1) % 2 ^ 32))) ∧
      c2.present.frame_latency_count = c.present.frame_latency_count ∧
      c1.present.blit_count = (c.present.blit_count + 1) % 2 ^ 64 ∧
      c1.present.present_count = (c.present.present_count + 1) % 2 ^ 32 := by
  obtain ⟨iter, c2, hloop, hc1, t, hlen, hcount, hhead⟩ :=
    present_callback_trace device gpu set_event_hr c c1 h
  obtain ⟨pre, e0, hpre, hprenull, vk0, lost0, force0⟩ := present_callback_begin_effects device c
  obtain ⟨pre', e0', _, _, r0, _, _, _, b0, _, fl0, id0, v0⟩ :=
    present_callback_begin_spec device c
  obtain ⟨new, f, _⟩ := present_callback_loop_spec device gpu _ _ _ _ hloop
  have hnew : iter = new := effects_cancel t.trace.effects f.effects
  obtain ⟨e1, b1, p1, _, _, _⟩ := present_callback_end_spec set_event_hr
    ((c.present.present_count + 1) % 2 ^ 32) c2
  obtain ⟨i1, v1, s1, l1⟩ := present_callback_end_present set_event_hr
    ((c.present.present_count + 1) % 2 ^ 32) c2
  rw [← hc1] at e1 b1 p1 i1 v1 s1 l1
  rw [r0] at hlen hcount hloop
  refine ⟨pre, iter, c2, ⟨hloop, hc1⟩, hpre, hprenull, t, ?_, hlen, hcount, ?_, ?_,
    ⟨i1, v1, s1, l1⟩,
    ⟨id0, v0, vk0, lost0, r0⟩, ?_, ?_, p1⟩
  · rw [hnew]
    exact f.iteration_effects
  · intro hx
    rw [vk0, force0] at hhead
    exact hhead hx
  · rw [e1, t.trace.effects, e0, f.blit_count, b0]
  · rw [f.frame_latency_count, fl0]
  · rw [b1, f.blit_count, b0]

/-! ## Lemmas on the committed present ID -/

theorem present_id_valid_step_destroy (swap_interval : Nat) (valid : Bool) (e : Effect)
    (h : ∃ vk, e = Effect.destroy_swapchain vk) :
    present_id_valid_step swap_interval valid e = false := by
  obtain ⟨vk, hvk⟩ := h
  rw [hvk]
  rfl

theorem present_id_valid_step_true (swap_interval : Nat) (e : Effect)
    (h : ∀ vk, e ≠ Effect.destroy_swapchain vk) :
    present_id_valid_step swap_interval true e = true := by
  cases e with
  | destroy_swapchain vk => exact absurd rfl (h vk)
  | queue_present id vr =>
    cases id <;> rfl
  | _ => rfl

theorem present_id_valid_step_false (swap_interval : Nat) (e : Effect)
    (h : present_id_valid_step swap_interval false e = true) :
    ∃ id vr, e = Effect.queue_present (some id) vr ∧ 0 ≤ vr ∧ 1 ≤ swap_interval := by
  cases e with
  | queue_present id vr =>
    cases id with
    | none => exact absurd h (by simp [present_id_valid_step])
    | some id =>
      refine ⟨id, vr, rfl, ?_⟩
      have h1 : (decide (0 ≤ vr) && decide (1 ≤ swap_interval)) = true := by
        simpa [present_id_valid_step] using h
      rw [Bool.and_eq_true, decide_eq_true_eq, decide_eq_true_eq] at h1
      exact h1
  | _ => exact absurd h (by simp [present_id_valid_step])

/-- `present_id_valid` replayed from false is true exactly when a present ID was
committed. -/
theorem present_id_valid_replay_iff (swap_interval : Nat) (l : List Effect) :
    present_id_valid_replay swap_interval false l = true ↔
      present_id_committed swap_interval l := by
  induction l using List.reverseRecOn with
  | nil =>
    constructor
    · intro h
      exact absurd h (by simp [present_id_valid_replay])
    · rintro ⟨_, l1, id, vr, l2, hl, _⟩
      exact absurd hl (by simp)
  | append_singleton l e ih =>
    have hstep : present_id_valid_replay swap_interval false (l ++ [e]) =
        present_id_valid_step swap_interval (present_id_valid_replay swap_interval false l) e := by
      rw [present_id_valid_replay_append]
      rfl
    rw [hstep]
    constructor
    · intro h
      cases hprev : present_id_valid_replay swap_interval false l
      · rw [hprev] at h
        obtain ⟨id, vr, he, hvr, hs⟩ := present_id_valid_step_false swap_interval e h
        exact ⟨hs, l, id, vr, [], by rw [he], hvr, fun _ hx => absurd hx (List.not_mem_nil _)⟩
      · obtain ⟨hs, l1, id, vr, l2, hl, hvr, hno⟩ := ih.mp hprev
        have hne : ∀ vk, e ≠ Effect.destroy_swapchain vk := by
          intro vk he
          rw [hprev, present_id_valid_step_destroy swap_interval true e ⟨vk, he⟩] at h
          exact absurd h (by decide)
        refine ⟨hs, l1, id, vr, l2 ++ [e], by rw [hl]; simp, hvr, ?_⟩
        intro vk hx
        rcases List.mem_append.mp hx with hx | hx
        · exact hno vk hx
        · exact hne vk (List.mem_singleton.mp hx).symm
    · rintro ⟨hs, l1, id, vr, l2, hl, hvr, hno⟩
      rcases List.eq_nil_or_concat l2 with h2 | ⟨l2', x, h2⟩
      · subst h2
        have hl' : l ++ [e] = l1 ++ [Effect.queue_present (some id) vr] := hl
        obtain ⟨_, he⟩ := List.append_inj' hl' rfl
        have he1 : e = Effect.queue_present (some id) vr := (List.cons.inj he).1
        rw [he1]
        show (present_id_valid_replay swap_interval false l ||
          (decide (0 ≤ vr) && decide (1 ≤ swap_interval))) = true
        simp [hvr, hs]
      · subst h2
        have hl' : l ++ [e] = (l1 ++ Effect.queue_present (some id) vr :: l2') ++ [x] := by
          rw [hl]
          simp
        obtain ⟨hl1, he⟩ := List.append_inj' hl' rfl
        have hex : e = x := (List.cons.inj he).1
        have hprev : present_id_valid_replay swap_interval false l = true := by
          apply ih.mpr
          refine ⟨hs, l1, id, vr, l2', hl1, hvr, ?_⟩
          intro vk hx
          exact hno vk (by simp [hx])
        rw [hprev]
        apply present_id_valid_step_true
        intro vk he2
        apply hno vk
        rw [← he2, hex]
        simp

/-! ## C24: the choice of the latency path -/

theorem example_double_run :
    dxgi_vk_swap_chain_present_callback example_device example_double_gpu S_OK
      example_double_chain = some (present_callback_end S_OK 1 example_double_second) := by
  have h1 : present_iteration_level example_device (example_double_gpu 0 0)
      (present_callback_begin example_device example_double_chain) 0 =
      some (example_double_first, false) := rfl
  have h2 : present_iteration_level example_device (example_double_gpu 1 0)
      example_double_first 0 = some (example_double_second, false) := rfl
  have hn : max 1 (present_callback_begin example_device
      example_double_chain).request.swap_interval = 2 := by decide
  rw [present_callback_eq, hn]
  unfold present_callback_loop
  rw [present_iteration_eq, h1]
  dsimp only
  unfold present_callback_loop
  rw [present_iteration_eq, h2]
  dsimp only
  unfold present_callback_loop
  rfl

/-- C24, as stated, fails: the example swapchain with the waiter thread active runs
the callback of a request with swap interval 2. The first iteration
attaches the present ID 1 to a present that returns `VK_SUCCESS`; the second one
loses the surface at the acquire and destroys the swapchain. The callback then
takes the fence path: it signals the latency fence and pushes no present ID. -/
theorem latency_path_forgets_present_before_destruction :
    dxgi_vk_swap_chain_present_callback example_device example_double_gpu S_OK
      example_double_chain = some (present_callback_end S_OK 1 example_double_second) ∧
    (example_double_chain.request_ring (ring_slot 1)).swap_interval = 2 ∧
    effects_since example_double_chain (present_callback_end S_OK 1 example_double_second) =
      [Effect.present_iteration 0, Effect.acquire_next_image VK_SUCCESS,
        Effect.wait_acquire_fence, Effect.submit_blit VK_SUCCESS,
        Effect.queue_present (some 1) VK_SUCCESS,
        Effect.present_iteration 0, Effect.acquire_next_image VK_ERROR_SURFACE_LOST_KHR,
        Effect.queue_wait_idle, Effect.drain_waiter, Effect.destroy_swapchain 500,
        Effect.signal_blit_semaphore 1,
        Effect.signal_inline 1, Effect.set_event_on_completion 1 S_OK] ∧
    (present_callback_end S_OK 1 example_double_second).wait_queue = [] := by
  refine ⟨example_double_run, by decide, by decide, by decide⟩


theorem present_callback_end_latency (set_event_hr : HRESULT) (next : Nat)
    (c : dxgi_vk_swap_chain) :
    (c.present.present_id_valid = true →
      latency_signal_effects set_event_hr c = [Effect.push_present_id c.present.present_id]) ∧
    (c.present.present_id_valid = false →
      latency_signal_effects set_event_hr c =
        Effect.signal_inline
          (present_callback_end set_event_hr next c).present.frame_latency_count ::
        Effect.set_event_on_completion
          (present_callback_end set_event_hr next c).present.frame_latency_count set_event_hr ::
        (if FAILED set_event_hr then [Effect.release_semaphore 1] else [])) ∧
    (c.present.present_id_valid = false →
      (present_callback_end set_event_hr next c).present.frame_latency_count =
        (c.present.frame_latency_count + 1) % 2 ^ 64) := by
  unfold latency_signal_effects present_callback_end dxgi_vk_swap_chain_signal_waitable_handle
    dxgi_vk_swap_chain_present_signal_blit_semaphore dxgi_vk_swap_chain_push_present_id
  dsimp only
  refine ⟨?_, ?_, ?_⟩
  · intro hv
    rw [if_pos hv]
  · intro hv
    rw [hv]
    rfl
  · intro hv
    rw [hv]
    rfl

/-- C24, amended. Every run of the present callback that returns records, after the
effects `iter` of its `max(1, swap_interval)` iterations and the signal of the
blit timeline, either one push of a present ID onto the waiter queue or one signal
of the latency fence with the registration of its completion event. It pushes
exactly when `swap_interval >= 1` and some iteration attached a present ID to a
present that returned a non-negative result and no swapchain was destroyed after
that present; otherwise it takes the fence path. A request with
`swap_interval = 0` always takes the fence path. The run returns whenever the
waiter thread can empty its queue and the back buffer of the request exists. -/
theorem present_callback_latency_path (device : d3d12_device) (gpu : Nat → Nat → present_env)
    (set_event_hr : HRESULT) (chain : dxgi_vk_swap_chain) :
    (∀ chain1, dxgi_vk_swap_chain_present_callback device gpu set_event_hr chain = some chain1 →
      ∃ pre iter latency,
        chain1.effects = chain.effects ++ pre ++ iter ++
          Effect.signal_blit_semaphore chain1.present.blit_count :: latency ∧
        (pre = [] ∨ pre = [Effect.set_hdr_metadata]) ∧
        iter.all is_iteration_effect = true ∧
        (iteration_levels iter).count 0 =
          max 1 (chain.request_ring
            (ring_slot ((chain.present.present_count + 1) % 2 ^ 32))).swap_interval ∧
        (present_id_committed
            (chain.request_ring
              (ring_slot ((chain.present.present_count + 1) % 2 ^ 32))).swap_interval iter →
          latency = [Effect.push_present_id chain1.present.present_id]) ∧
        (¬ present_id_committed
            (chain.request_ring
              (ring_slot ((chain.present.present_count + 1) % 2 ^ 32))).swap_interval iter →
          latency =
            Effect.signal_inline chain1.present.frame_latency_count ::
            Effect.set_event_on_completion chain1.present.frame_latency_count set_event_hr ::
            (if FAILED set_event_hr then [Effect.release_semaphore 1] else [])) ∧
        ((chain.request_ring
            (ring_slot ((chain.present.present_count + 1) % 2 ^ 32))).swap_interval = 0 →
          pushed_present_ids latency = [])) ∧
    (waiter_can_drain chain →
      (user_backbuffer chain (chain.request_ring
        (ring_slot ((chain.present.present_count + 1) % 2 ^ 32))).user_index).isSome = true →
      ∃ chain1,
        dxgi_vk_swap_chain_present_callback device gpu set_event_hr chain = some chain1) := by
  refine ⟨?_, present_callback_total device gpu set_event_hr chain⟩
  intro chain1 h
  obtain ⟨pre, iter, c2, ⟨_, hc1⟩, hpre, _, t, hall, _, hcount, _, he, ⟨i1, _, _, _⟩,
    ⟨_, v0, _, _, r0⟩, _, b1, _⟩ := present_callback_run device gpu set_event_hr chain chain1 h
  have hvalid : c2.present.present_id_valid = true ↔
      present_id_committed
        (chain.request_ring
          (ring_slot ((chain.present.present_count + 1) % 2 ^ 32))).swap_interval iter := by
    rw [t.trace.valid, v0, r0]
    exact present_id_valid_replay_iff _ _
  obtain ⟨hpush, hfence, _⟩ := present_callback_end_latency set_event_hr
    ((chain.present.present_count + 1) % 2 ^ 32) c2
  rw [← hc1] at hfence
  have hnot : ¬ present_id_committed
      (chain.request_ring
        (ring_slot ((chain.present.present_count + 1) % 2 ^ 32))).swap_interval iter →
      c2.present.present_id_valid = false := by
    intro hn
    cases hv : c2.present.present_id_valid
    · rfl
    · exact absurd (hvalid.mp hv) hn
  refine ⟨pre, iter, latency_signal_effects set_event_hr c2, ?_, hpre, hall, hcount, ?_, ?_, ?_⟩
  · rw [he, b1]
  · intro hcom
    rw [hpush (hvalid.mpr hcom), i1]
  · intro hn
    exact hfence (hnot hn)
  · intro h0
    have hn : ¬ present_id_committed
        (chain.request_ring
          (ring_slot ((chain.present.present_count + 1) % 2 ^ 32))).swap_interval iter := by
      rintro ⟨h1, _⟩
      omega
    rw [hfence (hnot hn)]
    cases FAILED set_event_hr <;> rfl

/-- Witness of C24, amended: the callback of the example request with swap interval 2,
on a GPU where every call succeeds, returns and records what the theorem says. -/
theorem present_callback_latency_path_witness :
    ∃ chain1 pre iter latency,
      dxgi_vk_swap_chain_present_callback example_device (fun _ _ => example_present_env) S_OK
        example_double_chain = some chain1 ∧
      chain1.effects = example_double_chain.effects ++ pre ++ iter ++
        Effect.signal_blit_semaphore chain1.present.blit_count :: latency ∧
      (iteration_levels iter).count 0 = 2 :=
  have h := present_callback_latency_path example_device (fun _ _ => example_present_env)
    S_OK example_double_chain
  (h.2 (fun _ id hid => absurd hid (List.not_mem_nil _)) (by decide)).elim fun chain1 h1 =>
    (h.1 chain1 h1).elim fun pre h2 =>
      h2.elim fun iter h3 =>
        h3.elim fun latency h4 => ⟨chain1, pre, iter, latency, h1, h4.1, h4.2.2.2.1⟩

/-! ## C29: the present IDs of one swapchain -/

/-- C29. As long as the 64-bit present ID counter does not wrap, and from a state in
which the counter is 0 when no swapchain exists (as in the zeroed initial state):
every level of `present_iteration` and every run of the present callback that
returns leaves a state in which again the counter is 0 when no swapchain exists
and in which `present_id_valid` implies `present_id >= 1`. Over the effects
recorded, every present ID attached to a present is the counter plus one, the
counter goes back to 0 only at a swapchain destruction, and every call of
`vkCreateSwapchainKHR` finds it at 0: the IDs attached on one swapchain are
1, 2, 3, ... in this order. So every present ID the callback pushes onto the
waiter queue is at least 1, never the sentinel 0. -/
theorem present_ids_count_from_one (device : d3d12_device) :
    (∀ (env : present_env) (chain chain1 : dxgi_vk_swap_chain) (retry_counter : Nat)
        (retry : Bool),
      (chain.present.vk_swapchain = VK_NULL_HANDLE → chain.present.present_id = 0) →
      (chain.present.present_id_valid = true → 1 ≤ chain.present.present_id) →
      chain.present.present_id + 1 < 2 ^ 64 →
      present_iteration_level device env chain retry_counter = some (chain1, retry) →
      (chain1.present.vk_swapchain = VK_NULL_HANDLE → chain1.present.present_id = 0) ∧
      (chain1.present.present_id_valid = true → 1 ≤ chain1.present.present_id) ∧
      ∃ new, chain1.effects = chain.effects ++ new ∧
        present_ids_scan chain.present.present_id new = some chain1.present.present_id) ∧
    (∀ (gpu : Nat → Nat → present_env) (set_event_hr : HRESULT)
        (chain chain1 : dxgi_vk_swap_chain),
      (chain.present.vk_swapchain = VK_NULL_HANDLE → chain.present.present_id = 0) →
      chain.present.present_id + 4 * max 1 (chain.request_ring
        (ring_slot ((chain.present.present_count + 1) % 2 ^ 32))).swap_interval < 2 ^ 64 →
      dxgi_vk_swap_chain_present_callback device gpu set_event_hr chain = some chain1 →
      (chain1.present.vk_swapchain = VK_NULL_HANDLE → chain1.present.present_id = 0) ∧
      (chain1.present.present_id_valid = true → 1 ≤ chain1.present.present_id) ∧
      ∃ pre iter latency,
        chain1.effects = chain.effects ++ pre ++ iter ++
          Effect.signal_blit_semaphore chain1.present.blit_count :: latency ∧
        (pre = [] ∨ pre = [Effect.set_hdr_metadata]) ∧
        iter.all is_iteration_effect = true ∧
        present_ids_scan chain.present.present_id iter = some chain1.present.present_id ∧
        ∀ id, id ∈ pushed_present_ids (pre ++ iter ++
            Effect.signal_blit_semaphore chain1.present.blit_count :: latency) →
          1 ≤ id ∧ id = chain1.present.present_id) := by
  constructor
  · intro env chain chain1 retry_counter retry hno_id hvalid hwrap h
    obtain ⟨new, t, hlev, _⟩ := present_iteration_level_trace device env chain chain1
      retry_counter retry h
    have hpa : present_attempts new ≤ 1 := by
      have := t.presents
      rw [hlev] at this
      exact this
    have hb := present_iteration_level_id device env chain chain1 retry_counter retry
      chain.present.present_id
      ⟨fun hv => by have := hvalid hv; omega, Nat.le_refl _⟩ hwrap h
    refine ⟨t.trace.no_id hno_id, ?_, new, t.trace.effects, t.trace.ids hno_id (by omega)⟩
    intro hv
    have := hb.1 hv
    omega
  · intro gpu set_event_hr chain chain1 hno_id hwrap h
    obtain ⟨pre, iter, c2, ⟨hloop, _⟩, hpre, _, t, hall, hlen, _, _, he, ⟨i1, v1, s1, _⟩,
      ⟨id0, v0, vk0, _, r0⟩, _, b1, _⟩ :=
      present_callback_run device gpu set_event_hr chain chain1 h
    have hno_id0 : (present_callback_begin device chain).present.vk_swapchain = VK_NULL_HANDLE →
        (present_callback_begin device chain).present.present_id = 0 := by
      rw [vk0, id0]
      exact hno_id
    have hpa : present_attempts iter ≤ 4 * max 1 (chain.request_ring
        (ring_slot ((chain.present.present_count + 1) % 2 ^ 32))).swap_interval :=
      le_trans t.presents hlen
    have hJ0 : present_id_bound (present_callback_begin device chain)
        chain.present.present_id :=
      ⟨fun hv => by rw [v0] at hv; exact Bool.noConfusion hv, le_of_eq id0⟩
    have hb := present_callback_loop_id device gpu _ _ _ c2 _ hJ0 hwrap hloop
    have hval : chain1.present.present_id_valid = true → 1 ≤ chain1.present.present_id := by
      intro hv
      rw [v1] at hv
      rw [i1]
      have := hb.1 hv
      omega
    refine ⟨?_, hval, pre, iter, latency_signal_effects set_event_hr c2, ?_, hpre, hall, ?_, ?_⟩
    · rw [s1, i1]
      exact t.trace.no_id hno_id0
    · rw [he, b1]
    · rw [i1, ← id0]
      exact t.trace.ids hno_id0 (by rw [id0]; omega)
    · intro id hid
      have hpre0 : pushed_present_ids pre = [] := by
        rcases hpre with hp | hp <;> rw [hp] <;> rfl
      rw [pushed_present_ids_append, pushed_present_ids_append, hpre0,
        iteration_effects_pushed iter hall] at hid
      have hid2 : id ∈ pushed_present_ids (latency_signal_effects set_event_hr c2) := by
        simpa [pushed_present_ids] using hid
      rcases latency_signal_effects_cases set_event_hr c2 with ⟨hv, hp, _⟩ | ⟨_, _, hp, _⟩ |
        ⟨_, _, hp, _⟩
      · rw [hp] at hid2
        have hidc : id = c2.present.present_id := List.mem_singleton.mp hid2
        rw [hidc, ← i1]
        exact ⟨hval (by rw [v1]; exact hv), rfl⟩
      · rw [hp] at hid2
        exact absurd hid2 (List.not_mem_nil _)
      · rw [hp] at hid2
        exact absurd hid2 (List.not_mem_nil _)

/-- Witness of C29: the callback of the example request with swap interval 2, on a GPU
where every call succeeds, starts with the swapchain 500 and the counter 0. -/
theorem present_ids_count_from_one_witness :
    ∃ chain1,
      dxgi_vk_swap_chain_present_callback example_device (fun _ _ => example_present_env) S_OK
        example_double_chain = some chain1 ∧
      (chain1.present.vk_swapchain = VK_NULL_HANDLE → chain1.present.present_id = 0) ∧
      (chain1.present.present_id_valid = true → 1 ≤ chain1.present.present_id) :=
  (present_callback_total example_device (fun _ _ => example_present_env) S_OK
    example_double_chain (fun _ id hid => absurd hid (List.not_mem_nil _)) (by decide)).elim
    fun chain1 h1 =>
      have h := (present_ids_count_from_one example_device).2 (fun _ _ => example_present_env)
        S_OK example_double_chain chain1 (fun hx => absurd hx (by decide)) (by decide) h1
      ⟨chain1, h1, h.1, h.2.1⟩

/-! ## C21: a lost surface -/

theorem quiet_level (device : d3d12_device) (env : present_env) (c : dxgi_vk_swap_chain)
    (retry_counter : Nat) (hlost : c.present.is_surface_lost = true)
    (hnull : c.present.vk_swapchain = VK_NULL_HANDLE) :
    present_iteration_level device env c retry_counter =
      some ({ c with effects := c.effects ++
        [Effect.present_iteration retry_counter, Effect.recreate_swapchain VK_NULL_HANDLE] },
        false) := by
  simp [present_iteration_level, dxgi_vk_swap_chain_present_recreate_swapchain_if_required,
    dxgi_vk_swap_chain_recreate_swapchain_in_present_task,
    dxgi_vk_swap_chain_destroy_swapchain_in_present_task, hnull, hlost]

theorem quiet_loop (device : d3d12_device) (gpu : Nat → Nat → present_env) :
    ∀ n i c, c.present.is_surface_lost = true → c.present.vk_swapchain = VK_NULL_HANDLE →
      present_callback_loop device gpu n i c =
        some { c with effects := c.effects ++ quiet_iterations n } := by
  intro n
  induction n with
  | zero =>
    intro i c _ _
    unfold present_callback_loop quiet_iterations
    rw [List.append_nil]
  | succ n ih =>
    intro i c hlost hnull
    unfold present_callback_loop
    rw [present_iteration_eq, quiet_level device (gpu i 0) c 0 hlost hnull]
    dsimp only
    rw [ih (i + 1) { c with effects := c.effects ++
      [Effect.present_iteration 0, Effect.recreate_swapchain VK_NULL_HANDLE] } hlost hnull]
    simp [quiet_iterations]

theorem quiet_iterations_no_work (n : Nat) :
    (quiet_iterations n).any is_gpu_work = false ∧ gpu_results (quiet_iterations n) = [] ∧
    (iteration_levels (quiet_iterations n)).count 0 = n := by
  induction n with
  | zero => exact ⟨rfl, rfl, rfl⟩
  | succ n ih =>
    obtain ⟨h1, h2, h3⟩ := ih
    refine ⟨?_, ?_, ?_⟩
    · unfold quiet_iterations
      rw [List.any_cons, List.any_cons, h1]
      rfl
    · unfold quiet_iterations
      show gpu_results ([Effect.present_iteration 0,
        Effect.recreate_swapchain VK_NULL_HANDLE] ++ quiet_iterations n) = []
      rw [gpu_results_append, h2]
      rfl
    · unfold quiet_iterations
      show (iteration_levels ([Effect.present_iteration 0,
        Effect.recreate_swapchain VK_NULL_HANDLE] ++ quiet_iterations n)).count 0 = n + 1
      rw [iteration_levels_append, List.count_append, h3]
      show List.count 0 [0] + n = n + 1
      rw [List.count_singleton_self]
      omega

theorem latency_signal_effects_results (set_event_hr : HRESULT) (c : dxgi_vk_swap_chain) :
    gpu_results (latency_signal_effects set_event_hr c) = [] := by
  unfold latency_signal_effects
  cases c.present.present_id_valid <;> cases FAILED set_event_hr <;> rfl

/-- C21. Every run of the present callback that returns leaves a lost surface lost;
when one of its acquires or presents returned `VK_ERROR_SURFACE_LOST_KHR`, it ends
with `is_surface_lost` set and without GPU swapchain; and it sets
`is_surface_lost` only then. On a lost surface without swapchain the callback
always returns, each of its `max(1, swap_interval)` iterations records only its
entry and a recreate attempt that ends at the lost check, so that no swapchain is
created, no image acquired, no blit submitted and nothing presented; the callback
still advances the blit timeline by one, signals the latency fence once with the
registration of its event, and publishes `present.present_count`; and the surface
is still lost and without swapchain afterwards. -/
theorem surface_loss_is_permanent_and_quiet (device : d3d12_device)
    (gpu : Nat → Nat → present_env) (set_event_hr : HRESULT) (chain : dxgi_vk_swap_chain) :
    (∀ chain1, dxgi_vk_swap_chain_present_callback device gpu set_event_hr chain = some chain1 →
      ∃ new, chain1.effects = chain.effects ++ new ∧
        (chain.present.is_surface_lost = true → chain1.present.is_surface_lost = true) ∧
        (VK_ERROR_SURFACE_LOST_KHR ∈ gpu_results new →
          chain1.present.is_surface_lost = true ∧
          chain1.present.vk_swapchain = VK_NULL_HANDLE) ∧
        (chain1.present.is_surface_lost = true →
          chain.present.is_surface_lost = true ∨
          VK_ERROR_SURFACE_LOST_KHR ∈ gpu_results new) ∧
        ((chain.present.is_surface_lost = true →
            chain.present.vk_swapchain = VK_NULL_HANDLE) →
          chain1.present.is_surface_lost = true →
          chain1.present.vk_swapchain = VK_NULL_HANDLE)) ∧
    (chain.present.is_surface_lost = true → chain.present.vk_swapchain = VK_NULL_HANDLE →
      ∃ chain1,
        dxgi_vk_swap_chain_present_callback device gpu set_event_hr chain = some chain1 ∧
        chain1.present.is_surface_lost = true ∧
        chain1.present.vk_swapchain = VK_NULL_HANDLE ∧
        chain1.effects = chain.effects ++
          quiet_iterations (max 1 (chain.request_ring
            (ring_slot ((chain.present.present_count + 1) % 2 ^ 32))).swap_interval) ++
          Effect.signal_blit_semaphore chain1.present.blit_count ::
          Effect.signal_inline chain1.present.frame_latency_count ::
          Effect.set_event_on_completion chain1.present.frame_latency_count set_event_hr ::
          (if FAILED set_event_hr then [Effect.release_semaphore 1] else []) ∧
        (quiet_iterations (max 1 (chain.request_ring
          (ring_slot ((chain.present.present_count + 1) % 2 ^ 32))).swap_interval)).any
          is_gpu_work = false ∧
        chain1.present.blit_count = (chain.present.blit_count + 1) % 2 ^ 64 ∧
        chain1.present.frame_latency_count =
          (chain.present.frame_latency_count + 1) % 2 ^ 64 ∧
        chain1.present.present_count = (chain.present.present_count + 1) % 2 ^ 32) := by
  constructor
  · intro chain1 h
    obtain ⟨pre, iter, c2, _, hpre, _, t, _, _, _, _, he, ⟨_, _, s1, l1⟩,
      ⟨_, _, vk0, lost0, _⟩, _, _, _⟩ :=
      present_callback_run device gpu set_event_hr chain chain1 h
    have hres : gpu_results (pre ++ iter ++
        Effect.signal_blit_semaphore ((chain.present.blit_count + 1) % 2 ^ 64) ::
          latency_signal_effects set_event_hr c2) = gpu_results iter := by
      have hpre0 : gpu_results pre = [] := by
        rcases hpre with hp | hp <;> rw [hp] <;> rfl
      have hcons : Effect.signal_blit_semaphore ((chain.present.blit_count + 1) % 2 ^ 64) ::
          latency_signal_effects set_event_hr c2 =
          [Effect.signal_blit_semaphore ((chain.present.blit_count + 1) % 2 ^ 64)] ++
          latency_signal_effects set_event_hr c2 := rfl
      rw [hcons, gpu_results_append, gpu_results_append, gpu_results_append, hpre0,
        latency_signal_effects_results]
      simp [gpu_results]
    refine ⟨_, by rw [he, List.append_assoc, List.append_assoc], ?_, ?_, ?_, ?_⟩
    · intro hl
      rw [l1]
      exact t.trace.lost_mono (by rw [lost0]; exact hl)
    · intro hx
      rw [List.append_assoc] at hres
      rw [hres] at hx
      rw [l1, s1]
      exact t.lost_if hx
    · intro hl
      rw [l1] at hl
      rw [List.append_assoc] at hres
      rw [hres]
      rcases t.trace.lost_only hl with hx | hx
      · exact Or.inl (by rw [← lost0]; exact hx)
      · exact Or.inr hx
    · intro hR hl
      rw [l1] at hl
      rw [s1]
      refine t.trace.lost_destroyed ?_ hl
      rw [lost0, vk0]
      exact hR
  · intro hlost hnull
    obtain ⟨pre, e0, _, hprenull, vk0, lost0, _⟩ := present_callback_begin_effects device chain
    obtain ⟨_, _, _, _, r0, _, _, _, b0, _, fl0, _, v0⟩ :=
      present_callback_begin_spec device chain
    have hloop := quiet_loop device gpu
      (max 1 (present_callback_begin device chain).request.swap_interval) 0
      (present_callback_begin device chain) (by rw [lost0]; exact hlost)
      (by rw [vk0]; exact hnull)
    have hrun : dxgi_vk_swap_chain_present_callback device gpu set_event_hr chain =
        some (present_callback_end set_event_hr ((chain.present.present_count + 1) % 2 ^ 32)
          { present_callback_begin device chain with
            effects := (present_callback_begin device chain).effects ++
              quiet_iterations
                (max 1 (present_callback_begin device chain).request.swap_interval) }) := by
      rw [present_callback_eq, hloop]
      rfl
    obtain ⟨e1, b1, p1, _, _, _⟩ := present_callback_end_spec set_event_hr
      ((chain.present.present_count + 1) % 2 ^ 32)
      { present_callback_begin device chain with
        effects := (present_callback_begin device chain).effects ++
          quiet_iterations (max 1 (present_callback_begin device chain).request.swap_interval) }
    obtain ⟨_, _, s1, l1⟩ := present_callback_end_present set_event_hr
      ((chain.present.present_count + 1) % 2 ^ 32)
      { present_callback_begin device chain with
        effects := (present_callback_begin device chain).effects ++
          quiet_iterations (max 1 (present_callback_begin device chain).request.swap_interval) }
    obtain ⟨_, hfence, hflc⟩ := present_callback_end_latency set_event_hr
      ((chain.present.present_count + 1) % 2 ^ 32)
      { present_callback_begin device chain with
        effects := (present_callback_begin device chain).effects ++
          quiet_iterations (max 1 (present_callback_begin device chain).request.swap_interval) }
    refine ⟨_, hrun, ?_, ?_, ?_, ?_, ?_, ?_, p1⟩
    · rw [l1]
      exact lost0.trans hlost
    · rw [s1]
      exact vk0.trans hnull
    · rw [e1, b1, hfence v0]
      show (present_callback_begin device chain).effects ++ _ ++ _ = _
      rw [e0, hprenull hnull, List.append_nil, r0]
    · rw [← r0]
      exact (quiet_iterations_no_work _).1
    · rw [b1]
      show ((present_callback_begin device chain).present.blit_count + 1) % 2 ^ 64 = _
      rw [b0]
    · rw [hflc v0]
      show ((present_callback_begin device chain).present.frame_latency_count + 1) % 2 ^ 64 = _
      rw [fl0]

/-- Witness of C21: the callback of the example swapchain on a lost surface. -/
theorem surface_loss_is_permanent_and_quiet_witness :
    ∃ chain1,
      dxgi_vk_swap_chain_present_callback example_device (fun _ _ => example_present_env) S_OK
        (example_lost_chain 0) = some chain1 ∧
      chain1.present.is_surface_lost = true ∧
      chain1.present.vk_swapchain = VK_NULL_HANDLE ∧
      chain1.present.blit_count = 1 ∧ chain1.present.present_count = 1 :=
  ((surface_loss_is_permanent_and_quiet example_device (fun _ _ => example_present_env) S_OK
    (example_lost_chain 0)).2 rfl rfl).elim fun chain1 h =>
    ⟨chain1, h.1, h.2.1, h.2.2.1, h.2.2.2.2.2.1, h.2.2.2.2.2.2.2⟩

/-! ## C23: the iterations of one request -/

theorem latency_signal_effects_levels (set_event_hr : HRESULT) (c : dxgi_vk_swap_chain) :
    iteration_levels (latency_signal_effects set_event_hr c) = [] := by
  unfold latency_signal_effects
  cases c.present.present_id_valid <;> cases FAILED set_event_hr <;> rfl

/-- What one run of the callback records around its iterations. -/
theorem present_callback_iterations (device : d3d12_device) (gpu : Nat → Nat → present_env)
    (set_event_hr : HRESULT) (c c1 : dxgi_vk_swap_chain)
    (h : dxgi_vk_swap_chain_present_callback device gpu set_event_hr c = some c1) :
    ∃ pre iter latency,
      c1.effects = c.effects ++ pre ++ iter ++
        Effect.signal_blit_semaphore c1.present.blit_count :: latency ∧
      (pre = [] ∨ pre = [Effect.set_hdr_metadata]) ∧
      iter.all is_iteration_effect = true ∧
      (iteration_levels iter).count 0 =
        max 1 (c.request_ring (ring_slot ((c.present.present_count + 1) % 2 ^ 32))).swap_interval ∧
      iteration_levels pre = [] ∧ blit_signals (pre ++ iter) = [] ∧
      iteration_levels latency = [] ∧ blit_signals latency = [] ∧
      c1.present.blit_count = (c.present.blit_count + 1) % 2 ^ 64 ∧
      (c.present.vk_swapchain = VK_NULL_HANDLE ∨
          (c.present.force_swapchain_recreation ||
            request_needs_swapchain_recreation
              (c.request_ring (ring_slot ((c.present.present_count + 1) % 2 ^ 32)))
              c.request) = true →
        ∃ rest, iter = Effect.present_iteration 0 ::
          Effect.recreate_swapchain c.present.vk_swapchain :: rest) := by
  obtain ⟨pre, iter, c2, _, hpre, _, _, hall, _, hcount, hhead, he, _, _, _, b1, _⟩ :=
    present_callback_run device gpu set_event_hr c c1 h
  refine ⟨pre, iter, latency_signal_effects set_event_hr c2, by rw [he, b1], hpre, hall, hcount,
    ?_, ?_, latency_signal_effects_levels _ _, latency_signal_effects_blit _ _, b1, hhead⟩
  · rcases hpre with hp | hp <;> rw [hp] <;> rfl
  · rw [blit_signals_append, iteration_effects_blit_signals iter hall]
    rcases hpre with hp | hp <;> rw [hp] <;> rfl

/-- C23. Every run of the present callback that returns has entered `present_iteration`
at the top level exactly `max(1, swap_interval)` times for the request it
processes: `swap_interval` times when that is at least 1, once when it is 0. Its
only signal of the blit timeline comes after the effects of all these iterations,
and raises `present.blit_count` by one. So when the next request of the ring has
swap interval 2 and the one after it swap interval 0, two consecutive runs enter
two iterations, then one; the second run starts its iteration with a recreate
attempt, forced by the change of the swap interval class; and the two runs raise
the blit timeline by exactly 2 in total. -/
theorem callback_runs_swap_interval_iterations (device : d3d12_device)
    (gpu : Nat → Nat → present_env) (set_event_hr : HRESULT) (chain : dxgi_vk_swap_chain) :
    (∀ chain1, dxgi_vk_swap_chain_present_callback device gpu set_event_hr chain = some chain1 →
      ∃ pre iter latency,
        chain1.effects = chain.effects ++ pre ++ iter ++
          Effect.signal_blit_semaphore chain1.present.blit_count :: latency ∧
        (pre = [] ∨ pre = [Effect.set_hdr_metadata]) ∧
        iter.all is_iteration_effect = true ∧
        (iteration_levels iter).count 0 =
          max 1 (chain.request_ring
            (ring_slot ((chain.present.present_count + 1) % 2 ^ 32))).swap_interval ∧
        (1 ≤ (chain.request_ring
            (ring_slot ((chain.present.present_count + 1) % 2 ^ 32))).swap_interval →
          (iteration_levels iter).count 0 = (chain.request_ring
            (ring_slot ((chain.present.present_count + 1) % 2 ^ 32))).swap_interval) ∧
        ((chain.request_ring
            (ring_slot ((chain.present.present_count + 1) % 2 ^ 32))).swap_interval = 0 →
          (iteration_levels iter).count 0 = 1) ∧
        iteration_levels pre = [] ∧ blit_signals (pre ++ iter) = [] ∧
        iteration_levels latency = [] ∧ blit_signals latency = [] ∧
        chain1.present.blit_count = (chain.present.blit_count + 1) % 2 ^ 64) ∧
    (∀ (gpu2 : Nat → Nat → present_env) (set_event_hr2 : HRESULT)
        (chain1 chain2 : dxgi_vk_swap_chain),
      (chain.request_ring
        (ring_slot ((chain.present.present_count + 1) % 2 ^ 32))).swap_interval = 2 →
      (chain.request_ring
        (ring_slot (((chain.present.present_count + 1) % 2 ^ 32 + 1) % 2 ^ 32))).swap_interval
        = 0 →
      dxgi_vk_swap_chain_present_callback device gpu set_event_hr chain = some chain1 →
      dxgi_vk_swap_chain_present_callback device gpu2 set_event_hr2 chain1 = some chain2 →
      ∃ pre1 iter1 latency1 pre2 iter2 latency2,
        chain1.effects = chain.effects ++ pre1 ++ iter1 ++
          Effect.signal_blit_semaphore chain1.present.blit_count :: latency1 ∧
        chain2.effects = chain1.effects ++ pre2 ++ iter2 ++
          Effect.signal_blit_semaphore chain2.present.blit_count :: latency2 ∧
        (iteration_levels iter1).count 0 = 2 ∧ (iteration_levels iter2).count 0 = 1 ∧
        iteration_levels (pre1 ++ latency1 ++ pre2 ++ latency2) = [] ∧
        blit_signals (pre1 ++ iter1 ++ latency1 ++ pre2 ++ iter2 ++ latency2) = [] ∧
        request_needs_swapchain_recreation
          (chain1.request_ring (ring_slot ((chain1.present.present_count + 1) % 2 ^ 32)))
          chain1.request = true ∧
        (∃ rest, iter2 = Effect.present_iteration 0 ::
          Effect.recreate_swapchain chain1.present.vk_swapchain :: rest) ∧
        chain2.present.blit_count = (chain.present.blit_count + 2) % 2 ^ 64 ∧
        (chain.present.blit_count + 2 < 2 ^ 64 →
          chain2.present.blit_count = chain.present.blit_count + 2)) := by
  constructor
  · intro chain1 h
    obtain ⟨pre, iter, latency, he, hpre, hall, hcount, lp, bs, ll, bl, b1, _⟩ :=
      present_callback_iterations device gpu set_event_hr chain chain1 h
    refine ⟨pre, iter, latency, he, hpre, hall, hcount, ?_, ?_, lp, bs, ll, bl, b1⟩
    · intro h1
      rw [hcount]
      exact max_eq_right h1
    · intro h0
      rw [hcount, h0]
      rfl
  · intro gpu2 set_event_hr2 chain1 chain2 h2 h0 hrun1 hrun2
    obtain ⟨pre1, iter1, latency1, he1, _, hall1, hcount1, lp1, bs1, ll1, bl1, b1, _⟩ :=
      present_callback_iterations device gpu set_event_hr chain chain1 hrun1
    obtain ⟨pre2, iter2, latency2, he2, _, hall2, hcount2, lp2, bs2, ll2, bl2, b2, hhead2⟩ :=
      present_callback_iterations device gpu2 set_event_hr2 chain1 chain2 hrun2
    obtain ⟨_, _, _, hring, _, hpc, hreq, _⟩ :=
      present_callback_accounts device gpu set_event_hr chain chain1 hrun1
    have hswap2 : (chain1.request_ring
        (ring_slot ((chain1.present.present_count + 1) % 2 ^ 32))).swap_interval = 0 := by
      rw [hring, hpc]
      exact h0
    have hneeds : request_needs_swapchain_recreation
        (chain1.request_ring (ring_slot ((chain1.present.present_count + 1) % 2 ^ 32)))
        chain1.request = true := by
      unfold request_needs_swapchain_recreation
      rw [hswap2, hreq, h2]
      simp
    refine ⟨pre1, iter1, latency1, pre2, iter2, latency2, he1, he2, ?_, ?_, ?_, ?_, hneeds,
      ?_, ?_, ?_⟩
    · rw [hcount1, h2]
      rfl
    · rw [hcount2, hswap2]
      rfl
    · rw [iteration_levels_append, iteration_levels_append, iteration_levels_append, lp1, ll1,
        lp2, ll2]
      rfl
    · have a1 : blit_signals pre1 = [] ∧ blit_signals iter1 = [] := by
        rw [blit_signals_append] at bs1
        exact List.append_eq_nil.mp bs1
      have a2 : blit_signals pre2 = [] ∧ blit_signals iter2 = [] := by
        rw [blit_signals_append] at bs2
        exact List.append_eq_nil.mp bs2
      simp only [blit_signals_append, a1.1, a1.2, a2.1, a2.2, bl1, bl2, List.append_nil]
    · apply hhead2
      right
      rw [hneeds, Bool.or_true]
    · rw [b2, b1]
      omega
    · intro hlt
      rw [b2, b1]
      omega

/-- Witness of C23: the example swapchain with the requests of `Present(2, 0)` and
`Present(0, 0)` in the ring, on a GPU where every call succeeds. -/
theorem callback_runs_swap_interval_iterations_witness :
    ∃ chain1 chain2,
      dxgi_vk_swap_chain_present_callback example_device (fun _ _ => example_present_env) S_OK
        example_two_requests_chain = some chain1 ∧
      dxgi_vk_swap_chain_present_callback example_device (fun _ _ => example_present_env) S_OK
        chain1 = some chain2 ∧
      chain2.present.blit_count = 2 := by
  obtain ⟨chain1, h1⟩ := present_callback_total example_device (fun _ _ => example_present_env)
    S_OK example_two_requests_chain (fun ha => absurd ha (by decide)) (by decide)
  obtain ⟨hu, _, _, hring, hact, hpc, _, _⟩ :=
    present_callback_accounts example_device (fun _ _ => example_present_env) S_OK
      example_two_requests_chain chain1 h1
  obtain ⟨chain2, h2⟩ := present_callback_total example_device (fun _ _ => example_present_env)
    S_OK chain1
    (fun ha => by
      rw [hact] at ha
      exact absurd ha (by decide))
    (by
      rw [hring, hpc, user_backbuffer_congr chain1 example_two_requests_chain (by rw [hu])]
      decide)
  obtain ⟨_, _, _, _, _, _, _, _, _, _, _, _, _, _, _, hb⟩ :=
    (callback_runs_swap_interval_iterations example_device (fun _ _ => example_present_env) S_OK
      example_two_requests_chain).2 (fun _ _ => example_present_env) S_OK chain1 chain2
      (by decide) (by decide) h1 h2
  exact ⟨chain1, chain2, h1, h2, hb (by decide)⟩

/-! ## Lemmas on what the calls of the client keep -/

theorem effects_since_append (c c1 : dxgi_vk_swap_chain) (new : List Effect)
    (h : c1.effects = c.effects ++ new) : effects_since c c1 = new := by
  unfold effects_since
  rw [h, List.drop_left]

theorem reallocate_allocate_loop_user (env : alloc_env) :
    ∀ (slots : List (Fin DXGI_MAX_SWAP_CHAIN_BUFFERS)) (user : user_state) (effects : List Effect),
      (reallocate_allocate_loop env slots user effects).2.1.present_count = user.present_count := by
  intro slots
  induction slots with
  | nil =>
    intro user effects
    rfl
  | cons i rest ih =>
    intro user effects
    unfold reallocate_allocate_loop
    dsimp only
    split
    · rfl
    · split
      · rfl
      · rw [ih]

theorem reallocate_user_buffers_keeps (chain : dxgi_vk_swap_chain) (env : alloc_env) :
    ClientKeeps chain (dxgi_vk_swap_chain_reallocate_user_buffers chain env).2 := by
  unfold dxgi_vk_swap_chain_reallocate_user_buffers
  split
  · exact ⟨rfl, rfl, rfl, rfl, rfl⟩
  · dsimp only
    split
    · rename_i user1 effects1 hloop
      refine ⟨?_, rfl, rfl, rfl, rfl⟩
      have := reallocate_allocate_loop_user env
        ((List.finRange DXGI_MAX_SWAP_CHAIN_BUFFERS).filter
          (fun i => decide (i.val < chain.desc.BufferCount)))
        { chain.user with backbuffers := fun _ => none, vk_image_views := fun _ => VK_NULL_HANDLE }
        (chain.effects ++ (List.finRange DXGI_MAX_SWAP_CHAIN_BUFFERS).map
          (fun i => Effect.destroy_image_view (chain.user.vk_image_views i)))
      rw [hloop] at this
      exact this
    · rename_i hr user1 effects1 hloop
      refine ⟨?_, rfl, rfl, rfl, rfl⟩
      have := reallocate_allocate_loop_user env
        ((List.finRange DXGI_MAX_SWAP_CHAIN_BUFFERS).filter
          (fun i => decide (i.val < chain.desc.BufferCount)))
        { chain.user with backbuffers := fun _ => none, vk_image_views := fun _ => VK_NULL_HANDLE }
        (chain.effects ++ (List.finRange DXGI_MAX_SWAP_CHAIN_BUFFERS).map
          (fun i => Effect.destroy_image_view (chain.user.vk_image_views i)))
      rw [hloop] at this
      exact this

/-- `ChangeProperties` keeps the counters, the ring, the waiter queue and the frame
latency, whatever descriptor it is given. -/
theorem ChangeProperties_keeps (chain chain1 : dxgi_vk_swap_chain) (pDesc : DXGI_SWAP_CHAIN_DESC1)
    (env : alloc_env) (hr : HRESULT)
    (h : dxgi_vk_swap_chain_ChangeProperties chain pDesc env = some (hr, chain1)) :
    ClientKeeps chain chain1 := by
  unfold dxgi_vk_swap_chain_ChangeProperties at h
  split at h
  · exact Option.noConfusion h
  · simp only [Option.some.injEq, Prod.mk.injEq] at h
    rw [← h.2]
    exact ⟨rfl, rfl, rfl, rfl, rfl⟩
  · simp only at h
    have k := reallocate_user_buffers_keeps
      (dxgi_vk_swap_chain_drain_user_images { chain with desc := pDesc }) env
    split at h
    · simp only [Option.some.injEq, Prod.mk.injEq] at h
      rw [← h.2]
      exact ⟨rfl, rfl, rfl, rfl, rfl⟩
    · split at h
      · simp only [Option.some.injEq, Prod.mk.injEq] at h
        rw [← h.2]
        exact ⟨k.present_count, k.present, k.request_ring, k.wait_queue, k.frame_latency⟩
      · split at h
        · simp only [Option.some.injEq, Prod.mk.injEq] at h
          rw [← h.2]
          exact ⟨k.present_count, k.present, k.request_ring, k.wait_queue, k.frame_latency⟩
        · simp only [Option.some.injEq, Prod.mk.injEq] at h
          rw [← h.2]
          exact ⟨k.present_count, k.present, k.request_ring, k.wait_queue, k.frame_latency⟩

theorem GetImage_keeps
    (QueryInterface : d3d12_resource → Nat → Option Nat → HRESULT × Option Nat × d3d12_resource)
    (chain chain1 : dxgi_vk_swap_chain) (BufferId riid : Nat) (object object1 : Option Nat)
    (hr : HRESULT)
    (h : dxgi_vk_swap_chain_GetImage QueryInterface chain BufferId riid object =
      some (hr, object1, chain1)) :
    ClientKeeps chain chain1 ∧ chain1.desc = chain.desc := by
  unfold dxgi_vk_swap_chain_GetImage at h
  split at h
  · simp only [Option.some.injEq, Prod.mk.injEq] at h
    rw [← h.2.2]
    exact ⟨⟨rfl, rfl, rfl, rfl, rfl⟩, rfl⟩
  · split at h
    · split at h
      · exact Option.noConfusion h
      · simp only [Option.some.injEq, Prod.mk.injEq] at h
        rw [← h.2.2]
        exact ⟨⟨rfl, rfl, rfl, rfl, rfl⟩, rfl⟩
    · exact Option.noConfusion h

/-- `SetFrameLatency` leaves the frame latency or stores a value from 1 to 16. -/
theorem SetFrameLatency_latency (chain : dxgi_vk_swap_chain) (n : Nat) :
    (dxgi_vk_swap_chain_SetFrameLatency chain n).2.frame_latency = chain.frame_latency ∨
    (1 ≤ (dxgi_vk_swap_chain_SetFrameLatency chain n).2.frame_latency ∧
      (dxgi_vk_swap_chain_SetFrameLatency chain n).2.frame_latency ≤
        DXGI_MAX_SWAP_CHAIN_BUFFERS) := by
  unfold dxgi_vk_swap_chain_SetFrameLatency
  split
  · exact Or.inl rfl
  · rename_i hn
    split
    · exact Or.inl rfl
    · refine Or.inr ⟨?_, ?_⟩
      · show 1 ≤ n
        omega
      · show n ≤ DXGI_MAX_SWAP_CHAIN_BUFFERS
        omega

/-! ## Lemmas on the parts of the callback -/

/-- The end of the callback is its two signals followed by its store. -/
theorem present_callback_end_eq (set_event_hr : HRESULT) (next : Nat) (c : dxgi_vk_swap_chain) :
    present_callback_end set_event_hr next c =
      { present_callback_signals set_event_hr c with
        present := { (present_callback_signals set_event_hr c).present with
          present_count := next } } := rfl

theorem present_callback_signals_count (set_event_hr : HRESULT) (c : dxgi_vk_swap_chain) :
    (present_callback_signals set_event_hr c).present.present_count = c.present.present_count := by
  unfold present_callback_signals dxgi_vk_swap_chain_signal_waitable_handle
    dxgi_vk_swap_chain_present_signal_blit_semaphore dxgi_vk_swap_chain_push_present_id
  dsimp only
  split <;> rfl

theorem present_callback_signals_eq (set_event_hr : HRESULT) (c : dxgi_vk_swap_chain) :
    present_callback_signals set_event_hr c =
      present_callback_end set_event_hr c.present.present_count c := by
  rw [present_callback_end_eq, ← present_callback_signals_count set_event_hr c]

/-- The callback is its four parts, one after the other: the copy of the ring slot, the
present iterations, the two signals, the store. -/
theorem present_callback_eq_parts (device : d3d12_device) (gpu : Nat → Nat → present_env)
    (set_event_hr : HRESULT) (chain : dxgi_vk_swap_chain) :
    dxgi_vk_swap_chain_present_callback device gpu set_event_hr chain =
      (present_callback_loop device gpu
        (max 1 (present_callback_begin device chain).request.swap_interval) 0
        (present_callback_begin device chain)).map
        (fun c => present_callback_store (present_callback_signals set_event_hr c)) := by
  rw [present_callback_eq]
  cases hloop : present_callback_loop device gpu
      (max 1 (present_callback_begin device chain).request.swap_interval) 0
      (present_callback_begin device chain) with
  | none => rfl
  | some c2 =>
    obtain ⟨new, f, _⟩ := present_callback_loop_spec device gpu _ _ _ _ hloop
    obtain ⟨_, _, _, _, _, _, _, _, _, p0, _⟩ := present_callback_begin_spec device chain
    simp only [Option.map_some', Option.some.injEq]
    rw [present_callback_end_eq]
    unfold present_callback_store
    rw [present_callback_signals_count, f.present_count, p0]

/-- What the two signals of the callback keep and do to the units of the latency
semaphore: of the unit they release, the event they register and the present ID
they push to the waiter queue, there is exactly one. -/
theorem present_callback_signals_accounts (set_event_hr : HRESULT) (c : dxgi_vk_swap_chain) :
    (present_callback_signals set_event_hr c).user = c.user ∧
    (present_callback_signals set_event_hr c).desc = c.desc ∧
    (present_callback_signals set_event_hr c).frame_latency = c.frame_latency ∧
    (present_callback_signals set_event_hr c).request_ring = c.request_ring ∧
    (present_callback_signals set_event_hr c).request = c.request ∧
    (present_callback_signals set_event_hr c).wait_thread_active = c.wait_thread_active ∧
    (present_callback_signals set_event_hr c).present.present_count = c.present.present_count ∧
    waiter_releases (effects_since c (present_callback_signals set_event_hr c)) = 0 ∧
    released_units (effects_since c (present_callback_signals set_event_hr c)) +
      registered_latency_events (effects_since c (present_callback_signals set_event_hr c)) +
      (present_callback_signals set_event_hr c).wait_queue.length = c.wait_queue.length + 1 := by
  rw [present_callback_signals_eq]
  obtain ⟨e1, _, p1, u1, r1, q1⟩ := present_callback_end_spec set_event_hr
    c.present.present_count c
  obtain ⟨d1, f1, g1, a1⟩ := present_callback_end_keeps set_event_hr c.present.present_count c
  refine ⟨u1, d1, f1, g1, r1, a1, p1, ?_, ?_⟩
  · rw [effects_since_append _ _ _ e1]
    exact latency_signal_effects_waiter set_event_hr c
  · rw [effects_since_append _ _ _ e1, q1, List.length_append]
    have h1 : released_units (Effect.signal_blit_semaphore ((c.present.blit_count + 1) % 2 ^ 64) ::
        latency_signal_effects set_event_hr c) =
        released_units (latency_signal_effects set_event_hr c) := rfl
    have h3 : registered_latency_events
        (Effect.signal_blit_semaphore ((c.present.blit_count + 1) % 2 ^ 64) ::
        latency_signal_effects set_event_hr c) =
        registered_latency_events (latency_signal_effects set_event_hr c) := rfl
    rw [h1, h3]
    rcases latency_signal_effects_cases set_event_hr c with
      ⟨_, k1, k2, k3⟩ | ⟨_, _, k1, k2, k3⟩ | ⟨_, _, k1, k2, k3⟩ <;>
    · rw [k1, k2, k3]
      simp only [List.length_cons, List.length_nil]
      omega

/-- What the present iterations of the callback keep and do to the units of the latency
semaphore: they release none themselves and register no event, and every ID that
leaves the waiter queue is a unit released by the waiter thread. -/
theorem present_callback_loop_accounts (device : d3d12_device) (gpu : Nat → Nat → present_env)
    (n i : Nat) (c c1 : dxgi_vk_swap_chain)
    (h : present_callback_loop device gpu n i c = some c1) :
    c1.user = c.user ∧ c1.desc = c.desc ∧ c1.frame_latency = c.frame_latency ∧
    c1.request_ring = c.request_ring ∧ c1.request = c.request ∧
    c1.wait_thread_active = c.wait_thread_active ∧
    c1.present.present_count = c.present.present_count ∧
    released_units (effects_since c c1) = 0 ∧
    registered_latency_events (effects_since c c1) = 0 ∧
    waiter_releases (effects_since c c1) + c1.wait_queue.length = c.wait_queue.length := by
  obtain ⟨new, f, _⟩ := present_callback_loop_spec device gpu _ _ _ _ h
  rw [effects_since_append _ _ _ f.effects]
  exact ⟨f.user, f.desc, f.frame_latency, f.request_ring, f.request, f.wait_thread_active,
    f.present_count, iteration_effects_released _ f.iteration_effects,
    iteration_effects_registered _ f.iteration_effects, f.wait_queue⟩

/-! ## Lemmas on the counters of the threads -/

theorem counter_invariant_congr {s s1 : swapchain_threads} (h : counter_invariant s)
    (hst : s1.stamped = s.stamped) (hco : s1.copied = s.copied) (hw : s1.worker = s.worker)
    (hu : s1.chain.user.present_count = s.chain.user.present_count)
    (hp : s1.chain.present.present_count = s.chain.present.present_count)
    (hl : s1.chain.frame_latency = s.chain.frame_latency) : counter_invariant s1 := by
  constructor
  · rw [hu, hst]; exact h.user_count
  · rw [hp]
    unfold callbacks_stored
    rw [hco, hw]
    exact h.present_count
  · rw [hst, hco]; exact h.copied_le
  · rw [hw, hco]; exact h.running
  · rw [hl]; exact h.latency_pos
  · rw [hl]; exact h.latency_le

theorem callbacks_stored_le (s : swapchain_threads) : callbacks_stored s ≤ s.copied.length :=
  Nat.sub_le _ _

theorem callbacks_signalled_le (s : swapchain_threads) :
    callbacks_signalled s ≤ s.copied.length :=
  Nat.sub_le _ _

/-- A callback passes `signal_waitable_handle` before it stores `present.present_count`:
at most one callback has signalled and not stored. -/
theorem callbacks_stored_signalled (s : swapchain_threads) :
    callbacks_stored s ≤ callbacks_signalled s ∧
    callbacks_signalled s ≤ callbacks_stored s + 1 := by
  unfold callbacks_stored callbacks_signalled
  cases s.worker <;> simp only [unstored, unsignalled] <;> omega

/-- Every step of every thread keeps the counters in line with the history. -/
theorem counter_invariant_step (device : d3d12_device) (s s1 : swapchain_threads)
    (h : counter_invariant s) (hs : thread_step device s s1) : counter_invariant s1 := by
  cases hs with
  | present_returns caps S F hr chain1 _ hP =>
    obtain ⟨k, hu, _⟩ := Present_until_wait_returns _ _ _ _ _ _ hP
    exact counter_invariant_congr h rfl rfl rfl (by show chain1.user.present_count = _; rw [hu])
      k.present_count k.frame_latency
  | present_enqueues caps S F chain1 _ hP =>
    obtain ⟨k, hu, _⟩ := Present_until_wait_enqueues _ _ _ _ _ hP
    constructor
    · show chain1.user.present_count = (s.stamped ++ [_]).length % 2 ^ 32
      rw [List.length_append, hu, h.user_count]
      show _ = (s.stamped.length + 1) % 2 ^ 32
      omega
    · show chain1.present.present_count = _
      rw [k.present_count]
      exact h.present_count
    · show s.copied.length ≤ (s.stamped ++ [_]).length
      rw [List.length_append]
      exact Nat.le_succ_of_le h.copied_le
    · exact h.running
    · show 1 ≤ chain1.frame_latency
      rw [k.frame_latency]; exact h.latency_pos
    · show chain1.frame_latency ≤ _
      rw [k.frame_latency]; exact h.latency_le
  | present_resumes _ _ =>
    exact counter_invariant_congr h rfl rfl rfl rfl rfl rfl
  | wait_latency_handle _ _ =>
    exact counter_invariant_congr h rfl rfl rfl rfl rfl rfl
  | set_frame_latency n _ =>
    obtain ⟨hu, hp, _⟩ := SetFrameLatency_keeps s.chain n
    constructor
    · show (dxgi_vk_swap_chain_SetFrameLatency s.chain n).2.user.present_count = _
      rw [hu]; exact h.user_count
    · show (dxgi_vk_swap_chain_SetFrameLatency s.chain n).2.present.present_count = _
      rw [hp]; exact h.present_count
    · exact h.copied_le
    · exact h.running
    · show 1 ≤ (dxgi_vk_swap_chain_SetFrameLatency s.chain n).2.frame_latency
      rcases SetFrameLatency_latency s.chain n with hl | hl
      · rw [hl]; exact h.latency_pos
      · exact hl.1
    · show (dxgi_vk_swap_chain_SetFrameLatency s.chain n).2.frame_latency ≤ _
      rcases SetFrameLatency_latency s.chain n with hl | hl
      · rw [hl]; exact h.latency_le
      · exact hl.2
  | set_color_space cs _ =>
    obtain ⟨hu, hp, _, _, _, hf⟩ := SetColorSpace_keeps s.chain cs
    exact counter_invariant_congr h rfl rfl rfl hu
      (by show (dxgi_vk_swap_chain_SetColorSpace s.chain cs).2.present.present_count = _; rw [hp])
      hf
  | set_hdr_metadata m _ =>
    exact counter_invariant_congr h rfl rfl rfl rfl rfl rfl
  | get_image QI B riid o o1 hr chain1 _ hG =>
    obtain ⟨k, _⟩ := GetImage_keeps _ _ _ _ _ _ _ _ hG
    exact counter_invariant_congr h rfl rfl rfl k.present_count
      (by show chain1.present.present_count = _; rw [k.present]) k.frame_latency
  | change_properties d env hr chain1 _ hC =>
    have k := ChangeProperties_keeps _ _ _ _ _ hC
    exact counter_invariant_congr h rfl rfl rfl k.present_count
      (by show chain1.present.present_count = _; rw [k.present]) k.frame_latency
  | callback_copies hidle hlt =>
    obtain ⟨_, _, _, _, _, u0, _, _, _, p0, _⟩ := present_callback_begin_spec device s.chain
    obtain ⟨_, f0, _⟩ := present_callback_begin_keeps device s.chain
    have hp := h.present_count
    unfold callbacks_stored at hp
    rw [hidle] at hp
    constructor
    · show (present_callback_begin device s.chain).user.present_count = _
      rw [u0]; exact h.user_count
    · show (present_callback_begin device s.chain).present.present_count =
        ((s.copied ++ [_]).length - unstored worker_phase.copied) % 2 ^ 32
      rw [p0, hp, List.length_append]
      rfl
    · show (s.copied ++ [_]).length ≤ s.stamped.length
      rw [List.length_append]
      exact hlt
    · show unstored worker_phase.copied ≤ (s.copied ++ [_]).length
      rw [List.length_append]
      exact Nat.le_add_left _ _
    · show 1 ≤ (present_callback_begin device s.chain).frame_latency
      rw [f0]; exact h.latency_pos
    · show (present_callback_begin device s.chain).frame_latency ≤ _
      rw [f0]; exact h.latency_le
  | callback_presents gpu chain1 hw hloop =>
    obtain ⟨hu, _, hf, _, _, _, hp, _⟩ := present_callback_loop_accounts _ _ _ _ _ _ hloop
    have hpc := h.present_count
    have hrun := h.running
    unfold callbacks_stored at hpc
    rw [hw] at hpc hrun
    constructor
    · show chain1.user.present_count = _
      rw [hu]; exact h.user_count
    · show chain1.present.present_count = (s.copied.length - unstored worker_phase.presented)
        % 2 ^ 32
      rw [hp]; exact hpc
    · exact h.copied_le
    · exact hrun
    · show 1 ≤ chain1.frame_latency
      rw [hf]; exact h.latency_pos
    · show chain1.frame_latency ≤ _
      rw [hf]; exact h.latency_le
  | callback_signals hr hw =>
    obtain ⟨hu, _, hf, _, _, _, hp, _⟩ := present_callback_signals_accounts hr s.chain
    have hpc := h.present_count
    have hrun := h.running
    unfold callbacks_stored at hpc
    rw [hw] at hpc hrun
    constructor
    · show (present_callback_signals hr s.chain).user.present_count = _
      rw [hu]; exact h.user_count
    · show (present_callback_signals hr s.chain).present.present_count =
        (s.copied.length - unstored worker_phase.signalled) % 2 ^ 32
      rw [hp]; exact hpc
    · exact h.copied_le
    · exact hrun
    · show 1 ≤ (present_callback_signals hr s.chain).frame_latency
      rw [hf]; exact h.latency_pos
    · show (present_callback_signals hr s.chain).frame_latency ≤ _
      rw [hf]; exact h.latency_le
  | callback_stores hw =>
    have hpc := h.present_count
    have hrun := h.running
    unfold callbacks_stored at hpc
    rw [hw] at hpc hrun
    have hrun1 : 1 ≤ s.copied.length := hrun
    have hpc1 : s.chain.present.present_count = (s.copied.length - 1) % 2 ^ 32 := hpc
    constructor
    · exact h.user_count
    · show (s.chain.present.present_count + 1) % 2 ^ 32 = (s.copied.length - 0) % 2 ^ 32
      rw [hpc1]
      omega
    · exact h.copied_le
    · exact Nat.zero_le _
    · exact h.latency_pos
    · exact h.latency_le
  | wait_worker chain1 _ hw =>
    obtain ⟨hu, hp, _, _, hf, _⟩ := wait_worker_keeps _ _ hw
    exact counter_invariant_congr h rfl rfl rfl (by show chain1.user.present_count = _; rw [hu])
      (by show chain1.present.present_count = _; rw [hp]) hf
  | latency_event _ =>
    exact counter_invariant_congr h rfl rfl rfl rfl rfl rfl

theorem init_frame_latency_bounds (desc : DXGI_SWAP_CHAIN_DESC1) :
    1 ≤ init_frame_latency desc ∧ init_frame_latency desc ≤ DXGI_MAX_SWAP_CHAIN_BUFFERS := by
  unfold init_frame_latency
  split <;> decide

theorem counter_invariant_initial (s : swapchain_threads) (h : threads_initial s) :
    counter_invariant s := by
  obtain ⟨h1, h2, h3, _, _, _, _, h8, h9, h10⟩ := h
  constructor
  · rw [h1, h9]; rfl
  · rw [h2]
    unfold callbacks_stored
    rw [h10, h8]; rfl
  · rw [h9, h10]
  · rw [h8]; exact Nat.zero_le _
  · rw [h3]; exact (init_frame_latency_bounds _).1
  · rw [h3]; exact (init_frame_latency_bounds _).2

theorem counter_invariant_reachable (device : d3d12_device) (s0 s : swapchain_threads)
    (h0 : threads_initial s0) (h : threads_reachable device s0 s) : counter_invariant s := by
  induction h with
  | start => exact counter_invariant_initial s0 h0
  | step s s1 _ hs ih => exact counter_invariant_step device s s1 ih hs

theorem gated_reachable_threads (device : d3d12_device) (s0 s : swapchain_threads)
    (h : gated_reachable device s0 s) : threads_reachable device s0 s := by
  induction h with
  | start _ => exact threads_reachable.start
  | step s s1 _ hs _ ih => exact threads_reachable.step s s1 ih hs

/-! ## Lemmas on the latency gate -/

theorem gate_invariant_congr {s s1 : swapchain_threads} (h : gate_invariant s)
    (hflags : latency_gated s1)
    (hst : s1.stamped = s.stamped) (hco : s1.copied = s.copied) (hw : s1.worker = s.worker)
    (hin : s1.in_present = s.in_present)
    (hl : s1.chain.frame_latency = s.chain.frame_latency)
    (hr : s1.chain.request_ring = s.chain.request_ring)
    (hunits : s1.semaphore + s1.pending_events + s1.chain.wait_queue.length ≤
      s.semaphore + s.pending_events + s.chain.wait_queue.length) : gate_invariant s1 := by
  refine ⟨hflags, by rw [hl]; exact h.frame_latency, ?_, by rw [hst, hco]; exact h.copied_eq,
    by rw [hst, hco, hr]; exact h.ring⟩
  have hu := h.units
  unfold callbacks_signalled at hu ⊢
  rw [hst, hco, hw, hin, hl]
  omega

/-- Every step that leaves the latency-waitable flag unset keeps the units of the latency
semaphore within `frame_latency`, plus one while `Present` is under way, and the
requests that are not copied yet in their ring slots. -/
theorem gate_invariant_step (device : d3d12_device) (s s1 : swapchain_threads)
    (hc : counter_invariant s) (h : gate_invariant s) (hs : thread_step device s s1)
    (hflags : latency_gated s1) : gate_invariant s1 := by
  have hunits := h.units
  have hsig := callbacks_signalled_le s
  cases hs with
  | present_returns caps S F hr chain1 _ hP =>
    obtain ⟨k, _, hring⟩ := Present_until_wait_returns _ _ _ _ _ _ hP
    exact gate_invariant_congr h hflags rfl rfl rfl rfl k.frame_latency hring
      (by show _ + _ + chain1.wait_queue.length ≤ _; rw [k.wait_queue])
  | present_enqueues caps S F chain1 hin hP =>
    obtain ⟨k, hu, request, _, _, hring⟩ := Present_until_wait_enqueues _ _ _ _ _ hP
    have hU : chain1.user.present_count = (s.stamped.length + 1) % 2 ^ 32 := by
      rw [hu, hc.user_count]
      omega
    rw [hin] at hunits
    simp only [Bool.false_eq_true, if_false] at hunits
    have hlat : s.chain.frame_latency = 2 := h.frame_latency
    have hguard : s.stamped.length < s.copied.length + 16 := by omega
    refine ⟨hflags, ?_, ?_, ?_, ?_⟩
    · show chain1.frame_latency = _
      rw [k.frame_latency]; exact h.frame_latency
    · show s.semaphore + s.pending_events + chain1.wait_queue.length +
        (s.stamped ++ [_]).length ≤ chain1.frame_latency + (if true = true then 1 else 0) +
          (s.copied.length - unsignalled s.worker)
      rw [k.wait_queue, k.frame_latency, List.length_append, if_pos rfl]
      unfold callbacks_signalled at hunits
      simp only [List.length_cons, List.length_nil]
      omega
    · show s.copied = (s.stamped ++ [_]).take s.copied.length
      rw [List.take_append_of_le_length hc.copied_le]
      exact h.copied_eq
    · intro j hj1 hj2
      show (s.stamped ++ [chain1.request_ring (ring_slot chain1.user.present_count)])[j]? =
        some (chain1.request_ring (ring_slot ((j + 1) % 2 ^ 32)))
      have hj1' : s.copied.length ≤ j := hj1
      have hj3 : j < s.stamped.length + 1 := by
        have : (s.stamped ++ [chain1.request_ring (ring_slot chain1.user.present_count)]).length
            = s.stamped.length + 1 := by rw [List.length_append]; rfl
        rw [← this]
        exact hj2
      by_cases hlt : j < s.stamped.length
      · rw [List.getElem?_append_left hlt, h.ring j hj1 hlt, hring, hU,
          Function.update_noteq (ring_slot_ne j s.stamped.length hlt (by omega))]
      · have hje : j = s.stamped.length := by omega
        rw [List.getElem?_append_right (by omega), hje, Nat.sub_self, hU]
        rfl
  | present_resumes hin hsem =>
    have hpos := hsem h.flags
    refine ⟨hflags, h.frame_latency, ?_, h.copied_eq, h.ring⟩
    show (if s.chain.desc.Flags &&& DXGI_SWAP_CHAIN_FLAG_FRAME_LATENCY_WAITABLE_OBJECT = 0
        then s.semaphore - 1 else s.semaphore) + s.pending_events + s.chain.wait_queue.length +
        s.stamped.length ≤ s.chain.frame_latency + (if false = true then 1 else 0) +
          (s.copied.length - unsignalled s.worker)
    rw [if_pos h.flags]
    rw [hin, if_pos rfl] at hunits
    unfold callbacks_signalled at hunits
    simp only [Bool.false_eq_true, if_false]
    omega
  | wait_latency_handle hin hsem =>
    exact gate_invariant_congr h hflags rfl rfl rfl rfl rfl rfl
      (by show s.semaphore - 1 + s.pending_events + s.chain.wait_queue.length ≤ _; omega)
  | set_frame_latency n hin =>
    obtain ⟨_, _, _, _, _, hsame⟩ := SetFrameLatency_keeps s.chain n
    have hsame := hsame h.flags
    refine gate_invariant_congr h hflags rfl rfl rfl rfl ?_ ?_ ?_
    · show (dxgi_vk_swap_chain_SetFrameLatency s.chain n).2.frame_latency = _
      rw [hsame]
    · show (dxgi_vk_swap_chain_SetFrameLatency s.chain n).2.request_ring = _
      rw [hsame]
    · show release_units s.semaphore (released_units (effects_since s.chain
          (dxgi_vk_swap_chain_SetFrameLatency s.chain n).2)) + s.pending_events +
          (dxgi_vk_swap_chain_SetFrameLatency s.chain n).2.wait_queue.length ≤ _
      rw [hsame, effects_since_self]
      show release_units s.semaphore 0 + _ + _ ≤ _
      rw [release_units_zero]
  | set_color_space cs hin =>
    obtain ⟨_, _, hr, hq, _, hf⟩ := SetColorSpace_keeps s.chain cs
    exact gate_invariant_congr h hflags rfl rfl rfl rfl hf hr
      (by show _ + _ + (dxgi_vk_swap_chain_SetColorSpace s.chain cs).2.wait_queue.length ≤ _
          rw [hq])
  | set_hdr_metadata m hin =>
    exact gate_invariant_congr h hflags rfl rfl rfl rfl rfl rfl (Nat.le_refl _)
  | get_image QI B riid o o1 hr chain1 _ hG =>
    obtain ⟨k, _⟩ := GetImage_keeps _ _ _ _ _ _ _ _ hG
    exact gate_invariant_congr h hflags rfl rfl rfl rfl k.frame_latency k.request_ring
      (by show _ + _ + chain1.wait_queue.length ≤ _; rw [k.wait_queue])
  | change_properties d env hr chain1 _ hC =>
    have k := ChangeProperties_keeps _ _ _ _ _ hC
    exact gate_invariant_congr h hflags rfl rfl rfl rfl k.frame_latency k.request_ring
      (by show _ + _ + chain1.wait_queue.length ≤ _; rw [k.wait_queue])
  | callback_copies hidle hlt =>
    obtain ⟨_, _, _, _, r0, _, q0, _, _, _, _⟩ := present_callback_begin_spec device s.chain
    obtain ⟨_, f0, g0, _⟩ := present_callback_begin_keeps device s.chain
    have hp := hc.present_count
    unfold callbacks_stored at hp
    rw [hidle] at hp
    have hp1 : s.chain.present.present_count = s.copied.length % 2 ^ 32 := hp
    have hlen : (s.copied ++ [(present_callback_begin device s.chain).request]).length =
        s.copied.length + 1 := by
      rw [List.length_append]; rfl
    refine ⟨hflags, ?_, ?_, ?_, ?_⟩
    · show (present_callback_begin device s.chain).frame_latency = _
      rw [f0]; exact h.frame_latency
    · show s.semaphore + s.pending_events +
          (present_callback_begin device s.chain).wait_queue.length + s.stamped.length ≤
        (present_callback_begin device s.chain).frame_latency +
          (if s.in_present = true then 1 else 0) +
          ((s.copied ++ [(present_callback_begin device s.chain).request]).length -
            unsignalled worker_phase.copied)
      rw [q0, f0, hlen]
      unfold callbacks_signalled at hunits
      rw [hidle] at hunits
      simp only [unsignalled] at hunits ⊢
      omega
    · show s.copied ++ [(present_callback_begin device s.chain).request] =
        s.stamped.take (s.copied ++ [(present_callback_begin device s.chain).request]).length
      have hslot : (s.chain.present.present_count + 1) % 2 ^ 32 = (s.copied.length + 1) % 2 ^ 32 := by
        rw [hp1]
        omega
      rw [hlen, List.take_succ, h.ring _ (Nat.le_refl _) hlt, r0, hslot, ← h.copied_eq]
      rfl
    · intro j hj1 hj2
      show s.stamped[j]? = some ((present_callback_begin device s.chain).request_ring _)
      rw [g0]
      exact h.ring j (by
        have : (s.copied ++ [(present_callback_begin device s.chain).request]).length ≤ j := hj1
        omega) hj2
  | callback_presents gpu chain1 hw hloop =>
    obtain ⟨_, _, hf, hg, _, _, _, hrel, hreg, hq⟩ :=
      present_callback_loop_accounts _ _ _ _ _ _ hloop
    refine ⟨hflags, ?_, ?_, h.copied_eq, ?_⟩
    · show chain1.frame_latency = _
      rw [hf]; exact h.frame_latency
    · show release_each s.semaphore (released_units (effects_since s.chain chain1) +
          waiter_releases (effects_since s.chain chain1)) +
          (s.pending_events + registered_latency_events (effects_since s.chain chain1)) +
          chain1.wait_queue.length + s.stamped.length ≤
        chain1.frame_latency + (if s.in_present = true then 1 else 0) +
          (s.copied.length - unsignalled worker_phase.presented)
      have hrel1 := release_each_le s.semaphore (released_units (effects_since s.chain chain1) +
        waiter_releases (effects_since s.chain chain1))
      unfold callbacks_signalled at hunits
      rw [hw] at hunits
      simp only [unsignalled] at hunits ⊢
      rw [hf]
      omega
    · intro j hj1 hj2
      show s.stamped[j]? = some (chain1.request_ring _)
      rw [hg]
      exact h.ring j hj1 hj2
  | callback_signals hr hw =>
    obtain ⟨_, _, hf, hg, _, _, _, hwait, hacc⟩ := present_callback_signals_accounts hr s.chain
    have hrun := hc.running
    rw [hw] at hrun
    have hrun1 : 1 ≤ s.copied.length := hrun
    refine ⟨hflags, ?_, ?_, h.copied_eq, ?_⟩
    · show (present_callback_signals hr s.chain).frame_latency = _
      rw [hf]; exact h.frame_latency
    · show release_each s.semaphore
          (released_units (effects_since s.chain (present_callback_signals hr s.chain)) +
            waiter_releases (effects_since s.chain (present_callback_signals hr s.chain))) +
          (s.pending_events +
            registered_latency_events
              (effects_since s.chain (present_callback_signals hr s.chain))) +
          (present_callback_signals hr s.chain).wait_queue.length + s.stamped.length ≤
        (present_callback_signals hr s.chain).frame_latency +
          (if s.in_present = true then 1 else 0) +
          (s.copied.length - unsignalled worker_phase.signalled)
      have hrel1 := release_each_le s.semaphore
        (released_units (effects_since s.chain (present_callback_signals hr s.chain)) +
          waiter_releases (effects_since s.chain (present_callback_signals hr s.chain)))
      unfold callbacks_signalled at hunits
      rw [hw] at hunits
      simp only [unsignalled] at hunits ⊢
      rw [hf]
      omega
    · intro j hj1 hj2
      show s.stamped[j]? = some ((present_callback_signals hr s.chain).request_ring _)
      rw [hg]
      exact h.ring j hj1 hj2
  | callback_stores hw =>
    refine ⟨hflags, h.frame_latency, ?_, h.copied_eq, h.ring⟩
    show s.semaphore + s.pending_events + s.chain.wait_queue.length + s.stamped.length ≤
      s.chain.frame_latency + (if s.in_present = true then 1 else 0) +
        (s.copied.length - unsignalled worker_phase.idle)
    unfold callbacks_signalled at hunits
    rw [hw] at hunits
    exact hunits
  | wait_worker chain1 hact hw =>
    obtain ⟨_, _, hr, _, hf, hq⟩ := wait_worker_keeps _ _ hw
    have hrel := release_each_le s.semaphore 1
    exact gate_invariant_congr h hflags rfl rfl rfl rfl hf hr
      (by show release_each s.semaphore 1 + s.pending_events + chain1.wait_queue.length ≤ _
          omega)
  | latency_event hpos =>
    have hrel := release_each_le s.semaphore 1
    exact gate_invariant_congr h hflags rfl rfl rfl rfl rfl rfl
      (by show release_each s.semaphore 1 + (s.pending_events - 1) +
            s.chain.wait_queue.length ≤ _
          omega)

theorem gate_invariant_initial (s : swapchain_threads) (h : threads_initial s)
    (hflags : latency_gated s) : gate_invariant s := by
  obtain ⟨_, _, h3, h4, h5, h6, h7, h8, h9, h10⟩ := h
  refine ⟨hflags, ?_, ?_, ?_, ?_⟩
  · rw [h3]
    unfold init_frame_latency
    rw [if_neg (fun hne => hne hflags)]
  · unfold callbacks_signalled
    rw [h4, h5, h6, h7, h9, h10]
    simp
  · rw [h9, h10]; rfl
  · intro k _ hk
    rw [h9] at hk
    exact absurd hk (Nat.not_lt_zero _)

theorem gate_invariant_reachable (device : d3d12_device) (s0 s : swapchain_threads)
    (h0 : threads_initial s0) (h : gated_reachable device s0 s) : gate_invariant s := by
  induction h with
  | start hflags => exact gate_invariant_initial s0 h0 hflags
  | step s s1 hr hs hflags ih =>
    exact gate_invariant_step device s s1
      (counter_invariant_reachable device s0 s h0 (gated_reachable_threads device s0 s hr))
      ih hs hflags

/-! ## Lemmas on runs with whole callbacks -/

theorem release_each_add (semaphore a b : Nat) :
    release_each (release_each semaphore a) b = release_each semaphore (a + b) := by
  induction a generalizing semaphore with
  | zero =>
    rw [Nat.zero_add]
    rfl
  | succ a ih =>
    rw [Nat.succ_add]
    show release_each (release_each (release_units semaphore 1) a) b =
      release_each (release_units semaphore 1) (a + b)
    exact ih _

theorem swapchain_threads_eq (a b : swapchain_threads) (h1 : a.chain = b.chain)
    (h2 : a.semaphore = b.semaphore) (h3 : a.pending_events = b.pending_events)
    (h4 : a.in_present = b.in_present) (h5 : a.worker = b.worker) (h6 : a.stamped = b.stamped)
    (h7 : a.copied = b.copied) : a = b := by
  cases a
  cases b
  simp only [swapchain_threads.mk.injEq]
  exact ⟨h1, h2, h3, h4, h5, h6, h7⟩

theorem threads_reachable_of_eq {device : d3d12_device} {s0 a b : swapchain_threads}
    (h : threads_reachable device s0 a) (heq : a = b) : threads_reachable device s0 b :=
  heq ▸ h

/-- A whole callback is a run of the threads: its four parts, one after the other,
with no step of another thread between them. -/
theorem whole_callback_threads (device : d3d12_device) (s0 : swapchain_threads)
    (s : swapchain_system) (gpu : Nat → Nat → present_env) (set_event_hr : HRESULT)
    (chain1 : dxgi_vk_swap_chain)
    (hr : threads_reachable device s0 (system_threads s))
    (hguard : s.copied.length < s.stamped.length)
    (hcb : dxgi_vk_swap_chain_present_callback device gpu set_event_hr s.chain = some chain1) :
    threads_reachable device s0 (system_threads
      { s with
        chain := chain1
        copied := s.copied ++ [chain1.request]
        semaphore := release_each s.semaphore
          (released_units (effects_since s.chain chain1) +
            waiter_releases (effects_since s.chain chain1))
        pending_events := s.pending_events +
          registered_latency_events (effects_since s.chain chain1) }) := by
  rw [present_callback_eq_parts] at hcb
  cases hloop : present_callback_loop device gpu
      (max 1 (present_callback_begin device s.chain).request.swap_interval) 0
      (present_callback_begin device s.chain) with
  | none =>
    rw [hloop] at hcb
    exact Option.noConfusion hcb
  | some c2 =>
    rw [hloop] at hcb
    simp only [Option.map_some', Option.some.injEq] at hcb
    obtain ⟨pre, e0, i0, _⟩ := present_callback_begin_spec device s.chain
    obtain ⟨_, _, _, hpre⟩ := present_callback_begin_keeps device s.chain
    obtain ⟨new, f, _⟩ := present_callback_loop_spec device gpu _ _ _ _ hloop
    obtain ⟨_, _, _, _, hreq2, _, _, _, _⟩ := present_callback_signals_accounts set_event_hr c2
    obtain ⟨e1, _⟩ := present_callback_end_spec set_event_hr c2.present.present_count c2
    rw [← present_callback_signals_eq] at e1
    have r1 := threads_reachable.step _ _ hr
      (thread_step.callback_copies (system_threads s) rfl hguard)
    have r2 := threads_reachable.step _ _ r1
      (thread_step.callback_presents _ gpu c2 rfl hloop)
    have r3 := threads_reachable.step _ _ r2
      (thread_step.callback_signals _ set_event_hr rfl)
    have r4 := threads_reachable.step _ _ r3 (thread_step.callback_stores _ rfl)
    have hw0 : waiter_releases pre = 0 := by
      rcases hpre with hp | hp
      · rw [hp] at e0
        have : [] = pre := List.append_cancel_left ((List.append_nil _).trans e0)
        rw [← this]
        rfl
      · rw [hp] at e0
        rw [← List.append_cancel_left e0]
        rfl
    have hall : (pre ++ new).all is_iteration_effect = true := by
      rw [List.all_append, i0, f.iteration_effects]
      rfl
    have hsig : effects_since c2 (present_callback_signals set_event_hr c2) =
        Effect.signal_blit_semaphore ((c2.present.blit_count + 1) % 2 ^ 64) ::
          latency_signal_effects set_event_hr c2 := effects_since_append _ _ _ e1
    have hloopeff : effects_since (present_callback_begin device s.chain) c2 = new :=
      effects_since_append _ _ _ f.effects
    have hsince : effects_since s.chain chain1 = (pre ++ new) ++
        Effect.signal_blit_semaphore ((c2.present.blit_count + 1) % 2 ^ 64) ::
          latency_signal_effects set_event_hr c2 := by
      rw [← hcb]
      unfold effects_since
      show List.drop s.chain.effects.length (present_callback_signals set_event_hr c2).effects = _
      rw [e1, f.effects, e0, List.append_assoc, List.append_assoc, List.drop_left,
        List.append_assoc]
    have hR : released_units (effects_since s.chain chain1) =
        released_units (effects_since c2 (present_callback_signals set_event_hr c2)) := by
      rw [hsince, hsig, released_units_append, iteration_effects_released _ hall, Nat.zero_add]
    have hG : registered_latency_events (effects_since s.chain chain1) =
        registered_latency_events
          (effects_since c2 (present_callback_signals set_event_hr c2)) := by
      rw [hsince, hsig, registered_latency_events_append,
        iteration_effects_registered _ hall, Nat.zero_add]
    have hW : waiter_releases (effects_since s.chain chain1) = waiter_releases new := by
      rw [hsince, waiter_releases_append, waiter_releases_append, hw0, ← hsig,
        (present_callback_signals_accounts set_event_hr c2).2.2.2.2.2.2.2.1]
      omega
    have hW2 : waiter_releases (effects_since c2 (present_callback_signals set_event_hr c2)) = 0 :=
      (present_callback_signals_accounts set_event_hr c2).2.2.2.2.2.2.2.1
    have hR1 : released_units new = 0 := iteration_effects_released _ f.iteration_effects
    have hG1 : registered_latency_events new = 0 :=
      iteration_effects_registered _ f.iteration_effects
    refine threads_reachable_of_eq r4 (swapchain_threads_eq _ _ ?_ ?_ ?_ rfl rfl rfl ?_)
    · show present_callback_store (present_callback_signals set_event_hr c2) = chain1
      exact hcb
    · show release_each (release_each s.semaphore
          (released_units (effects_since (present_callback_begin device s.chain) c2) +
            waiter_releases (effects_since (present_callback_begin device s.chain) c2)))
          (released_units (effects_since c2 (present_callback_signals set_event_hr c2)) +
            waiter_releases (effects_since c2 (present_callback_signals set_event_hr c2))) =
        release_each s.semaphore (released_units (effects_since s.chain chain1) +
            waiter_releases (effects_since s.chain chain1))
      rw [release_each_add, hloopeff, hR, hW, hW2, hR1]
      congr 1
      omega
    · show s.pending_events +
          registered_latency_events (effects_since (present_callback_begin device s.chain) c2) +
          registered_latency_events
            (effects_since c2 (present_callback_signals set_event_hr c2)) =
        s.pending_events + registered_latency_events (effects_since s.chain chain1)
      rw [hloopeff, hG, hG1]
      omega
    · show s.copied ++ [(present_callback_begin device s.chain).request] =
        s.copied ++ [chain1.request]
      rw [← hcb]
      show _ = s.copied ++ [(present_callback_signals set_event_hr c2).request]
      rw [hreq2, f.request]

/-- Every step of `swapchain_system` is a run of the threads. -/
theorem system_step_threads (device : d3d12_device) (s0 : swapchain_threads)
    (s s1 : swapchain_system) (hr : threads_reachable device s0 (system_threads s))
    (hs : system_step device s s1) : threads_reachable device s0 (system_threads s1) := by
  cases hs with
  | present_returns caps S F hr1 chain1 hin hP =>
    exact threads_reachable.step _ _ hr
      (thread_step.present_returns (system_threads s) caps S F hr1 chain1 hin hP)
  | present_enqueues caps S F chain1 hin _ hP =>
    exact threads_reachable.step _ _ hr
      (thread_step.present_enqueues (system_threads s) caps S F chain1 hin hP)
  | present_resumes hin hsem =>
    exact threads_reachable.step _ _ hr
      (thread_step.present_resumes (system_threads s) hin hsem)
  | wait_latency_handle hin hsem =>
    exact threads_reachable.step _ _ hr
      (thread_step.wait_latency_handle (system_threads s) hin hsem)
  | set_frame_latency n hin =>
    exact threads_reachable.step _ _ hr
      (thread_step.set_frame_latency (system_threads s) n hin)
  | set_color_space cs hin =>
    exact threads_reachable.step _ _ hr
      (thread_step.set_color_space (system_threads s) cs hin)
  | set_hdr_metadata m hin =>
    exact threads_reachable.step _ _ hr
      (thread_step.set_hdr_metadata (system_threads s) m hin)
  | present_callback gpu hr1 chain1 hguard hcb =>
    exact whole_callback_threads device s0 s gpu hr1 chain1 hr hguard hcb
  | wait_worker chain1 hact hw =>
    exact threads_reachable.step _ _ hr
      (thread_step.wait_worker (system_threads s) chain1 hact hw)
  | latency_event hpos =>
    exact threads_reachable.step _ _ hr
      (thread_step.latency_event (system_threads s) hpos)

/-- Every run of `swapchain_system`, which takes whole callbacks and starts an
enqueuing `Present` only with fewer than 16 requests outstanding, is a run of the
threads. -/
theorem system_reachable_threads (device : d3d12_device) (s0 s : swapchain_system)
    (h : system_reachable device s0 s) :
    threads_reachable device (system_threads s0) (system_threads s) := by
  induction h with
  | start => exact threads_reachable.start
  | step s s1 _ hs ih => exact system_step_threads device _ s s1 ih hs

theorem threads_initial_of_system (s : swapchain_system) (h : system_initial s) :
    threads_initial (system_threads s) := by
  obtain ⟨h1, h2, h3, h4, h5, h6, h7, h8, h9⟩ := h
  exact ⟨h1, h2, h3, h4, h5, h6, h7, rfl, h8, h9⟩

/-! ## Lemmas on runs of the threads of the example swapchains -/

theorem threads_initial_example : threads_initial example_threads :=
  threads_initial_of_system _ system_initial_example

theorem threads_initial_example_waitable : threads_initial example_waitable_threads :=
  threads_initial_of_system _ system_initial_example_waitable

/-- The present iteration of the first callback of the example swapchain, on the
example GPU. -/
theorem example_presented_run :
    present_callback_loop example_device (fun _ _ => example_present_env)
      (max 1 example_copied_chain.request.swap_interval) 0 example_copied_chain =
      some example_presented_chain := by
  have h1 : present_iteration_level example_device example_present_env
      example_copied_chain 0 = some (example_presented_chain, false) := rfl
  have hn : max 1 example_copied_chain.request.swap_interval = 1 := by decide
  rw [hn]
  unfold present_callback_loop
  rw [present_iteration_eq, h1]
  dsimp only
  unfold present_callback_loop
  rfl

/-- The example swapchain, whose latency-waitable flag is unset, reaches a state
outside `Present` with three requests submitted and none stored as processed: the
third `Present` enqueues and waits, the first callback copies its request, runs
its present iteration and signals, the completion event fires, and the third
`Present` takes the unit and returns before the callback stores
`present.present_count`. From there a fourth `Present` enqueues. -/
theorem example_threads_run :
    ∃ s3 s4, gated_reachable example_device example_threads s3 ∧
      gated_reachable example_device example_threads s4 ∧
      s3.in_present = false ∧ s3.worker = worker_phase.signalled ∧ s3.semaphore = 0 ∧
      s3.chain.frame_latency = 2 ∧ s3.stamped.length = 3 ∧ s3.copied.length = 1 ∧
      s3.chain.user.present_count = 3 ∧ s3.chain.present.present_count = 0 ∧
      s4.in_present = true ∧ s4.worker = worker_phase.signalled ∧
      s4.chain.frame_latency = 2 ∧ s4.stamped.length = 4 ∧ s4.copied.length = 1 ∧
      s4.chain.user.present_count = 4 ∧ s4.chain.present.present_count = 0 := by
  have r0 : gated_reachable example_device example_threads example_threads :=
    gated_reachable.start rfl
  have r1 := gated_reachable.step _ _ r0
    (thread_step.present_enqueues example_threads example_caps 1 0
      (example_enqueue example_chain) rfl rfl) rfl
  have r2 := gated_reachable.step _ _ r1
    (thread_step.present_resumes _ rfl (fun _ => by decide)) rfl
  have r3 := gated_reachable.step _ _ r2
    (thread_step.present_enqueues _ example_caps 1 0
      (example_enqueue (dxgi_vk_swap_chain_Present_after_wait
        (example_enqueue example_chain)).2) rfl rfl) rfl
  have r4 := gated_reachable.step _ _ r3
    (thread_step.present_resumes _ rfl (fun _ => by decide)) rfl
  have r5 := gated_reachable.step _ _ r4
    (thread_step.present_enqueues _ example_caps 1 0 example_chain_third_present rfl rfl) rfl
  have r6 := gated_reachable.step _ _ r5 (thread_step.callback_copies _ rfl (by decide)) rfl
  have r7 := gated_reachable.step _ _ r6
    (thread_step.callback_presents _ (fun _ _ => example_present_env) example_presented_chain
      rfl example_presented_run) rfl
  have r8 := gated_reachable.step _ _ r7 (thread_step.callback_signals _ S_OK rfl) rfl
  have r9 := gated_reachable.step _ _ r8 (thread_step.latency_event _ (by decide)) rfl
  have r10 := gated_reachable.step _ _ r9
    (thread_step.present_resumes _ rfl (fun _ => by decide)) rfl
  have r11 := gated_reachable.step _ _ r10
    (thread_step.present_enqueues _ example_caps 1 0
      (example_enqueue (dxgi_vk_swap_chain_Present_after_wait example_signalled_chain).2)
      rfl rfl) rfl
  exact ⟨_, _, r10, r11, rfl, rfl, by decide, rfl, rfl, rfl, rfl, rfl, rfl, rfl, rfl, rfl, rfl,
    rfl, rfl⟩

theorem present_is_occluded_visible (chain : dxgi_vk_swap_chain)
    (h : chain.present.is_occlusion_state = 0) :
    (dxgi_vk_swap_chain_present_is_occluded chain example_caps).1 = false ∧
    (dxgi_vk_swap_chain_present_is_occluded chain example_caps).2.present.is_occlusion_state
      = 0 := by
  unfold dxgi_vk_swap_chain_present_is_occluded
  have hcaps : dxgi_vk_swap_chain_is_occluded example_caps = false := by decide
  split
  · dsimp only
    rw [hcaps]
    exact ⟨rfl, rfl⟩
  · dsimp only
    rw [h]
    exact ⟨rfl, rfl⟩

theorem Present_until_wait_present (chain chain1 : dxgi_vk_swap_chain)
    (caps : VkSurfaceCapabilitiesKHR) (SyncInterval PresentFlags : Nat)
    (h : dxgi_vk_swap_chain_Present_until_wait chain caps SyncInterval PresentFlags =
      some (none, chain1)) :
    chain1.present = (dxgi_vk_swap_chain_present_is_occluded chain caps).2.present := by
  unfold dxgi_vk_swap_chain_Present_until_wait at h
  dsimp only at h
  split at h
  · simp only [Option.some.injEq, Prod.mk.injEq] at h
    exact Option.noConfusion h.1
  · split at h
    · simp only [Option.some.injEq, Prod.mk.injEq] at h
      exact Option.noConfusion h.1
    · split at h
      · exact Option.noConfusion h
      · split at h
        · exact Option.noConfusion h
        · simp only [Option.some.injEq, Prod.mk.injEq, true_and] at h
          rw [← h]

/-- From a state that is ready, the first half of `Present(SyncInterval, 0)` on the
example surface stamps a request and enqueues its callback. -/
theorem ready_present_enqueues (s0 s : swapchain_threads) (SyncInterval : Nat)
    (hr : threads_reachable example_device s0 s) (hq : ready_to_present s) :
    ∃ s1 r, threads_reachable example_device s0 s1 ∧
      s1.in_present = true ∧ s1.worker = worker_phase.idle ∧ s1.copied = [] ∧
      s1.stamped = s.stamped ++ [r] ∧ r.swap_interval = SyncInterval ∧
      s1.chain.request_ring (ring_slot s1.chain.user.present_count) = r ∧
      s1.chain.desc = s.chain.desc ∧ s1.chain.frame_latency = s.chain.frame_latency ∧
      s1.semaphore = s.semaphore ∧
      s1.chain.present.present_count = 0 ∧ s1.chain.present.is_occlusion_state = 0 ∧
      s1.chain.user.index < 2 ∧
      (∀ i, i < 2 → (user_backbuffer s1.chain i).isSome = true) := by
  obtain ⟨hin, hw, hco, hpc, hocc, hcount, hidx, hbuf⟩ := hq
  obtain ⟨hvis, hstate⟩ := present_is_occluded_visible s.chain hocc
  obtain ⟨c1, hc1⟩ := Present_until_wait_total s.chain example_caps SyncInterval 0 hvis
    (by decide) (by rw [hcount]; exact hidx) (hbuf _ hidx)
  obtain ⟨k, hu, request, _, hsi, hring⟩ := Present_until_wait_enqueues _ _ _ _ _ hc1
  have hpres := Present_until_wait_present _ _ _ _ _ hc1
  have r1 := threads_reachable.step _ _ hr
    (thread_step.present_enqueues s example_caps SyncInterval 0 c1 hin hc1)
  have hslot : c1.request_ring (ring_slot c1.user.present_count) = request := by
    rw [hring]
    exact Function.update_same _ _ _
  refine ⟨_, request, r1, rfl, hw, hco, ?_, hsi, hslot, k.desc, k.frame_latency, rfl, ?_, ?_,
    ?_, ?_⟩
  · show s.stamped ++ [c1.request_ring (ring_slot c1.user.present_count)] = _
    rw [hslot]
  · show c1.present.present_count = 0
    rw [k.present_count]
    exact hpc
  · show c1.present.is_occlusion_state = 0
    rw [hpres]
    exact hstate
  · show c1.user.index < 2
    rw [k.index]
    exact hidx
  · intro i hi
    show (user_backbuffer c1 i).isSome = true
    rw [user_backbuffer_congr _ _ k.backbuffers]
    exact hbuf i hi

/-- From a state that is ready, a whole `Present(SyncInterval, 0)` on the example
surface stamps a request and returns, with a unit of the latency semaphore when
the latency-waitable flag is unset; the state it leaves is ready again. -/
theorem ready_present_returns (s0 s : swapchain_threads) (SyncInterval : Nat)
    (hr : threads_reachable example_device s0 s) (hq : ready_to_present s)
    (hsem : latency_gated s → 0 < s.semaphore) :
    ∃ s1 r, threads_reachable example_device s0 s1 ∧ ready_to_present s1 ∧
      s1.stamped = s.stamped ++ [r] ∧ r.swap_interval = SyncInterval ∧
      s1.chain.desc = s.chain.desc ∧ s1.chain.frame_latency = s.chain.frame_latency ∧
      s1.chain.user.present_count = (s.chain.user.present_count + 1) % 2 ^ 32 ∧
      (latency_gated s → s1.semaphore + 1 = s.semaphore) ∧
      (¬ latency_gated s → s1.semaphore = s.semaphore) := by
  have hcount := hq.2.2.2.2.2.1
  obtain ⟨hin, hw, hco, hpc, hocc, _, hidx, hbuf⟩ := hq
  obtain ⟨hvis, hstate⟩ := present_is_occluded_visible s.chain hocc
  obtain ⟨c1, hc1⟩ := Present_until_wait_total s.chain example_caps SyncInterval 0 hvis
    (by decide) (by rw [hcount]; exact hidx) (hbuf _ hidx)
  obtain ⟨k, hu, request, _, hsi, hring⟩ := Present_until_wait_enqueues _ _ _ _ _ hc1
  have hpres := Present_until_wait_present _ _ _ _ _ hc1
  have r1 := threads_reachable.step _ _ hr
    (thread_step.present_enqueues s example_caps SyncInterval 0 c1 hin hc1)
  have hslot : c1.request_ring (ring_slot c1.user.present_count) = request := by
    rw [hring]
    exact Function.update_same _ _ _
  have hflag : c1.desc.Flags = s.chain.desc.Flags := by rw [k.desc]
  have r2 := threads_reachable.step _ _ r1
    (thread_step.present_resumes _ rfl (fun h => by
      show 0 < s.semaphore
      apply hsem
      unfold latency_gated
      rw [← hflag]
      exact h))
  refine ⟨_, request, r2, ⟨rfl, hw, hco, ?_, ?_, ?_, ?_, ?_⟩, ?_, hsi, k.desc, k.frame_latency,
    hu, ?_, ?_⟩
  · show c1.present.present_count = 0
    rw [k.present_count]
    exact hpc
  · show c1.present.is_occlusion_state = 0
    rw [hpres]
    exact hstate
  · show c1.desc.BufferCount = 2
    rw [k.desc]
    exact hcount
  · show ((c1.user.index + 1) % 2 ^ 32) % c1.desc.BufferCount < 2
    rw [k.desc, hcount]
    exact Nat.mod_lt _ (by decide)
  · intro i hi
    show (user_backbuffer (dxgi_vk_swap_chain_Present_after_wait c1).2 i).isSome = true
    rw [user_backbuffer_congr (dxgi_vk_swap_chain_Present_after_wait c1).2 c1 rfl,
      user_backbuffer_congr _ _ k.backbuffers]
    exact hbuf i hi
  · show s.stamped ++ [c1.request_ring (ring_slot c1.user.present_count)] = _
    rw [hslot]
  · intro hg
    show (if c1.desc.Flags &&& DXGI_SWAP_CHAIN_FLAG_FRAME_LATENCY_WAITABLE_OBJECT = 0
      then s.semaphore - 1 else s.semaphore) + 1 = s.semaphore
    have hg1 : s.chain.desc.Flags &&& DXGI_SWAP_CHAIN_FLAG_FRAME_LATENCY_WAITABLE_OBJECT = 0 := hg
    have hpos := hsem hg
    rw [hflag, if_pos hg1]
    omega
  · intro hg
    show (if c1.desc.Flags &&& DXGI_SWAP_CHAIN_FLAG_FRAME_LATENCY_WAITABLE_OBJECT = 0
      then s.semaphore - 1 else s.semaphore) = s.semaphore
    have hg1 : ¬ s.chain.desc.Flags &&& DXGI_SWAP_CHAIN_FLAG_FRAME_LATENCY_WAITABLE_OBJECT = 0 :=
      hg
    rw [hflag, if_neg hg1]

/-- From a state that is ready, `n` calls `Present(1, 0)` in a row, with no callback
between them, stamp `n` requests; with the latency-waitable flag unset they need
`n` units of the latency semaphore. -/
theorem ready_presents_in_a_row (s0 : swapchain_threads) (n : Nat) :
    ∀ s, threads_reachable example_device s0 s → ready_to_present s →
      (latency_gated s → n ≤ s.semaphore) →
      ∃ s1 rest, threads_reachable example_device s0 s1 ∧ ready_to_present s1 ∧
        s1.stamped = s.stamped ++ rest ∧ rest.length = n ∧
        (∀ r, r ∈ rest → r.swap_interval = 1) ∧
        s1.chain.desc = s.chain.desc ∧ s1.chain.frame_latency = s.chain.frame_latency := by
  induction n with
  | zero =>
    intro s hr hq _
    exact ⟨s, [], hr, hq, (List.append_nil _).symm, rfl, fun r hr => absurd hr (List.not_mem_nil r),
      rfl, rfl⟩
  | succ n ih =>
    intro s hr hq hsem
    obtain ⟨s1, r, hr1, hq1, hst1, hsi, hd1, hl1, _, hg1, _⟩ :=
      ready_present_returns s0 s 1 hr hq (fun hg => by have := hsem hg; omega)
    have hgate : latency_gated s1 → latency_gated s := by
      intro h
      unfold latency_gated at h ⊢
      rw [← hd1]
      exact h
    obtain ⟨s2, rest, hr2, hq2, hst2, hlen, hall, hd2, hl2⟩ := ih s1 hr1 hq1
      (fun hg => by
        have h1 := hsem (hgate hg)
        have h2 := hg1 (hgate hg)
        omega)
    refine ⟨s2, r :: rest, hr2, hq2, ?_, ?_, ?_, hd2.trans hd1, hl2.trans hl1⟩
    · rw [hst2, hst1, List.append_assoc]
      rfl
    · rw [List.length_cons, hlen]
    · intro x hx
      rcases List.mem_cons.mp hx with hx | hx
      · rw [hx]; exact hsi
      · exact hall x hx

/-- From a ready state right after the creation, 16 calls `Present(1, 0)` and the first
half of a call `Present(2, 0)`, with no callback between them, leave 17 requests
stamped and none copied: the 17th is written over the first in ring slot 1. With
the latency-waitable flag unset the 16 calls need 16 units of the semaphore. -/
theorem ready_presents_overrun (s0 s : swapchain_threads) (h0 : threads_initial s0)
    (hr : threads_reachable example_device s0 s) (hq : ready_to_present s)
    (hst : s.stamped = []) (hsem : latency_gated s → 16 ≤ s.semaphore) :
    ∃ s1, threads_reachable example_device s0 s1 ∧ s1.in_present = true ∧
      s1.worker = worker_phase.idle ∧ s1.copied = [] ∧
      s1.stamped.length = 17 ∧ s1.chain.user.present_count = 17 ∧
      s1.chain.present.present_count = 0 ∧ s1.chain.desc = s.chain.desc ∧
      s1.chain.frame_latency = s.chain.frame_latency ∧
      ∃ r, s1.stamped[0]? = some r ∧ s1.chain.request_ring (ring_slot 1) ≠ r := by
  obtain ⟨s1, rest, hr1, hq1, hst1, hlen, hall, hd1, hl1⟩ :=
    ready_presents_in_a_row s0 16 s hr hq hsem
  obtain ⟨s2, r, hr2, hin2, hw2, hco2, hst2, hsi, hslot, hd2, hl2, _, hpc2, _⟩ :=
    ready_present_enqueues s0 s1 2 hr1 hq1
  have hinv := counter_invariant_reachable _ _ _ h0 hr2
  rw [hst, List.nil_append] at hst1
  have hlen2 : s2.stamped.length = 17 := by
    rw [hst2, hst1, List.length_append, hlen]
    rfl
  have hu : s2.chain.user.present_count = 17 := by
    rw [hinv.user_count, hlen2]
    rfl
  refine ⟨s2, hr2, hin2, hw2, hco2, hlen2, hu, hpc2, hd2.trans hd1, hl2.trans hl1, ?_⟩
  cases hrest : rest with
  | nil =>
    rw [hrest] at hlen
    exact absurd hlen (by decide)
  | cons first tail =>
    refine ⟨first, ?_, ?_⟩
    · rw [hst2, hst1, hrest]
      simp
    · have h17 : ring_slot 17 = ring_slot 1 := by decide
      rw [← h17, ← hu, hslot]
      intro heq
      have h1 : first.swap_interval = 1 := hall first (by rw [hrest]; exact List.mem_cons_self _ _)
      rw [← heq, hsi] at h1
      exact absurd h1 (by decide)

theorem ready_example_waitable : ready_to_present example_waitable_threads := by
  refine ⟨rfl, rfl, rfl, rfl, rfl, rfl, by decide, ?_⟩
  intro i hi
  have hcases : i = 0 ∨ i = 1 := by omega
  rcases hcases with h | h <;> rw [h] <;> rfl

/-- The example swapchain created with the latency-waitable flag takes
`SetFrameLatency(16)`, which releases 15 units, and then `ChangeProperties` to
`example_desc`, whose flags are 0, with nothing presented yet: the flag is unset,
the frame latency is still 16 and the semaphore holds 16 units. -/
theorem example_cleared_reachable :
    ∃ s, threads_reachable example_device example_waitable_threads s ∧ ready_to_present s ∧
      s.stamped = [] ∧ latency_gated s ∧ s.chain.frame_latency = 16 ∧ s.semaphore = 16 := by
  have r0 : threads_reachable example_device example_waitable_threads example_waitable_threads :=
    threads_reachable.start
  have r1 := threads_reachable.step _ _ r0
    (thread_step.set_frame_latency example_waitable_threads 16 rfl)
  have r2 := threads_reachable.step _ _ r1
    (thread_step.change_properties _ example_desc example_env S_OK example_cleared_chain rfl rfl)
  refine ⟨_, r2, ⟨rfl, rfl, rfl, rfl, rfl, rfl, by decide, ?_⟩, rfl, rfl, rfl, by decide⟩
  intro i hi
  have hcases : i = 0 ∨ i = 1 := by omega
  rcases hcases with h | h <;> rw [h] <;> rfl

/-- After 2^32 - 1 rounds of `Present(1, 0)` and its callback on the latency-waitable
example swapchain, one more `Present` has stamped its request. -/
theorem wraparound_threads_reachable :
    ∃ s, threads_reachable example_device example_waitable_threads s ∧
      s.worker = worker_phase.idle ∧
      s.stamped.length = 2 ^ 32 ∧ s.copied.length = 2 ^ 32 - 1 := by
  obtain ⟨s, hr, hst, hco⟩ := steady_then_enqueue (2 ^ 32 - 1)
  exact ⟨system_threads s, system_reachable_threads _ _ _ hr, rfl, hst, hco⟩

/-! ## C13: the two counters and the ring -/

/-- C13, as stated, fails in three ways on the example swapchain created with the
latency-waitable flag. Across the wraparound of the 32-bit counters: after 2^32 - 1
rounds of `Present(1, 0)` and its callback, one more `Present` has stamped its
request; `user.present_count` has wrapped to 0 and `present.present_count` is
2^32 - 1. Without a wait on the latency handle: `Present` does not wait on a
swapchain with the flag, so 17 calls in a row, with no callback between them,
leave `user.present_count = 17` and `present.present_count = 0`, and the 17th
request is written over the first one in ring slot 1 before the worker has read
it. With the flag cleared: after `SetFrameLatency(16)` and `ChangeProperties` to a
descriptor without the flag, the semaphore holds 16 units, 16 calls of `Present`
take them, and the 17th writes over the first request before it waits. -/
theorem ring_slot_overwritten_before_read :
    threads_initial example_waitable_threads ∧
    (∃ s, threads_reachable example_device example_waitable_threads s ∧
      s.stamped.length = s.copied.length + 1 ∧
      s.chain.user.present_count = 0 ∧ s.chain.present.present_count = 2 ^ 32 - 1 ∧
      ¬ (s.chain.present.present_count ≤ s.chain.user.present_count)) ∧
    (∃ s, threads_reachable example_device example_waitable_threads s ∧
      s.copied = [] ∧ s.stamped.length = 17 ∧
      s.chain.user.present_count = 17 ∧ s.chain.present.present_count = 0 ∧
      ¬ (s.chain.user.present_count ≤ s.chain.present.present_count + 16) ∧
      ∃ r, s.stamped[0]? = some r ∧ s.chain.request_ring (ring_slot 1) ≠ r) ∧
    (∃ s, threads_reachable example_device example_waitable_threads s ∧
      latency_gated s ∧ s.chain.frame_latency = 16 ∧
      s.copied = [] ∧ s.stamped.length = 17 ∧
      s.chain.user.present_count = 17 ∧ s.chain.present.present_count = 0 ∧
      ¬ (s.chain.user.present_count ≤ s.chain.present.present_count + 16) ∧
      ∃ r, s.stamped[0]? = some r ∧ s.chain.request_ring (ring_slot 1) ≠ r) := by
  refine ⟨threads_initial_example_waitable, ?_, ?_, ?_⟩
  · obtain ⟨s, hr, hw, hst, hco⟩ := wraparound_threads_reachable
    have hinv := counter_invariant_reachable _ _ _ threads_initial_example_waitable hr
    have hu : s.chain.user.present_count = 0 := by
      rw [hinv.user_count, hst]
      decide
    have hp : s.chain.present.present_count = 2 ^ 32 - 1 := by
      rw [hinv.present_count]
      unfold callbacks_stored
      rw [hw, hco]
      decide
    refine ⟨s, hr, by rw [hst, hco]; decide, hu, hp, ?_⟩
    rw [hu, hp]
    decide
  · obtain ⟨s, hr, _, _, hco, hlen, hu, hp, _, _, hover⟩ :=
      ready_presents_overrun example_waitable_threads example_waitable_threads
        threads_initial_example_waitable threads_reachable.start ready_example_waitable rfl
        (fun hg => absurd hg (by unfold latency_gated; decide))
    refine ⟨s, hr, hco, hlen, hu, hp, ?_, hover⟩
    rw [hu, hp]
    decide
  · obtain ⟨s, hr, hq, hst, hg, hl, hsem⟩ := example_cleared_reachable
    obtain ⟨s1, hr1, _, _, hco, hlen, hu, hp, hd, hl1, hover⟩ :=
      ready_presents_overrun example_waitable_threads s
        threads_initial_example_waitable hr hq hst (fun _ => by rw [hsem])
    refine ⟨s1, hr1, ?_, hl1.trans hl, hco, hlen, hu, hp, ?_, hover⟩
    · unfold latency_gated at hg ⊢
      rw [hd]
      exact hg
    · rw [hu, hp]
      decide

/-- C13, amended. In every state the threads of a swapchain reach from its creation,
by any calls of the client, the parts of the callbacks of the worker, passes of the
waiter and completion events in any order: the number of requests processed (the
callbacks that stored `present.present_count`) is at most the number submitted,
and `user.present_count` and `present.present_count` are these two numbers
modulo 2^32. As long as the latency-waitable flag has been unset since the
creation, the number submitted is at most the number processed plus 4 (the frame
latency 2, one for a `Present` that has enqueued and not returned, one for a
callback that has released its unit and not stored yet), so at most the number
processed plus 16; `present.present_count <= user.present_count <=
present.present_count + 16` holds as long as fewer than 2^32 requests have been
submitted; the requests that no callback has copied yet lie in different ring
slots, each still holding what `Present` stamped; and every callback has copied
the request of its number. -/
theorem latency_gate_keeps_ring_slots (device : d3d12_device) (s0 s : swapchain_threads)
    (h0 : threads_initial s0) (h : threads_reachable device s0 s) :
    callbacks_stored s ≤ s.copied.length ∧ s.copied.length ≤ s.stamped.length ∧
    s.chain.user.present_count = s.stamped.length % 2 ^ 32 ∧
    s.chain.present.present_count = callbacks_stored s % 2 ^ 32 ∧
    (s.chain.user.present_count + 2 ^ 32 - s.chain.present.present_count) % 2 ^ 32 =
      (s.stamped.length - callbacks_stored s) % 2 ^ 32 ∧
    (gated_reachable device s0 s →
      s.stamped.length ≤ callbacks_stored s + 4 ∧
      s.stamped.length ≤ callbacks_stored s + DXGI_MAX_SWAP_CHAIN_BUFFERS ∧
      (s.stamped.length < 2 ^ 32 →
        s.chain.present.present_count ≤ s.chain.user.present_count ∧
        s.chain.user.present_count ≤ s.chain.present.present_count + 16) ∧
      (∀ j k, s.copied.length ≤ j → j < k → k < s.stamped.length →
        ring_slot ((j + 1) % 2 ^ 32) ≠ ring_slot ((k + 1) % 2 ^ 32)) ∧
      (∀ k, s.copied.length ≤ k → k < s.stamped.length →
        s.stamped[k]? = some (s.chain.request_ring (ring_slot ((k + 1) % 2 ^ 32)))) ∧
      (∀ k, k < s.copied.length → s.copied[k]? = s.stamped[k]?)) := by
  have hinv := counter_invariant_reachable device s0 s h0 h
  have h1 := callbacks_stored_le s
  have h2 := hinv.copied_le
  have h3 := hinv.user_count
  have h4 := hinv.present_count
  refine ⟨h1, h2, h3, h4, ?_, ?_⟩
  · rw [h3, h4]
    omega
  · intro hg
    have hgate := gate_invariant_reachable device s0 s h0 hg
    have hunits := hgate.units
    have hlat : s.chain.frame_latency = 2 := hgate.frame_latency
    have hss := (callbacks_stored_signalled s).2
    have hsl := callbacks_signalled_le s
    have hin : (if s.in_present = true then 1 else 0) ≤ 1 := by split <;> decide
    have h5 : s.stamped.length ≤ callbacks_stored s + 4 := by omega
    refine ⟨h5, ?_, ?_, ?_, hgate.ring, ?_⟩
    · show s.stamped.length ≤ callbacks_stored s + 16
      omega
    · intro hlt
      rw [h3, h4]
      omega
    · intro j k hj hjk hk
      exact ring_slot_ne j k hjk (by omega)
    · intro k hk
      have hc : s.copied[k]? = (List.take s.copied.length s.stamped)[k]? := by
        rw [← hgate.copied_eq]
      rw [hc, List.getElem?_take, if_pos hk]

/-- Witness of C13: the example swapchain, outside `Present` after its third call, the
first callback having signalled and not stored: 3 requests are submitted and none
is processed. -/
theorem latency_gate_keeps_ring_slots_witness :
    ∃ s, gated_reachable example_device example_threads s ∧
      s.stamped.length = 3 ∧ s.copied.length = 1 ∧
      s.chain.user.present_count = 3 ∧ s.chain.present.present_count = 0 ∧
      s.stamped.length ≤ callbacks_stored s + 4 ∧
      (∀ k, k < s.copied.length → s.copied[k]? = s.stamped[k]?) :=
  example_threads_run.elim fun s3 h3 => h3.elim fun _ hs =>
    ⟨s3, hs.1, hs.2.2.2.2.2.2.1, hs.2.2.2.2.2.2.2.1, hs.2.2.2.2.2.2.2.2.1,
      hs.2.2.2.2.2.2.2.2.2.1,
      ((latency_gate_keeps_ring_slots example_device example_threads s3
        threads_initial_example (gated_reachable_threads _ _ _ hs.1)).2.2.2.2.2 hs.1).1,
      ((latency_gate_keeps_ring_slots example_device example_threads s3
        threads_initial_example (gated_reachable_threads _ _ _ hs.1)).2.2.2.2.2 hs.1).2.2.2.2.2⟩

/-! ## C14: the outstanding requests and the frame latency -/

end Vkd3d
